import Mathlib

/-!
# Verification of the ggwallet deterministic signing subsystem

A shallow embedding, in Lean 4, of the signing core of the `gonkalabs/ggwallet`
browser-extension wallet, together with proofs and refutations of the
specification's claims about it.

The embedding models:

* `src/lib/gonka-signer.ts` — from-scratch RFC 6979 deterministic ECDSA over
  secp256k1 (big-integer modular arithmetic, affine curve arithmetic,
  HMAC-DRBG nonce derivation, the inference-request signing protocol);
* the address-mismatch guards of `src/background/provider-handler.ts`.

Modelling conventions:

* JavaScript `bigint` values are `Int`; JS `/` and `%` on `bigint` truncate
  toward zero, which is `Int.tdiv` / `Int.tmod`.
* JS strings are modelled as their UTF-8 byte sequences (`List Nat`), so JS
  string concatenation is `List.append`.  All strings the signer builds are
  ASCII, and UTF-8 encoding of a concatenation is the concatenation of the
  encodings, so nothing is lost.
* `Uint8Array` values are `List Nat` of byte values.
* Unbounded `while` loops are embedded with an explicit fuel parameter; fuel
  exhaustion is `none`.  Where the source loop has a bound derivable from its
  arguments (the extended Euclidean loop), the fuel is instantiated with that
  bound, making the embedded function total on the loop's mathematical domain.
* SHA-256, HMAC (imported by the source from `@noble/hashes`), `btoa`, and
  `Date.now` are external to the repository; they are modelled from the spec
  (FIPS 180-4 / RFC 2104 / RFC 4648, and an explicit `nowMs` parameter).
-/

set_option maxRecDepth 16000

namespace GGWallet

/-! ## Bytes and 32-bit word operations -/

/-- Byte strings (`Uint8Array`, and UTF-8 contents of JS strings). -/
abbrev Bytes := List Nat

/-- Truncate to a 32-bit word. -/
def w32 (n : Nat) : Nat := n % 4294967296

/-- 32-bit right rotation. -/
def rotr32 (n x : Nat) : Nat := w32 ((x >>> n) ||| (x <<< (32 - n)))

/-! ## SHA-256

Modelled from the spec: the SHA-256 hash function (FIPS 180-4), which the
source imports as `sha256` from `@noble/hashes/sha256` and which is not part
of this repository. -/

/-- SHA-256 round constants (FIPS 180-4 §4.2.2, `0x428a2f98 …`), in decimal. -/
def shaK : List Nat :=
  [1116352408, 1899447441, 3049323471, 3921009573, 961987163, 1508970993,
   2453635748, 2870763221, 3624381080, 310598401, 607225278, 1426881987,
   1925078388, 2162078206, 2614888103, 3248222580, 3835390401, 4022224774,
   264347078, 604807628, 770255983, 1249150122, 1555081692, 1996064986,
   2554220882, 2821834349, 2952996808, 3210313671, 3336571891, 3584528711,
   113926993, 338241895, 666307205, 773529912, 1294757372, 1396182291,
   1695183700, 1986661051, 2177026350, 2456956037, 2730485921, 2820302411,
   3259730800, 3345764771, 3516065817, 3600352804, 4094571909, 275423344,
   430227734, 506948616, 659060556, 883997877, 958139571, 1322822218,
   1537002063, 1747873779, 1955562222, 2024104815, 2227730452, 2361852424,
   2428436474, 2756734187, 3204031479, 3329325298]

/-- SHA-256 initial state (FIPS 180-4 §5.3.3, `0x6a09e667 …`), in decimal. -/
def shaH0 : List Nat :=
  [1779033703, 3144134277, 1013904242, 2773480762, 1359893119, 2600822924, 528734635, 1541459225]

def smallSigma0 (x : Nat) : Nat := rotr32 7 x ^^^ rotr32 18 x ^^^ (x >>> 3)

def smallSigma1 (x : Nat) : Nat := rotr32 17 x ^^^ rotr32 19 x ^^^ (x >>> 10)

def bigSigma0 (x : Nat) : Nat := rotr32 2 x ^^^ rotr32 13 x ^^^ rotr32 22 x

def bigSigma1 (x : Nat) : Nat := rotr32 6 x ^^^ rotr32 11 x ^^^ rotr32 25 x

/-- Message-schedule extension, on the reversed word list (new words are
prepended, so `w[i-k]` is entry `k-1`). -/
def shaExtend : Nat → List Nat → List Nat
  | 0, rws => rws
  | n+1, rws =>
    let x := w32 (smallSigma1 (rws.getD 1 0) + rws.getD 6 0 +
                  smallSigma0 (rws.getD 14 0) + rws.getD 15 0)
    shaExtend n (x :: rws)

/-- One compression round per list entry; `kws` zips the round constants with
the message schedule. -/
def shaRounds : List (Nat × Nat) → Nat → Nat → Nat → Nat → Nat → Nat → Nat → Nat → List Nat
  | [], a, b, c, d, e, f, g, h => [a, b, c, d, e, f, g, h]
  | (k, w) :: kws, a, b, c, d, e, f, g, h =>
    let t1 := w32 (h + bigSigma1 e + ((e &&& f) ^^^ ((2^32 - 1 - e) &&& g)) + k + w)
    let t2 := w32 (bigSigma0 a + ((a &&& b) ^^^ (a &&& c) ^^^ (b &&& c)))
    shaRounds kws (w32 (t1 + t2)) a b c (w32 (d + t1)) e f g

/-- Big-endian word from the 4 bytes at the front of `bs`. -/
def word32At (bs : Bytes) (i : Nat) : Nat :=
  bs.getD (4*i) 0 * 16777216 + bs.getD (4*i+1) 0 * 65536 + bs.getD (4*i+2) 0 * 256 + bs.getD (4*i+3) 0

/-- Compress one 64-byte block into the running state. -/
def shaCompress (st : Bytes) (block : Bytes) : List Nat :=
  let w16 := ((List.range 16).map (word32At block)).reverse
  let ws := (shaExtend 48 w16).reverse
  let out := shaRounds (shaK.zip ws)
    (st.getD 0 0) (st.getD 1 0) (st.getD 2 0) (st.getD 3 0)
    (st.getD 4 0) (st.getD 5 0) (st.getD 6 0) (st.getD 7 0)
  (st.zip out).map (fun p => w32 (p.1 + p.2))

/-- Digest the padded message 64 bytes at a time. -/
def shaBlocks : Nat → List Nat → Bytes → List Nat
  | 0, st, _ => st
  | _+1, st, [] => st
  | fuel+1, st, bs => shaBlocks fuel (shaCompress st (bs.take 64)) (bs.drop 64)

/-- Big-endian 8-byte encoding (the message-length field of the padding). -/
def be64 (n : Nat) : Bytes := (List.range 8).map (fun i => n / 256 ^ (7 - i) % 256)

/-- SHA-256 padding: `0x80`, zeros to 56 mod 64, then the bit length. -/
def shaPad (msg : Bytes) : Bytes :=
  msg ++ [0x80] ++ List.replicate ((119 - msg.length % 64) % 64) 0 ++ be64 (msg.length * 8)

/-- Big-endian bytes of a 32-bit word. -/
def wordBytes (w : Nat) : Bytes := [w / 16777216 % 256, w / 65536 % 256, w / 256 % 256, w % 256]

/-- Modelled from the spec: SHA-256 (FIPS 180-4), the `sha256` import of the
source from `@noble/hashes/sha256`. -/
def sha256 (msg : Bytes) : Bytes :=
  let padded := shaPad msg
  (shaBlocks (padded.length / 64 + 1) shaH0 padded).flatMap wordBytes

/-! ## HMAC-SHA256

Modelled from the spec: HMAC (RFC 2104) over SHA-256, the `hmac` import of
the source from `@noble/hashes/hmac`. -/

/-- Modelled from the spec: `hmac(sha256, key, msg)` from `@noble/hashes/hmac`. -/
def hmacSha256 (key msg : Bytes) : Bytes :=
  let k0 := if 64 < key.length then sha256 key else key
  let kp := k0 ++ List.replicate (64 - k0.length) 0
  sha256 ((kp.map (fun b => b ^^^ 0x5c)) ++ sha256 ((kp.map (fun b => b ^^^ 0x36)) ++ msg))

example : sha256 [] =
  [0xe3, 0xb0, 0xc4, 0x42, 0x98, 0xfc, 0x1c, 0x14, 0x9a, 0xfb, 0xf4, 0xc8, 0x99, 0x6f, 0xb9, 0x24,
   0x27, 0xae, 0x41, 0xe4, 0x64, 0x9b, 0x93, 0x4c, 0xa4, 0x95, 0x99, 0x1b, 0x78, 0x52, 0xb8, 0x55] := by
  decide

example : sha256 [0x61, 0x62, 0x63] =
  [0xba, 0x78, 0x16, 0xbf, 0x8f, 0x01, 0xcf, 0xea, 0x41, 0x41, 0x40, 0xde, 0x5d, 0xae, 0x22, 0x23,
   0xb0, 0x03, 0x61, 0xa3, 0x96, 0x17, 0x7a, 0x9c, 0xb4, 0x10, 0xff, 0x61, 0xf2, 0x00, 0x15, 0xad] := by
  decide

example : hmacSha256 (List.replicate 20 0x0b)
    [0x48, 0x69, 0x20, 0x54, 0x68, 0x65, 0x72, 0x65] =
  [0xb0, 0x34, 0x4c, 0x61, 0xd8, 0xdb, 0x38, 0x53, 0x5c, 0xa8, 0xaf, 0xce, 0xaf, 0x0b, 0xf1, 0x2b,
   0x88, 0x1d, 0xc2, 0x00, 0xc9, 0x83, 0x3d, 0xa7, 0x26, 0xe9, 0x37, 0x6c, 0x2e, 0x32, 0xcf, 0xf7] := by
  decide

/-! ## `gonka-signer.ts`: curve constants

Embedding of `src/lib/gonka-signer.ts`. -/

def CURVE_ORDER : Int := 0xFFFFFFFFFFFFFFFFFFFFFFFFFFFFFFFEBAAEDCE6AF48A03BBFD25E8CD0364141

/-- `CURVE_ORDER >> 1n`; an arithmetic right shift of a nonnegative bigint is
truncating division by 2. -/
def HALF_ORDER : Int := CURVE_ORDER.tdiv 2

def P : Int := 0xFFFFFFFFFFFFFFFFFFFFFFFFFFFFFFFFFFFFFFFFFFFFFFFFFFFFFFFEFFFFFC2F

def Gx : Int := 0x79BE667EF9DCBBAC55A06295CE870B07029BFCDB2DCE28D959F2815B16F81798

def Gy : Int := 0x483ADA7726A3C4655DA4FBFC0E1108A8FD17B448A68554199C47D08FFB10D4B8

/-- `interface Point { x: bigint; y: bigint }` -/
structure Point where
  x : Int
  y : Int
deriving DecidableEq

def POINT_AT_INFINITY : Point := { x := 0, y := 0 }

def G : Point := { x := Gx, y := Gy }

/-! ## `gonka-signer.ts`: modular arithmetic -/

/-- `mod(a, m)`: JS `%` on bigints is the truncated remainder (`Int.tmod`),
then a negative result is shifted into `[0, m)`. -/
def modC (a m : Int) : Int :=
  let r := a.tmod m
  if r < 0 then r + m else r

/-- The `while (r !== 0n)` loop of `modInverse`, with fuel.  JS bigint `/`
truncates toward zero, which is `Int.tdiv`.  State: `(old_r, r, old_s, s)`;
the result is the final `(old_r, old_s)`. -/
def euclidLoop : Nat → Int → Int → Int → Int → Int × Int
  | 0, oldR, _, oldS, _ => (oldR, oldS)
  | fuel+1, oldR, r, oldS, s =>
    if r = 0 then (oldR, oldS)
    else
      let q := oldR.tdiv r
      euclidLoop fuel r (oldR - q * r) s (oldS - q * s)

/-- `modInverse(a, m)`.  The source's loop terminates because `|r|` strictly
decreases; `m.natAbs + 2` iterations always suffice, so this fuel makes the
embedding total with the source's semantics. -/
def modInverse (a m : Int) : Int :=
  modC (euclidLoop (m.natAbs + 2) a m 1 0).2 m

/-! ## `gonka-signer.ts`: point arithmetic -/

/-- `pointAdd(p1, p2)`: the source's affine addition, case for case. -/
def pointAdd (p1 p2 : Point) : Point :=
  if p1.x = 0 ∧ p1.y = 0 then p2
  else if p2.x = 0 ∧ p2.y = 0 then p1
  else if p1.x = p2.x ∧ p1.y ≠ p2.y then POINT_AT_INFINITY
  else
    let lam : Int :=
      if p1.x = p2.x ∧ p1.y = p2.y then
        modC (3 * p1.x * p1.x * modInverse (2 * p1.y) P) P
      else
        modC ((p2.y - p1.y) * modInverse (p2.x - p1.x) P) P
    let x3 := modC (lam * lam - p1.x - p2.x) P
    let y3 := modC (lam * (p1.x - x3) - p1.y) P
    { x := x3, y := y3 }

/-- The `while (n > 0n)` loop of `scalarMult`, with fuel.  `n & 1n` is truthy
iff `n` is odd; `n >>= 1n` on a positive bigint is division by 2. -/
def scalarMultAux : Nat → Int → Point → Point → Point
  | 0, _, result, _ => result
  | fuel+1, n, result, addend =>
    if 0 < n then
      let result' := if n.tmod 2 ≠ 0 then pointAdd result addend else result
      scalarMultAux fuel (n.tdiv 2) result' (pointAdd addend addend)
    else result

/-- `scalarMult(k, point)`.  The loop halves `n`, so `k.natAbs + 1` iterations
always suffice. -/
def scalarMult (k : Int) (point : Point) : Point :=
  scalarMultAux (k.natAbs + 1) k POINT_AT_INFINITY point

/-! ## `gonka-signer.ts`: byte/bigint/string conversion utilities -/

/-- Value of an ASCII hex digit, `none` for a non-digit. -/
def hexDigit? (c : Nat) : Option Nat :=
  if 48 ≤ c ∧ c ≤ 57 then some (c - 48)
  else if 97 ≤ c ∧ c ≤ 102 then some (c - 87)
  else if 65 ≤ c ∧ c ≤ 70 then some (c - 55)
  else none

/-- JS `StrWhiteSpace` characters that `parseInt` skips (ASCII part + NBSP). -/
def isJsSpace (c : Nat) : Bool := c = 32 ∨ c = 9 ∨ c = 10 ∨ c = 11 ∨ c = 12 ∨ c = 13 ∨ c = 160

/-- Modelled from the spec: the JS builtin `parseInt(s, 16)` — skip
whitespace, optional sign, optional `0x`/`0X`, then the longest prefix of hex
digits; `none` is `NaN`. -/
def parseIntHex (s : Bytes) : Option Int :=
  let s1 := s.dropWhile (fun c => isJsSpace c)
  let sign : Int := if s1.headD 0 = 45 then -1 else 1
  let s2 := if s1.headD 0 = 45 ∨ s1.headD 0 = 43 then s1.tail else s1
  let s3 := if s2.take 2 = [48, 120] ∨ s2.take 2 = [48, 88] then s2.drop 2 else s2
  let digits := s3.takeWhile (fun c => (hexDigit? c).isSome)
  if digits.isEmpty then none
  else some (sign * (digits.foldl (fun acc c => acc * 16 + (hexDigit? c).getD 0) 0 : Nat))

/-- Modelled from the spec: storing a JS number into a `Uint8Array` element
(`ToUint8`): `NaN` becomes 0, otherwise the value modulo 2^8. -/
def toUint8 : Option Int → Nat
  | none => 0
  | some i => (i.emod 256).toNat

/-- `hexToBytes(hex)`: a `Uint8Array` of length `⌊hex.length / 2⌋` whose entry
`i` is `parseInt(hex.substr(i*2, 2), 16)` stored as a byte. -/
def hexToBytes (hex : Bytes) : Bytes :=
  (List.range (hex.length / 2)).map (fun i => toUint8 (parseIntHex ((hex.drop (2*i)).take 2)))

/-- ASCII code of a lowercase hex digit (`Number.prototype.toString(16)`). -/
def hexChar (d : Nat) : Nat := if d < 10 then 48 + d else 87 + d

def natToHexAux : Nat → Nat → Bytes → Bytes
  | 0, _, acc => acc
  | f+1, n, acc => if n = 0 then acc else natToHexAux f (n / 16) (hexChar (n % 16) :: acc)

/-- `n.toString(16)` for a nonnegative value: minimal lowercase hex, `"0"` for 0. -/
def natToHex (n : Nat) : Bytes := if n = 0 then [48] else natToHexAux (n+1) n []

/-- `n.toString(16)` for a bigint, with a leading `-` when negative. -/
def intToHex (n : Int) : Bytes := if n < 0 then 45 :: natToHex n.natAbs else natToHex n.toNat

/-- `padStart(2, "0")`. -/
def padStart2 (s : Bytes) : Bytes := if s.length < 2 then List.replicate (2 - s.length) 48 ++ s else s

/-- `bytesToHex(bytes)`: each byte as two lowercase hex chars, joined. -/
def bytesToHex (bs : Bytes) : Bytes := bs.flatMap (fun b => padStart2 (natToHex b))

/-- `bytesToBigInt(bytes)`: big-endian accumulation.  `(acc << 8n) | b` equals
`acc * 256 + b` because `Uint8Array` entries are below 256. -/
def bytesToBigInt (bs : Bytes) : Int := bs.foldl (fun (acc : Int) (b : Nat) => acc * 256 + (b : Int)) 0

/-- `bigIntToBytes(n)`: `[0]` for 0, else the hex string of `n` padded to even
length and decoded with `hexToBytes`. -/
def bigIntToBytes (n : Int) : Bytes :=
  if n = 0 then [0]
  else hexToBytes (if (intToHex n).length % 2 = 1 then 48 :: intToHex n else intToHex n)

/-- `bigIntToBytes32(n)`: last 32 bytes, or left-padded with zeros to 32. -/
def bigIntToBytes32 (n : Int) : Bytes :=
  if 32 ≤ (bigIntToBytes n).length then (bigIntToBytes n).drop ((bigIntToBytes n).length - 32)
  else List.replicate (32 - (bigIntToBytes n).length) 0 ++ bigIntToBytes n

def natToDecAux : Nat → Nat → Bytes → Bytes
  | 0, _, acc => acc
  | f+1, n, acc => if n = 0 then acc else natToDecAux f (n / 10) ((48 + n % 10) :: acc)

/-- `n.toString()` for a nonnegative value: decimal digits, `"0"` for 0. -/
def natToDec (n : Nat) : Bytes := if n = 0 then [48] else natToDecAux (n+1) n []

/-- `n.toString()` for a bigint, with a leading `-` when negative. -/
def intToDec (n : Int) : Bytes := if n < 0 then 45 :: natToDec n.natAbs else natToDec n.toNat

/-- The base64 alphabet. -/
def base64Char (n : Nat) : Nat :=
  if n < 26 then 65 + n
  else if n < 52 then 97 + (n - 26)
  else if n < 62 then 48 + (n - 52)
  else if n = 62 then 43
  else 47

/-- Modelled from the spec: the browser `btoa` builtin (RFC 4648 base64 with
`=` padding), which `uint8ToBase64` applies to its bytes-as-binary-string. -/
def uint8ToBase64 : Bytes → Bytes
  | [] => []
  | [a] => [base64Char (a / 4), base64Char (a % 4 * 16), 61, 61]
  | [a, b] => [base64Char (a / 4), base64Char (a % 4 * 16 + b / 16), base64Char (b % 16 * 4), 61]
  | a :: b :: c :: rest =>
    base64Char (a / 4) :: base64Char (a % 4 * 16 + b / 16) ::
    base64Char (b % 16 * 4 + c / 64) :: base64Char (c % 64) :: uint8ToBase64 rest

/-! ## `gonka-signer.ts`: RFC 6979 helper functions -/

/-- `int2octets(v, qlen)`: fixed `⌈qlen/8⌉`-byte big-endian encoding. -/
def int2octets (v : Int) (qlen : Nat) : Bytes :=
  let rlen := (qlen + 7) / 8
  let out := bigIntToBytes v
  if rlen ≤ out.length then out.drop (out.length - rlen)
  else List.replicate (rlen - out.length) 0 ++ out

/-- `bits2int(b, qlen)`: big-endian integer of `b`, right-shifted down to
`qlen` bits when longer.  The value is nonnegative, so the arithmetic shift
is truncating division by a power of two. -/
def bits2int (b : Bytes) (qlen : Nat) : Int :=
  let v := bytesToBigInt b
  let blen := b.length * 8
  if qlen < blen then v.tdiv (2 ^ (blen - qlen)) else v

/-- `bits2octets(b, q, qlen)`. -/
def bits2octets (b : Bytes) (q : Int) (qlen : Nat) : Bytes :=
  let z1 := bits2int b qlen
  let z2 := z1 - q
  int2octets (if z2 < 0 then z1 else z2) qlen

/-! ## `gonka-signer.ts`: the RFC 6979 signing engine

The source's `rfc6979Sign` is one unbounded `while (true)` loop; it is
embedded as a step function (`rfc6979Step`, the loop body) iterated with fuel
(`rfc6979Loop`).  The step also returns the accepted nonce `secret`, which the
source holds in a local; `rfc6979Sign` projects it away. -/

/-- The inner `while (t.length * 8 < qlen)` loop: append `V = HMAC(K, V)` to
`T`.  Returns the final `(T, V)`.  One iteration (32 fresh bytes against
`qlen = 256`) always suffices, so fuel 9 is never exhausted. -/
def genT : Nat → Bytes → Bytes → Bytes → Bytes × Bytes
  | 0, _, v, t => (t, v)
  | fuel+1, kk, v, t =>
    if t.length * 8 < 256 then
      let v' := hmacSha256 kk v
      genT fuel kk v' (t ++ v')
    else (t, v)

/-- Steps b–g of `rfc6979Sign`: derive the initial HMAC-DRBG state `(K, V)`
from `D` and the message hash. -/
def rfc6979Init (D : Int) (hash : Bytes) : Bytes × Bytes :=
  let bx := int2octets D 256
  let bh := bits2octets hash CURVE_ORDER 256
  let v0 : Bytes := List.replicate 32 1
  let k0 : Bytes := List.replicate 32 0
  let k1 := hmacSha256 k0 (v0 ++ [0] ++ bx ++ bh)
  let v1 := hmacSha256 k1 v0
  let k2 := hmacSha256 k1 (v1 ++ [1] ++ bx ++ bh)
  let v2 := hmacSha256 k2 v1
  (k2, v2)

/-- The body of the `while (true)` loop of `rfc6979Sign`: either a signature
`(secret, r, s)` is returned (`Sum.inl`), or the loop continues with a new
`(K, V)` state (`Sum.inr`).  The two `continue` statements (for `r = 0` and
`s = 0`) re-enter the loop with `K` unchanged and `V` as left by the `T`
generation; only the out-of-range branch performs the RFC 6979 `K`/`V`
update. -/
def rfc6979Step (D : Int) (hash : Bytes) (kk v : Bytes) :
    (Int × Int × Int) ⊕ (Bytes × Bytes) :=
  let tv := genT 9 kk v []
  let t := tv.1
  let v' := tv.2
  let secret := bits2int t 256
  if 0 < secret ∧ secret < CURVE_ORDER then
    let point := scalarMult secret G
    let r := modC point.x CURVE_ORDER
    if r = 0 then Sum.inr (kk, v')
    else
      let kInv := modInverse secret CURVE_ORDER
      let e := bytesToBigInt hash
      let s := modC (kInv * (e + r * D)) CURVE_ORDER
      if s = 0 then Sum.inr (kk, v')
      else Sum.inl (secret, r, s)
  else
    let kk' := hmacSha256 kk (v' ++ [0])
    let v'' := hmacSha256 kk' v'
    Sum.inr (kk', v'')

/-- `rfc6979Sign`'s outer loop, iterated with fuel. -/
def rfc6979Loop (D : Int) (hash : Bytes) : Nat → Bytes → Bytes → Option (Int × Int × Int)
  | 0, _, _ => none
  | fuel+1, kk, v =>
    match rfc6979Step D hash kk v with
    | Sum.inl res => some res
    | Sum.inr st => rfc6979Loop D hash fuel st.1 st.2

/-- `rfc6979Sign(D, hash)` with the accepted nonce kept: `some (k, r, s)`. -/
def rfc6979SignTraced (fuel : Nat) (D : Int) (hash : Bytes) : Option (Int × Int × Int) :=
  let st := rfc6979Init D hash
  rfc6979Loop D hash fuel st.1 st.2

/-- `rfc6979Sign(D, hash)`: the source's return value `{ r, s }`. -/
def rfc6979Sign (fuel : Nat) (D : Int) (hash : Bytes) : Option (Int × Int) :=
  (rfc6979SignTraced fuel D hash).map (fun krs => (krs.2.1, krs.2.2))

/-! ## `gonka-signer.ts`: the exported `sign` function

`Date.now()` is external; it enters as the `nowMs` parameter.  A thrown
`Error` is `Except.error` carrying the message bytes; `.ok none` is fuel
exhaustion of the nonce loop (which the unbounded source loop never reports). -/

structure SignResult where
  signature : Bytes
  timestampNs : Int
deriving DecidableEq

/-- `privateKeyHex.replace(/^0x/, "")`. -/
def stripHexPrefix (s : Bytes) : Bytes := if s.take 2 = [48, 120] then s.drop 2 else s

/-- The low-S normalisation step of `sign`: `if (s > HALF_ORDER) s = CURVE_ORDER - s`. -/
def lowSNormalize (s : Int) : Int := if HALF_ORDER < s then CURVE_ORDER - s else s

/-- `sign(privateKeyHex, payload, transferAddress)`. -/
def sign (fuel : Nat) (nowMs : Int) (privateKeyHex payload transferAddress : Bytes) :
    Except Bytes (Option SignResult) :=
  let privKey := hexToBytes (stripHexPrefix privateKeyHex)
  if privKey.length ≠ 32 then
    .error ([80, 114, 105, 118, 97, 116, 101, 32, 107, 101, 121, 32, 109, 117, 115, 116, 32, 98,
             101, 32, 51, 50, 32, 98, 121, 116, 101, 115, 44, 32, 103, 111, 116, 32] ++
            natToDec privKey.length)
  else
    let D := bytesToBigInt privKey
    let timestampNs := nowMs * 1000000
    let payloadHash := sha256 payload
    let payloadHex := bytesToHex payloadHash
    let sigInput := payloadHex ++ intToDec timestampNs ++ transferAddress
    let msgHash := sha256 sigInput
    match rfc6979Sign fuel D msgHash with
    | none => .ok none
    | some rs =>
      let s := lowSNormalize rs.2
      let out := bigIntToBytes32 rs.1 ++ bigIntToBytes32 s
      .ok (some { signature := uint8ToBase64 out, timestampNs := timestampNs })

/-! ## Arithmetic lemmas: `modC` and the extended Euclidean loop -/

/-- Truncated remainder negates with its dividend. -/
theorem tmod_neg_left (a m : Int) : (-a).tmod m = -(a.tmod m) := by
  rw [Int.tmod_def, Int.tmod_def, Int.neg_tdiv]
  ring

/-- The truncated remainder by a positive modulus is above `-m`. -/
theorem neg_lt_tmod (a : Int) {m : Int} (hm : 0 < m) : -m < a.tmod m := by
  rcases le_or_lt 0 a with ha | ha
  · have := Int.tmod_nonneg m ha
    omega
  · have h1 : (-a).tmod m < m := Int.tmod_lt_of_pos (-a) hm
    have h2 : (-a).tmod m = -(a.tmod m) := tmod_neg_left a m
    omega

/-- The source's `mod` is the mathematical (Euclidean) remainder for a
positive modulus. -/
theorem modC_eq_emod (a : Int) {m : Int} (hm : 0 < m) : modC a m = a % m := by
  have key : a % m = a.tmod m % m := by
    conv_lhs => rw [← Int.tmod_add_tdiv a m]
    rw [Int.add_mul_emod_self_left]
  have hub : a.tmod m < m := Int.tmod_lt_of_pos a hm
  have hlb : -m < a.tmod m := neg_lt_tmod a hm
  unfold modC
  by_cases hneg : a.tmod m < 0
  · simp only [hneg, if_true]
    have h1 : (a.tmod m + m) % m = a.tmod m % m := by
      rw [← Int.add_mul_emod_self_left (a := a.tmod m) (b := m) (c := 1), Int.mul_one]
    have h2 : (a.tmod m + m) % m = a.tmod m + m :=
      Int.emod_eq_of_lt (by omega) (by omega)
    omega
  · simp only [hneg, if_false]
    rw [key, Int.emod_eq_of_lt (by omega) hub]

theorem modC_nonneg (a : Int) {m : Int} (hm : 0 < m) : 0 ≤ modC a m := by
  rw [modC_eq_emod a hm]; exact Int.emod_nonneg a (by omega)

theorem modC_lt (a : Int) {m : Int} (hm : 0 < m) : modC a m < m := by
  rw [modC_eq_emod a hm]; exact Int.emod_lt_of_pos a hm

theorem modC_modEq (a : Int) {m : Int} (hm : 0 < m) : modC a m ≡ a [ZMOD m] := by
  rw [modC_eq_emod a hm]
  exact Int.emod_emod_of_dvd a dvd_rfl

/-- One Euclidean division step preserves the gcd. -/
theorem gcd_emod_step {oldR r : Int} (h0 : 0 ≤ oldR) (h1 : 0 < r) :
    Int.gcd r (oldR % r) = Int.gcd oldR r := by
  obtain ⟨a, rfl⟩ := Int.eq_ofNat_of_zero_le h0
  obtain ⟨b, rfl⟩ := Int.eq_ofNat_of_zero_le h1.le
  have : ((a : Int) % (b : Int)) = ((a % b : Nat) : Int) := by norm_cast
  rw [this]
  unfold Int.gcd
  simp only [Int.natAbs_ofNat]
  rw [Nat.gcd_comm b (a % b), ← Nat.gcd_rec b a, Nat.gcd_comm b a]

/-- Invariant of the source's extended Euclidean loop: starting from a
nonnegative remainder pair with enough fuel, the loop ends with
`old_r = gcd` and preserves the congruence `a * old_s ≡ old_r (mod m)`. -/
theorem euclidLoop_spec (a m : Int) :
    ∀ fuel : Nat, ∀ oldR r oldS s : Int,
      0 ≤ oldR → 0 ≤ r → r < (fuel : Int) →
      a * oldS ≡ oldR [ZMOD m] → a * s ≡ r [ZMOD m] →
      (euclidLoop fuel oldR r oldS s).1 = (Int.gcd oldR r : Int) ∧
        a * (euclidLoop fuel oldR r oldS s).2 ≡ (euclidLoop fuel oldR r oldS s).1 [ZMOD m] := by
  intro fuel
  induction fuel with
  | zero => intro oldR r oldS s _ h2 h3 _ _; norm_num at h3; omega
  | succ f ih =>
    intro oldR r oldS s h1 h2 h3 hc1 hc2
    by_cases hr : r = 0
    · subst hr
      simp only [euclidLoop, if_pos rfl]
      refine ⟨?_, hc1⟩
      unfold Int.gcd
      simp [Int.natAbs_of_nonneg h1]
    · have hrpos : 0 < r := lt_of_le_of_ne h2 (Ne.symm hr)
      have hstep : oldR - oldR.tdiv r * r = oldR % r := by
        rw [← Int.tmod_eq_emod h1 h2, Int.tmod_def, Int.mul_comm]
      simp only [euclidLoop, if_neg hr]
      have h1' : (0 : Int) ≤ r := h2
      have h2' : (0 : Int) ≤ oldR - oldR.tdiv r * r := by
        rw [hstep]; exact Int.emod_nonneg oldR hr
      have hlt : oldR - oldR.tdiv r * r < r := by
        rw [hstep]; exact Int.emod_lt_of_pos oldR hrpos
      have h3' : oldR - oldR.tdiv r * r < (f : Int) := by
        push_cast at h3 ⊢
        omega
      have hc2' : a * (oldS - oldR.tdiv r * s) ≡ oldR - oldR.tdiv r * r [ZMOD m] := by
        have := hc1.sub (hc2.mul_left (oldR.tdiv r))
        calc a * (oldS - oldR.tdiv r * s)
            = a * oldS - oldR.tdiv r * (a * s) := by ring
          _ ≡ oldR - oldR.tdiv r * r [ZMOD m] := this
      obtain ⟨hg, hcong⟩ := ih r (oldR - oldR.tdiv r * r) s (oldS - oldR.tdiv r * s)
        h1' h2' h3' hc2 hc2'
      refine ⟨?_, hcong⟩
      rw [hg]
      congr 1
      rw [hstep]
      exact gcd_emod_step h1 hrpos

/-- Full correctness of `modInverse` on nonnegative `a`: existence, range and
uniqueness of the modular inverse. -/
theorem modInverse_spec (a m : Int) (ha : 0 ≤ a) (hm : 0 < m)
    (hgcd : Int.gcd a m = 1) :
    0 ≤ modInverse a m ∧ modInverse a m < m ∧
      a * modInverse a m ≡ 1 [ZMOD m] ∧
      ∀ y : Int, 0 ≤ y → y < m → a * y ≡ 1 [ZMOD m] → y = modInverse a m := by
  have hmle : m < ((m.natAbs + 2 : Nat) : Int) := by
    omega
  obtain ⟨hg, hc⟩ := euclidLoop_spec a m (m.natAbs + 2) a m 1 0 ha hm.le hmle
    (by simp [Int.ModEq])
    (by simp [Int.ModEq])
  rw [hgcd] at hg
  set E := euclidLoop (m.natAbs + 2) a m 1 0 with hE
  have hinv : a * modInverse a m ≡ 1 [ZMOD m] := by
    have h1 : modInverse a m ≡ E.2 [ZMOD m] := modC_modEq E.2 hm
    calc a * modInverse a m ≡ a * E.2 [ZMOD m] := h1.mul_left a
      _ ≡ E.1 [ZMOD m] := hc
      _ = 1 := by rw [hg]; norm_num
  have hb1 : 0 ≤ modInverse a m := modC_nonneg E.2 hm
  have hb2 : modInverse a m < m := modC_lt E.2 hm
  refine ⟨hb1, hb2, hinv, ?_⟩
  intro y hy0 hym hy
  have hcan : y ≡ modInverse a m [ZMOD m / Int.gcd m a] :=
    Int.ModEq.cancel_left_div_gcd hm (hy.trans hinv.symm)
  have hga : Int.gcd m a = 1 := by
    unfold Int.gcd at hgcd ⊢
    rwa [Nat.gcd_comm]
  rw [hga] at hcan
  norm_num at hcan
  have := hcan.eq
  rwa [Int.emod_eq_of_lt hy0 hym, Int.emod_eq_of_lt hb1 hb2] at this

/-! ## Byte-string and hex-string lemmas -/

theorem hexToBytes_nil : hexToBytes [] = [] := rfl

/-- `hexToBytes` consumes its input two characters at a time. -/
theorem hexToBytes_cons (a b : Nat) (t : Bytes) :
    hexToBytes (a :: b :: t) = toUint8 (parseIntHex [a, b]) :: hexToBytes t := by
  unfold hexToBytes
  have hlen : (a :: b :: t).length / 2 = t.length / 2 + 1 := by
    simp only [List.length_cons]
    omega
  rw [hlen, List.range_succ_eq_map, List.map_cons, List.map_map]
  congr 1

/-- Value of a two-lowercase-hex-digit pair under the source's parser. -/
theorem parse_hexChar_pair : ∀ a < 16, ∀ b < 16,
    toUint8 (parseIntHex [hexChar a, hexChar b]) = 16 * a + b := by decide

/-- The `Nat` valuation of a big-endian byte string. -/
def natValue (bs : Bytes) : Nat := bs.foldl (fun acc b => acc * 256 + b) 0

theorem natValue_acc : ∀ (bs : Bytes) (a : Nat),
    bs.foldl (fun acc b => acc * 256 + b) a = a * 256 ^ bs.length + natValue bs := by
  intro bs
  induction bs with
  | nil => intro a; simp [natValue]
  | cons b t ih =>
    intro a
    unfold natValue
    rw [List.foldl_cons, List.foldl_cons, ih (a * 256 + b), ih (0 * 256 + b)]
    simp only [List.length_cons]
    ring

theorem natValue_cons (b : Nat) (t : Bytes) :
    natValue (b :: t) = b * 256 ^ t.length + natValue t := by
  unfold natValue
  rw [List.foldl_cons, natValue_acc t (0 * 256 + b)]
  unfold natValue
  ring

theorem bytesToBigInt_acc : ∀ (bs : Bytes) (a : Int),
    bs.foldl (fun (acc : Int) (b : Nat) => acc * 256 + (b : Int)) a
      = a * 256 ^ bs.length + (natValue bs : Int) := by
  intro bs
  induction bs with
  | nil => intro a; simp [natValue]
  | cons b t ih =>
    intro a
    rw [List.foldl_cons, ih (a * 256 + (b : Int)), natValue_cons]
    simp only [List.length_cons]
    push_cast
    ring

theorem bytesToBigInt_eq_natValue (bs : Bytes) : bytesToBigInt bs = (natValue bs : Int) := by
  unfold bytesToBigInt
  rw [bytesToBigInt_acc bs 0]
  simp

theorem natValue_lt : ∀ (bs : Bytes), (∀ b ∈ bs, b < 256) → natValue bs < 256 ^ bs.length := by
  intro bs
  induction bs with
  | nil => intro _; simp [natValue]
  | cons b t ih =>
    intro hb
    rw [natValue_cons]
    have h1 : b < 256 := hb b (by simp)
    have h2 : natValue t < 256 ^ t.length := ih (fun x hx => hb x (by simp [hx]))
    have : b * 256 ^ t.length + natValue t < (b + 1) * 256 ^ t.length := by
      rw [Nat.add_mul, Nat.one_mul]
      omega
    calc b * 256 ^ t.length + natValue t < (b + 1) * 256 ^ t.length := this
      _ ≤ 256 * 256 ^ t.length := Nat.mul_le_mul_right _ (by omega)
      _ = 256 ^ (t.length + 1) := by rw [Nat.pow_succ]; ring
      _ = 256 ^ (b :: t).length := by simp

theorem natValue_replicate_zero_append (k : Nat) (bs : Bytes) :
    natValue (List.replicate k 0 ++ bs) = natValue bs := by
  induction k with
  | zero => simp
  | succ n ih =>
    show natValue (0 :: (List.replicate n 0 ++ bs)) = _
    rw [natValue_cons, ih]
    simp

theorem natValue_append_singleton (xs : Bytes) (b : Nat) :
    natValue (xs ++ [b]) = natValue xs * 256 + b := by
  unfold natValue
  rw [List.foldl_append]
  rfl

/-- Appending one hex pair to an even-length hex string appends one byte. -/
theorem hexToBytes_append_pair : ∀ (ys : Bytes), ys.length % 2 = 0 → ∀ c1 c2 : Nat,
    hexToBytes (ys ++ [c1, c2]) = hexToBytes ys ++ [toUint8 (parseIntHex [c1, c2])]
  | [], _, c1, c2 => by
    simp only [List.nil_append]
    rw [hexToBytes_cons, hexToBytes_nil]
    rfl
  | [x], h, _, _ => by simp at h
  | a :: b :: t, h, c1, c2 => by
    have ht : t.length % 2 = 0 := by
      simp only [List.length_cons] at h
      omega
    simp only [List.cons_append, hexToBytes_cons]
    rw [hexToBytes_append_pair t ht c1 c2]

/-- `natToHexAux` produces the base-16 digits (most significant first). -/
theorem natToHexAux_eq : ∀ (f : Nat), ∀ (n : Nat) (acc : Bytes), n < f →
    natToHexAux f n acc = ((Nat.digits 16 n).map hexChar).reverse ++ acc := by
  intro f
  induction f with
  | zero => intro n acc h; omega
  | succ f ih =>
    intro n acc hn
    by_cases h0 : n = 0
    · subst h0
      simp [natToHexAux]
    · have hpos : 0 < n := Nat.pos_of_ne_zero h0
      have hdiv : n / 16 < f := by
        have := Nat.div_lt_self hpos (by norm_num : 1 < 16)
        omega
      show (if n = 0 then acc else natToHexAux f (n / 16) (hexChar (n % 16) :: acc)) = _
      rw [if_neg h0, ih (n / 16) (hexChar (n % 16) :: acc) hdiv,
        Nat.digits_def' (by norm_num : 1 < 16) hpos]
      simp [List.append_assoc]

theorem natToHex_eq (n : Nat) (hn : 0 < n) :
    natToHex n = ((Nat.digits 16 n).map hexChar).reverse := by
  unfold natToHex
  rw [if_neg (by omega), natToHexAux_eq (n + 1) n [] (by omega)]
  simp

/-- Byte decomposition of `bigIntToBytes`, small case. -/
theorem bigIntToBytes_small : ∀ n < 256, bigIntToBytes ((n : Nat) : Int) = [n] := by decide

/-- Byte decomposition of `bigIntToBytes`, recursive case. -/
theorem bigIntToBytes_step (n : Nat) (hn : 256 ≤ n) :
    bigIntToBytes ((n : Nat) : Int) = bigIntToBytes ((n / 256 : Nat) : Int) ++ [n % 256] := by
  have hq : 0 < n / 256 := Nat.div_pos hn (by norm_num)
  have h0 : ((n : Nat) : Int) ≠ 0 := by
    simp only [ne_eq, Nat.cast_eq_zero]
    omega
  have h0' : ((n / 256 : Nat) : Int) ≠ 0 := by
    simp only [ne_eq, Nat.cast_eq_zero]
    omega
  have hcast : ∀ m : Nat, intToHex ((m : Nat) : Int) = natToHex m := by
    intro m
    unfold intToHex
    rw [if_neg (by omega)]
    simp
  have hd16 : 0 < n / 16 := Nat.div_pos (by omega) (by norm_num)
  have hdd : n / 16 / 16 = n / 256 := by
    rw [Nat.div_div_eq_div_mul]
  have hdigits : natToHex n = natToHex (n / 256) ++ [hexChar (n / 16 % 16), hexChar (n % 16)] := by
    rw [natToHex_eq n (by omega), natToHex_eq (n / 256) hq,
      Nat.digits_def' (by norm_num : 1 < 16) (by omega : 0 < n),
      Nat.digits_def' (by norm_num : 1 < 16) hd16, hdd]
    simp [List.append_assoc]
  have hval : toUint8 (parseIntHex [hexChar (n / 16 % 16), hexChar (n % 16)]) = n % 256 := by
    rw [parse_hexChar_pair (n / 16 % 16) (Nat.mod_lt _ (by norm_num)) (n % 16)
      (Nat.mod_lt _ (by norm_num))]
    omega
  unfold bigIntToBytes
  rw [if_neg h0, if_neg h0', hcast n, hcast (n / 256), hdigits]
  set hx := natToHex (n / 256) with hhx
  by_cases hp : hx.length % 2 = 1
  · have hcond : (hx ++ [hexChar (n / 16 % 16), hexChar (n % 16)]).length % 2 = 1 := by
      simp only [List.length_append, List.length_cons, List.length_nil]
      omega
    rw [if_pos hcond, if_pos hp]
    have hsplit : (48 : Nat) :: (hx ++ [hexChar (n / 16 % 16), hexChar (n % 16)]) =
        (48 :: hx) ++ [hexChar (n / 16 % 16), hexChar (n % 16)] := by simp
    rw [hsplit, hexToBytes_append_pair (48 :: hx) (by simp only [List.length_cons]; omega), hval]
  · have hcond : ¬ (hx ++ [hexChar (n / 16 % 16), hexChar (n % 16)]).length % 2 = 1 := by
      simp only [List.length_append, List.length_cons, List.length_nil]
      omega
    rw [if_neg hcond, if_neg hp]
    rw [hexToBytes_append_pair hx (by omega), hval]

/-- `bigIntToBytes` on a nonnegative value: correct valuation, byte-bounded
entries. -/
theorem bigIntToBytes_props : ∀ n : Nat,
    natValue (bigIntToBytes ((n : Nat) : Int)) = n ∧
      ∀ b ∈ bigIntToBytes ((n : Nat) : Int), b < 256 := by
  intro n
  induction n using Nat.strong_induction_on with
  | _ n ih =>
    by_cases h : n < 256
    · rw [bigIntToBytes_small n h]
      refine ⟨by simp [natValue], ?_⟩
      intro b hb
      simp at hb
      omega
    · have hrec := ih (n / 256) (Nat.div_lt_self (by omega) (by norm_num))
      rw [bigIntToBytes_step n (by omega)]
      constructor
      · rw [natValue_append_singleton, hrec.1]
        omega
      · intro b hb
        rcases List.mem_append.mp hb with hb | hb
        · exact hrec.2 b hb
        · simp at hb
          omega

/-- Length bound for `bigIntToBytes` on a nonnegative value. -/
theorem bigIntToBytes_len : ∀ (n ℓ : Nat), n < 256 ^ ℓ →
    (bigIntToBytes ((n : Nat) : Int)).length ≤ max 1 ℓ := by
  intro n
  induction n using Nat.strong_induction_on with
  | _ n ih =>
    intro ℓ hℓ
    by_cases h : n < 256
    · rw [bigIntToBytes_small n h]
      simp
    · have hl2 : 2 ≤ ℓ := by
        by_contra hc
        push_neg at hc
        interval_cases ℓ <;> simp_all <;> omega
      have hq : n / 256 < 256 ^ (ℓ - 1) := by
        rw [Nat.div_lt_iff_lt_mul (by norm_num : 0 < 256)]
        calc n < 256 ^ ℓ := hℓ
          _ = 256 ^ (ℓ - 1) * 256 := by
            rw [← Nat.pow_succ]
            congr 1
            omega
      have := ih (n / 256) (Nat.div_lt_self (by omega) (by norm_num)) (ℓ - 1) hq
      rw [bigIntToBytes_step n (by omega)]
      simp only [List.length_append, List.length_cons, List.length_nil]
      omega

/-- `bigIntToBytes32` on a value below `256^32`: exact length, valuation and
entry bounds. -/
theorem bigIntToBytes32_props (n : Nat) (hn : n < 256 ^ 32) :
    (bigIntToBytes32 ((n : Nat) : Int)).length = 32 ∧
      natValue (bigIntToBytes32 ((n : Nat) : Int)) = n ∧
      ∀ b ∈ bigIntToBytes32 ((n : Nat) : Int), b < 256 := by
  have hlen := bigIntToBytes_len n 32 hn
  have hprops := bigIntToBytes_props n
  unfold bigIntToBytes32
  by_cases h : 32 ≤ (bigIntToBytes ((n : Nat) : Int)).length
  · have heq : (bigIntToBytes ((n : Nat) : Int)).length = 32 := by omega
    rw [if_pos h, heq]
    simp only [Nat.sub_self, List.drop_zero]
    exact ⟨heq, hprops.1, hprops.2⟩
  · rw [if_neg h]
    push_neg at h
    refine ⟨?_, ?_, ?_⟩
    · simp only [List.length_append, List.length_replicate]
      omega
    · rw [natValue_replicate_zero_append, hprops.1]
    · intro b hb
      rcases List.mem_append.mp hb with hb | hb
      · have := List.eq_of_mem_replicate hb
        omega
      · exact hprops.2 b hb

/-! ## Claim-side (specification) definitions

These are written from the *spec's* words, independently of the source, and
compared with the source-derived definitions above. -/

/-- The fixed 32-byte big-endian encoding of a (nonnegative) integer, as the
spec words it. -/
def specBe32 (n : Int) : Bytes := (List.range 32).map (fun i => n.toNat / 256 ^ (31 - i) % 256)

/-- Lowercase hex of a byte string, two digits per byte, as the spec words it. -/
def specHexOfBytes (bs : Bytes) : Bytes := bs.flatMap (fun b => [hexChar (b / 16), hexChar (b % 16)])

/-- A byte string of bounded entries is recovered digit-by-digit from its
big-endian valuation. -/
theorem be_digits_of_natValue : ∀ (bs : Bytes), (∀ b ∈ bs, b < 256) →
    (List.range bs.length).map (fun i => natValue bs / 256 ^ (bs.length - 1 - i) % 256) = bs := by
  intro bs
  induction bs with
  | nil => intro _; simp
  | cons b t ih =>
    intro hb
    have hblt : b < 256 := hb b (by simp)
    have htlt : natValue t < 256 ^ t.length := natValue_lt t (fun x hx => hb x (by simp [hx]))
    have hnv : natValue (b :: t) = b * 256 ^ t.length + natValue t := natValue_cons b t
    simp only [List.length_cons, List.range_succ_eq_map, List.map_cons, List.map_map]
    congr 1
    · simp only [Nat.add_sub_cancel, Nat.sub_zero, hnv]
      rw [Nat.add_comm, Nat.add_mul_div_right _ _ (by positivity : 0 < 256 ^ t.length),
        Nat.div_eq_of_lt htlt]
      simp [Nat.mod_eq_of_lt hblt]
    · conv_rhs => rw [← ih (fun x hx => hb x (by simp [hx]))]
      apply List.map_congr_left
      intro i hi
      have hi' : i < t.length := List.mem_range.mp hi
      simp only [Function.comp_apply]
      have hexp : t.length + 1 - 1 - (i + 1) = t.length - 1 - i := by omega
      have hd : t.length - 1 - i ≤ t.length := by omega
      have hpow : (256 : Nat) ^ t.length = 256 ^ (i + 1) * 256 ^ (t.length - 1 - i) := by
        rw [← Nat.pow_add]
        congr 1
        omega
      have hstep : natValue (b :: t) / 256 ^ (t.length - 1 - i) =
          b * 256 ^ (i + 1) + natValue t / 256 ^ (t.length - 1 - i) := by
        rw [hnv, hpow, Nat.add_comm, ← Nat.mul_assoc,
          Nat.add_mul_div_right _ _ (by positivity : 0 < 256 ^ (t.length - 1 - i))]
        ring
      show natValue (b :: t) / 256 ^ (t.length + 1 - 1 - (i + 1)) % 256 = _
      rw [hexp, hstep]
      have h256 : b * 256 ^ (i + 1) = b * 256 ^ i * 256 := by
        rw [Nat.mul_assoc, Nat.pow_succ]
      rw [Nat.add_comm, h256, Nat.add_mul_mod_self_right]

/-- The source's 32-byte serialisation agrees with the spec's big-endian
encoding on `[0, 256^32)`. -/
theorem bigIntToBytes32_eq_specBe32 (n : Int) (h0 : 0 ≤ n) (h1 : n < 256 ^ 32) :
    bigIntToBytes32 n = specBe32 n := by
  obtain ⟨m, rfl⟩ := Int.eq_ofNat_of_zero_le h0
  have hm : m < 256 ^ 32 := by exact_mod_cast h1
  obtain ⟨hlen, hval, hbnd⟩ := bigIntToBytes32_props m hm
  have hrec := be_digits_of_natValue (bigIntToBytes32 ((m : Nat) : Int)) hbnd
  rw [hlen, hval] at hrec
  unfold specBe32
  rw [← hrec]
  apply List.map_congr_left
  intro i _
  norm_num

/-- `bytesToHex` agrees with the spec's per-byte lowercase hex. -/
theorem padStart2_natToHex : ∀ b < 256, padStart2 (natToHex b) = [hexChar (b / 16), hexChar (b % 16)] := by
  decide

theorem bytesToHex_eq_specHex : ∀ (bs : Bytes), (∀ b ∈ bs, b < 256) →
    bytesToHex bs = specHexOfBytes bs := by
  intro bs
  induction bs with
  | nil => intro _; rfl
  | cons b t ih =>
    intro hb
    show padStart2 (natToHex b) ++ bytesToHex t = _
    rw [padStart2_natToHex b (hb b (by simp)), ih (fun x hx => hb x (by simp [hx]))]
    rfl

/-- Every byte of a SHA-256 digest is below 256. -/
theorem sha256_bytes_lt (msg : Bytes) : ∀ b ∈ sha256 msg, b < 256 := by
  intro b hb
  unfold sha256 at hb
  rw [List.mem_flatMap] at hb
  obtain ⟨w, _, hw⟩ := hb
  unfold wordBytes at hw
  simp only [List.mem_cons, List.not_mem_nil, or_false] at hw
  rcases hw with rfl | rfl | rfl | rfl <;> omega

/-! ## RFC 6979 nonce generation, claim side

The spec's §3.2 description, written from its words: `int2octets`/`bits2octets`
are the fixed 32-byte big-endian encodings (`specBe32`), the T loop appends
`V = HMAC-SHA256(K, V)` until 256 bits are available, and a candidate is
accepted if and only if `0 < k < N`, with the `K`/`V` continuation update
before each retry of an out-of-range candidate. -/

/-- Claim-side T generation. -/
def specGenT : Nat → Bytes → Bytes → Bytes → Bytes × Bytes
  | 0, _, v, t => (t, v)
  | fuel+1, kk, v, t =>
    if 256 ≤ t.length * 8 then (t, v)
    else specGenT fuel kk (hmacSha256 kk v) (t ++ hmacSha256 kk v)

/-- Claim-side initial HMAC-DRBG state: `V = 0x01^32`, `K = 0x00^32`, then the
two `0x00`/`0x01` update rounds. -/
def specNonceInit (D : Int) (h : Bytes) : Bytes × Bytes :=
  let bx := specBe32 D
  let bh := specBe32 (bytesToBigInt h % CURVE_ORDER)
  let k1 := hmacSha256 (List.replicate 32 0) (List.replicate 32 1 ++ [0] ++ bx ++ bh)
  let v1 := hmacSha256 k1 (List.replicate 32 1)
  let k2 := hmacSha256 k1 (v1 ++ [1] ++ bx ++ bh)
  (k2, hmacSha256 k2 v1)

/-- Claim-side candidate loop: accept iff `0 < k < N`. -/
def specNonceLoop : Nat → Bytes → Bytes → Option Int
  | 0, _, _ => none
  | fuel+1, kk, v =>
    let tv := specGenT 9 kk v []
    let k := bits2int tv.1 256
    if 0 < k ∧ k < CURVE_ORDER then some k
    else
      specNonceLoop fuel (hmacSha256 kk (tv.2 ++ [0]))
        (hmacSha256 (hmacSha256 kk (tv.2 ++ [0])) tv.2)

/-- The claim-side nonce: the value RFC 6979 §3.2 prescribes for `(D, h)`. -/
def rfc6979NonceSpec (fuel : Nat) (D : Int) (h : Bytes) : Option Int :=
  specNonceLoop fuel (specNonceInit D h).1 (specNonceInit D h).2

/-- The candidate the engine derives from a DRBG state. -/
def nonceCandidate (kk v : Bytes) : Int := bits2int (genT 9 kk v []).1 256

/-- The `r` the engine computes from a nonce. -/
def rOf (k : Int) : Int := modC (scalarMult k G).x CURVE_ORDER

/-- The `s` the engine computes from a nonce (with the engine's `r`). -/
def sOf (D : Int) (h : Bytes) (k : Int) : Int :=
  modC (modInverse k CURVE_ORDER * (bytesToBigInt h + rOf k * D)) CURVE_ORDER

theorem specGenT_eq : ∀ (fuel : Nat) (kk v t : Bytes), specGenT fuel kk v t = genT fuel kk v t := by
  intro fuel
  induction fuel with
  | zero => intro kk v t; rfl
  | succ f ih =>
    intro kk v t
    show (if 256 ≤ t.length * 8 then (t, v) else _) = (if t.length * 8 < 256 then _ else (t, v))
    by_cases hc : t.length * 8 < 256
    · rw [if_neg (by omega), if_pos hc]
      exact ih kk (hmacSha256 kk v) (t ++ hmacSha256 kk v)
    · rw [if_pos (by omega), if_neg hc]

/-! ## Inversion lemmas for the engine loop -/

theorem rfc6979Step_inl_inv {D : Int} {h kk v : Bytes} {k r s : Int}
    (hstep : rfc6979Step D h kk v = Sum.inl (k, r, s)) :
    (0 < k ∧ k < CURVE_ORDER) ∧ k = nonceCandidate kk v ∧
      r = rOf k ∧ r ≠ 0 ∧ s = sOf D h k ∧ s ≠ 0 := by
  simp only [rfc6979Step] at hstep
  by_cases h1 : 0 < bits2int (genT 9 kk v []).1 256 ∧ bits2int (genT 9 kk v []).1 256 < CURVE_ORDER
  · rw [if_pos h1] at hstep
    by_cases h2 : modC (scalarMult (bits2int (genT 9 kk v []).1 256) G).x CURVE_ORDER = 0
    · rw [if_pos h2] at hstep
      simp at hstep
    · rw [if_neg h2] at hstep
      by_cases h3 : modC (modInverse (bits2int (genT 9 kk v []).1 256) CURVE_ORDER *
          (bytesToBigInt h + modC (scalarMult (bits2int (genT 9 kk v []).1 256) G).x CURVE_ORDER * D))
          CURVE_ORDER = 0
      · rw [if_pos h3] at hstep
        simp at hstep
      · rw [if_neg h3] at hstep
        rw [Sum.inl.injEq, Prod.mk.injEq, Prod.mk.injEq] at hstep
        obtain ⟨hk, hr, hs⟩ := hstep
        subst hk
        refine ⟨h1, by simp only [nonceCandidate], ?_, ?_, ?_, ?_⟩
        · simp only [rOf]
          exact hr.symm
        · rw [← hr]
          exact h2
        · simp only [sOf, rOf]
          exact hs.symm
        · rw [← hs]
          exact h3
  · rw [if_neg h1] at hstep
    simp at hstep

theorem rfc6979Loop_some_inv (D : Int) (h : Bytes) :
    ∀ (fuel : Nat) (kk v : Bytes) (k r s : Int),
      rfc6979Loop D h fuel kk v = some (k, r, s) →
      (0 < k ∧ k < CURVE_ORDER) ∧ r = rOf k ∧ r ≠ 0 ∧ s = sOf D h k ∧ s ≠ 0 := by
  intro fuel
  induction fuel with
  | zero =>
    intro kk v k r s hl
    exact absurd hl (by simp [rfc6979Loop])
  | succ f ih =>
    intro kk v k r s hl
    simp only [rfc6979Loop] at hl
    set stp := rfc6979Step D h kk v with hstep
    clear_value stp
    cases stp with
    | inl res =>
      dsimp only at hl
      simp only [Option.some.injEq] at hl
      subst hl
      obtain ⟨hrange, _, hr, hr0, hs, hs0⟩ := rfc6979Step_inl_inv hstep.symm
      exact ⟨hrange, hr, hr0, hs, hs0⟩
    | inr st =>
      dsimp only at hl
      exact ih st.1 st.2 k r s hl

/-- Inversion for the engine entry point. -/
theorem rfc6979SignTraced_some_inv {fuel : Nat} {D : Int} {h : Bytes} {k r s : Int}
    (hl : rfc6979SignTraced fuel D h = some (k, r, s)) :
    (0 < k ∧ k < CURVE_ORDER) ∧ r = rOf k ∧ r ≠ 0 ∧ s = sOf D h k ∧ s ≠ 0 :=
  rfc6979Loop_some_inv D h fuel (rfc6979Init D h).1 (rfc6979Init D h).2 k r s hl

theorem curve_order_pos : (0 : Int) < CURVE_ORDER := by decide

theorem curve_order_lt_pow : CURVE_ORDER < 256 ^ 32 := by decide

theorem pow_lt_two_curve_order : (256 : Int) ^ 32 < 2 * CURVE_ORDER := by decide

set_option maxHeartbeats 2000000 in
/-- The spec loop accepts a nonce only when the engine loop, run from the same
DRBG state, signs with exactly that nonce (provided the nonce does not produce
a degenerate `r` or `s`). -/
theorem specNonceLoop_refines (D : Int) (h : Bytes) :
    ∀ (fuel : Nat) (kk v : Bytes) (k : Int),
      specNonceLoop fuel kk v = some k →
      rOf k ≠ 0 → sOf D h k ≠ 0 →
      rfc6979Loop D h fuel kk v = some (k, rOf k, sOf D h k) := by
  intro fuel
  induction fuel with
  | zero => intro kk v k hsp; simp [specNonceLoop] at hsp
  | succ f ih =>
    intro kk v k hsp hr hs
    simp only [specNonceLoop, specGenT_eq] at hsp
    simp only [rfc6979Loop]
    by_cases hin : 0 < bits2int (genT 9 kk v []).1 256 ∧
        bits2int (genT 9 kk v []).1 256 < CURVE_ORDER
    · rw [if_pos hin] at hsp
      simp only [Option.some.injEq] at hsp
      subst hsp
      have hstep : rfc6979Step D h kk v =
          Sum.inl (bits2int (genT 9 kk v []).1 256,
                   rOf (bits2int (genT 9 kk v []).1 256),
                   sOf D h (bits2int (genT 9 kk v []).1 256)) := by
        simp only [rOf, sOf, nonceCandidate] at hr hs ⊢
        simp only [rfc6979Step]
        rw [if_pos hin, if_neg hr, if_neg hs]
      rw [hstep]
    · rw [if_neg hin] at hsp
      have hstep : rfc6979Step D h kk v =
          Sum.inr (hmacSha256 kk ((genT 9 kk v []).2 ++ [0]),
                   hmacSha256 (hmacSha256 kk ((genT 9 kk v []).2 ++ [0])) ((genT 9 kk v []).2)) := by
        simp only [rfc6979Step]
        rw [if_neg hin]
      rw [hstep]
      dsimp only
      exact ih _ _ k hsp hr hs

/-- `int2octets` at `qlen = 256` is the 32-byte serialiser. -/
theorem int2octets_eq_bigIntToBytes32 (v : Int) : int2octets v 256 = bigIntToBytes32 v := rfl

theorem int2octets_spec (v : Int) (h0 : 0 ≤ v) (h1 : v < 256 ^ 32) :
    int2octets v 256 = specBe32 v := by
  rw [int2octets_eq_bigIntToBytes32]
  exact bigIntToBytes32_eq_specBe32 v h0 h1

theorem bits2int_32 (h : Bytes) (hlen : h.length = 32) : bits2int h 256 = bytesToBigInt h := by
  unfold bits2int
  rw [hlen]
  norm_num

theorem bits2octets_spec (h : Bytes) (hlen : h.length = 32) (hbytes : ∀ b ∈ h, b < 256) :
    bits2octets h CURVE_ORDER 256 = specBe32 (bytesToBigInt h % CURVE_ORDER) := by
  simp only [bits2octets]
  rw [bits2int_32 h hlen]
  have hval : bytesToBigInt h = (natValue h : Int) := bytesToBigInt_eq_natValue h
  have hlt : natValue h < 256 ^ 32 := by
    have := natValue_lt h hbytes
    rwa [hlen] at this
  have h0 : 0 ≤ bytesToBigInt h := by rw [hval]; positivity
  have hup : bytesToBigInt h < 256 ^ 32 := by rw [hval]; exact_mod_cast hlt
  have hN2 := pow_lt_two_curve_order
  have hNpos := curve_order_pos
  by_cases hc : bytesToBigInt h - CURVE_ORDER < 0
  · rw [if_pos hc]
    have hmod : bytesToBigInt h % CURVE_ORDER = bytesToBigInt h :=
      Int.emod_eq_of_lt h0 (by omega)
    rw [hmod]
    exact int2octets_spec _ h0 hup
  · rw [if_neg hc]
    push_neg at hc
    have heq : (bytesToBigInt h - CURVE_ORDER) % CURVE_ORDER = bytesToBigInt h % CURVE_ORDER := by
      have := Int.add_mul_emod_self_left (a := bytesToBigInt h) (b := CURVE_ORDER) (c := -1)
      simpa [mul_neg, ← sub_eq_add_neg] using this
    have hmod : bytesToBigInt h % CURVE_ORDER = bytesToBigInt h - CURVE_ORDER := by
      rw [← heq]
      exact Int.emod_eq_of_lt (by omega) (by omega)
    rw [hmod]
    exact int2octets_spec _ (by omega) (by omega)

/-- Under the claim's hypotheses the engine's DRBG initialisation agrees with
the claim-side one. -/
theorem rfc6979Init_eq_spec (D : Int) (h : Bytes) (hD0 : 0 < D) (hDN : D < CURVE_ORDER)
    (hlen : h.length = 32) (hbytes : ∀ b ∈ h, b < 256) :
    rfc6979Init D h = specNonceInit D h := by
  have hD : int2octets D 256 = specBe32 D := by
    have := curve_order_lt_pow
    exact int2octets_spec D (by omega) (by omega)
  simp only [rfc6979Init, specNonceInit, hD, bits2octets_spec h hlen hbytes]

/-- What the engine actually does when a candidate produces `r = 0` or
`s = 0`: it re-enters the loop with `K` unchanged and the advanced `V`,
without the RFC 6979 continuation update, and surfaces nothing. -/
theorem rfc6979Step_degenerate (D : Int) (h kk v : Bytes)
    (hin : 0 < nonceCandidate kk v ∧ nonceCandidate kk v < CURVE_ORDER)
    (hrs : rOf (nonceCandidate kk v) = 0 ∨ sOf D h (nonceCandidate kk v) = 0) :
    rfc6979Step D h kk v = Sum.inr (kk, (genT 9 kk v []).2) ∧
      ∀ fuel : Nat, rfc6979Loop D h (fuel + 1) kk v = rfc6979Loop D h fuel kk ((genT 9 kk v []).2) := by
  have hstep : rfc6979Step D h kk v = Sum.inr (kk, (genT 9 kk v []).2) := by
    simp only [nonceCandidate] at hin
    simp only [rfc6979Step]
    rw [if_pos hin]
    rcases hrs with hr | hs
    · simp only [rOf, nonceCandidate] at hr
      rw [if_pos hr]
    · by_cases hr0 : modC (scalarMult (bits2int (genT 9 kk v []).1 256) G).x CURVE_ORDER = 0
      · rw [if_pos hr0]
      · rw [if_neg hr0]
        simp only [sOf, rOf, nonceCandidate] at hs
        rw [if_pos hs]
  refine ⟨hstep, fun fuel => ?_⟩
  simp only [rfc6979Loop]
  rw [hstep]

/-! ## `provider-handler.ts`: the signer-address checks

Embedding of `executeSignAmino` / `executeSignDirect` from
`src/background/provider-handler.ts`.  The keystore (`isUnlocked`,
`getMnemonic`), the HD wallet account derivation, and the serialisation +
cosmjs signing inside the `try` block are external collaborators; they enter
as data (`SignerEnv`, `TryOutcome`). -/

/-- The `{ result?, error? }` object the execute functions return: the code
paths modelled here always set exactly one of the two fields. -/
inductive HandlerOutcome (α : Type) where
  | result (r : α)
  | error (msg : Bytes)
deriving DecidableEq

/-- Modelled from the spec: the external state the handlers read — keystore
lock state, in-memory mnemonic, and the account address the HD wallet derives
from that mnemonic for the requested chain. -/
structure SignerEnv where
  unlocked : Bool
  mnemonic : Option Bytes
  accountAddress : Bytes
deriving DecidableEq

/-- Modelled from the spec: the outcome of the external work inside the `try`
block (serialisation, hashing, cosmjs `Secp256k1.createSignature`, envelope
construction): a result, or a thrown error whose message the `catch` returns. -/
inductive TryOutcome (α : Type) where
  | ok (value : α)
  | thrown (msg : Bytes)
deriving DecidableEq

/-- `"Wallet is locked"`. -/
def walletLockedMsg : Bytes :=
  [87, 97, 108, 108, 101, 116, 32, 105, 115, 32, 108, 111, 99, 107, 101, 100]

/-- `` `Signer address mismatch: expected ${account.address}, got ${params.signer}` ``. -/
def mismatchMsg (expected got : Bytes) : Bytes :=
  [83, 105, 103, 110, 101, 114, 32, 97, 100, 100, 114, 101, 115, 115, 32, 109, 105, 115, 109,
   97, 116, 99, 104, 58, 32, 101, 120, 112, 101, 99, 116, 101, 100, 32] ++ expected ++
  [44, 32, 103, 111, 116, 32] ++ got

/-- `executeSignAmino`: lock checks, then the signer-address check, then the
`try` block. -/
def executeSignAmino {α : Type} (env : SignerEnv) (signer : Bytes)
    (tryBody : TryOutcome α) : HandlerOutcome α :=
  if env.unlocked = false then .error walletLockedMsg
  else match env.mnemonic with
    | none => .error walletLockedMsg
    | some _ =>
      if env.accountAddress ≠ signer then .error (mismatchMsg env.accountAddress signer)
      else match tryBody with
        | .ok r => .result r
        | .thrown m => .error m

/-- `executeSignDirect`: the same guard structure as `executeSignAmino`. -/
def executeSignDirect {α : Type} (env : SignerEnv) (signer : Bytes)
    (tryBody : TryOutcome α) : HandlerOutcome α :=
  if env.unlocked = false then .error walletLockedMsg
  else match env.mnemonic with
    | none => .error walletLockedMsg
    | some _ =>
      if env.accountAddress ≠ signer then .error (mismatchMsg env.accountAddress signer)
      else match tryBody with
        | .ok r => .result r
        | .thrown m => .error m

/-! ## Lemmas about `sign` -/

theorem hexToBytes_length (s : Bytes) : (hexToBytes s).length = s.length / 2 := by
  unfold hexToBytes
  rw [List.length_map, List.length_range]

theorem rfc6979Sign_some_inv {fuel : Nat} {D : Int} {h : Bytes} {rs : Int × Int}
    (hs : rfc6979Sign fuel D h = some rs) :
    0 < rs.1 ∧ rs.1 < CURVE_ORDER ∧ 0 < rs.2 ∧ rs.2 < CURVE_ORDER := by
  unfold rfc6979Sign at hs
  rw [Option.map_eq_some'] at hs
  obtain ⟨krs, htr, hproj⟩ := hs
  obtain ⟨_, hr, hr0, hsv, hs0⟩ :=
    rfc6979SignTraced_some_inv (k := krs.1) (r := krs.2.1) (s := krs.2.2) htr
  have hNpos := curve_order_pos
  have hr1 : 0 ≤ krs.2.1 := by rw [hr]; unfold rOf; exact modC_nonneg _ hNpos
  have hr2 : krs.2.1 < CURVE_ORDER := by rw [hr]; unfold rOf; exact modC_lt _ hNpos
  have hs1 : 0 ≤ krs.2.2 := by rw [hsv]; unfold sOf; exact modC_nonneg _ hNpos
  have hs2 : krs.2.2 < CURVE_ORDER := by rw [hsv]; unfold sOf; exact modC_lt _ hNpos
  rw [← hproj]
  refine ⟨by omega, hr2, by omega, hs2⟩

theorem curve_order_odd : CURVE_ORDER = 2 * HALF_ORDER + 1 := by decide

/-- Behaviour and bounds of the low-S step on an in-range `s`. -/
theorem lowSNormalize_bounds (s : Int) (h0 : 0 < s) (h1 : s < CURVE_ORDER) :
    0 < lowSNormalize s ∧ lowSNormalize s ≤ HALF_ORDER ∧
      (HALF_ORDER < s → lowSNormalize s = CURVE_ORDER - s) ∧
      (s ≤ HALF_ORDER → lowSNormalize s = s) := by
  have hodd := curve_order_odd
  unfold lowSNormalize
  by_cases hc : HALF_ORDER < s
  · rw [if_pos hc]
    refine ⟨by omega, by omega, fun _ => rfl, fun hle => by omega⟩
  · rw [if_neg hc]
    refine ⟨h0, by omega, fun hlt => by omega, fun _ => rfl⟩

/-- `sign` returns an error exactly when the decoded key is not 32 bytes,
i.e. when the 0x-stripped hex string does not have `⌊length/2⌋ = 32`.  The
condition is independent of the loop fuel: the check precedes all
cryptographic work. -/
theorem sign_error_iff (fuel : Nat) (nowMs : Int) (keyHex payload addr : Bytes) :
    (∃ e, sign fuel nowMs keyHex payload addr = .error e) ↔
      (stripHexPrefix keyHex).length / 2 ≠ 32 := by
  simp only [sign]
  rw [hexToBytes_length]
  by_cases hc : (stripHexPrefix keyHex).length / 2 ≠ 32
  · rw [if_pos hc]
    simp [hc]
  · rw [if_neg hc]
    push_neg at hc
    simp only [hc, ne_eq, not_true_eq_false, iff_false, not_exists]
    generalize rfc6979Sign fuel (bytesToBigInt (hexToBytes (stripHexPrefix keyHex)))
      (sha256 (bytesToHex (sha256 payload) ++ intToDec (nowMs * 1000000) ++ addr)) = res
    intro e
    cases res <;> simp

/-- Unfolding of `sign` on a well-formed key against the spec-side digest and
serialisation expressions. -/
theorem sign_structure (fuel : Nat) (nowMs : Int) (keyHex payload addr : Bytes)
    (hnow : 0 ≤ nowMs) (h64 : (stripHexPrefix keyHex).length = 64)
    (hhex : ∀ c ∈ stripHexPrefix keyHex, (hexDigit? c).isSome) :
    sign fuel nowMs keyHex payload addr =
      match rfc6979Sign fuel (bytesToBigInt (hexToBytes (stripHexPrefix keyHex)))
          (sha256 (specHexOfBytes (sha256 payload) ++ intToDec (nowMs * 1000000) ++ addr)) with
      | none => .ok none
      | some rs => .ok (some
          { signature := uint8ToBase64 (specBe32 rs.1 ++
              specBe32 (if HALF_ORDER < rs.2 then CURVE_ORDER - rs.2 else rs.2)),
            timestampNs := nowMs * 1000000 }) := by
  simp only [sign]
  rw [hexToBytes_length, h64]
  rw [if_neg (by norm_num)]
  rw [bytesToHex_eq_specHex (sha256 payload) (sha256_bytes_lt payload)]
  generalize hres : rfc6979Sign fuel (bytesToBigInt (hexToBytes (stripHexPrefix keyHex)))
      (sha256 (specHexOfBytes (sha256 payload) ++ intToDec (nowMs * 1000000) ++ addr)) = res
  cases res with
  | none => rfl
  | some rs =>
    obtain ⟨hr0, hrN, hs0, hsN⟩ := rfc6979Sign_some_inv hres
    have hlow := lowSNormalize_bounds rs.2 hs0 hsN
    have hNlt := curve_order_lt_pow
    dsimp only
    congr 1
    congr 1
    congr 1
    · rw [bigIntToBytes32_eq_specBe32 rs.1 (by omega) (by omega),
        bigIntToBytes32_eq_specBe32 (lowSNormalize rs.2) (by omega) ?hub]
      · rfl
      · have hH : 2 * HALF_ORDER + 1 = CURVE_ORDER := curve_order_odd.symm
        obtain ⟨hl0, hlH, _, _⟩ := hlow
        omega

/-! ## Remaining claim-side constants -/

/-- The curve equation `y² = x³ + 7 (mod P)`, as the spec words it. -/
def onCurve (p : Point) : Prop := (p.y * p.y) % P = (p.x * p.x * p.x + 7) % P

instance (p : Point) : Decidable (onCurve p) := by unfold onCurve; infer_instance

/-- `"Satoshi Nakamoto"`, the message of the published RFC 6979
secp256k1/SHA-256 test vector for private key 1. -/
def satoshiMsg : Bytes := [83, 97, 116, 111, 115, 104, 105, 32, 78, 97, 107, 97, 109, 111, 116, 111]

/-- The published nonce for that vector. -/
def kPublished : Int := 0x8F8A276C19F4149656B280621E358CCE24F5F52542772691EE69063B74F15D15

/-- `4·G` (computed by repeated correct doubling; on the curve). -/
def fourG : Point :=
  { x := 0xE493DBF1C10D80F3581E4904930B1404CC6C13900EE0758474FA94ABE8C4CD13,
    y := 0x51ED993EA0D455B75642E2098EA51448D967AE33BFBDFE40CFE97BDC47739922 }

/-! ## Claim theorems -/

/-- C1: for `0 < D < N` and a 32-byte digest `h`, the nonce that
`rfc6979Sign(D, h)` signs with is exactly the RFC 6979 §3.2 value
(HMAC-SHA256/secp256k1: `V`/`K` initialisation, the two update rounds, the
`T` loop, acceptance iff `0 < k < N` with the `K`/`V` continuation update
before each retry of an out-of-range candidate) — provided that nonce does
not hit the degenerate `r = 0`/`s = 0` branches — and on the published
secp256k1/SHA-256 test vector (key 1, message `"Satoshi Nakamoto"`) the
§3.2 generator produces exactly the published `k`. -/
theorem rfc6979_nonce_conformance :
    (∀ (fuel : Nat) (D : Int) (h : Bytes) (k : Int),
      0 < D → D < CURVE_ORDER → h.length = 32 → (∀ b ∈ h, b < 256) →
      rfc6979NonceSpec fuel D h = some k →
      rOf k ≠ 0 → sOf D h k ≠ 0 →
      (rfc6979SignTraced fuel D h).map (fun krs => krs.1) = some k) ∧
    rfc6979NonceSpec 1 1 (sha256 satoshiMsg) = some kPublished := by
  constructor
  · intro fuel D h k hD0 hDN hlen hbytes hspec hr hs
    unfold rfc6979NonceSpec at hspec
    unfold rfc6979SignTraced
    rw [rfc6979Init_eq_spec D h hD0 hDN hlen hbytes]
    rw [specNonceLoop_refines D h fuel _ _ k hspec hr hs]
    rfl
  · decide

/-- C2: whenever the engine returns a signature, `0 < r < N`, `0 < s < N`,
and the low-S step of `sign` maps `s` into `(0, N/2]`, replacing it by
`N - s` exactly when `s > N/2`. -/
theorem sign_rs_invariants (fuel : Nat) (D : Int) (h : Bytes) (k r s : Int)
    (hD0 : 0 < D) (hDN : D < CURVE_ORDER) (hlen : h.length = 32)
    (htr : rfc6979SignTraced fuel D h = some (k, r, s)) :
    0 < r ∧ r < CURVE_ORDER ∧ 0 < s ∧ s < CURVE_ORDER ∧
      0 < lowSNormalize s ∧ lowSNormalize s ≤ HALF_ORDER ∧
      (HALF_ORDER < s → lowSNormalize s = CURVE_ORDER - s) ∧
      (s ≤ HALF_ORDER → lowSNormalize s = s) := by
  obtain ⟨hrange, hr, hr0, hs, hs0⟩ := rfc6979SignTraced_some_inv htr
  have hNpos := curve_order_pos
  have hr1 : 0 ≤ r := by rw [hr]; unfold rOf; exact modC_nonneg _ hNpos
  have hr2 : r < CURVE_ORDER := by rw [hr]; unfold rOf; exact modC_lt _ hNpos
  have hs1 : 0 ≤ s := by rw [hs]; unfold sOf; exact modC_nonneg _ hNpos
  have hs2 : s < CURVE_ORDER := by rw [hs]; unfold sOf; exact modC_lt _ hNpos
  have hlow := lowSNormalize_bounds s (by omega) hs2
  exact ⟨by omega, hr2, by omega, hs2, hlow.1, hlow.2.1, hlow.2.2.1, hlow.2.2.2⟩

/-- C3: for a 64-valid-hex-character key, `sign` returns `timestampNs =
nowMs · 1 000 000` and the base64 of `r ‖ s` (each a fixed 32-byte
big-endian value, `s` low-S-normalised) of the engine's signature over
`SHA256(lowercaseHex(SHA256(payload)) ‖ decimal(timestampNs) ‖ address)`,
concatenated with no delimiters. -/
theorem sign_protocol_structure (fuel : Nat) (nowMs : Int) (keyHex payload addr : Bytes)
    (hnow : 0 ≤ nowMs) (h64 : (stripHexPrefix keyHex).length = 64)
    (hhex : ∀ c ∈ stripHexPrefix keyHex, (hexDigit? c).isSome) :
    sign fuel nowMs keyHex payload addr =
      match rfc6979Sign fuel (bytesToBigInt (hexToBytes (stripHexPrefix keyHex)))
          (sha256 (specHexOfBytes (sha256 payload) ++ intToDec (nowMs * 1000000) ++ addr)) with
      | none => .ok none
      | some rs => .ok (some
          { signature := uint8ToBase64 (specBe32 rs.1 ++
              specBe32 (if HALF_ORDER < rs.2 then CURVE_ORDER - rs.2 else rs.2)),
            timestampNs := nowMs * 1000000 }) :=
  sign_structure fuel nowMs keyHex payload addr hnow h64 hhex

/-- Witness for C3 at `nowMs = 0`, the key `"00…01"`, empty payload and
empty address. -/
theorem sign_protocol_structure_witness :
    sign 0 0 (List.replicate 63 48 ++ [49]) [] [] = .ok none := by
  rw [sign_protocol_structure 0 0 (List.replicate 63 48 ++ [49]) [] []
    (by decide) (by decide) (by decide)]
  rfl

/-- C4: both `executeSignAmino` and `executeSignDirect` return an explicit
error and produce no signature whenever the requested signer differs from
the key-derived account address, and produce a result only when the two
agree. -/
theorem signer_mismatch_rejected (α β : Type) (env : SignerEnv) (signer : Bytes)
    (ta : TryOutcome α) (td : TryOutcome β) :
    (env.accountAddress ≠ signer →
      (∃ m, executeSignAmino env signer ta = .error m) ∧
      (∀ r, executeSignAmino env signer ta ≠ .result r) ∧
      (∃ m, executeSignDirect env signer td = .error m) ∧
      (∀ r, executeSignDirect env signer td ≠ .result r)) ∧
    (∀ r, executeSignAmino env signer ta = .result r → env.accountAddress = signer) ∧
    (∀ r, executeSignDirect env signer td = .result r → env.accountAddress = signer) := by
  obtain ⟨u, mn, addr⟩ := env
  cases u <;> rcases mn with _ | m <;> by_cases haddr : addr = signer <;>
    cases ta <;> cases td <;>
      simp_all [executeSignAmino, executeSignDirect]

/-- Witness for C4 on a concrete mismatched pair. -/
theorem signer_mismatch_rejected_witness :
    ((∃ m, executeSignAmino ⟨true, some [], [97]⟩ [98] (TryOutcome.ok ([] : Bytes)) = .error m) ∧
      (∀ r, executeSignAmino ⟨true, some [], [97]⟩ [98] (TryOutcome.ok ([] : Bytes)) ≠ .result r) ∧
      (∃ m, executeSignDirect ⟨true, some [], [97]⟩ [98] (TryOutcome.ok ([] : Bytes)) = .error m) ∧
      (∀ r, executeSignDirect ⟨true, some [], [97]⟩ [98] (TryOutcome.ok ([] : Bytes)) ≠ .result r)) :=
  (signer_mismatch_rejected Bytes Bytes ⟨true, some [], [97]⟩ [98]
    (TryOutcome.ok []) (TryOutcome.ok [])).1 (by decide)

/-- C5 (amended): when an in-range candidate produces `r = 0` or `s = 0`,
the engine retries by regenerating `T` from the already-advanced `V` with
`K` unchanged — it does *not* perform the RFC 6979 §3.2 `K`/`V`
continuation update, which it applies only to out-of-range candidates —
and surfaces nothing to the caller: the loop simply continues. -/
theorem rfc6979_degenerate_retry (D : Int) (h kk v : Bytes)
    (hin : 0 < nonceCandidate kk v ∧ nonceCandidate kk v < CURVE_ORDER)
    (hrs : rOf (nonceCandidate kk v) = 0 ∨ sOf D h (nonceCandidate kk v) = 0) :
    rfc6979Step D h kk v = Sum.inr (kk, (genT 9 kk v []).2) ∧
      ∀ fuel : Nat, rfc6979Loop D h (fuel + 1) kk v = rfc6979Loop D h fuel kk ((genT 9 kk v []).2) :=
  rfc6979Step_degenerate D h kk v hin hrs

/-- C6 counterexample: a 64-character key made of the non-hex character
`'z'` is *not* rejected — `hexToBytes` silently turns it into 32 zero bytes
(`parseInt` returns `NaN`, stored as `0`) and `sign` proceeds without
throwing. -/
theorem sign_malformed_key_not_rejected :
    (∀ c ∈ List.replicate 64 122, (hexDigit? c).isSome = false) ∧
      hexToBytes (stripHexPrefix (List.replicate 64 122)) = List.replicate 32 0 ∧
      sign 0 0 (List.replicate 64 122) [] [] = .ok none := by
  refine ⟨by decide, by decide, ?_⟩
  rfl

/-- C6 (amended): `sign` throws, synchronously and before any cryptographic
work (the condition is independent of the nonce-loop fuel), if and only if
the 0x-stripped hex key does not decode to exactly 32 bytes, i.e. iff
`⌊length/2⌋ ≠ 32`; malformed hex digits within a 64-character key are
silently reinterpreted by `parseInt` rather than rejected. -/
theorem sign_throws_iff_wrong_length (fuel : Nat) (nowMs : Int) (keyHex payload addr : Bytes) :
    (∃ e, sign fuel nowMs keyHex payload addr = .error e) ↔
      (stripHexPrefix keyHex).length / 2 ≠ 32 :=
  sign_error_iff fuel nowMs keyHex payload addr

/-- Witness for C6 on a concrete short key. -/
theorem sign_throws_iff_wrong_length_witness :
    ∃ e, sign 0 0 [48, 49] [] [] = .error e :=
  (sign_throws_iff_wrong_length 0 0 [48, 49] [] []).mpr (by decide)

/-- C7: the engine is deterministic — it is a pure function of `(D, h)`
(the embedding of `rfc6979Sign` takes nothing else), so two invocations on
identical inputs return identical `(r, s)`. -/
theorem rfc6979Sign_deterministic (fuel : Nat) (D₁ D₂ : Int) (h₁ h₂ : Bytes)
    (hD : D₁ = D₂) (hh : h₁ = h₂) :
    rfc6979Sign fuel D₁ h₁ = rfc6979Sign fuel D₂ h₂ := by
  rw [hD, hh]

/-- Witness for C7. -/
theorem rfc6979Sign_deterministic_witness :
    rfc6979Sign 0 1 [1] = rfc6979Sign 0 1 [1] :=
  rfc6979Sign_deterministic 0 1 1 [1] [1] rfl rfl

/-- C8: the claimed invariant fails on the code — `scalarMult(7, G)` is a
finite point that does not satisfy `y² = x³ + 7 (mod P)` (the negative-input
behaviour of `modInverse` produces a wrong chord slope). -/
theorem scalarMult_seven_off_curve :
    (0 : Int) < 7 ∧ (7 : Int) < CURVE_ORDER ∧
      scalarMult 7 G =
        { x := 0x5CBDF0646E5DB4EAA398F365F2EA7A0E3D419B7E0330E39CE92BDDEDCAC4F9BC,
          y := 0x23F53FA07F7ED6773D2202C62575C4778DEADC15827DD2138183DEEBEE1BCA71 } ∧
      ¬ onCurve (scalarMult 7 G) ∧ scalarMult 7 G ≠ POINT_AT_INFINITY := by
  decide

/-- C9 counterexample: for the coprime pair `a = -3`, `m = 5` (odd,
positive), `modInverse` returns `2`, which is *not* an inverse of `-3`
(it is the inverse of `+3`): the claim fails for negative `a`. -/
theorem modInverse_negative_counterexample :
    Int.gcd (-3) 5 = 1 ∧ (5 : Int) % 2 = 1 ∧ (0 : Int) < 5 ∧
      modInverse (-3) 5 = 2 ∧ ((-3 : Int) * modInverse (-3) 5) % 5 ≠ 1 % 5 := by
  decide

/-- C9 (amended): for every *nonnegative* `a` and odd positive `m` with
`gcd(a, m) = 1`, `modInverse(a, m)` returns the unique `x ∈ [0, m)` with
`a·x ≡ 1 (mod m)`. -/
theorem modInverse_correct (a m : Int) (ha : 0 ≤ a) (hm : 0 < m) (hodd : m % 2 = 1)
    (hgcd : Int.gcd a m = 1) :
    0 ≤ modInverse a m ∧ modInverse a m < m ∧ a * modInverse a m ≡ 1 [ZMOD m] ∧
      ∀ y : Int, 0 ≤ y → y < m → a * y ≡ 1 [ZMOD m] → y = modInverse a m :=
  modInverse_spec a m ha hm hgcd

/-- Witness for C9 at `(3, 5)`. -/
theorem modInverse_correct_witness :
    0 ≤ modInverse 3 5 ∧ modInverse 3 5 < 5 ∧ (3 : Int) * modInverse 3 5 ≡ 1 [ZMOD 5] ∧
      ∀ y : Int, 0 ≤ y → y < 5 → 3 * y ≡ 1 [ZMOD 5] → y = modInverse 3 5 :=
  modInverse_correct 3 5 (by decide) (by decide) (by decide) (by decide)

/-- C10 counterexample: `G` and `4·G` are both on the curve with reduced
coordinates, yet `pointAdd(G, 4G) ≠ pointAdd(4G, G)` — the two orders
disagree in the `y` coordinate, again due to `modInverse` on a negative
difference. -/
theorem pointAdd_not_commutative :
    onCurve G ∧ onCurve fourG ∧
      (0 ≤ G.x ∧ G.x < P ∧ 0 ≤ G.y ∧ G.y < P) ∧
      (0 ≤ fourG.x ∧ fourG.x < P ∧ 0 ≤ fourG.y ∧ fourG.y < P) ∧
      pointAdd G fourG ≠ pointAdd fourG G := by
  decide

/-- C10 (amended): `pointAdd` is commutative on pairs of
identity-or-on-curve points that share an x-coordinate or include the
identity; for distinct x-coordinates the two orders can disagree. -/
theorem pointAdd_comm_restricted (p1 p2 : Point)
    (h1 : p1 = POINT_AT_INFINITY ∨ onCurve p1) (h2 : p2 = POINT_AT_INFINITY ∨ onCurve p2)
    (hb1 : 0 ≤ p1.x ∧ p1.x < P ∧ 0 ≤ p1.y ∧ p1.y < P)
    (hb2 : 0 ≤ p2.x ∧ p2.x < P ∧ 0 ≤ p2.y ∧ p2.y < P)
    (hcase : p1.x = p2.x ∨ p1 = POINT_AT_INFINITY ∨ p2 = POINT_AT_INFINITY) :
    pointAdd p1 p2 = pointAdd p2 p1 := by
  obtain ⟨x1, y1⟩ := p1
  obtain ⟨x2, y2⟩ := p2
  simp only [pointAdd]
  dsimp only at hcase ⊢
  by_cases hA : x1 = 0 ∧ y1 = 0
  · by_cases hB : x2 = 0 ∧ y2 = 0
    · rw [if_pos hA, if_pos hB]
      obtain ⟨hA1, hA2⟩ := hA
      obtain ⟨hB1, hB2⟩ := hB
      subst hA1; subst hA2; subst hB1; subst hB2
      rfl
    · rw [if_pos hA, if_neg hB, if_pos hA]
  · by_cases hB : x2 = 0 ∧ y2 = 0
    · rw [if_neg hA, if_pos hB, if_pos hB]
    · rw [if_neg hA, if_neg hB, if_neg hB, if_neg hA]
      have hx : x1 = x2 := by
        rcases hcase with hx | hP1 | hP2
        · exact hx
        · exact absurd (by cases hP1; exact ⟨rfl, rfl⟩) hA
        · exact absurd (by cases hP2; exact ⟨rfl, rfl⟩) hB
      subst hx
      by_cases hy : y1 = y2
      · subst hy
        rfl
      · rw [if_pos ⟨rfl, hy⟩, if_pos ⟨rfl, Ne.symm hy⟩]

/-- Witness for C10 at `(G, identity)`. -/
theorem pointAdd_comm_restricted_witness :
    pointAdd G POINT_AT_INFINITY = pointAdd POINT_AT_INFINITY G :=
  pointAdd_comm_restricted G POINT_AT_INFINITY (Or.inr (by decide)) (Or.inl rfl)
    (by decide) (by decide) (Or.inr (Or.inr rfl))

/-! ## Concrete evaluations: the published vector and the degenerate branch -/

/-- The `r` the engine computes on the published vector (differs from the
published signature `r` because of the curve-arithmetic defects; the nonce
path is unaffected). -/
def rVec : Int := 0x50E7ED16A1D792A11F53D2D30C3C848AF30EC1E4B2B1068C6CAB8EF228B48E9E

/-- The `s` the engine computes on the published vector. -/
def sVec : Int := 0xB631A0B8F22E275955F67A37DD849FF363070601DBEFEA0A81AB7E7B46C438CD

/-- `SHA256("Satoshi Nakamoto")`, the vector's message hash. -/
def hashVec : Bytes :=
  [0xa0, 0xdc, 0x65, 0xff, 0xca, 0x79, 0x98, 0x73, 0xcb, 0xea, 0x0a, 0xc2, 0x74, 0x01, 0x5b, 0x95,
   0x26, 0x50, 0x5d, 0xaa, 0xae, 0xd3, 0x85, 0x15, 0x54, 0x25, 0xf7, 0x33, 0x77, 0x04, 0x88, 0x3e]

/-- The DRBG key state `K` after `rfc6979Init` on the published vector. -/
def kk0 : Bytes :=
  [0xf4, 0x57, 0xc0, 0x16, 0x88, 0x02, 0x6e, 0xe0, 0xb9, 0x23, 0x6e, 0x5c, 0x7f, 0xf1, 0x47, 0x80,
   0x07, 0xad, 0x0b, 0x69, 0x78, 0x55, 0xf5, 0x92, 0xef, 0xa9, 0x46, 0x8e, 0xcf, 0x0c, 0x1f, 0x86]

/-- The DRBG value state `V` after `rfc6979Init` on the published vector. -/
def v0 : Bytes :=
  [0xa1, 0x96, 0x43, 0x7a, 0x8f, 0x26, 0xfb, 0xc9, 0xe5, 0x19, 0xe4, 0xfd, 0x4b, 0x5d, 0x10, 0xd6,
   0x2e, 0x6a, 0x53, 0x06, 0xc9, 0x8c, 0xa4, 0x31, 0xb9, 0x61, 0x31, 0xf4, 0x03, 0xbf, 0xf4, 0xae]

/-- The `T` bytes (one `V = HMAC(K, V)` round) generated at state `(kk0, v0)`:
their `bits2int` is exactly `kPublished`. -/
def tVec : Bytes :=
  [0x8f, 0x8a, 0x27, 0x6c, 0x19, 0xf4, 0x14, 0x96, 0x56, 0xb2, 0x80, 0x62, 0x1e, 0x35, 0x8c, 0xce,
   0x24, 0xf5, 0xf5, 0x25, 0x42, 0x77, 0x26, 0x91, 0xee, 0x69, 0x06, 0x3b, 0x74, 0xf1, 0x5d, 0x15]

/-- A 32-byte hash whose value is `N - r(k₀)` for the candidate nonce `k₀`
generated at state `(kk0, v0)`, so that with `D = 1` the engine computes
`s = k₀⁻¹ · (e + r·1) ≡ k₀⁻¹ · N ≡ 0 (mod N)`. -/
def h5 : Bytes :=
  [0xaf, 0x18, 0x12, 0xe9, 0x5e, 0x28, 0x6d, 0x5e, 0xe0, 0xac, 0x2d, 0x2c, 0xf3, 0xc3, 0x7b, 0x73,
   0xc7, 0xa0, 0x1b, 0x01, 0xfc, 0x97, 0x99, 0xaf, 0x53, 0x26, 0xcf, 0x9a, 0xa7, 0x81, 0xb2, 0xa3]

/-- A state of `scalarMultAux` with `n ≤ 0` returns the accumulator for any fuel. -/
theorem scalarMultAux_nonpos (fuel : Nat) (n : Int) (res add : Point) (hn : ¬ 0 < n) :
    scalarMultAux fuel n res add = res := by
  cases fuel with
  | zero => rfl
  | succ f => simp only [scalarMultAux, if_neg hn]

theorem tdiv_two_natAbs (n : Int) (hn : 0 < n) : (n.tdiv 2).natAbs = n.natAbs / 2 := by
  rcases n with m | m
  · rfl
  · exact absurd hn (lt_asymm (Int.negSucc_lt_zero m))

/-- The loop of `scalarMult` is fuel-irrelevant once the fuel covers the bit
length of `n`, since `n` halves every iteration. -/
theorem scalarMultAux_fuel_irrel : ∀ (f1 f2 : Nat) (n : Int) (res add : Point),
    n.natAbs < 2 ^ f1 → n.natAbs < 2 ^ f2 →
    scalarMultAux f1 n res add = scalarMultAux f2 n res add := by
  intro f1
  induction f1 with
  | zero =>
    intro f2 n res add h1 _
    have hn : ¬ 0 < n := by
      have h0 : n.natAbs = 0 := by simpa using Nat.lt_one_iff.mp h1
      omega
    rw [scalarMultAux_nonpos 0 n res add hn, scalarMultAux_nonpos f2 n res add hn]
  | succ g ih =>
    intro f2 n res add h1 h2
    by_cases hn : 0 < n
    · cases f2 with
      | zero =>
        have h0 : n.natAbs = 0 := by simpa using Nat.lt_one_iff.mp h2
        omega
      | succ f =>
        simp only [scalarMultAux, if_pos hn]
        have h1' := h1
        have h2' := h2
        rw [pow_succ] at h1' h2'
        have hb1 : (n.tdiv 2).natAbs < 2 ^ g := by
          rw [tdiv_two_natAbs n hn]; omega
        have hb2 : (n.tdiv 2).natAbs < 2 ^ f := by
          rw [tdiv_two_natAbs n hn]; omega
        exact ih f (n.tdiv 2) _ _ hb1 hb2
    · rw [scalarMultAux_nonpos (g+1) n res add hn, scalarMultAux_nonpos f2 n res add hn]

/-- One double-and-add iteration of `scalarMult`, with every value explicit;
the building block for evaluating a full scalar multiplication in small,
independently checked steps. -/
theorem scalarMultAux_step (fuel : Nat) (n n' : Int) (res add res' add' : Point)
    (hn : 0 < n)
    (hres : (if n.tmod 2 ≠ 0 then pointAdd res add else res) = res')
    (hadd : pointAdd add add = add')
    (hn' : n.tdiv 2 = n') :
    scalarMultAux (fuel + 1) n res add = scalarMultAux fuel n' res' add' := by
  simp only [scalarMultAux, if_pos hn]
  rw [hres, hadd, hn']

/-! ### The published-vector scalar multiplication, step by step

The 256 double-and-add iterations of `scalarMult(k, G)` for the vector
nonce, each settled by a small `decide`, keep every kernel check small. -/

theorem smA0 : scalarMultAux 257 kPublished POINT_AT_INFINITY G = scalarMultAux 256 0x47C513B60CFA0A4B2B5940310F1AC667127AFA92A13B9348F734831DBA78AE8A G (Point.mk 0xC6047F9441ED7D6D3045406E95C07CD85C778E4B8CEF3CA7ABAC09B95C709EE5 0x1AE168FEA63DC339A3C58419466CEAEEF7F632653266D0E1236431A950CFE52A) :=
  scalarMultAux_step 256 kPublished 0x47C513B60CFA0A4B2B5940310F1AC667127AFA92A13B9348F734831DBA78AE8A POINT_AT_INFINITY G G (Point.mk 0xC6047F9441ED7D6D3045406E95C07CD85C778E4B8CEF3CA7ABAC09B95C709EE5 0x1AE168FEA63DC339A3C58419466CEAEEF7F632653266D0E1236431A950CFE52A) (by decide) (by decide) (by decide) (by decide)

theorem smA1 : scalarMultAux 256 0x47C513B60CFA0A4B2B5940310F1AC667127AFA92A13B9348F734831DBA78AE8A G (Point.mk 0xC6047F9441ED7D6D3045406E95C07CD85C778E4B8CEF3CA7ABAC09B95C709EE5 0x1AE168FEA63DC339A3C58419466CEAEEF7F632653266D0E1236431A950CFE52A) = scalarMultAux 255 0x23E289DB067D052595ACA018878D6333893D7D49509DC9A47B9A418EDD3C5745 G (Point.mk 0xE493DBF1C10D80F3581E4904930B1404CC6C13900EE0758474FA94ABE8C4CD13 0x51ED993EA0D455B75642E2098EA51448D967AE33BFBDFE40CFE97BDC47739922) :=
  scalarMultAux_step 255 0x47C513B60CFA0A4B2B5940310F1AC667127AFA92A13B9348F734831DBA78AE8A 0x23E289DB067D052595ACA018878D6333893D7D49509DC9A47B9A418EDD3C5745 G (Point.mk 0xC6047F9441ED7D6D3045406E95C07CD85C778E4B8CEF3CA7ABAC09B95C709EE5 0x1AE168FEA63DC339A3C58419466CEAEEF7F632653266D0E1236431A950CFE52A) G (Point.mk 0xE493DBF1C10D80F3581E4904930B1404CC6C13900EE0758474FA94ABE8C4CD13 0x51ED993EA0D455B75642E2098EA51448D967AE33BFBDFE40CFE97BDC47739922) (by decide) (by decide) (by decide) (by decide)

theorem smA2 : scalarMultAux 255 0x23E289DB067D052595ACA018878D6333893D7D49509DC9A47B9A418EDD3C5745 G (Point.mk 0xE493DBF1C10D80F3581E4904930B1404CC6C13900EE0758474FA94ABE8C4CD13 0x51ED993EA0D455B75642E2098EA51448D967AE33BFBDFE40CFE97BDC47739922) = scalarMultAux 254 0x11F144ED833E8292CAD6500C43C6B199C49EBEA4A84EE4D23DCD20C76E9E2BA2 (Point.mk 0x2F8BDE4D1A07209355B4A7250A5C5128E88B84BDDC619AB7CBA8D569B240EFE4 0xD8AC222636E5E3D6D4DBA9DDA6C9C426F788271BAB0D6840DCA87D3AA6AC62D6) (Point.mk 0x2F01E5E15CCA351DAFF3843FB70F3C2F0A1BDD05E5AF888A67784EF3E10A2A01 0x5C4DA8A741539949293D082A132D13B4C2E213D6BA5B7617B5DA2CB76CBDE904) :=
  scalarMultAux_step 254 0x23E289DB067D052595ACA018878D6333893D7D49509DC9A47B9A418EDD3C5745 0x11F144ED833E8292CAD6500C43C6B199C49EBEA4A84EE4D23DCD20C76E9E2BA2 G (Point.mk 0xE493DBF1C10D80F3581E4904930B1404CC6C13900EE0758474FA94ABE8C4CD13 0x51ED993EA0D455B75642E2098EA51448D967AE33BFBDFE40CFE97BDC47739922) (Point.mk 0x2F8BDE4D1A07209355B4A7250A5C5128E88B84BDDC619AB7CBA8D569B240EFE4 0xD8AC222636E5E3D6D4DBA9DDA6C9C426F788271BAB0D6840DCA87D3AA6AC62D6) (Point.mk 0x2F01E5E15CCA351DAFF3843FB70F3C2F0A1BDD05E5AF888A67784EF3E10A2A01 0x5C4DA8A741539949293D082A132D13B4C2E213D6BA5B7617B5DA2CB76CBDE904) (by decide) (by decide) (by decide) (by decide)

theorem smA3 : scalarMultAux 254 0x11F144ED833E8292CAD6500C43C6B199C49EBEA4A84EE4D23DCD20C76E9E2BA2 (Point.mk 0x2F8BDE4D1A07209355B4A7250A5C5128E88B84BDDC619AB7CBA8D569B240EFE4 0xD8AC222636E5E3D6D4DBA9DDA6C9C426F788271BAB0D6840DCA87D3AA6AC62D6) (Point.mk 0x2F01E5E15CCA351DAFF3843FB70F3C2F0A1BDD05E5AF888A67784EF3E10A2A01 0x5C4DA8A741539949293D082A132D13B4C2E213D6BA5B7617B5DA2CB76CBDE904) = scalarMultAux 253 0x8F8A276C19F4149656B280621E358CCE24F5F52542772691EE69063B74F15D1 (Point.mk 0x2F8BDE4D1A07209355B4A7250A5C5128E88B84BDDC619AB7CBA8D569B240EFE4 0xD8AC222636E5E3D6D4DBA9DDA6C9C426F788271BAB0D6840DCA87D3AA6AC62D6) (Point.mk 0xE60FCE93B59E9EC53011AABC21C23E97B2A31369B87A5AE9C44EE89E2A6DEC0A 0xF7E3507399E595929DB99F34F57937101296891E44D23F0BE1F32CCE69616821) :=
  scalarMultAux_step 253 0x11F144ED833E8292CAD6500C43C6B199C49EBEA4A84EE4D23DCD20C76E9E2BA2 0x8F8A276C19F4149656B280621E358CCE24F5F52542772691EE69063B74F15D1 (Point.mk 0x2F8BDE4D1A07209355B4A7250A5C5128E88B84BDDC619AB7CBA8D569B240EFE4 0xD8AC222636E5E3D6D4DBA9DDA6C9C426F788271BAB0D6840DCA87D3AA6AC62D6) (Point.mk 0x2F01E5E15CCA351DAFF3843FB70F3C2F0A1BDD05E5AF888A67784EF3E10A2A01 0x5C4DA8A741539949293D082A132D13B4C2E213D6BA5B7617B5DA2CB76CBDE904) (Point.mk 0x2F8BDE4D1A07209355B4A7250A5C5128E88B84BDDC619AB7CBA8D569B240EFE4 0xD8AC222636E5E3D6D4DBA9DDA6C9C426F788271BAB0D6840DCA87D3AA6AC62D6) (Point.mk 0xE60FCE93B59E9EC53011AABC21C23E97B2A31369B87A5AE9C44EE89E2A6DEC0A 0xF7E3507399E595929DB99F34F57937101296891E44D23F0BE1F32CCE69616821) (by decide) (by decide) (by decide) (by decide)

theorem smA4 : scalarMultAux 253 0x8F8A276C19F4149656B280621E358CCE24F5F52542772691EE69063B74F15D1 (Point.mk 0x2F8BDE4D1A07209355B4A7250A5C5128E88B84BDDC619AB7CBA8D569B240EFE4 0xD8AC222636E5E3D6D4DBA9DDA6C9C426F788271BAB0D6840DCA87D3AA6AC62D6) (Point.mk 0xE60FCE93B59E9EC53011AABC21C23E97B2A31369B87A5AE9C44EE89E2A6DEC0A 0xF7E3507399E595929DB99F34F57937101296891E44D23F0BE1F32CCE69616821) = scalarMultAux 252 0x47C513B60CFA0A4B2B5940310F1AC667127AFA92A13B9348F734831DBA78AE8 (Point.mk 0x352BBF4A4CDD12564F93FA332CE333301D9AD40271F8107181340AEF25BE59D5 0x321EB4075348F534D59C18259DDA3E1F4A1B3B2E71B1039C67BD3D8BCF81998C) (Point.mk 0xD30199D74FB5A22D47B6E054E2F378CEDACFFCB89904A61D75D0DBD407143E65 0x95038D9D0AE3D5C3B3D6DEC9E98380651F760CC364ED819605B3FF1F24106AB9) :=
  scalarMultAux_step 252 0x8F8A276C19F4149656B280621E358CCE24F5F52542772691EE69063B74F15D1 0x47C513B60CFA0A4B2B5940310F1AC667127AFA92A13B9348F734831DBA78AE8 (Point.mk 0x2F8BDE4D1A07209355B4A7250A5C5128E88B84BDDC619AB7CBA8D569B240EFE4 0xD8AC222636E5E3D6D4DBA9DDA6C9C426F788271BAB0D6840DCA87D3AA6AC62D6) (Point.mk 0xE60FCE93B59E9EC53011AABC21C23E97B2A31369B87A5AE9C44EE89E2A6DEC0A 0xF7E3507399E595929DB99F34F57937101296891E44D23F0BE1F32CCE69616821) (Point.mk 0x352BBF4A4CDD12564F93FA332CE333301D9AD40271F8107181340AEF25BE59D5 0x321EB4075348F534D59C18259DDA3E1F4A1B3B2E71B1039C67BD3D8BCF81998C) (Point.mk 0xD30199D74FB5A22D47B6E054E2F378CEDACFFCB89904A61D75D0DBD407143E65 0x95038D9D0AE3D5C3B3D6DEC9E98380651F760CC364ED819605B3FF1F24106AB9) (by decide) (by decide) (by decide) (by decide)

theorem smA5 : scalarMultAux 252 0x47C513B60CFA0A4B2B5940310F1AC667127AFA92A13B9348F734831DBA78AE8 (Point.mk 0x352BBF4A4CDD12564F93FA332CE333301D9AD40271F8107181340AEF25BE59D5 0x321EB4075348F534D59C18259DDA3E1F4A1B3B2E71B1039C67BD3D8BCF81998C) (Point.mk 0xD30199D74FB5A22D47B6E054E2F378CEDACFFCB89904A61D75D0DBD407143E65 0x95038D9D0AE3D5C3B3D6DEC9E98380651F760CC364ED819605B3FF1F24106AB9) = scalarMultAux 251 0x23E289DB067D052595ACA018878D6333893D7D49509DC9A47B9A418EDD3C574 (Point.mk 0x352BBF4A4CDD12564F93FA332CE333301D9AD40271F8107181340AEF25BE59D5 0x321EB4075348F534D59C18259DDA3E1F4A1B3B2E71B1039C67BD3D8BCF81998C) (Point.mk 0xBF23C1542D16EAB70B1051EAF832823CFC4C6F1DCDBAFD81E37918E6F874EF8B 0x5CB3866FC33003737AD928A0BA5392E4C522FC54811E2F784DC37EFE66831D9F) :=
  scalarMultAux_step 251 0x47C513B60CFA0A4B2B5940310F1AC667127AFA92A13B9348F734831DBA78AE8 0x23E289DB067D052595ACA018878D6333893D7D49509DC9A47B9A418EDD3C574 (Point.mk 0x352BBF4A4CDD12564F93FA332CE333301D9AD40271F8107181340AEF25BE59D5 0x321EB4075348F534D59C18259DDA3E1F4A1B3B2E71B1039C67BD3D8BCF81998C) (Point.mk 0xD30199D74FB5A22D47B6E054E2F378CEDACFFCB89904A61D75D0DBD407143E65 0x95038D9D0AE3D5C3B3D6DEC9E98380651F760CC364ED819605B3FF1F24106AB9) (Point.mk 0x352BBF4A4CDD12564F93FA332CE333301D9AD40271F8107181340AEF25BE59D5 0x321EB4075348F534D59C18259DDA3E1F4A1B3B2E71B1039C67BD3D8BCF81998C) (Point.mk 0xBF23C1542D16EAB70B1051EAF832823CFC4C6F1DCDBAFD81E37918E6F874EF8B 0x5CB3866FC33003737AD928A0BA5392E4C522FC54811E2F784DC37EFE66831D9F) (by decide) (by decide) (by decide) (by decide)

theorem smA6 : scalarMultAux 251 0x23E289DB067D052595ACA018878D6333893D7D49509DC9A47B9A418EDD3C574 (Point.mk 0x352BBF4A4CDD12564F93FA332CE333301D9AD40271F8107181340AEF25BE59D5 0x321EB4075348F534D59C18259DDA3E1F4A1B3B2E71B1039C67BD3D8BCF81998C) (Point.mk 0xBF23C1542D16EAB70B1051EAF832823CFC4C6F1DCDBAFD81E37918E6F874EF8B 0x5CB3866FC33003737AD928A0BA5392E4C522FC54811E2F784DC37EFE66831D9F) = scalarMultAux 250 0x11F144ED833E8292CAD6500C43C6B199C49EBEA4A84EE4D23DCD20C76E9E2BA (Point.mk 0x352BBF4A4CDD12564F93FA332CE333301D9AD40271F8107181340AEF25BE59D5 0x321EB4075348F534D59C18259DDA3E1F4A1B3B2E71B1039C67BD3D8BCF81998C) (Point.mk 0x34FF3BE4033F7A06696C3D09F7D1671CBCF55CD700535655647077456769A24E 0x5D9D11623A236C553F6619D89832098C55DF16C3E8F8B6818491067A73CC2F1A) :=
  scalarMultAux_step 250 0x23E289DB067D052595ACA018878D6333893D7D49509DC9A47B9A418EDD3C574 0x11F144ED833E8292CAD6500C43C6B199C49EBEA4A84EE4D23DCD20C76E9E2BA (Point.mk 0x352BBF4A4CDD12564F93FA332CE333301D9AD40271F8107181340AEF25BE59D5 0x321EB4075348F534D59C18259DDA3E1F4A1B3B2E71B1039C67BD3D8BCF81998C) (Point.mk 0xBF23C1542D16EAB70B1051EAF832823CFC4C6F1DCDBAFD81E37918E6F874EF8B 0x5CB3866FC33003737AD928A0BA5392E4C522FC54811E2F784DC37EFE66831D9F) (Point.mk 0x352BBF4A4CDD12564F93FA332CE333301D9AD40271F8107181340AEF25BE59D5 0x321EB4075348F534D59C18259DDA3E1F4A1B3B2E71B1039C67BD3D8BCF81998C) (Point.mk 0x34FF3BE4033F7A06696C3D09F7D1671CBCF55CD700535655647077456769A24E 0x5D9D11623A236C553F6619D89832098C55DF16C3E8F8B6818491067A73CC2F1A) (by decide) (by decide) (by decide) (by decide)

theorem smA7 : scalarMultAux 250 0x11F144ED833E8292CAD6500C43C6B199C49EBEA4A84EE4D23DCD20C76E9E2BA (Point.mk 0x352BBF4A4CDD12564F93FA332CE333301D9AD40271F8107181340AEF25BE59D5 0x321EB4075348F534D59C18259DDA3E1F4A1B3B2E71B1039C67BD3D8BCF81998C) (Point.mk 0x34FF3BE4033F7A06696C3D09F7D1671CBCF55CD700535655647077456769A24E 0x5D9D11623A236C553F6619D89832098C55DF16C3E8F8B6818491067A73CC2F1A) = scalarMultAux 249 0x8F8A276C19F4149656B280621E358CCE24F5F52542772691EE69063B74F15D (Point.mk 0x352BBF4A4CDD12564F93FA332CE333301D9AD40271F8107181340AEF25BE59D5 0x321EB4075348F534D59C18259DDA3E1F4A1B3B2E71B1039C67BD3D8BCF81998C) (Point.mk 0x8282263212C609D9EA2A6E3E172DE238D8C39CABD5AC1CA10646E23FD5F51508 0x11F8A8098557DFE45E8256E830B60ACE62D613AC2F7B17BED31B6EAFF6E26CAF) :=
  scalarMultAux_step 249 0x11F144ED833E8292CAD6500C43C6B199C49EBEA4A84EE4D23DCD20C76E9E2BA 0x8F8A276C19F4149656B280621E358CCE24F5F52542772691EE69063B74F15D (Point.mk 0x352BBF4A4CDD12564F93FA332CE333301D9AD40271F8107181340AEF25BE59D5 0x321EB4075348F534D59C18259DDA3E1F4A1B3B2E71B1039C67BD3D8BCF81998C) (Point.mk 0x34FF3BE4033F7A06696C3D09F7D1671CBCF55CD700535655647077456769A24E 0x5D9D11623A236C553F6619D89832098C55DF16C3E8F8B6818491067A73CC2F1A) (Point.mk 0x352BBF4A4CDD12564F93FA332CE333301D9AD40271F8107181340AEF25BE59D5 0x321EB4075348F534D59C18259DDA3E1F4A1B3B2E71B1039C67BD3D8BCF81998C) (Point.mk 0x8282263212C609D9EA2A6E3E172DE238D8C39CABD5AC1CA10646E23FD5F51508 0x11F8A8098557DFE45E8256E830B60ACE62D613AC2F7B17BED31B6EAFF6E26CAF) (by decide) (by decide) (by decide) (by decide)

theorem smA8 : scalarMultAux 249 0x8F8A276C19F4149656B280621E358CCE24F5F52542772691EE69063B74F15D (Point.mk 0x352BBF4A4CDD12564F93FA332CE333301D9AD40271F8107181340AEF25BE59D5 0x321EB4075348F534D59C18259DDA3E1F4A1B3B2E71B1039C67BD3D8BCF81998C) (Point.mk 0x8282263212C609D9EA2A6E3E172DE238D8C39CABD5AC1CA10646E23FD5F51508 0x11F8A8098557DFE45E8256E830B60ACE62D613AC2F7B17BED31B6EAFF6E26CAF) = scalarMultAux 248 0x47C513B60CFA0A4B2B5940310F1AC667127AFA92A13B9348F734831DBA78AE (Point.mk 0x20F18F4C866D8A1CC2A3103317B4AC3189FBF30FF294A75C951473BE45E4F294 0x8D6857C9D08EF7B4FD8883363D37BEE70FE8529F7173F58943FCAE81D2D0EA0E) (Point.mk 0x465370B287A79FF3905A857A9CF918D50ADBC968D9E159D0926E2C00EF34A24D 0x35E531B38368C082A4AF8BDAFDEEC2C1588E09B215D37A10A2F8FB20B33887F4) :=
  scalarMultAux_step 248 0x8F8A276C19F4149656B280621E358CCE24F5F52542772691EE69063B74F15D 0x47C513B60CFA0A4B2B5940310F1AC667127AFA92A13B9348F734831DBA78AE (Point.mk 0x352BBF4A4CDD12564F93FA332CE333301D9AD40271F8107181340AEF25BE59D5 0x321EB4075348F534D59C18259DDA3E1F4A1B3B2E71B1039C67BD3D8BCF81998C) (Point.mk 0x8282263212C609D9EA2A6E3E172DE238D8C39CABD5AC1CA10646E23FD5F51508 0x11F8A8098557DFE45E8256E830B60ACE62D613AC2F7B17BED31B6EAFF6E26CAF) (Point.mk 0x20F18F4C866D8A1CC2A3103317B4AC3189FBF30FF294A75C951473BE45E4F294 0x8D6857C9D08EF7B4FD8883363D37BEE70FE8529F7173F58943FCAE81D2D0EA0E) (Point.mk 0x465370B287A79FF3905A857A9CF918D50ADBC968D9E159D0926E2C00EF34A24D 0x35E531B38368C082A4AF8BDAFDEEC2C1588E09B215D37A10A2F8FB20B33887F4) (by decide) (by decide) (by decide) (by decide)

theorem smA9 : scalarMultAux 248 0x47C513B60CFA0A4B2B5940310F1AC667127AFA92A13B9348F734831DBA78AE (Point.mk 0x20F18F4C866D8A1CC2A3103317B4AC3189FBF30FF294A75C951473BE45E4F294 0x8D6857C9D08EF7B4FD8883363D37BEE70FE8529F7173F58943FCAE81D2D0EA0E) (Point.mk 0x465370B287A79FF3905A857A9CF918D50ADBC968D9E159D0926E2C00EF34A24D 0x35E531B38368C082A4AF8BDAFDEEC2C1588E09B215D37A10A2F8FB20B33887F4) = scalarMultAux 247 0x23E289DB067D052595ACA018878D6333893D7D49509DC9A47B9A418EDD3C57 (Point.mk 0x20F18F4C866D8A1CC2A3103317B4AC3189FBF30FF294A75C951473BE45E4F294 0x8D6857C9D08EF7B4FD8883363D37BEE70FE8529F7173F58943FCAE81D2D0EA0E) (Point.mk 0x241FEBB8E23CBD77D664A18F66AD6240AAEC6ECDC813B088D5B901B2E285131F 0x513378D9FF94F8D3D6C420BD13981DF8CD50FD0FBD0CB5AFABB3E66F2750026D) :=
  scalarMultAux_step 247 0x47C513B60CFA0A4B2B5940310F1AC667127AFA92A13B9348F734831DBA78AE 0x23E289DB067D052595ACA018878D6333893D7D49509DC9A47B9A418EDD3C57 (Point.mk 0x20F18F4C866D8A1CC2A3103317B4AC3189FBF30FF294A75C951473BE45E4F294 0x8D6857C9D08EF7B4FD8883363D37BEE70FE8529F7173F58943FCAE81D2D0EA0E) (Point.mk 0x465370B287A79FF3905A857A9CF918D50ADBC968D9E159D0926E2C00EF34A24D 0x35E531B38368C082A4AF8BDAFDEEC2C1588E09B215D37A10A2F8FB20B33887F4) (Point.mk 0x20F18F4C866D8A1CC2A3103317B4AC3189FBF30FF294A75C951473BE45E4F294 0x8D6857C9D08EF7B4FD8883363D37BEE70FE8529F7173F58943FCAE81D2D0EA0E) (Point.mk 0x241FEBB8E23CBD77D664A18F66AD6240AAEC6ECDC813B088D5B901B2E285131F 0x513378D9FF94F8D3D6C420BD13981DF8CD50FD0FBD0CB5AFABB3E66F2750026D) (by decide) (by decide) (by decide) (by decide)

theorem smA10 : scalarMultAux 247 0x23E289DB067D052595ACA018878D6333893D7D49509DC9A47B9A418EDD3C57 (Point.mk 0x20F18F4C866D8A1CC2A3103317B4AC3189FBF30FF294A75C951473BE45E4F294 0x8D6857C9D08EF7B4FD8883363D37BEE70FE8529F7173F58943FCAE81D2D0EA0E) (Point.mk 0x241FEBB8E23CBD77D664A18F66AD6240AAEC6ECDC813B088D5B901B2E285131F 0x513378D9FF94F8D3D6C420BD13981DF8CD50FD0FBD0CB5AFABB3E66F2750026D) = scalarMultAux 246 0x11F144ED833E8292CAD6500C43C6B199C49EBEA4A84EE4D23DCD20C76E9E2B (Point.mk 0x5E1653C0D640F148ECBB14F697940B0F1D47DCC948E7525A909E8444AFDEA823 0x9B8B81EDE7CB8350ECFAEF2292BDC5288E499CC96FEEDC86CD45CCCF4CB092C7) (Point.mk 0x5D1BDB4EA172FA79FCE4CC2983D8F8D9FC318B85F423DE0DEDCB63069B920471 0x2843826779379E2E794BB99438A2265679EB1E9996C56E7B70330666F7B83103) :=
  scalarMultAux_step 246 0x23E289DB067D052595ACA018878D6333893D7D49509DC9A47B9A418EDD3C57 0x11F144ED833E8292CAD6500C43C6B199C49EBEA4A84EE4D23DCD20C76E9E2B (Point.mk 0x20F18F4C866D8A1CC2A3103317B4AC3189FBF30FF294A75C951473BE45E4F294 0x8D6857C9D08EF7B4FD8883363D37BEE70FE8529F7173F58943FCAE81D2D0EA0E) (Point.mk 0x241FEBB8E23CBD77D664A18F66AD6240AAEC6ECDC813B088D5B901B2E285131F 0x513378D9FF94F8D3D6C420BD13981DF8CD50FD0FBD0CB5AFABB3E66F2750026D) (Point.mk 0x5E1653C0D640F148ECBB14F697940B0F1D47DCC948E7525A909E8444AFDEA823 0x9B8B81EDE7CB8350ECFAEF2292BDC5288E499CC96FEEDC86CD45CCCF4CB092C7) (Point.mk 0x5D1BDB4EA172FA79FCE4CC2983D8F8D9FC318B85F423DE0DEDCB63069B920471 0x2843826779379E2E794BB99438A2265679EB1E9996C56E7B70330666F7B83103) (by decide) (by decide) (by decide) (by decide)

theorem smA11 : scalarMultAux 246 0x11F144ED833E8292CAD6500C43C6B199C49EBEA4A84EE4D23DCD20C76E9E2B (Point.mk 0x5E1653C0D640F148ECBB14F697940B0F1D47DCC948E7525A909E8444AFDEA823 0x9B8B81EDE7CB8350ECFAEF2292BDC5288E499CC96FEEDC86CD45CCCF4CB092C7) (Point.mk 0x5D1BDB4EA172FA79FCE4CC2983D8F8D9FC318B85F423DE0DEDCB63069B920471 0x2843826779379E2E794BB99438A2265679EB1E9996C56E7B70330666F7B83103) = scalarMultAux 245 0x8F8A276C19F4149656B280621E358CCE24F5F52542772691EE69063B74F15 (Point.mk 0x39E06912E18B537BCE440F58545E9C6EA2914D85698D4043437DD66D7506B48D 0xD8F6EE1A197FC8C77A422067195BCB9CE27C59FFD98C8800D7BCC4F75FAB7C1F) (Point.mk 0x175E159F728B865A72F99CC6C6FC846DE0B93833FD2222ED73FCE5B551E5B739 0xD3506E0D9E3C79EBA4EF97A51FF71F5EACB5955ADD24345C6EFA6FFEE9FED695) :=
  scalarMultAux_step 245 0x11F144ED833E8292CAD6500C43C6B199C49EBEA4A84EE4D23DCD20C76E9E2B 0x8F8A276C19F4149656B280621E358CCE24F5F52542772691EE69063B74F15 (Point.mk 0x5E1653C0D640F148ECBB14F697940B0F1D47DCC948E7525A909E8444AFDEA823 0x9B8B81EDE7CB8350ECFAEF2292BDC5288E499CC96FEEDC86CD45CCCF4CB092C7) (Point.mk 0x5D1BDB4EA172FA79FCE4CC2983D8F8D9FC318B85F423DE0DEDCB63069B920471 0x2843826779379E2E794BB99438A2265679EB1E9996C56E7B70330666F7B83103) (Point.mk 0x39E06912E18B537BCE440F58545E9C6EA2914D85698D4043437DD66D7506B48D 0xD8F6EE1A197FC8C77A422067195BCB9CE27C59FFD98C8800D7BCC4F75FAB7C1F) (Point.mk 0x175E159F728B865A72F99CC6C6FC846DE0B93833FD2222ED73FCE5B551E5B739 0xD3506E0D9E3C79EBA4EF97A51FF71F5EACB5955ADD24345C6EFA6FFEE9FED695) (by decide) (by decide) (by decide) (by decide)

theorem smA12 : scalarMultAux 245 0x8F8A276C19F4149656B280621E358CCE24F5F52542772691EE69063B74F15 (Point.mk 0x39E06912E18B537BCE440F58545E9C6EA2914D85698D4043437DD66D7506B48D 0xD8F6EE1A197FC8C77A422067195BCB9CE27C59FFD98C8800D7BCC4F75FAB7C1F) (Point.mk 0x175E159F728B865A72F99CC6C6FC846DE0B93833FD2222ED73FCE5B551E5B739 0xD3506E0D9E3C79EBA4EF97A51FF71F5EACB5955ADD24345C6EFA6FFEE9FED695) = scalarMultAux 244 0x47C513B60CFA0A4B2B5940310F1AC667127AFA92A13B9348F734831DBA78A (Point.mk 0x8CE9D9A93128A3D6C263F041ACA2C784355ED883662E269F0AD9247CB004FD4E 0x8BAD16679888263302F945E1AC71AFBEE992A088EF76247A61D81656E975874E) (Point.mk 0x423A013F03FF32D7A5FFBCC8E139C62130FDFEB5C6DA121BCE78049E46BC47D6 0xB91AE00FE1E1D970A1179F7BBAF6B3C7720D8EC3524F009ED1236E6D8B548A34) :=
  scalarMultAux_step 244 0x8F8A276C19F4149656B280621E358CCE24F5F52542772691EE69063B74F15 0x47C513B60CFA0A4B2B5940310F1AC667127AFA92A13B9348F734831DBA78A (Point.mk 0x39E06912E18B537BCE440F58545E9C6EA2914D85698D4043437DD66D7506B48D 0xD8F6EE1A197FC8C77A422067195BCB9CE27C59FFD98C8800D7BCC4F75FAB7C1F) (Point.mk 0x175E159F728B865A72F99CC6C6FC846DE0B93833FD2222ED73FCE5B551E5B739 0xD3506E0D9E3C79EBA4EF97A51FF71F5EACB5955ADD24345C6EFA6FFEE9FED695) (Point.mk 0x8CE9D9A93128A3D6C263F041ACA2C784355ED883662E269F0AD9247CB004FD4E 0x8BAD16679888263302F945E1AC71AFBEE992A088EF76247A61D81656E975874E) (Point.mk 0x423A013F03FF32D7A5FFBCC8E139C62130FDFEB5C6DA121BCE78049E46BC47D6 0xB91AE00FE1E1D970A1179F7BBAF6B3C7720D8EC3524F009ED1236E6D8B548A34) (by decide) (by decide) (by decide) (by decide)

theorem smA13 : scalarMultAux 244 0x47C513B60CFA0A4B2B5940310F1AC667127AFA92A13B9348F734831DBA78A (Point.mk 0x8CE9D9A93128A3D6C263F041ACA2C784355ED883662E269F0AD9247CB004FD4E 0x8BAD16679888263302F945E1AC71AFBEE992A088EF76247A61D81656E975874E) (Point.mk 0x423A013F03FF32D7A5FFBCC8E139C62130FDFEB5C6DA121BCE78049E46BC47D6 0xB91AE00FE1E1D970A1179F7BBAF6B3C7720D8EC3524F009ED1236E6D8B548A34) = scalarMultAux 243 0x23E289DB067D052595ACA018878D6333893D7D49509DC9A47B9A418EDD3C5 (Point.mk 0x8CE9D9A93128A3D6C263F041ACA2C784355ED883662E269F0AD9247CB004FD4E 0x8BAD16679888263302F945E1AC71AFBEE992A088EF76247A61D81656E975874E) (Point.mk 0x111D6A45AC1FB90508907A7ABCD6877649DF662F3B3E2741302DF6F78416824A 0x0696911C478EAFFBB90D48DBFF065952F070008996DACA4CA9A111D42108E9D0) :=
  scalarMultAux_step 243 0x47C513B60CFA0A4B2B5940310F1AC667127AFA92A13B9348F734831DBA78A 0x23E289DB067D052595ACA018878D6333893D7D49509DC9A47B9A418EDD3C5 (Point.mk 0x8CE9D9A93128A3D6C263F041ACA2C784355ED883662E269F0AD9247CB004FD4E 0x8BAD16679888263302F945E1AC71AFBEE992A088EF76247A61D81656E975874E) (Point.mk 0x423A013F03FF32D7A5FFBCC8E139C62130FDFEB5C6DA121BCE78049E46BC47D6 0xB91AE00FE1E1D970A1179F7BBAF6B3C7720D8EC3524F009ED1236E6D8B548A34) (Point.mk 0x8CE9D9A93128A3D6C263F041ACA2C784355ED883662E269F0AD9247CB004FD4E 0x8BAD16679888263302F945E1AC71AFBEE992A088EF76247A61D81656E975874E) (Point.mk 0x111D6A45AC1FB90508907A7ABCD6877649DF662F3B3E2741302DF6F78416824A 0x0696911C478EAFFBB90D48DBFF065952F070008996DACA4CA9A111D42108E9D0) (by decide) (by decide) (by decide) (by decide)

theorem smA14 : scalarMultAux 243 0x23E289DB067D052595ACA018878D6333893D7D49509DC9A47B9A418EDD3C5 (Point.mk 0x8CE9D9A93128A3D6C263F041ACA2C784355ED883662E269F0AD9247CB004FD4E 0x8BAD16679888263302F945E1AC71AFBEE992A088EF76247A61D81656E975874E) (Point.mk 0x111D6A45AC1FB90508907A7ABCD6877649DF662F3B3E2741302DF6F78416824A 0x0696911C478EAFFBB90D48DBFF065952F070008996DACA4CA9A111D42108E9D0) = scalarMultAux 242 0x11F144ED833E8292CAD6500C43C6B199C49EBEA4A84EE4D23DCD20C76E9E2 (Point.mk 0x1BBBFB37D168645BFEE0F58E72566C7CCDE2CF49DB8D0D3DEBE31CF6483293B1 0x863E621BDF3043A2EB09B057C56792CD99B40BEE9C7A4219DC50B16F186DD2AA) (Point.mk 0x4A4A6DC97AC7C8B8AD795DBEBCB9DCFF7290B68A5EF74E56AB5EDDE01BCED775 0x529911B016631E72943EF9F739C0F4571DE90CDB424742ACB2BF8F68A78DD66D) :=
  scalarMultAux_step 242 0x23E289DB067D052595ACA018878D6333893D7D49509DC9A47B9A418EDD3C5 0x11F144ED833E8292CAD6500C43C6B199C49EBEA4A84EE4D23DCD20C76E9E2 (Point.mk 0x8CE9D9A93128A3D6C263F041ACA2C784355ED883662E269F0AD9247CB004FD4E 0x8BAD16679888263302F945E1AC71AFBEE992A088EF76247A61D81656E975874E) (Point.mk 0x111D6A45AC1FB90508907A7ABCD6877649DF662F3B3E2741302DF6F78416824A 0x0696911C478EAFFBB90D48DBFF065952F070008996DACA4CA9A111D42108E9D0) (Point.mk 0x1BBBFB37D168645BFEE0F58E72566C7CCDE2CF49DB8D0D3DEBE31CF6483293B1 0x863E621BDF3043A2EB09B057C56792CD99B40BEE9C7A4219DC50B16F186DD2AA) (Point.mk 0x4A4A6DC97AC7C8B8AD795DBEBCB9DCFF7290B68A5EF74E56AB5EDDE01BCED775 0x529911B016631E72943EF9F739C0F4571DE90CDB424742ACB2BF8F68A78DD66D) (by decide) (by decide) (by decide) (by decide)

theorem smA15 : scalarMultAux 242 0x11F144ED833E8292CAD6500C43C6B199C49EBEA4A84EE4D23DCD20C76E9E2 (Point.mk 0x1BBBFB37D168645BFEE0F58E72566C7CCDE2CF49DB8D0D3DEBE31CF6483293B1 0x863E621BDF3043A2EB09B057C56792CD99B40BEE9C7A4219DC50B16F186DD2AA) (Point.mk 0x4A4A6DC97AC7C8B8AD795DBEBCB9DCFF7290B68A5EF74E56AB5EDDE01BCED775 0x529911B016631E72943EF9F739C0F4571DE90CDB424742ACB2BF8F68A78DD66D) = scalarMultAux 241 0x8F8A276C19F4149656B280621E358CCE24F5F52542772691EE69063B74F1 (Point.mk 0x1BBBFB37D168645BFEE0F58E72566C7CCDE2CF49DB8D0D3DEBE31CF6483293B1 0x863E621BDF3043A2EB09B057C56792CD99B40BEE9C7A4219DC50B16F186DD2AA) (Point.mk 0x363D90D447B00C9C99CEAC05B6262EE053441C7E55552FFE526BAD8F83FF4640 0x04E273ADFC732221953B445397F3363145B9A89008199ECB62003C7F3BEE9DE9) :=
  scalarMultAux_step 241 0x11F144ED833E8292CAD6500C43C6B199C49EBEA4A84EE4D23DCD20C76E9E2 0x8F8A276C19F4149656B280621E358CCE24F5F52542772691EE69063B74F1 (Point.mk 0x1BBBFB37D168645BFEE0F58E72566C7CCDE2CF49DB8D0D3DEBE31CF6483293B1 0x863E621BDF3043A2EB09B057C56792CD99B40BEE9C7A4219DC50B16F186DD2AA) (Point.mk 0x4A4A6DC97AC7C8B8AD795DBEBCB9DCFF7290B68A5EF74E56AB5EDDE01BCED775 0x529911B016631E72943EF9F739C0F4571DE90CDB424742ACB2BF8F68A78DD66D) (Point.mk 0x1BBBFB37D168645BFEE0F58E72566C7CCDE2CF49DB8D0D3DEBE31CF6483293B1 0x863E621BDF3043A2EB09B057C56792CD99B40BEE9C7A4219DC50B16F186DD2AA) (Point.mk 0x363D90D447B00C9C99CEAC05B6262EE053441C7E55552FFE526BAD8F83FF4640 0x04E273ADFC732221953B445397F3363145B9A89008199ECB62003C7F3BEE9DE9) (by decide) (by decide) (by decide) (by decide)

theorem smA16 : scalarMultAux 241 0x8F8A276C19F4149656B280621E358CCE24F5F52542772691EE69063B74F1 (Point.mk 0x1BBBFB37D168645BFEE0F58E72566C7CCDE2CF49DB8D0D3DEBE31CF6483293B1 0x863E621BDF3043A2EB09B057C56792CD99B40BEE9C7A4219DC50B16F186DD2AA) (Point.mk 0x363D90D447B00C9C99CEAC05B6262EE053441C7E55552FFE526BAD8F83FF4640 0x04E273ADFC732221953B445397F3363145B9A89008199ECB62003C7F3BEE9DE9) = scalarMultAux 240 0x47C513B60CFA0A4B2B5940310F1AC667127AFA92A13B9348F734831DBA78 (Point.mk 0x6258DC3D922868A1C5D318D364CA7BEF919D03854B74E26A2346881721500B19 0x7311A690B1F5B84B58AA834E4E42027976136C25F9FB43C81F2B437022CD4DCE) (Point.mk 0x4C1B9866ED9A7E9B553973C6C93B02BF0B62FB012EDFB59DD2712A5CAF92C541 0xC1F792D320BE8A0F7FBCB753CE56E69CC652EAD7E43EB1AD72C4F3FDC68FE020) :=
  scalarMultAux_step 240 0x8F8A276C19F4149656B280621E358CCE24F5F52542772691EE69063B74F1 0x47C513B60CFA0A4B2B5940310F1AC667127AFA92A13B9348F734831DBA78 (Point.mk 0x1BBBFB37D168645BFEE0F58E72566C7CCDE2CF49DB8D0D3DEBE31CF6483293B1 0x863E621BDF3043A2EB09B057C56792CD99B40BEE9C7A4219DC50B16F186DD2AA) (Point.mk 0x363D90D447B00C9C99CEAC05B6262EE053441C7E55552FFE526BAD8F83FF4640 0x04E273ADFC732221953B445397F3363145B9A89008199ECB62003C7F3BEE9DE9) (Point.mk 0x6258DC3D922868A1C5D318D364CA7BEF919D03854B74E26A2346881721500B19 0x7311A690B1F5B84B58AA834E4E42027976136C25F9FB43C81F2B437022CD4DCE) (Point.mk 0x4C1B9866ED9A7E9B553973C6C93B02BF0B62FB012EDFB59DD2712A5CAF92C541 0xC1F792D320BE8A0F7FBCB753CE56E69CC652EAD7E43EB1AD72C4F3FDC68FE020) (by decide) (by decide) (by decide) (by decide)

theorem smA17 : scalarMultAux 240 0x47C513B60CFA0A4B2B5940310F1AC667127AFA92A13B9348F734831DBA78 (Point.mk 0x6258DC3D922868A1C5D318D364CA7BEF919D03854B74E26A2346881721500B19 0x7311A690B1F5B84B58AA834E4E42027976136C25F9FB43C81F2B437022CD4DCE) (Point.mk 0x4C1B9866ED9A7E9B553973C6C93B02BF0B62FB012EDFB59DD2712A5CAF92C541 0xC1F792D320BE8A0F7FBCB753CE56E69CC652EAD7E43EB1AD72C4F3FDC68FE020) = scalarMultAux 239 0x23E289DB067D052595ACA018878D6333893D7D49509DC9A47B9A418EDD3C (Point.mk 0x6258DC3D922868A1C5D318D364CA7BEF919D03854B74E26A2346881721500B19 0x7311A690B1F5B84B58AA834E4E42027976136C25F9FB43C81F2B437022CD4DCE) (Point.mk 0xA4083877BA83B12B529A2F3C0780B54E3233EDBC1A28F135E0C8F28CBEAAF3D1 0x40E9F612FEEFBC79B8BF83D69361B3E22001E7576ED1EF90B12B534DF0B254B9) :=
  scalarMultAux_step 239 0x47C513B60CFA0A4B2B5940310F1AC667127AFA92A13B9348F734831DBA78 0x23E289DB067D052595ACA018878D6333893D7D49509DC9A47B9A418EDD3C (Point.mk 0x6258DC3D922868A1C5D318D364CA7BEF919D03854B74E26A2346881721500B19 0x7311A690B1F5B84B58AA834E4E42027976136C25F9FB43C81F2B437022CD4DCE) (Point.mk 0x4C1B9866ED9A7E9B553973C6C93B02BF0B62FB012EDFB59DD2712A5CAF92C541 0xC1F792D320BE8A0F7FBCB753CE56E69CC652EAD7E43EB1AD72C4F3FDC68FE020) (Point.mk 0x6258DC3D922868A1C5D318D364CA7BEF919D03854B74E26A2346881721500B19 0x7311A690B1F5B84B58AA834E4E42027976136C25F9FB43C81F2B437022CD4DCE) (Point.mk 0xA4083877BA83B12B529A2F3C0780B54E3233EDBC1A28F135E0C8F28CBEAAF3D1 0x40E9F612FEEFBC79B8BF83D69361B3E22001E7576ED1EF90B12B534DF0B254B9) (by decide) (by decide) (by decide) (by decide)

theorem smA18 : scalarMultAux 239 0x23E289DB067D052595ACA018878D6333893D7D49509DC9A47B9A418EDD3C (Point.mk 0x6258DC3D922868A1C5D318D364CA7BEF919D03854B74E26A2346881721500B19 0x7311A690B1F5B84B58AA834E4E42027976136C25F9FB43C81F2B437022CD4DCE) (Point.mk 0xA4083877BA83B12B529A2F3C0780B54E3233EDBC1A28F135E0C8F28CBEAAF3D1 0x40E9F612FEEFBC79B8BF83D69361B3E22001E7576ED1EF90B12B534DF0B254B9) = scalarMultAux 238 0x11F144ED833E8292CAD6500C43C6B199C49EBEA4A84EE4D23DCD20C76E9E (Point.mk 0x6258DC3D922868A1C5D318D364CA7BEF919D03854B74E26A2346881721500B19 0x7311A690B1F5B84B58AA834E4E42027976136C25F9FB43C81F2B437022CD4DCE) (Point.mk 0xA804C641D28CC0B53A4E3E1A2F56C86F6E0D880A454203B98CD3DB5A7940D33A 0x95BE83252B2FA6D03DEC2842C16047E81AF18CA89CF736A943CE95FA6D46967A) :=
  scalarMultAux_step 238 0x23E289DB067D052595ACA018878D6333893D7D49509DC9A47B9A418EDD3C 0x11F144ED833E8292CAD6500C43C6B199C49EBEA4A84EE4D23DCD20C76E9E (Point.mk 0x6258DC3D922868A1C5D318D364CA7BEF919D03854B74E26A2346881721500B19 0x7311A690B1F5B84B58AA834E4E42027976136C25F9FB43C81F2B437022CD4DCE) (Point.mk 0xA4083877BA83B12B529A2F3C0780B54E3233EDBC1A28F135E0C8F28CBEAAF3D1 0x40E9F612FEEFBC79B8BF83D69361B3E22001E7576ED1EF90B12B534DF0B254B9) (Point.mk 0x6258DC3D922868A1C5D318D364CA7BEF919D03854B74E26A2346881721500B19 0x7311A690B1F5B84B58AA834E4E42027976136C25F9FB43C81F2B437022CD4DCE) (Point.mk 0xA804C641D28CC0B53A4E3E1A2F56C86F6E0D880A454203B98CD3DB5A7940D33A 0x95BE83252B2FA6D03DEC2842C16047E81AF18CA89CF736A943CE95FA6D46967A) (by decide) (by decide) (by decide) (by decide)

theorem smA19 : scalarMultAux 238 0x11F144ED833E8292CAD6500C43C6B199C49EBEA4A84EE4D23DCD20C76E9E (Point.mk 0x6258DC3D922868A1C5D318D364CA7BEF919D03854B74E26A2346881721500B19 0x7311A690B1F5B84B58AA834E4E42027976136C25F9FB43C81F2B437022CD4DCE) (Point.mk 0xA804C641D28CC0B53A4E3E1A2F56C86F6E0D880A454203B98CD3DB5A7940D33A 0x95BE83252B2FA6D03DEC2842C16047E81AF18CA89CF736A943CE95FA6D46967A) = scalarMultAux 237 0x8F8A276C19F4149656B280621E358CCE24F5F52542772691EE69063B74F (Point.mk 0x6258DC3D922868A1C5D318D364CA7BEF919D03854B74E26A2346881721500B19 0x7311A690B1F5B84B58AA834E4E42027976136C25F9FB43C81F2B437022CD4DCE) (Point.mk 0x8B4B5F165DF3C2BE8C6244B5B745638843E4A781A15BCD1B69F79A55DFFDF80C 0x4AAD0A6F68D308B4B3FBD7813AB0DA04F9E336546162EE56B3EFF0C65FD4FD36) :=
  scalarMultAux_step 237 0x11F144ED833E8292CAD6500C43C6B199C49EBEA4A84EE4D23DCD20C76E9E 0x8F8A276C19F4149656B280621E358CCE24F5F52542772691EE69063B74F (Point.mk 0x6258DC3D922868A1C5D318D364CA7BEF919D03854B74E26A2346881721500B19 0x7311A690B1F5B84B58AA834E4E42027976136C25F9FB43C81F2B437022CD4DCE) (Point.mk 0xA804C641D28CC0B53A4E3E1A2F56C86F6E0D880A454203B98CD3DB5A7940D33A 0x95BE83252B2FA6D03DEC2842C16047E81AF18CA89CF736A943CE95FA6D46967A) (Point.mk 0x6258DC3D922868A1C5D318D364CA7BEF919D03854B74E26A2346881721500B19 0x7311A690B1F5B84B58AA834E4E42027976136C25F9FB43C81F2B437022CD4DCE) (Point.mk 0x8B4B5F165DF3C2BE8C6244B5B745638843E4A781A15BCD1B69F79A55DFFDF80C 0x4AAD0A6F68D308B4B3FBD7813AB0DA04F9E336546162EE56B3EFF0C65FD4FD36) (by decide) (by decide) (by decide) (by decide)

theorem smA20 : scalarMultAux 237 0x8F8A276C19F4149656B280621E358CCE24F5F52542772691EE69063B74F (Point.mk 0x6258DC3D922868A1C5D318D364CA7BEF919D03854B74E26A2346881721500B19 0x7311A690B1F5B84B58AA834E4E42027976136C25F9FB43C81F2B437022CD4DCE) (Point.mk 0x8B4B5F165DF3C2BE8C6244B5B745638843E4A781A15BCD1B69F79A55DFFDF80C 0x4AAD0A6F68D308B4B3FBD7813AB0DA04F9E336546162EE56B3EFF0C65FD4FD36) = scalarMultAux 236 0x47C513B60CFA0A4B2B5940310F1AC667127AFA92A13B9348F734831DBA7 (Point.mk 0x4A7724B9F2A718B8BFD3E81C4A3D2CCAFD00A7047AAF6A64EDF3776AF1ACA47C 0x277AFCA7A36098B7D977F2FFE25A14CFE34DB8C99FD4D0B6980E36DFFB3E2F2A) (Point.mk 0xED0C5CE4E13291718CE17C7EC83C611071AF64EE417C997ABB3F26714755E4BE 0x221A9FC7BC2345BDBF3DAD7F5A7EA68049D93925763DDAB163F9FA6EA07BF42F) :=
  scalarMultAux_step 236 0x8F8A276C19F4149656B280621E358CCE24F5F52542772691EE69063B74F 0x47C513B60CFA0A4B2B5940310F1AC667127AFA92A13B9348F734831DBA7 (Point.mk 0x6258DC3D922868A1C5D318D364CA7BEF919D03854B74E26A2346881721500B19 0x7311A690B1F5B84B58AA834E4E42027976136C25F9FB43C81F2B437022CD4DCE) (Point.mk 0x8B4B5F165DF3C2BE8C6244B5B745638843E4A781A15BCD1B69F79A55DFFDF80C 0x4AAD0A6F68D308B4B3FBD7813AB0DA04F9E336546162EE56B3EFF0C65FD4FD36) (Point.mk 0x4A7724B9F2A718B8BFD3E81C4A3D2CCAFD00A7047AAF6A64EDF3776AF1ACA47C 0x277AFCA7A36098B7D977F2FFE25A14CFE34DB8C99FD4D0B6980E36DFFB3E2F2A) (Point.mk 0xED0C5CE4E13291718CE17C7EC83C611071AF64EE417C997ABB3F26714755E4BE 0x221A9FC7BC2345BDBF3DAD7F5A7EA68049D93925763DDAB163F9FA6EA07BF42F) (by decide) (by decide) (by decide) (by decide)

theorem smA21 : scalarMultAux 236 0x47C513B60CFA0A4B2B5940310F1AC667127AFA92A13B9348F734831DBA7 (Point.mk 0x4A7724B9F2A718B8BFD3E81C4A3D2CCAFD00A7047AAF6A64EDF3776AF1ACA47C 0x277AFCA7A36098B7D977F2FFE25A14CFE34DB8C99FD4D0B6980E36DFFB3E2F2A) (Point.mk 0xED0C5CE4E13291718CE17C7EC83C611071AF64EE417C997ABB3F26714755E4BE 0x221A9FC7BC2345BDBF3DAD7F5A7EA68049D93925763DDAB163F9FA6EA07BF42F) = scalarMultAux 235 0x23E289DB067D052595ACA018878D6333893D7D49509DC9A47B9A418EDD3 (Point.mk 0xA6A19519F7BDF259488890645F908C8E6CFD4FF65BEE7C853FEAD475B5647532 0xAD9C906848E2CEF0B0AC28E4ACDDB783093712AD8A2C77BDB988442A93E33479) (Point.mk 0xFAECB013C44CE694B3B15C3F83F1FAE8E53254566E0552CED4B6E6C807CEC8AB 0xCC09B5E90E9ECB57FC2E02C6EC2FB13D9C32B286B85E2E2E8981DFD9AB155070) :=
  scalarMultAux_step 235 0x47C513B60CFA0A4B2B5940310F1AC667127AFA92A13B9348F734831DBA7 0x23E289DB067D052595ACA018878D6333893D7D49509DC9A47B9A418EDD3 (Point.mk 0x4A7724B9F2A718B8BFD3E81C4A3D2CCAFD00A7047AAF6A64EDF3776AF1ACA47C 0x277AFCA7A36098B7D977F2FFE25A14CFE34DB8C99FD4D0B6980E36DFFB3E2F2A) (Point.mk 0xED0C5CE4E13291718CE17C7EC83C611071AF64EE417C997ABB3F26714755E4BE 0x221A9FC7BC2345BDBF3DAD7F5A7EA68049D93925763DDAB163F9FA6EA07BF42F) (Point.mk 0xA6A19519F7BDF259488890645F908C8E6CFD4FF65BEE7C853FEAD475B5647532 0xAD9C906848E2CEF0B0AC28E4ACDDB783093712AD8A2C77BDB988442A93E33479) (Point.mk 0xFAECB013C44CE694B3B15C3F83F1FAE8E53254566E0552CED4B6E6C807CEC8AB 0xCC09B5E90E9ECB57FC2E02C6EC2FB13D9C32B286B85E2E2E8981DFD9AB155070) (by decide) (by decide) (by decide) (by decide)

theorem smA22 : scalarMultAux 235 0x23E289DB067D052595ACA018878D6333893D7D49509DC9A47B9A418EDD3 (Point.mk 0xA6A19519F7BDF259488890645F908C8E6CFD4FF65BEE7C853FEAD475B5647532 0xAD9C906848E2CEF0B0AC28E4ACDDB783093712AD8A2C77BDB988442A93E33479) (Point.mk 0xFAECB013C44CE694B3B15C3F83F1FAE8E53254566E0552CED4B6E6C807CEC8AB 0xCC09B5E90E9ECB57FC2E02C6EC2FB13D9C32B286B85E2E2E8981DFD9AB155070) = scalarMultAux 234 0x11F144ED833E8292CAD6500C43C6B199C49EBEA4A84EE4D23DCD20C76E9 (Point.mk 0x4BD7BD3F5AFB7BE52914F4C8E845194D3CC277903E112D1091C7261914E08855 0x48A62BF4A8BE778B51B7E6CACD64641D7AD37DDB44D72F58D5EDF7F611906278) (Point.mk 0x09BB8A132DCAD2F2C8731A0B37CBCAFDB3B2DD824F23CD3E07F64EAE9AD1B1F7 0x945BB2B2AFEEE3B9B6F9DD284F863E850F54A840F4752D5364130627C3811C80) :=
  scalarMultAux_step 234 0x23E289DB067D052595ACA018878D6333893D7D49509DC9A47B9A418EDD3 0x11F144ED833E8292CAD6500C43C6B199C49EBEA4A84EE4D23DCD20C76E9 (Point.mk 0xA6A19519F7BDF259488890645F908C8E6CFD4FF65BEE7C853FEAD475B5647532 0xAD9C906848E2CEF0B0AC28E4ACDDB783093712AD8A2C77BDB988442A93E33479) (Point.mk 0xFAECB013C44CE694B3B15C3F83F1FAE8E53254566E0552CED4B6E6C807CEC8AB 0xCC09B5E90E9ECB57FC2E02C6EC2FB13D9C32B286B85E2E2E8981DFD9AB155070) (Point.mk 0x4BD7BD3F5AFB7BE52914F4C8E845194D3CC277903E112D1091C7261914E08855 0x48A62BF4A8BE778B51B7E6CACD64641D7AD37DDB44D72F58D5EDF7F611906278) (Point.mk 0x09BB8A132DCAD2F2C8731A0B37CBCAFDB3B2DD824F23CD3E07F64EAE9AD1B1F7 0x945BB2B2AFEEE3B9B6F9DD284F863E850F54A840F4752D5364130627C3811C80) (by decide) (by decide) (by decide) (by decide)

theorem smA23 : scalarMultAux 234 0x11F144ED833E8292CAD6500C43C6B199C49EBEA4A84EE4D23DCD20C76E9 (Point.mk 0x4BD7BD3F5AFB7BE52914F4C8E845194D3CC277903E112D1091C7261914E08855 0x48A62BF4A8BE778B51B7E6CACD64641D7AD37DDB44D72F58D5EDF7F611906278) (Point.mk 0x09BB8A132DCAD2F2C8731A0B37CBCAFDB3B2DD824F23CD3E07F64EAE9AD1B1F7 0x945BB2B2AFEEE3B9B6F9DD284F863E850F54A840F4752D5364130627C3811C80) = scalarMultAux 233 0x8F8A276C19F4149656B280621E358CCE24F5F52542772691EE69063B74 (Point.mk 0xE14B95F7F911B08C09F9639C1FB6B98E0DC6A02194BB478FD6B986F741213077 0x475D0296E1698898A6C328B2195411E3B50462D1A709CCBDBEC8F4360778921D) (Point.mk 0x723CBAA6E5DB996D6BF771C00BD548C7B700DBFFA6C0E77BCB6115925232FCDA 0x96E867B5595CC498A921137488824D6E2660A0653779494801DC069D9EB39F5F) :=
  scalarMultAux_step 233 0x11F144ED833E8292CAD6500C43C6B199C49EBEA4A84EE4D23DCD20C76E9 0x8F8A276C19F4149656B280621E358CCE24F5F52542772691EE69063B74 (Point.mk 0x4BD7BD3F5AFB7BE52914F4C8E845194D3CC277903E112D1091C7261914E08855 0x48A62BF4A8BE778B51B7E6CACD64641D7AD37DDB44D72F58D5EDF7F611906278) (Point.mk 0x09BB8A132DCAD2F2C8731A0B37CBCAFDB3B2DD824F23CD3E07F64EAE9AD1B1F7 0x945BB2B2AFEEE3B9B6F9DD284F863E850F54A840F4752D5364130627C3811C80) (Point.mk 0xE14B95F7F911B08C09F9639C1FB6B98E0DC6A02194BB478FD6B986F741213077 0x475D0296E1698898A6C328B2195411E3B50462D1A709CCBDBEC8F4360778921D) (Point.mk 0x723CBAA6E5DB996D6BF771C00BD548C7B700DBFFA6C0E77BCB6115925232FCDA 0x96E867B5595CC498A921137488824D6E2660A0653779494801DC069D9EB39F5F) (by decide) (by decide) (by decide) (by decide)

theorem smA24 : scalarMultAux 233 0x8F8A276C19F4149656B280621E358CCE24F5F52542772691EE69063B74 (Point.mk 0xE14B95F7F911B08C09F9639C1FB6B98E0DC6A02194BB478FD6B986F741213077 0x475D0296E1698898A6C328B2195411E3B50462D1A709CCBDBEC8F4360778921D) (Point.mk 0x723CBAA6E5DB996D6BF771C00BD548C7B700DBFFA6C0E77BCB6115925232FCDA 0x96E867B5595CC498A921137488824D6E2660A0653779494801DC069D9EB39F5F) = scalarMultAux 232 0x47C513B60CFA0A4B2B5940310F1AC667127AFA92A13B9348F734831DBA (Point.mk 0xE14B95F7F911B08C09F9639C1FB6B98E0DC6A02194BB478FD6B986F741213077 0x475D0296E1698898A6C328B2195411E3B50462D1A709CCBDBEC8F4360778921D) (Point.mk 0x57EFA786437B744D343D7DC45773A3C62D240A43079849071FD383D60CA030D5 0xD712DB0BD1B48518893627C928DE03EC689B6D2AE5E9974AB07AB44274B02F9E) :=
  scalarMultAux_step 232 0x8F8A276C19F4149656B280621E358CCE24F5F52542772691EE69063B74 0x47C513B60CFA0A4B2B5940310F1AC667127AFA92A13B9348F734831DBA (Point.mk 0xE14B95F7F911B08C09F9639C1FB6B98E0DC6A02194BB478FD6B986F741213077 0x475D0296E1698898A6C328B2195411E3B50462D1A709CCBDBEC8F4360778921D) (Point.mk 0x723CBAA6E5DB996D6BF771C00BD548C7B700DBFFA6C0E77BCB6115925232FCDA 0x96E867B5595CC498A921137488824D6E2660A0653779494801DC069D9EB39F5F) (Point.mk 0xE14B95F7F911B08C09F9639C1FB6B98E0DC6A02194BB478FD6B986F741213077 0x475D0296E1698898A6C328B2195411E3B50462D1A709CCBDBEC8F4360778921D) (Point.mk 0x57EFA786437B744D343D7DC45773A3C62D240A43079849071FD383D60CA030D5 0xD712DB0BD1B48518893627C928DE03EC689B6D2AE5E9974AB07AB44274B02F9E) (by decide) (by decide) (by decide) (by decide)

theorem smA25 : scalarMultAux 232 0x47C513B60CFA0A4B2B5940310F1AC667127AFA92A13B9348F734831DBA (Point.mk 0xE14B95F7F911B08C09F9639C1FB6B98E0DC6A02194BB478FD6B986F741213077 0x475D0296E1698898A6C328B2195411E3B50462D1A709CCBDBEC8F4360778921D) (Point.mk 0x57EFA786437B744D343D7DC45773A3C62D240A43079849071FD383D60CA030D5 0xD712DB0BD1B48518893627C928DE03EC689B6D2AE5E9974AB07AB44274B02F9E) = scalarMultAux 231 0x23E289DB067D052595ACA018878D6333893D7D49509DC9A47B9A418EDD (Point.mk 0xE14B95F7F911B08C09F9639C1FB6B98E0DC6A02194BB478FD6B986F741213077 0x475D0296E1698898A6C328B2195411E3B50462D1A709CCBDBEC8F4360778921D) (Point.mk 0x264BBD436A28BC42A2DF7E9CD5226CB91080577E327B012A7FAFC7770C584DD5 0xD87C6FA94EE093B4D4F75CE24C33BE226A118243717B8D8DE61227937704AB11) :=
  scalarMultAux_step 231 0x47C513B60CFA0A4B2B5940310F1AC667127AFA92A13B9348F734831DBA 0x23E289DB067D052595ACA018878D6333893D7D49509DC9A47B9A418EDD (Point.mk 0xE14B95F7F911B08C09F9639C1FB6B98E0DC6A02194BB478FD6B986F741213077 0x475D0296E1698898A6C328B2195411E3B50462D1A709CCBDBEC8F4360778921D) (Point.mk 0x57EFA786437B744D343D7DC45773A3C62D240A43079849071FD383D60CA030D5 0xD712DB0BD1B48518893627C928DE03EC689B6D2AE5E9974AB07AB44274B02F9E) (Point.mk 0xE14B95F7F911B08C09F9639C1FB6B98E0DC6A02194BB478FD6B986F741213077 0x475D0296E1698898A6C328B2195411E3B50462D1A709CCBDBEC8F4360778921D) (Point.mk 0x264BBD436A28BC42A2DF7E9CD5226CB91080577E327B012A7FAFC7770C584DD5 0xD87C6FA94EE093B4D4F75CE24C33BE226A118243717B8D8DE61227937704AB11) (by decide) (by decide) (by decide) (by decide)

theorem smA26 : scalarMultAux 231 0x23E289DB067D052595ACA018878D6333893D7D49509DC9A47B9A418EDD (Point.mk 0xE14B95F7F911B08C09F9639C1FB6B98E0DC6A02194BB478FD6B986F741213077 0x475D0296E1698898A6C328B2195411E3B50462D1A709CCBDBEC8F4360778921D) (Point.mk 0x264BBD436A28BC42A2DF7E9CD5226CB91080577E327B012A7FAFC7770C584DD5 0xD87C6FA94EE093B4D4F75CE24C33BE226A118243717B8D8DE61227937704AB11) = scalarMultAux 230 0x11F144ED833E8292CAD6500C43C6B199C49EBEA4A84EE4D23DCD20C76E (Point.mk 0x74E5CC6E82A1B83811D76E8F74A141863021C22043DDD8C47800CEDD2541ABE7 0x815347C698F01918B914C528C0A4BDAD4760EEF885CB99D1070C4111E0DA585E) (Point.mk 0xA94C6524BD40D2BBDAC85C056236A79DA78BC61FD5BDEC9D2BF26BD84B2438E8 0xB5201FD992F96280FD79219505019E3A7E5D3C60A0E39B2BC2E2C8DBF18661F4) :=
  scalarMultAux_step 230 0x23E289DB067D052595ACA018878D6333893D7D49509DC9A47B9A418EDD 0x11F144ED833E8292CAD6500C43C6B199C49EBEA4A84EE4D23DCD20C76E (Point.mk 0xE14B95F7F911B08C09F9639C1FB6B98E0DC6A02194BB478FD6B986F741213077 0x475D0296E1698898A6C328B2195411E3B50462D1A709CCBDBEC8F4360778921D) (Point.mk 0x264BBD436A28BC42A2DF7E9CD5226CB91080577E327B012A7FAFC7770C584DD5 0xD87C6FA94EE093B4D4F75CE24C33BE226A118243717B8D8DE61227937704AB11) (Point.mk 0x74E5CC6E82A1B83811D76E8F74A141863021C22043DDD8C47800CEDD2541ABE7 0x815347C698F01918B914C528C0A4BDAD4760EEF885CB99D1070C4111E0DA585E) (Point.mk 0xA94C6524BD40D2BBDAC85C056236A79DA78BC61FD5BDEC9D2BF26BD84B2438E8 0xB5201FD992F96280FD79219505019E3A7E5D3C60A0E39B2BC2E2C8DBF18661F4) (by decide) (by decide) (by decide) (by decide)

theorem smA27 : scalarMultAux 230 0x11F144ED833E8292CAD6500C43C6B199C49EBEA4A84EE4D23DCD20C76E (Point.mk 0x74E5CC6E82A1B83811D76E8F74A141863021C22043DDD8C47800CEDD2541ABE7 0x815347C698F01918B914C528C0A4BDAD4760EEF885CB99D1070C4111E0DA585E) (Point.mk 0xA94C6524BD40D2BBDAC85C056236A79DA78BC61FD5BDEC9D2BF26BD84B2438E8 0xB5201FD992F96280FD79219505019E3A7E5D3C60A0E39B2BC2E2C8DBF18661F4) = scalarMultAux 229 0x8F8A276C19F4149656B280621E358CCE24F5F52542772691EE69063B7 (Point.mk 0x74E5CC6E82A1B83811D76E8F74A141863021C22043DDD8C47800CEDD2541ABE7 0x815347C698F01918B914C528C0A4BDAD4760EEF885CB99D1070C4111E0DA585E) (Point.mk 0xEEBFA4D493BEBF98BA5FEEC812C2D3B50947961237A919839A533ECA0E7DD7FA 0x5D9A8CA3970EF0F269EE7EDAF178089D9AE4CDC3A711F712DDFD4FDAE1DE8999) :=
  scalarMultAux_step 229 0x11F144ED833E8292CAD6500C43C6B199C49EBEA4A84EE4D23DCD20C76E 0x8F8A276C19F4149656B280621E358CCE24F5F52542772691EE69063B7 (Point.mk 0x74E5CC6E82A1B83811D76E8F74A141863021C22043DDD8C47800CEDD2541ABE7 0x815347C698F01918B914C528C0A4BDAD4760EEF885CB99D1070C4111E0DA585E) (Point.mk 0xA94C6524BD40D2BBDAC85C056236A79DA78BC61FD5BDEC9D2BF26BD84B2438E8 0xB5201FD992F96280FD79219505019E3A7E5D3C60A0E39B2BC2E2C8DBF18661F4) (Point.mk 0x74E5CC6E82A1B83811D76E8F74A141863021C22043DDD8C47800CEDD2541ABE7 0x815347C698F01918B914C528C0A4BDAD4760EEF885CB99D1070C4111E0DA585E) (Point.mk 0xEEBFA4D493BEBF98BA5FEEC812C2D3B50947961237A919839A533ECA0E7DD7FA 0x5D9A8CA3970EF0F269EE7EDAF178089D9AE4CDC3A711F712DDFD4FDAE1DE8999) (by decide) (by decide) (by decide) (by decide)

theorem smA28 : scalarMultAux 229 0x8F8A276C19F4149656B280621E358CCE24F5F52542772691EE69063B7 (Point.mk 0x74E5CC6E82A1B83811D76E8F74A141863021C22043DDD8C47800CEDD2541ABE7 0x815347C698F01918B914C528C0A4BDAD4760EEF885CB99D1070C4111E0DA585E) (Point.mk 0xEEBFA4D493BEBF98BA5FEEC812C2D3B50947961237A919839A533ECA0E7DD7FA 0x5D9A8CA3970EF0F269EE7EDAF178089D9AE4CDC3A711F712DDFD4FDAE1DE8999) = scalarMultAux 228 0x47C513B60CFA0A4B2B5940310F1AC667127AFA92A13B9348F734831DB (Point.mk 0x94A99669306D9E2C1B52FC17982D6D5B1DB21E3F1C1B6E1E01DE947388D92A11 0x235E62F820BE2301C3908B5CA5E870A0DD563828782334105D12B62F9AC043FA) (Point.mk 0x381C4AD7A7A97BFDA61C6031C118495FC4EA4BC08F6766D676BEE90847D297FD 0x936AF53B238EEEE48F3E5FA709915ECCF0451032DB939C0093ACE3187D493FC5) :=
  scalarMultAux_step 228 0x8F8A276C19F4149656B280621E358CCE24F5F52542772691EE69063B7 0x47C513B60CFA0A4B2B5940310F1AC667127AFA92A13B9348F734831DB (Point.mk 0x74E5CC6E82A1B83811D76E8F74A141863021C22043DDD8C47800CEDD2541ABE7 0x815347C698F01918B914C528C0A4BDAD4760EEF885CB99D1070C4111E0DA585E) (Point.mk 0xEEBFA4D493BEBF98BA5FEEC812C2D3B50947961237A919839A533ECA0E7DD7FA 0x5D9A8CA3970EF0F269EE7EDAF178089D9AE4CDC3A711F712DDFD4FDAE1DE8999) (Point.mk 0x94A99669306D9E2C1B52FC17982D6D5B1DB21E3F1C1B6E1E01DE947388D92A11 0x235E62F820BE2301C3908B5CA5E870A0DD563828782334105D12B62F9AC043FA) (Point.mk 0x381C4AD7A7A97BFDA61C6031C118495FC4EA4BC08F6766D676BEE90847D297FD 0x936AF53B238EEEE48F3E5FA709915ECCF0451032DB939C0093ACE3187D493FC5) (by decide) (by decide) (by decide) (by decide)

theorem smA29 : scalarMultAux 228 0x47C513B60CFA0A4B2B5940310F1AC667127AFA92A13B9348F734831DB (Point.mk 0x94A99669306D9E2C1B52FC17982D6D5B1DB21E3F1C1B6E1E01DE947388D92A11 0x235E62F820BE2301C3908B5CA5E870A0DD563828782334105D12B62F9AC043FA) (Point.mk 0x381C4AD7A7A97BFDA61C6031C118495FC4EA4BC08F6766D676BEE90847D297FD 0x936AF53B238EEEE48F3E5FA709915ECCF0451032DB939C0093ACE3187D493FC5) = scalarMultAux 227 0x23E289DB067D052595ACA018878D6333893D7D49509DC9A47B9A418ED (Point.mk 0x6007DF4F22E71532FE73B1DAF74125CF501955C1203CAB1427E95B5D26309B76 0x2DF40C45EC37F85DE5094CBE9BF3C5BE937558068925C5CA0A6E2DAEB2CF5A17) (Point.mk 0xE1EFB9CD05ADC63BCCE10831D9538C479CF1D05FEFDD08B2448D70422EDE454C 0x0ECB4530D8AF9BE7B0154C1FFE477123464E3244A7A2D4C6AD9FD233A8913797) :=
  scalarMultAux_step 227 0x47C513B60CFA0A4B2B5940310F1AC667127AFA92A13B9348F734831DB 0x23E289DB067D052595ACA018878D6333893D7D49509DC9A47B9A418ED (Point.mk 0x94A99669306D9E2C1B52FC17982D6D5B1DB21E3F1C1B6E1E01DE947388D92A11 0x235E62F820BE2301C3908B5CA5E870A0DD563828782334105D12B62F9AC043FA) (Point.mk 0x381C4AD7A7A97BFDA61C6031C118495FC4EA4BC08F6766D676BEE90847D297FD 0x936AF53B238EEEE48F3E5FA709915ECCF0451032DB939C0093ACE3187D493FC5) (Point.mk 0x6007DF4F22E71532FE73B1DAF74125CF501955C1203CAB1427E95B5D26309B76 0x2DF40C45EC37F85DE5094CBE9BF3C5BE937558068925C5CA0A6E2DAEB2CF5A17) (Point.mk 0xE1EFB9CD05ADC63BCCE10831D9538C479CF1D05FEFDD08B2448D70422EDE454C 0x0ECB4530D8AF9BE7B0154C1FFE477123464E3244A7A2D4C6AD9FD233A8913797) (by decide) (by decide) (by decide) (by decide)

theorem smA30 : scalarMultAux 227 0x23E289DB067D052595ACA018878D6333893D7D49509DC9A47B9A418ED (Point.mk 0x6007DF4F22E71532FE73B1DAF74125CF501955C1203CAB1427E95B5D26309B76 0x2DF40C45EC37F85DE5094CBE9BF3C5BE937558068925C5CA0A6E2DAEB2CF5A17) (Point.mk 0xE1EFB9CD05ADC63BCCE10831D9538C479CF1D05FEFDD08B2448D70422EDE454C 0x0ECB4530D8AF9BE7B0154C1FFE477123464E3244A7A2D4C6AD9FD233A8913797) = scalarMultAux 226 0x11F144ED833E8292CAD6500C43C6B199C49EBEA4A84EE4D23DCD20C76 (Point.mk 0x7BEED69D37ED7BA09687883810C7B780BBB6AA8F9F34E4E40E46B8A4D08BF400 0x30C9775E6752CE15F6DA6338E57FB986259C21211AF1883C19A5F4C2FECF93A2) (Point.mk 0x5318F9B1A2697010C5AC235E9AF475A8C7E5419F33D47B18D33FEEB329EB99A4 0xF44CCFEB4BEDA4195772D93AEBB405E8A41F2B40D1E3EC652C726EEEFE91F92D) :=
  scalarMultAux_step 226 0x23E289DB067D052595ACA018878D6333893D7D49509DC9A47B9A418ED 0x11F144ED833E8292CAD6500C43C6B199C49EBEA4A84EE4D23DCD20C76 (Point.mk 0x6007DF4F22E71532FE73B1DAF74125CF501955C1203CAB1427E95B5D26309B76 0x2DF40C45EC37F85DE5094CBE9BF3C5BE937558068925C5CA0A6E2DAEB2CF5A17) (Point.mk 0xE1EFB9CD05ADC63BCCE10831D9538C479CF1D05FEFDD08B2448D70422EDE454C 0x0ECB4530D8AF9BE7B0154C1FFE477123464E3244A7A2D4C6AD9FD233A8913797) (Point.mk 0x7BEED69D37ED7BA09687883810C7B780BBB6AA8F9F34E4E40E46B8A4D08BF400 0x30C9775E6752CE15F6DA6338E57FB986259C21211AF1883C19A5F4C2FECF93A2) (Point.mk 0x5318F9B1A2697010C5AC235E9AF475A8C7E5419F33D47B18D33FEEB329EB99A4 0xF44CCFEB4BEDA4195772D93AEBB405E8A41F2B40D1E3EC652C726EEEFE91F92D) (by decide) (by decide) (by decide) (by decide)

theorem smA31 : scalarMultAux 226 0x11F144ED833E8292CAD6500C43C6B199C49EBEA4A84EE4D23DCD20C76 (Point.mk 0x7BEED69D37ED7BA09687883810C7B780BBB6AA8F9F34E4E40E46B8A4D08BF400 0x30C9775E6752CE15F6DA6338E57FB986259C21211AF1883C19A5F4C2FECF93A2) (Point.mk 0x5318F9B1A2697010C5AC235E9AF475A8C7E5419F33D47B18D33FEEB329EB99A4 0xF44CCFEB4BEDA4195772D93AEBB405E8A41F2B40D1E3EC652C726EEEFE91F92D) = scalarMultAux 225 0x8F8A276C19F4149656B280621E358CCE24F5F52542772691EE69063B (Point.mk 0x7BEED69D37ED7BA09687883810C7B780BBB6AA8F9F34E4E40E46B8A4D08BF400 0x30C9775E6752CE15F6DA6338E57FB986259C21211AF1883C19A5F4C2FECF93A2) (Point.mk 0x100F44DA696E71672791D0A09B7BDE459F1215A29B3C03BFEFD7835B39A48DB0 0xCDD9E13192A00B772EC8F3300C090666B7FF4A18FF5195AC0FBD5CD62BC65A09) :=
  scalarMultAux_step 225 0x11F144ED833E8292CAD6500C43C6B199C49EBEA4A84EE4D23DCD20C76 0x8F8A276C19F4149656B280621E358CCE24F5F52542772691EE69063B (Point.mk 0x7BEED69D37ED7BA09687883810C7B780BBB6AA8F9F34E4E40E46B8A4D08BF400 0x30C9775E6752CE15F6DA6338E57FB986259C21211AF1883C19A5F4C2FECF93A2) (Point.mk 0x5318F9B1A2697010C5AC235E9AF475A8C7E5419F33D47B18D33FEEB329EB99A4 0xF44CCFEB4BEDA4195772D93AEBB405E8A41F2B40D1E3EC652C726EEEFE91F92D) (Point.mk 0x7BEED69D37ED7BA09687883810C7B780BBB6AA8F9F34E4E40E46B8A4D08BF400 0x30C9775E6752CE15F6DA6338E57FB986259C21211AF1883C19A5F4C2FECF93A2) (Point.mk 0x100F44DA696E71672791D0A09B7BDE459F1215A29B3C03BFEFD7835B39A48DB0 0xCDD9E13192A00B772EC8F3300C090666B7FF4A18FF5195AC0FBD5CD62BC65A09) (by decide) (by decide) (by decide) (by decide)

theorem smA32 : scalarMultAux 225 0x8F8A276C19F4149656B280621E358CCE24F5F52542772691EE69063B (Point.mk 0x7BEED69D37ED7BA09687883810C7B780BBB6AA8F9F34E4E40E46B8A4D08BF400 0x30C9775E6752CE15F6DA6338E57FB986259C21211AF1883C19A5F4C2FECF93A2) (Point.mk 0x100F44DA696E71672791D0A09B7BDE459F1215A29B3C03BFEFD7835B39A48DB0 0xCDD9E13192A00B772EC8F3300C090666B7FF4A18FF5195AC0FBD5CD62BC65A09) = scalarMultAux 224 0x47C513B60CFA0A4B2B5940310F1AC667127AFA92A13B9348F734831D (Point.mk 0x767705DF8647730E6AF07093D56610977F3CEFB46D13EC300025E3C8A2C3FF8A 0x93C5F3AA7C4BFEE0F624AFB276CDBCEA70387151AFCE36CDAF5BA5FB855A2D71) (Point.mk 0x8C0989F2CEB5C771A8415DFF2B4C4199D8D9C8F9237D08084B05284F1E4DF706 0xFB4DBD044F432034FFD2172CB9DC966C60DE6BF5156511AA736AC5A35D72FA98) :=
  scalarMultAux_step 224 0x8F8A276C19F4149656B280621E358CCE24F5F52542772691EE69063B 0x47C513B60CFA0A4B2B5940310F1AC667127AFA92A13B9348F734831D (Point.mk 0x7BEED69D37ED7BA09687883810C7B780BBB6AA8F9F34E4E40E46B8A4D08BF400 0x30C9775E6752CE15F6DA6338E57FB986259C21211AF1883C19A5F4C2FECF93A2) (Point.mk 0x100F44DA696E71672791D0A09B7BDE459F1215A29B3C03BFEFD7835B39A48DB0 0xCDD9E13192A00B772EC8F3300C090666B7FF4A18FF5195AC0FBD5CD62BC65A09) (Point.mk 0x767705DF8647730E6AF07093D56610977F3CEFB46D13EC300025E3C8A2C3FF8A 0x93C5F3AA7C4BFEE0F624AFB276CDBCEA70387151AFCE36CDAF5BA5FB855A2D71) (Point.mk 0x8C0989F2CEB5C771A8415DFF2B4C4199D8D9C8F9237D08084B05284F1E4DF706 0xFB4DBD044F432034FFD2172CB9DC966C60DE6BF5156511AA736AC5A35D72FA98) (by decide) (by decide) (by decide) (by decide)

theorem smA33 : scalarMultAux 224 0x47C513B60CFA0A4B2B5940310F1AC667127AFA92A13B9348F734831D (Point.mk 0x767705DF8647730E6AF07093D56610977F3CEFB46D13EC300025E3C8A2C3FF8A 0x93C5F3AA7C4BFEE0F624AFB276CDBCEA70387151AFCE36CDAF5BA5FB855A2D71) (Point.mk 0x8C0989F2CEB5C771A8415DFF2B4C4199D8D9C8F9237D08084B05284F1E4DF706 0xFB4DBD044F432034FFD2172CB9DC966C60DE6BF5156511AA736AC5A35D72FA98) = scalarMultAux 223 0x23E289DB067D052595ACA018878D6333893D7D49509DC9A47B9A418E (Point.mk 0x47EF66B64B6757118E304316513961182DDA5C6CE0DE223F16452A82E15FA4B5 0xCD30B5C968E69C987875DBBE0740B91530B06DD17B0D5AC1FCBBD1D95BC2239D) (Point.mk 0xFB8F153C5E266704C4A481743262C0259C528539BC95BC1BB1E63C33DC47BFFD 0x6CA27A9DC5E0621816FA11D9B4BCCD531DDE1389AC542613090A45DDD949B095) :=
  scalarMultAux_step 223 0x47C513B60CFA0A4B2B5940310F1AC667127AFA92A13B9348F734831D 0x23E289DB067D052595ACA018878D6333893D7D49509DC9A47B9A418E (Point.mk 0x767705DF8647730E6AF07093D56610977F3CEFB46D13EC300025E3C8A2C3FF8A 0x93C5F3AA7C4BFEE0F624AFB276CDBCEA70387151AFCE36CDAF5BA5FB855A2D71) (Point.mk 0x8C0989F2CEB5C771A8415DFF2B4C4199D8D9C8F9237D08084B05284F1E4DF706 0xFB4DBD044F432034FFD2172CB9DC966C60DE6BF5156511AA736AC5A35D72FA98) (Point.mk 0x47EF66B64B6757118E304316513961182DDA5C6CE0DE223F16452A82E15FA4B5 0xCD30B5C968E69C987875DBBE0740B91530B06DD17B0D5AC1FCBBD1D95BC2239D) (Point.mk 0xFB8F153C5E266704C4A481743262C0259C528539BC95BC1BB1E63C33DC47BFFD 0x6CA27A9DC5E0621816FA11D9B4BCCD531DDE1389AC542613090A45DDD949B095) (by decide) (by decide) (by decide) (by decide)

theorem smA34 : scalarMultAux 223 0x23E289DB067D052595ACA018878D6333893D7D49509DC9A47B9A418E (Point.mk 0x47EF66B64B6757118E304316513961182DDA5C6CE0DE223F16452A82E15FA4B5 0xCD30B5C968E69C987875DBBE0740B91530B06DD17B0D5AC1FCBBD1D95BC2239D) (Point.mk 0xFB8F153C5E266704C4A481743262C0259C528539BC95BC1BB1E63C33DC47BFFD 0x6CA27A9DC5E0621816FA11D9B4BCCD531DDE1389AC542613090A45DDD949B095) = scalarMultAux 222 0x11F144ED833E8292CAD6500C43C6B199C49EBEA4A84EE4D23DCD20C7 (Point.mk 0x47EF66B64B6757118E304316513961182DDA5C6CE0DE223F16452A82E15FA4B5 0xCD30B5C968E69C987875DBBE0740B91530B06DD17B0D5AC1FCBBD1D95BC2239D) (Point.mk 0xE747333FD75D51755A0CC9F0A728708465A02C587737A7B8B8FA1B8B4BB2629A 0xF2AFFE0145070C114CC43603804C2581C88376AA6E1A969A9F8D961A6946F6D6) :=
  scalarMultAux_step 222 0x23E289DB067D052595ACA018878D6333893D7D49509DC9A47B9A418E 0x11F144ED833E8292CAD6500C43C6B199C49EBEA4A84EE4D23DCD20C7 (Point.mk 0x47EF66B64B6757118E304316513961182DDA5C6CE0DE223F16452A82E15FA4B5 0xCD30B5C968E69C987875DBBE0740B91530B06DD17B0D5AC1FCBBD1D95BC2239D) (Point.mk 0xFB8F153C5E266704C4A481743262C0259C528539BC95BC1BB1E63C33DC47BFFD 0x6CA27A9DC5E0621816FA11D9B4BCCD531DDE1389AC542613090A45DDD949B095) (Point.mk 0x47EF66B64B6757118E304316513961182DDA5C6CE0DE223F16452A82E15FA4B5 0xCD30B5C968E69C987875DBBE0740B91530B06DD17B0D5AC1FCBBD1D95BC2239D) (Point.mk 0xE747333FD75D51755A0CC9F0A728708465A02C587737A7B8B8FA1B8B4BB2629A 0xF2AFFE0145070C114CC43603804C2581C88376AA6E1A969A9F8D961A6946F6D6) (by decide) (by decide) (by decide) (by decide)

theorem smA35 : scalarMultAux 222 0x11F144ED833E8292CAD6500C43C6B199C49EBEA4A84EE4D23DCD20C7 (Point.mk 0x47EF66B64B6757118E304316513961182DDA5C6CE0DE223F16452A82E15FA4B5 0xCD30B5C968E69C987875DBBE0740B91530B06DD17B0D5AC1FCBBD1D95BC2239D) (Point.mk 0xE747333FD75D51755A0CC9F0A728708465A02C587737A7B8B8FA1B8B4BB2629A 0xF2AFFE0145070C114CC43603804C2581C88376AA6E1A969A9F8D961A6946F6D6) = scalarMultAux 221 0x8F8A276C19F4149656B280621E358CCE24F5F52542772691EE69063 (Point.mk 0x22A11DCE8C0B5C9EE8E72CC68723BB3FAD19BBE1B241E7CDA8BDCEAD7CDD5696 0x2FB5DE2E8E6753790821FAF3C45233C8E8D37AECF3CC879CF9A1317730449480) (Point.mk 0xE1031BE262C7ED1B1DC9227A4A04C017A77F8D4464F3B3852C8ACDE6E534FD2D 0x9D7061928940405E6BB6A4176597535AF292DD419E1CED79A44F18F29456A00D) :=
  scalarMultAux_step 221 0x11F144ED833E8292CAD6500C43C6B199C49EBEA4A84EE4D23DCD20C7 0x8F8A276C19F4149656B280621E358CCE24F5F52542772691EE69063 (Point.mk 0x47EF66B64B6757118E304316513961182DDA5C6CE0DE223F16452A82E15FA4B5 0xCD30B5C968E69C987875DBBE0740B91530B06DD17B0D5AC1FCBBD1D95BC2239D) (Point.mk 0xE747333FD75D51755A0CC9F0A728708465A02C587737A7B8B8FA1B8B4BB2629A 0xF2AFFE0145070C114CC43603804C2581C88376AA6E1A969A9F8D961A6946F6D6) (Point.mk 0x22A11DCE8C0B5C9EE8E72CC68723BB3FAD19BBE1B241E7CDA8BDCEAD7CDD5696 0x2FB5DE2E8E6753790821FAF3C45233C8E8D37AECF3CC879CF9A1317730449480) (Point.mk 0xE1031BE262C7ED1B1DC9227A4A04C017A77F8D4464F3B3852C8ACDE6E534FD2D 0x9D7061928940405E6BB6A4176597535AF292DD419E1CED79A44F18F29456A00D) (by decide) (by decide) (by decide) (by decide)

theorem smA36 : scalarMultAux 221 0x8F8A276C19F4149656B280621E358CCE24F5F52542772691EE69063 (Point.mk 0x22A11DCE8C0B5C9EE8E72CC68723BB3FAD19BBE1B241E7CDA8BDCEAD7CDD5696 0x2FB5DE2E8E6753790821FAF3C45233C8E8D37AECF3CC879CF9A1317730449480) (Point.mk 0xE1031BE262C7ED1B1DC9227A4A04C017A77F8D4464F3B3852C8ACDE6E534FD2D 0x9D7061928940405E6BB6A4176597535AF292DD419E1CED79A44F18F29456A00D) = scalarMultAux 220 0x47C513B60CFA0A4B2B5940310F1AC667127AFA92A13B9348F734831 (Point.mk 0xB13B9C39EB7BF3E03D45167FB175F968F04FCB0BE3598AC77816F520B76FF1DA 0xFA64C5F71CE085D3EC5E304DC4C4B8D49D002930FB104E4EFA6A06C1172EAA22) (Point.mk 0xF4B93F224C8089EAB9F95DCD0F29B2C9028A6AC5DE94D85784E27E36A95C8356 0xA67A92EC062962DFB0E5F6A7A40EEE90C37EF1344915609ABD5861B9BE001FD3) :=
  scalarMultAux_step 220 0x8F8A276C19F4149656B280621E358CCE24F5F52542772691EE69063 0x47C513B60CFA0A4B2B5940310F1AC667127AFA92A13B9348F734831 (Point.mk 0x22A11DCE8C0B5C9EE8E72CC68723BB3FAD19BBE1B241E7CDA8BDCEAD7CDD5696 0x2FB5DE2E8E6753790821FAF3C45233C8E8D37AECF3CC879CF9A1317730449480) (Point.mk 0xE1031BE262C7ED1B1DC9227A4A04C017A77F8D4464F3B3852C8ACDE6E534FD2D 0x9D7061928940405E6BB6A4176597535AF292DD419E1CED79A44F18F29456A00D) (Point.mk 0xB13B9C39EB7BF3E03D45167FB175F968F04FCB0BE3598AC77816F520B76FF1DA 0xFA64C5F71CE085D3EC5E304DC4C4B8D49D002930FB104E4EFA6A06C1172EAA22) (Point.mk 0xF4B93F224C8089EAB9F95DCD0F29B2C9028A6AC5DE94D85784E27E36A95C8356 0xA67A92EC062962DFB0E5F6A7A40EEE90C37EF1344915609ABD5861B9BE001FD3) (by decide) (by decide) (by decide) (by decide)

theorem smA37 : scalarMultAux 220 0x47C513B60CFA0A4B2B5940310F1AC667127AFA92A13B9348F734831 (Point.mk 0xB13B9C39EB7BF3E03D45167FB175F968F04FCB0BE3598AC77816F520B76FF1DA 0xFA64C5F71CE085D3EC5E304DC4C4B8D49D002930FB104E4EFA6A06C1172EAA22) (Point.mk 0xF4B93F224C8089EAB9F95DCD0F29B2C9028A6AC5DE94D85784E27E36A95C8356 0xA67A92EC062962DFB0E5F6A7A40EEE90C37EF1344915609ABD5861B9BE001FD3) = scalarMultAux 219 0x23E289DB067D052595ACA018878D6333893D7D49509DC9A47B9A418 (Point.mk 0x6F7D5A4C5FDA464E1D58C9D787BF62AC0193D446FF32C928625A0BDD5F593DFA 0xEAEF0CAC967778C24BB5F0F3BC086ED80F7CD59A6A72E24F045FFF84933D925E) (Point.mk 0x09D1ACA1FCE55236B19622EA025B08B0D51E8512F97E696C20D62FE17B160E8A 0x1153188F5101F0C63E56692CE0D8C27E6FE9E0EE9212B5E534E050C57CA04C44) :=
  scalarMultAux_step 219 0x47C513B60CFA0A4B2B5940310F1AC667127AFA92A13B9348F734831 0x23E289DB067D052595ACA018878D6333893D7D49509DC9A47B9A418 (Point.mk 0xB13B9C39EB7BF3E03D45167FB175F968F04FCB0BE3598AC77816F520B76FF1DA 0xFA64C5F71CE085D3EC5E304DC4C4B8D49D002930FB104E4EFA6A06C1172EAA22) (Point.mk 0xF4B93F224C8089EAB9F95DCD0F29B2C9028A6AC5DE94D85784E27E36A95C8356 0xA67A92EC062962DFB0E5F6A7A40EEE90C37EF1344915609ABD5861B9BE001FD3) (Point.mk 0x6F7D5A4C5FDA464E1D58C9D787BF62AC0193D446FF32C928625A0BDD5F593DFA 0xEAEF0CAC967778C24BB5F0F3BC086ED80F7CD59A6A72E24F045FFF84933D925E) (Point.mk 0x09D1ACA1FCE55236B19622EA025B08B0D51E8512F97E696C20D62FE17B160E8A 0x1153188F5101F0C63E56692CE0D8C27E6FE9E0EE9212B5E534E050C57CA04C44) (by decide) (by decide) (by decide) (by decide)

theorem smA38 : scalarMultAux 219 0x23E289DB067D052595ACA018878D6333893D7D49509DC9A47B9A418 (Point.mk 0x6F7D5A4C5FDA464E1D58C9D787BF62AC0193D446FF32C928625A0BDD5F593DFA 0xEAEF0CAC967778C24BB5F0F3BC086ED80F7CD59A6A72E24F045FFF84933D925E) (Point.mk 0x09D1ACA1FCE55236B19622EA025B08B0D51E8512F97E696C20D62FE17B160E8A 0x1153188F5101F0C63E56692CE0D8C27E6FE9E0EE9212B5E534E050C57CA04C44) = scalarMultAux 218 0x11F144ED833E8292CAD6500C43C6B199C49EBEA4A84EE4D23DCD20C (Point.mk 0x6F7D5A4C5FDA464E1D58C9D787BF62AC0193D446FF32C928625A0BDD5F593DFA 0xEAEF0CAC967778C24BB5F0F3BC086ED80F7CD59A6A72E24F045FFF84933D925E) (Point.mk 0xC66C59CC454C2B9E18A2AD793821CDE7518B3A93BFC39562E97D7D0475BA7FC2 0xD9592FE2BFB30FCFBEA4F3CEAAC10CB2F00A60DDB15955977EC3C69CF75F5956) :=
  scalarMultAux_step 218 0x23E289DB067D052595ACA018878D6333893D7D49509DC9A47B9A418 0x11F144ED833E8292CAD6500C43C6B199C49EBEA4A84EE4D23DCD20C (Point.mk 0x6F7D5A4C5FDA464E1D58C9D787BF62AC0193D446FF32C928625A0BDD5F593DFA 0xEAEF0CAC967778C24BB5F0F3BC086ED80F7CD59A6A72E24F045FFF84933D925E) (Point.mk 0x09D1ACA1FCE55236B19622EA025B08B0D51E8512F97E696C20D62FE17B160E8A 0x1153188F5101F0C63E56692CE0D8C27E6FE9E0EE9212B5E534E050C57CA04C44) (Point.mk 0x6F7D5A4C5FDA464E1D58C9D787BF62AC0193D446FF32C928625A0BDD5F593DFA 0xEAEF0CAC967778C24BB5F0F3BC086ED80F7CD59A6A72E24F045FFF84933D925E) (Point.mk 0xC66C59CC454C2B9E18A2AD793821CDE7518B3A93BFC39562E97D7D0475BA7FC2 0xD9592FE2BFB30FCFBEA4F3CEAAC10CB2F00A60DDB15955977EC3C69CF75F5956) (by decide) (by decide) (by decide) (by decide)

theorem smA39 : scalarMultAux 218 0x11F144ED833E8292CAD6500C43C6B199C49EBEA4A84EE4D23DCD20C (Point.mk 0x6F7D5A4C5FDA464E1D58C9D787BF62AC0193D446FF32C928625A0BDD5F593DFA 0xEAEF0CAC967778C24BB5F0F3BC086ED80F7CD59A6A72E24F045FFF84933D925E) (Point.mk 0xC66C59CC454C2B9E18A2AD793821CDE7518B3A93BFC39562E97D7D0475BA7FC2 0xD9592FE2BFB30FCFBEA4F3CEAAC10CB2F00A60DDB15955977EC3C69CF75F5956) = scalarMultAux 217 0x8F8A276C19F4149656B280621E358CCE24F5F52542772691EE6906 (Point.mk 0x6F7D5A4C5FDA464E1D58C9D787BF62AC0193D446FF32C928625A0BDD5F593DFA 0xEAEF0CAC967778C24BB5F0F3BC086ED80F7CD59A6A72E24F045FFF84933D925E) (Point.mk 0xFEEA6CAE46D55B530AC2839F143BD7EC5CF8B266A41D6AF52D5E688D9094696D 0xE57C6B6C97DCE1BAB06E4E12BF3ECD5C981C8957CC41442D3155DEBF18090088) :=
  scalarMultAux_step 217 0x11F144ED833E8292CAD6500C43C6B199C49EBEA4A84EE4D23DCD20C 0x8F8A276C19F4149656B280621E358CCE24F5F52542772691EE6906 (Point.mk 0x6F7D5A4C5FDA464E1D58C9D787BF62AC0193D446FF32C928625A0BDD5F593DFA 0xEAEF0CAC967778C24BB5F0F3BC086ED80F7CD59A6A72E24F045FFF84933D925E) (Point.mk 0xC66C59CC454C2B9E18A2AD793821CDE7518B3A93BFC39562E97D7D0475BA7FC2 0xD9592FE2BFB30FCFBEA4F3CEAAC10CB2F00A60DDB15955977EC3C69CF75F5956) (Point.mk 0x6F7D5A4C5FDA464E1D58C9D787BF62AC0193D446FF32C928625A0BDD5F593DFA 0xEAEF0CAC967778C24BB5F0F3BC086ED80F7CD59A6A72E24F045FFF84933D925E) (Point.mk 0xFEEA6CAE46D55B530AC2839F143BD7EC5CF8B266A41D6AF52D5E688D9094696D 0xE57C6B6C97DCE1BAB06E4E12BF3ECD5C981C8957CC41442D3155DEBF18090088) (by decide) (by decide) (by decide) (by decide)

theorem smA40 : scalarMultAux 217 0x8F8A276C19F4149656B280621E358CCE24F5F52542772691EE6906 (Point.mk 0x6F7D5A4C5FDA464E1D58C9D787BF62AC0193D446FF32C928625A0BDD5F593DFA 0xEAEF0CAC967778C24BB5F0F3BC086ED80F7CD59A6A72E24F045FFF84933D925E) (Point.mk 0xFEEA6CAE46D55B530AC2839F143BD7EC5CF8B266A41D6AF52D5E688D9094696D 0xE57C6B6C97DCE1BAB06E4E12BF3ECD5C981C8957CC41442D3155DEBF18090088) = scalarMultAux 216 0x47C513B60CFA0A4B2B5940310F1AC667127AFA92A13B9348F73483 (Point.mk 0x6F7D5A4C5FDA464E1D58C9D787BF62AC0193D446FF32C928625A0BDD5F593DFA 0xEAEF0CAC967778C24BB5F0F3BC086ED80F7CD59A6A72E24F045FFF84933D925E) (Point.mk 0x4D000B621ADB87E1C53261AF9DB2E179141ECAE0B331A1870AA4040AEE752B08 0x6A0D5B8F18E0D255CB6D825582D972CCCB7DF5F119C7293A3E72851F48302CEA) :=
  scalarMultAux_step 216 0x8F8A276C19F4149656B280621E358CCE24F5F52542772691EE6906 0x47C513B60CFA0A4B2B5940310F1AC667127AFA92A13B9348F73483 (Point.mk 0x6F7D5A4C5FDA464E1D58C9D787BF62AC0193D446FF32C928625A0BDD5F593DFA 0xEAEF0CAC967778C24BB5F0F3BC086ED80F7CD59A6A72E24F045FFF84933D925E) (Point.mk 0xFEEA6CAE46D55B530AC2839F143BD7EC5CF8B266A41D6AF52D5E688D9094696D 0xE57C6B6C97DCE1BAB06E4E12BF3ECD5C981C8957CC41442D3155DEBF18090088) (Point.mk 0x6F7D5A4C5FDA464E1D58C9D787BF62AC0193D446FF32C928625A0BDD5F593DFA 0xEAEF0CAC967778C24BB5F0F3BC086ED80F7CD59A6A72E24F045FFF84933D925E) (Point.mk 0x4D000B621ADB87E1C53261AF9DB2E179141ECAE0B331A1870AA4040AEE752B08 0x6A0D5B8F18E0D255CB6D825582D972CCCB7DF5F119C7293A3E72851F48302CEA) (by decide) (by decide) (by decide) (by decide)

theorem smA41 : scalarMultAux 216 0x47C513B60CFA0A4B2B5940310F1AC667127AFA92A13B9348F73483 (Point.mk 0x6F7D5A4C5FDA464E1D58C9D787BF62AC0193D446FF32C928625A0BDD5F593DFA 0xEAEF0CAC967778C24BB5F0F3BC086ED80F7CD59A6A72E24F045FFF84933D925E) (Point.mk 0x4D000B621ADB87E1C53261AF9DB2E179141ECAE0B331A1870AA4040AEE752B08 0x6A0D5B8F18E0D255CB6D825582D972CCCB7DF5F119C7293A3E72851F48302CEA) = scalarMultAux 215 0x23E289DB067D052595ACA018878D6333893D7D49509DC9A47B9A41 (Point.mk 0x15E99299861EEFF41B6CC5BCE345D3EBF652FDCDF5B8E119A5AB8337251A2DEA 0x2C9BBFDE892259E7B99751CEADC94B8BFFB7684CAEFBDAA13DA95D0098F13280) (Point.mk 0x71F570CA203DA05DD6AA262114717128D657A0403E1F1B77F89962FD475C58EF 0xEB42415B95DC880DD25557345BC95B8DF2445D00C3363E7DF8649A72D35D420E) :=
  scalarMultAux_step 215 0x47C513B60CFA0A4B2B5940310F1AC667127AFA92A13B9348F73483 0x23E289DB067D052595ACA018878D6333893D7D49509DC9A47B9A41 (Point.mk 0x6F7D5A4C5FDA464E1D58C9D787BF62AC0193D446FF32C928625A0BDD5F593DFA 0xEAEF0CAC967778C24BB5F0F3BC086ED80F7CD59A6A72E24F045FFF84933D925E) (Point.mk 0x4D000B621ADB87E1C53261AF9DB2E179141ECAE0B331A1870AA4040AEE752B08 0x6A0D5B8F18E0D255CB6D825582D972CCCB7DF5F119C7293A3E72851F48302CEA) (Point.mk 0x15E99299861EEFF41B6CC5BCE345D3EBF652FDCDF5B8E119A5AB8337251A2DEA 0x2C9BBFDE892259E7B99751CEADC94B8BFFB7684CAEFBDAA13DA95D0098F13280) (Point.mk 0x71F570CA203DA05DD6AA262114717128D657A0403E1F1B77F89962FD475C58EF 0xEB42415B95DC880DD25557345BC95B8DF2445D00C3363E7DF8649A72D35D420E) (by decide) (by decide) (by decide) (by decide)

theorem smA42 : scalarMultAux 215 0x23E289DB067D052595ACA018878D6333893D7D49509DC9A47B9A41 (Point.mk 0x15E99299861EEFF41B6CC5BCE345D3EBF652FDCDF5B8E119A5AB8337251A2DEA 0x2C9BBFDE892259E7B99751CEADC94B8BFFB7684CAEFBDAA13DA95D0098F13280) (Point.mk 0x71F570CA203DA05DD6AA262114717128D657A0403E1F1B77F89962FD475C58EF 0xEB42415B95DC880DD25557345BC95B8DF2445D00C3363E7DF8649A72D35D420E) = scalarMultAux 214 0x11F144ED833E8292CAD6500C43C6B199C49EBEA4A84EE4D23DCD20 (Point.mk 0x4DFD40C0E0C635DB0A9863A2C0BD171856501CC0E11013E34B221E54BB80D6DB 0x41C97C4D6BD11BDCCBB5E0B4EA163BFED6847E9E7356377B604C26A4D60BAE3D) (Point.mk 0xA2B7B3629F7BD253B7D282B5C21DA01446B4821DC65E76516048B06043FF8359 0x693038941695122D57A937A3F71E29C910D10835046F3835A2397FECFE86FEC2) :=
  scalarMultAux_step 214 0x23E289DB067D052595ACA018878D6333893D7D49509DC9A47B9A41 0x11F144ED833E8292CAD6500C43C6B199C49EBEA4A84EE4D23DCD20 (Point.mk 0x15E99299861EEFF41B6CC5BCE345D3EBF652FDCDF5B8E119A5AB8337251A2DEA 0x2C9BBFDE892259E7B99751CEADC94B8BFFB7684CAEFBDAA13DA95D0098F13280) (Point.mk 0x71F570CA203DA05DD6AA262114717128D657A0403E1F1B77F89962FD475C58EF 0xEB42415B95DC880DD25557345BC95B8DF2445D00C3363E7DF8649A72D35D420E) (Point.mk 0x4DFD40C0E0C635DB0A9863A2C0BD171856501CC0E11013E34B221E54BB80D6DB 0x41C97C4D6BD11BDCCBB5E0B4EA163BFED6847E9E7356377B604C26A4D60BAE3D) (Point.mk 0xA2B7B3629F7BD253B7D282B5C21DA01446B4821DC65E76516048B06043FF8359 0x693038941695122D57A937A3F71E29C910D10835046F3835A2397FECFE86FEC2) (by decide) (by decide) (by decide) (by decide)

theorem smA43 : scalarMultAux 214 0x11F144ED833E8292CAD6500C43C6B199C49EBEA4A84EE4D23DCD20 (Point.mk 0x4DFD40C0E0C635DB0A9863A2C0BD171856501CC0E11013E34B221E54BB80D6DB 0x41C97C4D6BD11BDCCBB5E0B4EA163BFED6847E9E7356377B604C26A4D60BAE3D) (Point.mk 0xA2B7B3629F7BD253B7D282B5C21DA01446B4821DC65E76516048B06043FF8359 0x693038941695122D57A937A3F71E29C910D10835046F3835A2397FECFE86FEC2) = scalarMultAux 213 0x8F8A276C19F4149656B280621E358CCE24F5F52542772691EE690 (Point.mk 0x4DFD40C0E0C635DB0A9863A2C0BD171856501CC0E11013E34B221E54BB80D6DB 0x41C97C4D6BD11BDCCBB5E0B4EA163BFED6847E9E7356377B604C26A4D60BAE3D) (Point.mk 0xDA67A91D91049CDCB367BE4BE6FFCA3CFEED657D808583DE33FA978BC1EC6CB1 0x9BACAA35481642BC41F463F7EC9780E5DEC7ADC508F740A17E9EA8E27A68BE1D) :=
  scalarMultAux_step 213 0x11F144ED833E8292CAD6500C43C6B199C49EBEA4A84EE4D23DCD20 0x8F8A276C19F4149656B280621E358CCE24F5F52542772691EE690 (Point.mk 0x4DFD40C0E0C635DB0A9863A2C0BD171856501CC0E11013E34B221E54BB80D6DB 0x41C97C4D6BD11BDCCBB5E0B4EA163BFED6847E9E7356377B604C26A4D60BAE3D) (Point.mk 0xA2B7B3629F7BD253B7D282B5C21DA01446B4821DC65E76516048B06043FF8359 0x693038941695122D57A937A3F71E29C910D10835046F3835A2397FECFE86FEC2) (Point.mk 0x4DFD40C0E0C635DB0A9863A2C0BD171856501CC0E11013E34B221E54BB80D6DB 0x41C97C4D6BD11BDCCBB5E0B4EA163BFED6847E9E7356377B604C26A4D60BAE3D) (Point.mk 0xDA67A91D91049CDCB367BE4BE6FFCA3CFEED657D808583DE33FA978BC1EC6CB1 0x9BACAA35481642BC41F463F7EC9780E5DEC7ADC508F740A17E9EA8E27A68BE1D) (by decide) (by decide) (by decide) (by decide)

theorem smA44 : scalarMultAux 213 0x8F8A276C19F4149656B280621E358CCE24F5F52542772691EE690 (Point.mk 0x4DFD40C0E0C635DB0A9863A2C0BD171856501CC0E11013E34B221E54BB80D6DB 0x41C97C4D6BD11BDCCBB5E0B4EA163BFED6847E9E7356377B604C26A4D60BAE3D) (Point.mk 0xDA67A91D91049CDCB367BE4BE6FFCA3CFEED657D808583DE33FA978BC1EC6CB1 0x9BACAA35481642BC41F463F7EC9780E5DEC7ADC508F740A17E9EA8E27A68BE1D) = scalarMultAux 212 0x47C513B60CFA0A4B2B5940310F1AC667127AFA92A13B9348F7348 (Point.mk 0x4DFD40C0E0C635DB0A9863A2C0BD171856501CC0E11013E34B221E54BB80D6DB 0x41C97C4D6BD11BDCCBB5E0B4EA163BFED6847E9E7356377B604C26A4D60BAE3D) (Point.mk 0x4DBACD365FA1EF587C0C0CFAAF00D8718BBD9F35CCEA5A835EE3CC821FE741C9 0x16C3540E8A51892E7FDCFD59E838299D0CC384A09FC0535F60BE10F8338EB623) :=
  scalarMultAux_step 212 0x8F8A276C19F4149656B280621E358CCE24F5F52542772691EE690 0x47C513B60CFA0A4B2B5940310F1AC667127AFA92A13B9348F7348 (Point.mk 0x4DFD40C0E0C635DB0A9863A2C0BD171856501CC0E11013E34B221E54BB80D6DB 0x41C97C4D6BD11BDCCBB5E0B4EA163BFED6847E9E7356377B604C26A4D60BAE3D) (Point.mk 0xDA67A91D91049CDCB367BE4BE6FFCA3CFEED657D808583DE33FA978BC1EC6CB1 0x9BACAA35481642BC41F463F7EC9780E5DEC7ADC508F740A17E9EA8E27A68BE1D) (Point.mk 0x4DFD40C0E0C635DB0A9863A2C0BD171856501CC0E11013E34B221E54BB80D6DB 0x41C97C4D6BD11BDCCBB5E0B4EA163BFED6847E9E7356377B604C26A4D60BAE3D) (Point.mk 0x4DBACD365FA1EF587C0C0CFAAF00D8718BBD9F35CCEA5A835EE3CC821FE741C9 0x16C3540E8A51892E7FDCFD59E838299D0CC384A09FC0535F60BE10F8338EB623) (by decide) (by decide) (by decide) (by decide)

theorem smA45 : scalarMultAux 212 0x47C513B60CFA0A4B2B5940310F1AC667127AFA92A13B9348F7348 (Point.mk 0x4DFD40C0E0C635DB0A9863A2C0BD171856501CC0E11013E34B221E54BB80D6DB 0x41C97C4D6BD11BDCCBB5E0B4EA163BFED6847E9E7356377B604C26A4D60BAE3D) (Point.mk 0x4DBACD365FA1EF587C0C0CFAAF00D8718BBD9F35CCEA5A835EE3CC821FE741C9 0x16C3540E8A51892E7FDCFD59E838299D0CC384A09FC0535F60BE10F8338EB623) = scalarMultAux 211 0x23E289DB067D052595ACA018878D6333893D7D49509DC9A47B9A4 (Point.mk 0x4DFD40C0E0C635DB0A9863A2C0BD171856501CC0E11013E34B221E54BB80D6DB 0x41C97C4D6BD11BDCCBB5E0B4EA163BFED6847E9E7356377B604C26A4D60BAE3D) (Point.mk 0x13D1FFC481509BEEE68F17D8FF41C2590F4C85F15268605087EDA8BAB4E218DA 0x6008391FA991961DCECB9337B1B758BDA4AD01206D5BD127E0DB419DDB191C19) :=
  scalarMultAux_step 211 0x47C513B60CFA0A4B2B5940310F1AC667127AFA92A13B9348F7348 0x23E289DB067D052595ACA018878D6333893D7D49509DC9A47B9A4 (Point.mk 0x4DFD40C0E0C635DB0A9863A2C0BD171856501CC0E11013E34B221E54BB80D6DB 0x41C97C4D6BD11BDCCBB5E0B4EA163BFED6847E9E7356377B604C26A4D60BAE3D) (Point.mk 0x4DBACD365FA1EF587C0C0CFAAF00D8718BBD9F35CCEA5A835EE3CC821FE741C9 0x16C3540E8A51892E7FDCFD59E838299D0CC384A09FC0535F60BE10F8338EB623) (Point.mk 0x4DFD40C0E0C635DB0A9863A2C0BD171856501CC0E11013E34B221E54BB80D6DB 0x41C97C4D6BD11BDCCBB5E0B4EA163BFED6847E9E7356377B604C26A4D60BAE3D) (Point.mk 0x13D1FFC481509BEEE68F17D8FF41C2590F4C85F15268605087EDA8BAB4E218DA 0x6008391FA991961DCECB9337B1B758BDA4AD01206D5BD127E0DB419DDB191C19) (by decide) (by decide) (by decide) (by decide)

theorem smA46 : scalarMultAux 211 0x23E289DB067D052595ACA018878D6333893D7D49509DC9A47B9A4 (Point.mk 0x4DFD40C0E0C635DB0A9863A2C0BD171856501CC0E11013E34B221E54BB80D6DB 0x41C97C4D6BD11BDCCBB5E0B4EA163BFED6847E9E7356377B604C26A4D60BAE3D) (Point.mk 0x13D1FFC481509BEEE68F17D8FF41C2590F4C85F15268605087EDA8BAB4E218DA 0x6008391FA991961DCECB9337B1B758BDA4AD01206D5BD127E0DB419DDB191C19) = scalarMultAux 210 0x11F144ED833E8292CAD6500C43C6B199C49EBEA4A84EE4D23DCD2 (Point.mk 0x4DFD40C0E0C635DB0A9863A2C0BD171856501CC0E11013E34B221E54BB80D6DB 0x41C97C4D6BD11BDCCBB5E0B4EA163BFED6847E9E7356377B604C26A4D60BAE3D) (Point.mk 0x219B4F9CEF6C60007659C79C45B0533B3CC9D916CE29DBFF133B40CAA2E96DB8 0x24D9C605D959EFEAF5A44180C0372A6E394F8AC53E90576527DF01A78D3B6BC7) :=
  scalarMultAux_step 210 0x23E289DB067D052595ACA018878D6333893D7D49509DC9A47B9A4 0x11F144ED833E8292CAD6500C43C6B199C49EBEA4A84EE4D23DCD2 (Point.mk 0x4DFD40C0E0C635DB0A9863A2C0BD171856501CC0E11013E34B221E54BB80D6DB 0x41C97C4D6BD11BDCCBB5E0B4EA163BFED6847E9E7356377B604C26A4D60BAE3D) (Point.mk 0x13D1FFC481509BEEE68F17D8FF41C2590F4C85F15268605087EDA8BAB4E218DA 0x6008391FA991961DCECB9337B1B758BDA4AD01206D5BD127E0DB419DDB191C19) (Point.mk 0x4DFD40C0E0C635DB0A9863A2C0BD171856501CC0E11013E34B221E54BB80D6DB 0x41C97C4D6BD11BDCCBB5E0B4EA163BFED6847E9E7356377B604C26A4D60BAE3D) (Point.mk 0x219B4F9CEF6C60007659C79C45B0533B3CC9D916CE29DBFF133B40CAA2E96DB8 0x24D9C605D959EFEAF5A44180C0372A6E394F8AC53E90576527DF01A78D3B6BC7) (by decide) (by decide) (by decide) (by decide)

theorem smA47 : scalarMultAux 210 0x11F144ED833E8292CAD6500C43C6B199C49EBEA4A84EE4D23DCD2 (Point.mk 0x4DFD40C0E0C635DB0A9863A2C0BD171856501CC0E11013E34B221E54BB80D6DB 0x41C97C4D6BD11BDCCBB5E0B4EA163BFED6847E9E7356377B604C26A4D60BAE3D) (Point.mk 0x219B4F9CEF6C60007659C79C45B0533B3CC9D916CE29DBFF133B40CAA2E96DB8 0x24D9C605D959EFEAF5A44180C0372A6E394F8AC53E90576527DF01A78D3B6BC7) = scalarMultAux 209 0x8F8A276C19F4149656B280621E358CCE24F5F52542772691EE69 (Point.mk 0x4DFD40C0E0C635DB0A9863A2C0BD171856501CC0E11013E34B221E54BB80D6DB 0x41C97C4D6BD11BDCCBB5E0B4EA163BFED6847E9E7356377B604C26A4D60BAE3D) (Point.mk 0x53904FAA0B334CDDA6E000935EF22151EC08D0F7BB11069F57545CCC1A37B7C0 0x5BC087D0BC80106D88C9ECCAC20D3C1C13999981E14434699DCB096B022771C8) :=
  scalarMultAux_step 209 0x11F144ED833E8292CAD6500C43C6B199C49EBEA4A84EE4D23DCD2 0x8F8A276C19F4149656B280621E358CCE24F5F52542772691EE69 (Point.mk 0x4DFD40C0E0C635DB0A9863A2C0BD171856501CC0E11013E34B221E54BB80D6DB 0x41C97C4D6BD11BDCCBB5E0B4EA163BFED6847E9E7356377B604C26A4D60BAE3D) (Point.mk 0x219B4F9CEF6C60007659C79C45B0533B3CC9D916CE29DBFF133B40CAA2E96DB8 0x24D9C605D959EFEAF5A44180C0372A6E394F8AC53E90576527DF01A78D3B6BC7) (Point.mk 0x4DFD40C0E0C635DB0A9863A2C0BD171856501CC0E11013E34B221E54BB80D6DB 0x41C97C4D6BD11BDCCBB5E0B4EA163BFED6847E9E7356377B604C26A4D60BAE3D) (Point.mk 0x53904FAA0B334CDDA6E000935EF22151EC08D0F7BB11069F57545CCC1A37B7C0 0x5BC087D0BC80106D88C9ECCAC20D3C1C13999981E14434699DCB096B022771C8) (by decide) (by decide) (by decide) (by decide)

theorem smA48 : scalarMultAux 209 0x8F8A276C19F4149656B280621E358CCE24F5F52542772691EE69 (Point.mk 0x4DFD40C0E0C635DB0A9863A2C0BD171856501CC0E11013E34B221E54BB80D6DB 0x41C97C4D6BD11BDCCBB5E0B4EA163BFED6847E9E7356377B604C26A4D60BAE3D) (Point.mk 0x53904FAA0B334CDDA6E000935EF22151EC08D0F7BB11069F57545CCC1A37B7C0 0x5BC087D0BC80106D88C9ECCAC20D3C1C13999981E14434699DCB096B022771C8) = scalarMultAux 208 0x47C513B60CFA0A4B2B5940310F1AC667127AFA92A13B9348F734 (Point.mk 0x78EA07E6BCEFBFD8E79794CA7EADF4FFF36F66479F5703E05E42DA975F98C72C 0x735D47E62AD06B15AFAF59A7EC37BA810FD0B99C0FB8B5F08E088D97AC371638) (Point.mk 0x01A575AF9D4146753CF991196316995D2A6EE7AAAD0F85AD57CD0F1F38A47CA9 0x3038F1CB8AB20DC3CC55FC52E1BB8698BDB93C5D9F4D7EA667C5DF2E77EBCDB7) :=
  scalarMultAux_step 208 0x8F8A276C19F4149656B280621E358CCE24F5F52542772691EE69 0x47C513B60CFA0A4B2B5940310F1AC667127AFA92A13B9348F734 (Point.mk 0x4DFD40C0E0C635DB0A9863A2C0BD171856501CC0E11013E34B221E54BB80D6DB 0x41C97C4D6BD11BDCCBB5E0B4EA163BFED6847E9E7356377B604C26A4D60BAE3D) (Point.mk 0x53904FAA0B334CDDA6E000935EF22151EC08D0F7BB11069F57545CCC1A37B7C0 0x5BC087D0BC80106D88C9ECCAC20D3C1C13999981E14434699DCB096B022771C8) (Point.mk 0x78EA07E6BCEFBFD8E79794CA7EADF4FFF36F66479F5703E05E42DA975F98C72C 0x735D47E62AD06B15AFAF59A7EC37BA810FD0B99C0FB8B5F08E088D97AC371638) (Point.mk 0x01A575AF9D4146753CF991196316995D2A6EE7AAAD0F85AD57CD0F1F38A47CA9 0x3038F1CB8AB20DC3CC55FC52E1BB8698BDB93C5D9F4D7EA667C5DF2E77EBCDB7) (by decide) (by decide) (by decide) (by decide)

theorem smA49 : scalarMultAux 208 0x47C513B60CFA0A4B2B5940310F1AC667127AFA92A13B9348F734 (Point.mk 0x78EA07E6BCEFBFD8E79794CA7EADF4FFF36F66479F5703E05E42DA975F98C72C 0x735D47E62AD06B15AFAF59A7EC37BA810FD0B99C0FB8B5F08E088D97AC371638) (Point.mk 0x01A575AF9D4146753CF991196316995D2A6EE7AAAD0F85AD57CD0F1F38A47CA9 0x3038F1CB8AB20DC3CC55FC52E1BB8698BDB93C5D9F4D7EA667C5DF2E77EBCDB7) = scalarMultAux 207 0x23E289DB067D052595ACA018878D6333893D7D49509DC9A47B9A (Point.mk 0x78EA07E6BCEFBFD8E79794CA7EADF4FFF36F66479F5703E05E42DA975F98C72C 0x735D47E62AD06B15AFAF59A7EC37BA810FD0B99C0FB8B5F08E088D97AC371638) (Point.mk 0xF5F0E0437621D439CA71F5C1B76155D6D3A61A83D3C20C6EE309D755E315565B 0x6B9F4E62BE5A052BF62189160DF7101AA5BF61BF3ED7E40A678430AFDD2ECC82) :=
  scalarMultAux_step 207 0x47C513B60CFA0A4B2B5940310F1AC667127AFA92A13B9348F734 0x23E289DB067D052595ACA018878D6333893D7D49509DC9A47B9A (Point.mk 0x78EA07E6BCEFBFD8E79794CA7EADF4FFF36F66479F5703E05E42DA975F98C72C 0x735D47E62AD06B15AFAF59A7EC37BA810FD0B99C0FB8B5F08E088D97AC371638) (Point.mk 0x01A575AF9D4146753CF991196316995D2A6EE7AAAD0F85AD57CD0F1F38A47CA9 0x3038F1CB8AB20DC3CC55FC52E1BB8698BDB93C5D9F4D7EA667C5DF2E77EBCDB7) (Point.mk 0x78EA07E6BCEFBFD8E79794CA7EADF4FFF36F66479F5703E05E42DA975F98C72C 0x735D47E62AD06B15AFAF59A7EC37BA810FD0B99C0FB8B5F08E088D97AC371638) (Point.mk 0xF5F0E0437621D439CA71F5C1B76155D6D3A61A83D3C20C6EE309D755E315565B 0x6B9F4E62BE5A052BF62189160DF7101AA5BF61BF3ED7E40A678430AFDD2ECC82) (by decide) (by decide) (by decide) (by decide)

theorem smA50 : scalarMultAux 207 0x23E289DB067D052595ACA018878D6333893D7D49509DC9A47B9A (Point.mk 0x78EA07E6BCEFBFD8E79794CA7EADF4FFF36F66479F5703E05E42DA975F98C72C 0x735D47E62AD06B15AFAF59A7EC37BA810FD0B99C0FB8B5F08E088D97AC371638) (Point.mk 0xF5F0E0437621D439CA71F5C1B76155D6D3A61A83D3C20C6EE309D755E315565B 0x6B9F4E62BE5A052BF62189160DF7101AA5BF61BF3ED7E40A678430AFDD2ECC82) = scalarMultAux 206 0x11F144ED833E8292CAD6500C43C6B199C49EBEA4A84EE4D23DCD (Point.mk 0x78EA07E6BCEFBFD8E79794CA7EADF4FFF36F66479F5703E05E42DA975F98C72C 0x735D47E62AD06B15AFAF59A7EC37BA810FD0B99C0FB8B5F08E088D97AC371638) (Point.mk 0x8F506F0B6C0B6E9A57A7F36D970CA4E347CBC92146227642CBE781D9F5362D33 0x469F955D2AFA61719530C5424F1C336848CF925D43BB8EAF30487D0C87FA243F) :=
  scalarMultAux_step 206 0x23E289DB067D052595ACA018878D6333893D7D49509DC9A47B9A 0x11F144ED833E8292CAD6500C43C6B199C49EBEA4A84EE4D23DCD (Point.mk 0x78EA07E6BCEFBFD8E79794CA7EADF4FFF36F66479F5703E05E42DA975F98C72C 0x735D47E62AD06B15AFAF59A7EC37BA810FD0B99C0FB8B5F08E088D97AC371638) (Point.mk 0xF5F0E0437621D439CA71F5C1B76155D6D3A61A83D3C20C6EE309D755E315565B 0x6B9F4E62BE5A052BF62189160DF7101AA5BF61BF3ED7E40A678430AFDD2ECC82) (Point.mk 0x78EA07E6BCEFBFD8E79794CA7EADF4FFF36F66479F5703E05E42DA975F98C72C 0x735D47E62AD06B15AFAF59A7EC37BA810FD0B99C0FB8B5F08E088D97AC371638) (Point.mk 0x8F506F0B6C0B6E9A57A7F36D970CA4E347CBC92146227642CBE781D9F5362D33 0x469F955D2AFA61719530C5424F1C336848CF925D43BB8EAF30487D0C87FA243F) (by decide) (by decide) (by decide) (by decide)

theorem smA51 : scalarMultAux 206 0x11F144ED833E8292CAD6500C43C6B199C49EBEA4A84EE4D23DCD (Point.mk 0x78EA07E6BCEFBFD8E79794CA7EADF4FFF36F66479F5703E05E42DA975F98C72C 0x735D47E62AD06B15AFAF59A7EC37BA810FD0B99C0FB8B5F08E088D97AC371638) (Point.mk 0x8F506F0B6C0B6E9A57A7F36D970CA4E347CBC92146227642CBE781D9F5362D33 0x469F955D2AFA61719530C5424F1C336848CF925D43BB8EAF30487D0C87FA243F) = scalarMultAux 205 0x8F8A276C19F4149656B280621E358CCE24F5F52542772691EE6 (Point.mk 0xBBAFFE2C02EE64BC740C20EC48A26A5833F7A20C50AE10AC80A2D6B7CECCF417 0xF5BA0EDCADB395AE5CB162949495BE76FA6840662DDAC41E09E675568F377AA8) (Point.mk 0x8E7BCD0BD35983A7719CCA7764CA906779B53A043A9B8BCAEFF959F43AD86047 0x10B7770B2A3DA4B3940310420CA9514579E88E2E47FD68B3EA10047E8460372A) :=
  scalarMultAux_step 205 0x11F144ED833E8292CAD6500C43C6B199C49EBEA4A84EE4D23DCD 0x8F8A276C19F4149656B280621E358CCE24F5F52542772691EE6 (Point.mk 0x78EA07E6BCEFBFD8E79794CA7EADF4FFF36F66479F5703E05E42DA975F98C72C 0x735D47E62AD06B15AFAF59A7EC37BA810FD0B99C0FB8B5F08E088D97AC371638) (Point.mk 0x8F506F0B6C0B6E9A57A7F36D970CA4E347CBC92146227642CBE781D9F5362D33 0x469F955D2AFA61719530C5424F1C336848CF925D43BB8EAF30487D0C87FA243F) (Point.mk 0xBBAFFE2C02EE64BC740C20EC48A26A5833F7A20C50AE10AC80A2D6B7CECCF417 0xF5BA0EDCADB395AE5CB162949495BE76FA6840662DDAC41E09E675568F377AA8) (Point.mk 0x8E7BCD0BD35983A7719CCA7764CA906779B53A043A9B8BCAEFF959F43AD86047 0x10B7770B2A3DA4B3940310420CA9514579E88E2E47FD68B3EA10047E8460372A) (by decide) (by decide) (by decide) (by decide)

theorem smA52 : scalarMultAux 205 0x8F8A276C19F4149656B280621E358CCE24F5F52542772691EE6 (Point.mk 0xBBAFFE2C02EE64BC740C20EC48A26A5833F7A20C50AE10AC80A2D6B7CECCF417 0xF5BA0EDCADB395AE5CB162949495BE76FA6840662DDAC41E09E675568F377AA8) (Point.mk 0x8E7BCD0BD35983A7719CCA7764CA906779B53A043A9B8BCAEFF959F43AD86047 0x10B7770B2A3DA4B3940310420CA9514579E88E2E47FD68B3EA10047E8460372A) = scalarMultAux 204 0x47C513B60CFA0A4B2B5940310F1AC667127AFA92A13B9348F73 (Point.mk 0xBBAFFE2C02EE64BC740C20EC48A26A5833F7A20C50AE10AC80A2D6B7CECCF417 0xF5BA0EDCADB395AE5CB162949495BE76FA6840662DDAC41E09E675568F377AA8) (Point.mk 0x33B35BAA195E729DC350F319996950DF3BC15B8D3D0389E777D2808BF13F0351 0xA58A0185640ABF87F9464036248D52BCAA6560EFBC889B702BC503CCCB8D7418) :=
  scalarMultAux_step 204 0x8F8A276C19F4149656B280621E358CCE24F5F52542772691EE6 0x47C513B60CFA0A4B2B5940310F1AC667127AFA92A13B9348F73 (Point.mk 0xBBAFFE2C02EE64BC740C20EC48A26A5833F7A20C50AE10AC80A2D6B7CECCF417 0xF5BA0EDCADB395AE5CB162949495BE76FA6840662DDAC41E09E675568F377AA8) (Point.mk 0x8E7BCD0BD35983A7719CCA7764CA906779B53A043A9B8BCAEFF959F43AD86047 0x10B7770B2A3DA4B3940310420CA9514579E88E2E47FD68B3EA10047E8460372A) (Point.mk 0xBBAFFE2C02EE64BC740C20EC48A26A5833F7A20C50AE10AC80A2D6B7CECCF417 0xF5BA0EDCADB395AE5CB162949495BE76FA6840662DDAC41E09E675568F377AA8) (Point.mk 0x33B35BAA195E729DC350F319996950DF3BC15B8D3D0389E777D2808BF13F0351 0xA58A0185640ABF87F9464036248D52BCAA6560EFBC889B702BC503CCCB8D7418) (by decide) (by decide) (by decide) (by decide)

theorem smA53 : scalarMultAux 204 0x47C513B60CFA0A4B2B5940310F1AC667127AFA92A13B9348F73 (Point.mk 0xBBAFFE2C02EE64BC740C20EC48A26A5833F7A20C50AE10AC80A2D6B7CECCF417 0xF5BA0EDCADB395AE5CB162949495BE76FA6840662DDAC41E09E675568F377AA8) (Point.mk 0x33B35BAA195E729DC350F319996950DF3BC15B8D3D0389E777D2808BF13F0351 0xA58A0185640ABF87F9464036248D52BCAA6560EFBC889B702BC503CCCB8D7418) = scalarMultAux 203 0x23E289DB067D052595ACA018878D6333893D7D49509DC9A47B9 (Point.mk 0x1ECF6A0A9471D31133187ACBA701F2BF5CB35CB6D15335C73C946882879BF566 0xA5557CD35A12B2687B1C95556755A7E9C6FD3F9F940F6AC218F5DBA5E82BB18E) (Point.mk 0x374DEEAE22C93F955CB83AD2071F7E2256F6E109CAD7BCA6D71DC7B24414BB36 0x171165B64FCD4F9916032C06F806F7293828D66300E543217875BEA98DAF734A) :=
  scalarMultAux_step 203 0x47C513B60CFA0A4B2B5940310F1AC667127AFA92A13B9348F73 0x23E289DB067D052595ACA018878D6333893D7D49509DC9A47B9 (Point.mk 0xBBAFFE2C02EE64BC740C20EC48A26A5833F7A20C50AE10AC80A2D6B7CECCF417 0xF5BA0EDCADB395AE5CB162949495BE76FA6840662DDAC41E09E675568F377AA8) (Point.mk 0x33B35BAA195E729DC350F319996950DF3BC15B8D3D0389E777D2808BF13F0351 0xA58A0185640ABF87F9464036248D52BCAA6560EFBC889B702BC503CCCB8D7418) (Point.mk 0x1ECF6A0A9471D31133187ACBA701F2BF5CB35CB6D15335C73C946882879BF566 0xA5557CD35A12B2687B1C95556755A7E9C6FD3F9F940F6AC218F5DBA5E82BB18E) (Point.mk 0x374DEEAE22C93F955CB83AD2071F7E2256F6E109CAD7BCA6D71DC7B24414BB36 0x171165B64FCD4F9916032C06F806F7293828D66300E543217875BEA98DAF734A) (by decide) (by decide) (by decide) (by decide)

theorem smA54 : scalarMultAux 203 0x23E289DB067D052595ACA018878D6333893D7D49509DC9A47B9 (Point.mk 0x1ECF6A0A9471D31133187ACBA701F2BF5CB35CB6D15335C73C946882879BF566 0xA5557CD35A12B2687B1C95556755A7E9C6FD3F9F940F6AC218F5DBA5E82BB18E) (Point.mk 0x374DEEAE22C93F955CB83AD2071F7E2256F6E109CAD7BCA6D71DC7B24414BB36 0x171165B64FCD4F9916032C06F806F7293828D66300E543217875BEA98DAF734A) = scalarMultAux 202 0x11F144ED833E8292CAD6500C43C6B199C49EBEA4A84EE4D23DC (Point.mk 0x04F483CA682263A04DC1941D32A1AD88A57E7F64ED116D4E388232F7F38430D2 0x65E1F4A9036F5F02F3FAA27EC9886EF768E36A145117FFD2FDA40C7F94E22D75) (Point.mk 0x2380C09C7F3AEAE57C46E07395AEB0DC944DBAF2B62A9F0C5E8A64AD6AE7D616 0x6F8E86193464956AF1598AEFD509B09A93AF92148F8467560099BE48161BBC1A) :=
  scalarMultAux_step 202 0x23E289DB067D052595ACA018878D6333893D7D49509DC9A47B9 0x11F144ED833E8292CAD6500C43C6B199C49EBEA4A84EE4D23DC (Point.mk 0x1ECF6A0A9471D31133187ACBA701F2BF5CB35CB6D15335C73C946882879BF566 0xA5557CD35A12B2687B1C95556755A7E9C6FD3F9F940F6AC218F5DBA5E82BB18E) (Point.mk 0x374DEEAE22C93F955CB83AD2071F7E2256F6E109CAD7BCA6D71DC7B24414BB36 0x171165B64FCD4F9916032C06F806F7293828D66300E543217875BEA98DAF734A) (Point.mk 0x04F483CA682263A04DC1941D32A1AD88A57E7F64ED116D4E388232F7F38430D2 0x65E1F4A9036F5F02F3FAA27EC9886EF768E36A145117FFD2FDA40C7F94E22D75) (Point.mk 0x2380C09C7F3AEAE57C46E07395AEB0DC944DBAF2B62A9F0C5E8A64AD6AE7D616 0x6F8E86193464956AF1598AEFD509B09A93AF92148F8467560099BE48161BBC1A) (by decide) (by decide) (by decide) (by decide)

theorem smA55 : scalarMultAux 202 0x11F144ED833E8292CAD6500C43C6B199C49EBEA4A84EE4D23DC (Point.mk 0x04F483CA682263A04DC1941D32A1AD88A57E7F64ED116D4E388232F7F38430D2 0x65E1F4A9036F5F02F3FAA27EC9886EF768E36A145117FFD2FDA40C7F94E22D75) (Point.mk 0x2380C09C7F3AEAE57C46E07395AEB0DC944DBAF2B62A9F0C5E8A64AD6AE7D616 0x6F8E86193464956AF1598AEFD509B09A93AF92148F8467560099BE48161BBC1A) = scalarMultAux 201 0x8F8A276C19F4149656B280621E358CCE24F5F52542772691EE (Point.mk 0x04F483CA682263A04DC1941D32A1AD88A57E7F64ED116D4E388232F7F38430D2 0x65E1F4A9036F5F02F3FAA27EC9886EF768E36A145117FFD2FDA40C7F94E22D75) (Point.mk 0x385EED34C1CDFF21E6D0818689B81BDE71A7F4F18397E6690A841E1599C43862 0x283BEBC3E8EA23F56701DE19E9EBF4576B304EEC2086DC8CC0458FE5542E5453) :=
  scalarMultAux_step 201 0x11F144ED833E8292CAD6500C43C6B199C49EBEA4A84EE4D23DC 0x8F8A276C19F4149656B280621E358CCE24F5F52542772691EE (Point.mk 0x04F483CA682263A04DC1941D32A1AD88A57E7F64ED116D4E388232F7F38430D2 0x65E1F4A9036F5F02F3FAA27EC9886EF768E36A145117FFD2FDA40C7F94E22D75) (Point.mk 0x2380C09C7F3AEAE57C46E07395AEB0DC944DBAF2B62A9F0C5E8A64AD6AE7D616 0x6F8E86193464956AF1598AEFD509B09A93AF92148F8467560099BE48161BBC1A) (Point.mk 0x04F483CA682263A04DC1941D32A1AD88A57E7F64ED116D4E388232F7F38430D2 0x65E1F4A9036F5F02F3FAA27EC9886EF768E36A145117FFD2FDA40C7F94E22D75) (Point.mk 0x385EED34C1CDFF21E6D0818689B81BDE71A7F4F18397E6690A841E1599C43862 0x283BEBC3E8EA23F56701DE19E9EBF4576B304EEC2086DC8CC0458FE5542E5453) (by decide) (by decide) (by decide) (by decide)

theorem smA56 : scalarMultAux 201 0x8F8A276C19F4149656B280621E358CCE24F5F52542772691EE (Point.mk 0x04F483CA682263A04DC1941D32A1AD88A57E7F64ED116D4E388232F7F38430D2 0x65E1F4A9036F5F02F3FAA27EC9886EF768E36A145117FFD2FDA40C7F94E22D75) (Point.mk 0x385EED34C1CDFF21E6D0818689B81BDE71A7F4F18397E6690A841E1599C43862 0x283BEBC3E8EA23F56701DE19E9EBF4576B304EEC2086DC8CC0458FE5542E5453) = scalarMultAux 200 0x47C513B60CFA0A4B2B5940310F1AC667127AFA92A13B9348F7 (Point.mk 0x04F483CA682263A04DC1941D32A1AD88A57E7F64ED116D4E388232F7F38430D2 0x65E1F4A9036F5F02F3FAA27EC9886EF768E36A145117FFD2FDA40C7F94E22D75) (Point.mk 0xF6F622083DAF54800456BE134D5F67D147C82642BEFC1CE2DC83A27078F2827C 0x1BCD4E817DE73A0FAF2C5715B367CEE7E657CA7448321BF6D15B20B520AAA102) :=
  scalarMultAux_step 200 0x8F8A276C19F4149656B280621E358CCE24F5F52542772691EE 0x47C513B60CFA0A4B2B5940310F1AC667127AFA92A13B9348F7 (Point.mk 0x04F483CA682263A04DC1941D32A1AD88A57E7F64ED116D4E388232F7F38430D2 0x65E1F4A9036F5F02F3FAA27EC9886EF768E36A145117FFD2FDA40C7F94E22D75) (Point.mk 0x385EED34C1CDFF21E6D0818689B81BDE71A7F4F18397E6690A841E1599C43862 0x283BEBC3E8EA23F56701DE19E9EBF4576B304EEC2086DC8CC0458FE5542E5453) (Point.mk 0x04F483CA682263A04DC1941D32A1AD88A57E7F64ED116D4E388232F7F38430D2 0x65E1F4A9036F5F02F3FAA27EC9886EF768E36A145117FFD2FDA40C7F94E22D75) (Point.mk 0xF6F622083DAF54800456BE134D5F67D147C82642BEFC1CE2DC83A27078F2827C 0x1BCD4E817DE73A0FAF2C5715B367CEE7E657CA7448321BF6D15B20B520AAA102) (by decide) (by decide) (by decide) (by decide)

theorem smA57 : scalarMultAux 200 0x47C513B60CFA0A4B2B5940310F1AC667127AFA92A13B9348F7 (Point.mk 0x04F483CA682263A04DC1941D32A1AD88A57E7F64ED116D4E388232F7F38430D2 0x65E1F4A9036F5F02F3FAA27EC9886EF768E36A145117FFD2FDA40C7F94E22D75) (Point.mk 0xF6F622083DAF54800456BE134D5F67D147C82642BEFC1CE2DC83A27078F2827C 0x1BCD4E817DE73A0FAF2C5715B367CEE7E657CA7448321BF6D15B20B520AAA102) = scalarMultAux 199 0x23E289DB067D052595ACA018878D6333893D7D49509DC9A47B (Point.mk 0xF1D55C99EEFE4EA265DBD7EE138EC4E854709EE34B31E056F4DDEA115E4D03F2 0x4BFE9F193BA8C92B1D9C31C9E012F90C8646F87A5289E44F9D9132AF1786A4D5) (Point.mk 0xFB26E5188F953DE2BD70CB3C3D1FC255CD91C3CE7D8C6F369D893209715ADCB6 0xF3E128811012A34D58E846A719D0176916D2CB31B8B7AB5449DBCA3B58BA68F3) :=
  scalarMultAux_step 199 0x47C513B60CFA0A4B2B5940310F1AC667127AFA92A13B9348F7 0x23E289DB067D052595ACA018878D6333893D7D49509DC9A47B (Point.mk 0x04F483CA682263A04DC1941D32A1AD88A57E7F64ED116D4E388232F7F38430D2 0x65E1F4A9036F5F02F3FAA27EC9886EF768E36A145117FFD2FDA40C7F94E22D75) (Point.mk 0xF6F622083DAF54800456BE134D5F67D147C82642BEFC1CE2DC83A27078F2827C 0x1BCD4E817DE73A0FAF2C5715B367CEE7E657CA7448321BF6D15B20B520AAA102) (Point.mk 0xF1D55C99EEFE4EA265DBD7EE138EC4E854709EE34B31E056F4DDEA115E4D03F2 0x4BFE9F193BA8C92B1D9C31C9E012F90C8646F87A5289E44F9D9132AF1786A4D5) (Point.mk 0xFB26E5188F953DE2BD70CB3C3D1FC255CD91C3CE7D8C6F369D893209715ADCB6 0xF3E128811012A34D58E846A719D0176916D2CB31B8B7AB5449DBCA3B58BA68F3) (by decide) (by decide) (by decide) (by decide)

theorem smA58 : scalarMultAux 199 0x23E289DB067D052595ACA018878D6333893D7D49509DC9A47B (Point.mk 0xF1D55C99EEFE4EA265DBD7EE138EC4E854709EE34B31E056F4DDEA115E4D03F2 0x4BFE9F193BA8C92B1D9C31C9E012F90C8646F87A5289E44F9D9132AF1786A4D5) (Point.mk 0xFB26E5188F953DE2BD70CB3C3D1FC255CD91C3CE7D8C6F369D893209715ADCB6 0xF3E128811012A34D58E846A719D0176916D2CB31B8B7AB5449DBCA3B58BA68F3) = scalarMultAux 198 0x11F144ED833E8292CAD6500C43C6B199C49EBEA4A84EE4D23D (Point.mk 0x81BAD96DCED0E921C39AEDE5E4AEF356015F133DF76152C4A172331C3A746A09 0x3704B352364E5ED71035AF30555CAC02974AE454C7B418AAA90AA39A6C95012B) (Point.mk 0x8991225911B9132D28F5C6BC763CEAB7D18C37060E8BD1D7ED44DB7560788C1E 0xDA8B4D987CC9AC9B27B8763559B136FA36969C84FDEF9E11635C42228E8F0EF1) :=
  scalarMultAux_step 198 0x23E289DB067D052595ACA018878D6333893D7D49509DC9A47B 0x11F144ED833E8292CAD6500C43C6B199C49EBEA4A84EE4D23D (Point.mk 0xF1D55C99EEFE4EA265DBD7EE138EC4E854709EE34B31E056F4DDEA115E4D03F2 0x4BFE9F193BA8C92B1D9C31C9E012F90C8646F87A5289E44F9D9132AF1786A4D5) (Point.mk 0xFB26E5188F953DE2BD70CB3C3D1FC255CD91C3CE7D8C6F369D893209715ADCB6 0xF3E128811012A34D58E846A719D0176916D2CB31B8B7AB5449DBCA3B58BA68F3) (Point.mk 0x81BAD96DCED0E921C39AEDE5E4AEF356015F133DF76152C4A172331C3A746A09 0x3704B352364E5ED71035AF30555CAC02974AE454C7B418AAA90AA39A6C95012B) (Point.mk 0x8991225911B9132D28F5C6BC763CEAB7D18C37060E8BD1D7ED44DB7560788C1E 0xDA8B4D987CC9AC9B27B8763559B136FA36969C84FDEF9E11635C42228E8F0EF1) (by decide) (by decide) (by decide) (by decide)

theorem smA59 : scalarMultAux 198 0x11F144ED833E8292CAD6500C43C6B199C49EBEA4A84EE4D23D (Point.mk 0x81BAD96DCED0E921C39AEDE5E4AEF356015F133DF76152C4A172331C3A746A09 0x3704B352364E5ED71035AF30555CAC02974AE454C7B418AAA90AA39A6C95012B) (Point.mk 0x8991225911B9132D28F5C6BC763CEAB7D18C37060E8BD1D7ED44DB7560788C1E 0xDA8B4D987CC9AC9B27B8763559B136FA36969C84FDEF9E11635C42228E8F0EF1) = scalarMultAux 197 0x8F8A276C19F4149656B280621E358CCE24F5F52542772691E (Point.mk 0xD78B5BFC3A64C4EBD8A18BBF0F2B9700B3F14D78CCB70767BD1A6D7CA1BFE86E 0xD2499EB1794DEE23F55E44D812F31188F58C33DEAD4DD7A14EC3F87E59512B8F) (Point.mk 0x06F9D9B803ECF191637C73A4413DFA180FDDF84A5947FBC9C606ED86C3FAC3A7 0x7C80C68E603059BA69B8E2A30E45C4D47EA4DD2F5C281002D86890603A842160) :=
  scalarMultAux_step 197 0x11F144ED833E8292CAD6500C43C6B199C49EBEA4A84EE4D23D 0x8F8A276C19F4149656B280621E358CCE24F5F52542772691E (Point.mk 0x81BAD96DCED0E921C39AEDE5E4AEF356015F133DF76152C4A172331C3A746A09 0x3704B352364E5ED71035AF30555CAC02974AE454C7B418AAA90AA39A6C95012B) (Point.mk 0x8991225911B9132D28F5C6BC763CEAB7D18C37060E8BD1D7ED44DB7560788C1E 0xDA8B4D987CC9AC9B27B8763559B136FA36969C84FDEF9E11635C42228E8F0EF1) (Point.mk 0xD78B5BFC3A64C4EBD8A18BBF0F2B9700B3F14D78CCB70767BD1A6D7CA1BFE86E 0xD2499EB1794DEE23F55E44D812F31188F58C33DEAD4DD7A14EC3F87E59512B8F) (Point.mk 0x06F9D9B803ECF191637C73A4413DFA180FDDF84A5947FBC9C606ED86C3FAC3A7 0x7C80C68E603059BA69B8E2A30E45C4D47EA4DD2F5C281002D86890603A842160) (by decide) (by decide) (by decide) (by decide)

theorem smA60 : scalarMultAux 197 0x8F8A276C19F4149656B280621E358CCE24F5F52542772691E (Point.mk 0xD78B5BFC3A64C4EBD8A18BBF0F2B9700B3F14D78CCB70767BD1A6D7CA1BFE86E 0xD2499EB1794DEE23F55E44D812F31188F58C33DEAD4DD7A14EC3F87E59512B8F) (Point.mk 0x06F9D9B803ECF191637C73A4413DFA180FDDF84A5947FBC9C606ED86C3FAC3A7 0x7C80C68E603059BA69B8E2A30E45C4D47EA4DD2F5C281002D86890603A842160) = scalarMultAux 196 0x47C513B60CFA0A4B2B5940310F1AC667127AFA92A13B9348F (Point.mk 0xD78B5BFC3A64C4EBD8A18BBF0F2B9700B3F14D78CCB70767BD1A6D7CA1BFE86E 0xD2499EB1794DEE23F55E44D812F31188F58C33DEAD4DD7A14EC3F87E59512B8F) (Point.mk 0xAE86EEEA252B411C1CDC36C284482939DA1745E5A7E4DA175C9D22744B7FD72D 0x19E993C9707302F962AB0ACE589FF0E98D9211551472F7282334CB7A4EEE38BC) :=
  scalarMultAux_step 196 0x8F8A276C19F4149656B280621E358CCE24F5F52542772691E 0x47C513B60CFA0A4B2B5940310F1AC667127AFA92A13B9348F (Point.mk 0xD78B5BFC3A64C4EBD8A18BBF0F2B9700B3F14D78CCB70767BD1A6D7CA1BFE86E 0xD2499EB1794DEE23F55E44D812F31188F58C33DEAD4DD7A14EC3F87E59512B8F) (Point.mk 0x06F9D9B803ECF191637C73A4413DFA180FDDF84A5947FBC9C606ED86C3FAC3A7 0x7C80C68E603059BA69B8E2A30E45C4D47EA4DD2F5C281002D86890603A842160) (Point.mk 0xD78B5BFC3A64C4EBD8A18BBF0F2B9700B3F14D78CCB70767BD1A6D7CA1BFE86E 0xD2499EB1794DEE23F55E44D812F31188F58C33DEAD4DD7A14EC3F87E59512B8F) (Point.mk 0xAE86EEEA252B411C1CDC36C284482939DA1745E5A7E4DA175C9D22744B7FD72D 0x19E993C9707302F962AB0ACE589FF0E98D9211551472F7282334CB7A4EEE38BC) (by decide) (by decide) (by decide) (by decide)

theorem smA61 : scalarMultAux 196 0x47C513B60CFA0A4B2B5940310F1AC667127AFA92A13B9348F (Point.mk 0xD78B5BFC3A64C4EBD8A18BBF0F2B9700B3F14D78CCB70767BD1A6D7CA1BFE86E 0xD2499EB1794DEE23F55E44D812F31188F58C33DEAD4DD7A14EC3F87E59512B8F) (Point.mk 0xAE86EEEA252B411C1CDC36C284482939DA1745E5A7E4DA175C9D22744B7FD72D 0x19E993C9707302F962AB0ACE589FF0E98D9211551472F7282334CB7A4EEE38BC) = scalarMultAux 195 0x23E289DB067D052595ACA018878D6333893D7D49509DC9A47 (Point.mk 0x83D9C7823B958117793161E1826864A46414E964D2FC10D37EC08207651545C8 0x97E7136F5049E040DCD4A12B8392B9211B7DEA54AF0721B820261BFD85FFDBE9) (Point.mk 0x2248C9F90BBFFF55E61D2F8C56DC2C488718BE75CF36F2EE7A1474267C169290 0xFA0594692D21EED7A506BB55B435BA18E163750235DA2BE2369D8A12883EA257) :=
  scalarMultAux_step 195 0x47C513B60CFA0A4B2B5940310F1AC667127AFA92A13B9348F 0x23E289DB067D052595ACA018878D6333893D7D49509DC9A47 (Point.mk 0xD78B5BFC3A64C4EBD8A18BBF0F2B9700B3F14D78CCB70767BD1A6D7CA1BFE86E 0xD2499EB1794DEE23F55E44D812F31188F58C33DEAD4DD7A14EC3F87E59512B8F) (Point.mk 0xAE86EEEA252B411C1CDC36C284482939DA1745E5A7E4DA175C9D22744B7FD72D 0x19E993C9707302F962AB0ACE589FF0E98D9211551472F7282334CB7A4EEE38BC) (Point.mk 0x83D9C7823B958117793161E1826864A46414E964D2FC10D37EC08207651545C8 0x97E7136F5049E040DCD4A12B8392B9211B7DEA54AF0721B820261BFD85FFDBE9) (Point.mk 0x2248C9F90BBFFF55E61D2F8C56DC2C488718BE75CF36F2EE7A1474267C169290 0xFA0594692D21EED7A506BB55B435BA18E163750235DA2BE2369D8A12883EA257) (by decide) (by decide) (by decide) (by decide)

theorem smA62 : scalarMultAux 195 0x23E289DB067D052595ACA018878D6333893D7D49509DC9A47 (Point.mk 0x83D9C7823B958117793161E1826864A46414E964D2FC10D37EC08207651545C8 0x97E7136F5049E040DCD4A12B8392B9211B7DEA54AF0721B820261BFD85FFDBE9) (Point.mk 0x2248C9F90BBFFF55E61D2F8C56DC2C488718BE75CF36F2EE7A1474267C169290 0xFA0594692D21EED7A506BB55B435BA18E163750235DA2BE2369D8A12883EA257) = scalarMultAux 194 0x11F144ED833E8292CAD6500C43C6B199C49EBEA4A84EE4D23 (Point.mk 0xB14E1381B15C6ED06F1FEDE09E09358D09FF024DFD99280E3A608CD578E81FCE 0x169AD33FEE8EDF8B0DBCD1BE7F920B4E5B0C9F2B7A400B7EC01B6C81518E76FF) (Point.mk 0xE11A6E16E05C44074AC11B48D94085D0A99F0877DD1C6F76FD0DAC4BB50964E3 0x87D6065B87A2D430E1AD5E2596F0AF2417ADC6E138318C6F767FBF8B0682BFC8) :=
  scalarMultAux_step 194 0x23E289DB067D052595ACA018878D6333893D7D49509DC9A47 0x11F144ED833E8292CAD6500C43C6B199C49EBEA4A84EE4D23 (Point.mk 0x83D9C7823B958117793161E1826864A46414E964D2FC10D37EC08207651545C8 0x97E7136F5049E040DCD4A12B8392B9211B7DEA54AF0721B820261BFD85FFDBE9) (Point.mk 0x2248C9F90BBFFF55E61D2F8C56DC2C488718BE75CF36F2EE7A1474267C169290 0xFA0594692D21EED7A506BB55B435BA18E163750235DA2BE2369D8A12883EA257) (Point.mk 0xB14E1381B15C6ED06F1FEDE09E09358D09FF024DFD99280E3A608CD578E81FCE 0x169AD33FEE8EDF8B0DBCD1BE7F920B4E5B0C9F2B7A400B7EC01B6C81518E76FF) (Point.mk 0xE11A6E16E05C44074AC11B48D94085D0A99F0877DD1C6F76FD0DAC4BB50964E3 0x87D6065B87A2D430E1AD5E2596F0AF2417ADC6E138318C6F767FBF8B0682BFC8) (by decide) (by decide) (by decide) (by decide)

theorem smA63 : scalarMultAux 194 0x11F144ED833E8292CAD6500C43C6B199C49EBEA4A84EE4D23 (Point.mk 0xB14E1381B15C6ED06F1FEDE09E09358D09FF024DFD99280E3A608CD578E81FCE 0x169AD33FEE8EDF8B0DBCD1BE7F920B4E5B0C9F2B7A400B7EC01B6C81518E76FF) (Point.mk 0xE11A6E16E05C44074AC11B48D94085D0A99F0877DD1C6F76FD0DAC4BB50964E3 0x87D6065B87A2D430E1AD5E2596F0AF2417ADC6E138318C6F767FBF8B0682BFC8) = scalarMultAux 193 0x8F8A276C19F4149656B280621E358CCE24F5F52542772691 (Point.mk 0x9E5ED41E9110BD593B2C68418F8449C2360100F8D7A8BE58B371CBF29237D5AF 0xF4D17DF5DE1500CAEC64D08DB71A72E06E93DBECF9B9B4A1783BBCB85614E0F2) (Point.mk 0x3322D401243C4E2582A2147C104D6ECBF774D163DB0F5E5313B7E0E742D0E6BD 0x56E70797E9664EF5BFB019BC4DDAF9B72805F63EA2873AF624F3A2E96C28B2A0) :=
  scalarMultAux_step 193 0x11F144ED833E8292CAD6500C43C6B199C49EBEA4A84EE4D23 0x8F8A276C19F4149656B280621E358CCE24F5F52542772691 (Point.mk 0xB14E1381B15C6ED06F1FEDE09E09358D09FF024DFD99280E3A608CD578E81FCE 0x169AD33FEE8EDF8B0DBCD1BE7F920B4E5B0C9F2B7A400B7EC01B6C81518E76FF) (Point.mk 0xE11A6E16E05C44074AC11B48D94085D0A99F0877DD1C6F76FD0DAC4BB50964E3 0x87D6065B87A2D430E1AD5E2596F0AF2417ADC6E138318C6F767FBF8B0682BFC8) (Point.mk 0x9E5ED41E9110BD593B2C68418F8449C2360100F8D7A8BE58B371CBF29237D5AF 0xF4D17DF5DE1500CAEC64D08DB71A72E06E93DBECF9B9B4A1783BBCB85614E0F2) (Point.mk 0x3322D401243C4E2582A2147C104D6ECBF774D163DB0F5E5313B7E0E742D0E6BD 0x56E70797E9664EF5BFB019BC4DDAF9B72805F63EA2873AF624F3A2E96C28B2A0) (by decide) (by decide) (by decide) (by decide)

theorem smA64 : scalarMultAux 193 0x8F8A276C19F4149656B280621E358CCE24F5F52542772691 (Point.mk 0x9E5ED41E9110BD593B2C68418F8449C2360100F8D7A8BE58B371CBF29237D5AF 0xF4D17DF5DE1500CAEC64D08DB71A72E06E93DBECF9B9B4A1783BBCB85614E0F2) (Point.mk 0x3322D401243C4E2582A2147C104D6ECBF774D163DB0F5E5313B7E0E742D0E6BD 0x56E70797E9664EF5BFB019BC4DDAF9B72805F63EA2873AF624F3A2E96C28B2A0) = scalarMultAux 192 0x47C513B60CFA0A4B2B5940310F1AC667127AFA92A13B9348 (Point.mk 0x3DB4FA08B6B27AB3E2CD85C12B9F887B4CA4F09C2F4CDB20D7BAD493A95BD75F 0x20AFC6522D1C1ABE9143C4445C48C78C724FAD49AF290F2BF58C750E2503F796) (Point.mk 0x8D26200250CEBDAE120EF31B04C80CD50D4CDDC8EADBCF29FC696D32C0ADE462 0xEBED3BB4715BF437D31F6F2DC3EE36BA1D4AFB4E72678B3AD8E0A8B90F26470C) :=
  scalarMultAux_step 192 0x8F8A276C19F4149656B280621E358CCE24F5F52542772691 0x47C513B60CFA0A4B2B5940310F1AC667127AFA92A13B9348 (Point.mk 0x9E5ED41E9110BD593B2C68418F8449C2360100F8D7A8BE58B371CBF29237D5AF 0xF4D17DF5DE1500CAEC64D08DB71A72E06E93DBECF9B9B4A1783BBCB85614E0F2) (Point.mk 0x3322D401243C4E2582A2147C104D6ECBF774D163DB0F5E5313B7E0E742D0E6BD 0x56E70797E9664EF5BFB019BC4DDAF9B72805F63EA2873AF624F3A2E96C28B2A0) (Point.mk 0x3DB4FA08B6B27AB3E2CD85C12B9F887B4CA4F09C2F4CDB20D7BAD493A95BD75F 0x20AFC6522D1C1ABE9143C4445C48C78C724FAD49AF290F2BF58C750E2503F796) (Point.mk 0x8D26200250CEBDAE120EF31B04C80CD50D4CDDC8EADBCF29FC696D32C0ADE462 0xEBED3BB4715BF437D31F6F2DC3EE36BA1D4AFB4E72678B3AD8E0A8B90F26470C) (by decide) (by decide) (by decide) (by decide)

theorem smA65 : scalarMultAux 192 0x47C513B60CFA0A4B2B5940310F1AC667127AFA92A13B9348 (Point.mk 0x3DB4FA08B6B27AB3E2CD85C12B9F887B4CA4F09C2F4CDB20D7BAD493A95BD75F 0x20AFC6522D1C1ABE9143C4445C48C78C724FAD49AF290F2BF58C750E2503F796) (Point.mk 0x8D26200250CEBDAE120EF31B04C80CD50D4CDDC8EADBCF29FC696D32C0ADE462 0xEBED3BB4715BF437D31F6F2DC3EE36BA1D4AFB4E72678B3AD8E0A8B90F26470C) = scalarMultAux 191 0x23E289DB067D052595ACA018878D6333893D7D49509DC9A4 (Point.mk 0x3DB4FA08B6B27AB3E2CD85C12B9F887B4CA4F09C2F4CDB20D7BAD493A95BD75F 0x20AFC6522D1C1ABE9143C4445C48C78C724FAD49AF290F2BF58C750E2503F796) (Point.mk 0x1238C0766EAEBEA9CE4068A1F594D03B8ED4930D072D9C8B9164643E1516E633 0x8A9DB02DBB271359D6C979E2D1C3DC170946252DCC74022805CDB728C77B7805) :=
  scalarMultAux_step 191 0x47C513B60CFA0A4B2B5940310F1AC667127AFA92A13B9348 0x23E289DB067D052595ACA018878D6333893D7D49509DC9A4 (Point.mk 0x3DB4FA08B6B27AB3E2CD85C12B9F887B4CA4F09C2F4CDB20D7BAD493A95BD75F 0x20AFC6522D1C1ABE9143C4445C48C78C724FAD49AF290F2BF58C750E2503F796) (Point.mk 0x8D26200250CEBDAE120EF31B04C80CD50D4CDDC8EADBCF29FC696D32C0ADE462 0xEBED3BB4715BF437D31F6F2DC3EE36BA1D4AFB4E72678B3AD8E0A8B90F26470C) (Point.mk 0x3DB4FA08B6B27AB3E2CD85C12B9F887B4CA4F09C2F4CDB20D7BAD493A95BD75F 0x20AFC6522D1C1ABE9143C4445C48C78C724FAD49AF290F2BF58C750E2503F796) (Point.mk 0x1238C0766EAEBEA9CE4068A1F594D03B8ED4930D072D9C8B9164643E1516E633 0x8A9DB02DBB271359D6C979E2D1C3DC170946252DCC74022805CDB728C77B7805) (by decide) (by decide) (by decide) (by decide)

theorem smA66 : scalarMultAux 191 0x23E289DB067D052595ACA018878D6333893D7D49509DC9A4 (Point.mk 0x3DB4FA08B6B27AB3E2CD85C12B9F887B4CA4F09C2F4CDB20D7BAD493A95BD75F 0x20AFC6522D1C1ABE9143C4445C48C78C724FAD49AF290F2BF58C750E2503F796) (Point.mk 0x1238C0766EAEBEA9CE4068A1F594D03B8ED4930D072D9C8B9164643E1516E633 0x8A9DB02DBB271359D6C979E2D1C3DC170946252DCC74022805CDB728C77B7805) = scalarMultAux 190 0x11F144ED833E8292CAD6500C43C6B199C49EBEA4A84EE4D2 (Point.mk 0x3DB4FA08B6B27AB3E2CD85C12B9F887B4CA4F09C2F4CDB20D7BAD493A95BD75F 0x20AFC6522D1C1ABE9143C4445C48C78C724FAD49AF290F2BF58C750E2503F796) (Point.mk 0x271D5B0770CB9C15E7B2EA758A6A11B9CDDCD7282B0EC21619B01552788E7A66 0x5D3AA45834E7F491E457D09949AC877FE2A065E3508A824E7A8D7258E03C9727) :=
  scalarMultAux_step 190 0x23E289DB067D052595ACA018878D6333893D7D49509DC9A4 0x11F144ED833E8292CAD6500C43C6B199C49EBEA4A84EE4D2 (Point.mk 0x3DB4FA08B6B27AB3E2CD85C12B9F887B4CA4F09C2F4CDB20D7BAD493A95BD75F 0x20AFC6522D1C1ABE9143C4445C48C78C724FAD49AF290F2BF58C750E2503F796) (Point.mk 0x1238C0766EAEBEA9CE4068A1F594D03B8ED4930D072D9C8B9164643E1516E633 0x8A9DB02DBB271359D6C979E2D1C3DC170946252DCC74022805CDB728C77B7805) (Point.mk 0x3DB4FA08B6B27AB3E2CD85C12B9F887B4CA4F09C2F4CDB20D7BAD493A95BD75F 0x20AFC6522D1C1ABE9143C4445C48C78C724FAD49AF290F2BF58C750E2503F796) (Point.mk 0x271D5B0770CB9C15E7B2EA758A6A11B9CDDCD7282B0EC21619B01552788E7A66 0x5D3AA45834E7F491E457D09949AC877FE2A065E3508A824E7A8D7258E03C9727) (by decide) (by decide) (by decide) (by decide)

theorem smA67 : scalarMultAux 190 0x11F144ED833E8292CAD6500C43C6B199C49EBEA4A84EE4D2 (Point.mk 0x3DB4FA08B6B27AB3E2CD85C12B9F887B4CA4F09C2F4CDB20D7BAD493A95BD75F 0x20AFC6522D1C1ABE9143C4445C48C78C724FAD49AF290F2BF58C750E2503F796) (Point.mk 0x271D5B0770CB9C15E7B2EA758A6A11B9CDDCD7282B0EC21619B01552788E7A66 0x5D3AA45834E7F491E457D09949AC877FE2A065E3508A824E7A8D7258E03C9727) = scalarMultAux 189 0x8F8A276C19F4149656B280621E358CCE24F5F5254277269 (Point.mk 0x3DB4FA08B6B27AB3E2CD85C12B9F887B4CA4F09C2F4CDB20D7BAD493A95BD75F 0x20AFC6522D1C1ABE9143C4445C48C78C724FAD49AF290F2BF58C750E2503F796) (Point.mk 0x85672C7D2DE0B7DA2BD1770D89665868741B3F9AF7643397721D74D28134AB83 0x7C481B9B5B43B2EB6374049BFA62C2E5E77F17FCC5298F44C8E3094F790313A6) :=
  scalarMultAux_step 189 0x11F144ED833E8292CAD6500C43C6B199C49EBEA4A84EE4D2 0x8F8A276C19F4149656B280621E358CCE24F5F5254277269 (Point.mk 0x3DB4FA08B6B27AB3E2CD85C12B9F887B4CA4F09C2F4CDB20D7BAD493A95BD75F 0x20AFC6522D1C1ABE9143C4445C48C78C724FAD49AF290F2BF58C750E2503F796) (Point.mk 0x271D5B0770CB9C15E7B2EA758A6A11B9CDDCD7282B0EC21619B01552788E7A66 0x5D3AA45834E7F491E457D09949AC877FE2A065E3508A824E7A8D7258E03C9727) (Point.mk 0x3DB4FA08B6B27AB3E2CD85C12B9F887B4CA4F09C2F4CDB20D7BAD493A95BD75F 0x20AFC6522D1C1ABE9143C4445C48C78C724FAD49AF290F2BF58C750E2503F796) (Point.mk 0x85672C7D2DE0B7DA2BD1770D89665868741B3F9AF7643397721D74D28134AB83 0x7C481B9B5B43B2EB6374049BFA62C2E5E77F17FCC5298F44C8E3094F790313A6) (by decide) (by decide) (by decide) (by decide)

theorem smA68 : scalarMultAux 189 0x8F8A276C19F4149656B280621E358CCE24F5F5254277269 (Point.mk 0x3DB4FA08B6B27AB3E2CD85C12B9F887B4CA4F09C2F4CDB20D7BAD493A95BD75F 0x20AFC6522D1C1ABE9143C4445C48C78C724FAD49AF290F2BF58C750E2503F796) (Point.mk 0x85672C7D2DE0B7DA2BD1770D89665868741B3F9AF7643397721D74D28134AB83 0x7C481B9B5B43B2EB6374049BFA62C2E5E77F17FCC5298F44C8E3094F790313A6) = scalarMultAux 188 0x47C513B60CFA0A4B2B5940310F1AC667127AFA92A13B934 (Point.mk 0x5A146EBA956B5FBB2A911ED45E5A320D24160C2940FC3102A8738E92B3CFEC90 0x74D4732C3522224E2590AAA3D40BD898D949FD9C09A541BA24E96B63C4A7B890) (Point.mk 0x534CCF6B740F9EC036C1861215C8A61F3B89EA46DF2E6D96998B90BC1F17FC25 0xD5715CB09C8B2DDB462AE3DD32D543550AE3D277BFDD28DDD71C7F6ECFE86E76) :=
  scalarMultAux_step 188 0x8F8A276C19F4149656B280621E358CCE24F5F5254277269 0x47C513B60CFA0A4B2B5940310F1AC667127AFA92A13B934 (Point.mk 0x3DB4FA08B6B27AB3E2CD85C12B9F887B4CA4F09C2F4CDB20D7BAD493A95BD75F 0x20AFC6522D1C1ABE9143C4445C48C78C724FAD49AF290F2BF58C750E2503F796) (Point.mk 0x85672C7D2DE0B7DA2BD1770D89665868741B3F9AF7643397721D74D28134AB83 0x7C481B9B5B43B2EB6374049BFA62C2E5E77F17FCC5298F44C8E3094F790313A6) (Point.mk 0x5A146EBA956B5FBB2A911ED45E5A320D24160C2940FC3102A8738E92B3CFEC90 0x74D4732C3522224E2590AAA3D40BD898D949FD9C09A541BA24E96B63C4A7B890) (Point.mk 0x534CCF6B740F9EC036C1861215C8A61F3B89EA46DF2E6D96998B90BC1F17FC25 0xD5715CB09C8B2DDB462AE3DD32D543550AE3D277BFDD28DDD71C7F6ECFE86E76) (by decide) (by decide) (by decide) (by decide)

theorem smA69 : scalarMultAux 188 0x47C513B60CFA0A4B2B5940310F1AC667127AFA92A13B934 (Point.mk 0x5A146EBA956B5FBB2A911ED45E5A320D24160C2940FC3102A8738E92B3CFEC90 0x74D4732C3522224E2590AAA3D40BD898D949FD9C09A541BA24E96B63C4A7B890) (Point.mk 0x534CCF6B740F9EC036C1861215C8A61F3B89EA46DF2E6D96998B90BC1F17FC25 0xD5715CB09C8B2DDB462AE3DD32D543550AE3D277BFDD28DDD71C7F6ECFE86E76) = scalarMultAux 187 0x23E289DB067D052595ACA018878D6333893D7D49509DC9A (Point.mk 0x5A146EBA956B5FBB2A911ED45E5A320D24160C2940FC3102A8738E92B3CFEC90 0x74D4732C3522224E2590AAA3D40BD898D949FD9C09A541BA24E96B63C4A7B890) (Point.mk 0xA91D1F5CEE87B7F3081E142018F8AAED79020D47ECFBC8D2C7170923E8BEE8B6 0x748A324EE2DF8EE15A7189C8DDDAD3B2F800569F628CB225003D16AA410644C1) :=
  scalarMultAux_step 187 0x47C513B60CFA0A4B2B5940310F1AC667127AFA92A13B934 0x23E289DB067D052595ACA018878D6333893D7D49509DC9A (Point.mk 0x5A146EBA956B5FBB2A911ED45E5A320D24160C2940FC3102A8738E92B3CFEC90 0x74D4732C3522224E2590AAA3D40BD898D949FD9C09A541BA24E96B63C4A7B890) (Point.mk 0x534CCF6B740F9EC036C1861215C8A61F3B89EA46DF2E6D96998B90BC1F17FC25 0xD5715CB09C8B2DDB462AE3DD32D543550AE3D277BFDD28DDD71C7F6ECFE86E76) (Point.mk 0x5A146EBA956B5FBB2A911ED45E5A320D24160C2940FC3102A8738E92B3CFEC90 0x74D4732C3522224E2590AAA3D40BD898D949FD9C09A541BA24E96B63C4A7B890) (Point.mk 0xA91D1F5CEE87B7F3081E142018F8AAED79020D47ECFBC8D2C7170923E8BEE8B6 0x748A324EE2DF8EE15A7189C8DDDAD3B2F800569F628CB225003D16AA410644C1) (by decide) (by decide) (by decide) (by decide)

theorem smA70 : scalarMultAux 187 0x23E289DB067D052595ACA018878D6333893D7D49509DC9A (Point.mk 0x5A146EBA956B5FBB2A911ED45E5A320D24160C2940FC3102A8738E92B3CFEC90 0x74D4732C3522224E2590AAA3D40BD898D949FD9C09A541BA24E96B63C4A7B890) (Point.mk 0xA91D1F5CEE87B7F3081E142018F8AAED79020D47ECFBC8D2C7170923E8BEE8B6 0x748A324EE2DF8EE15A7189C8DDDAD3B2F800569F628CB225003D16AA410644C1) = scalarMultAux 186 0x11F144ED833E8292CAD6500C43C6B199C49EBEA4A84EE4D (Point.mk 0x5A146EBA956B5FBB2A911ED45E5A320D24160C2940FC3102A8738E92B3CFEC90 0x74D4732C3522224E2590AAA3D40BD898D949FD9C09A541BA24E96B63C4A7B890) (Point.mk 0xC15C8C23D90C8E35C1A214DDE2D4383C0735AE45BEF61F10AA1A1C255984CF74 0x2BA954D828522235C8DC6F45E25FD7BA47BF772D50B015A2C4A48CD839CCB000) :=
  scalarMultAux_step 186 0x23E289DB067D052595ACA018878D6333893D7D49509DC9A 0x11F144ED833E8292CAD6500C43C6B199C49EBEA4A84EE4D (Point.mk 0x5A146EBA956B5FBB2A911ED45E5A320D24160C2940FC3102A8738E92B3CFEC90 0x74D4732C3522224E2590AAA3D40BD898D949FD9C09A541BA24E96B63C4A7B890) (Point.mk 0xA91D1F5CEE87B7F3081E142018F8AAED79020D47ECFBC8D2C7170923E8BEE8B6 0x748A324EE2DF8EE15A7189C8DDDAD3B2F800569F628CB225003D16AA410644C1) (Point.mk 0x5A146EBA956B5FBB2A911ED45E5A320D24160C2940FC3102A8738E92B3CFEC90 0x74D4732C3522224E2590AAA3D40BD898D949FD9C09A541BA24E96B63C4A7B890) (Point.mk 0xC15C8C23D90C8E35C1A214DDE2D4383C0735AE45BEF61F10AA1A1C255984CF74 0x2BA954D828522235C8DC6F45E25FD7BA47BF772D50B015A2C4A48CD839CCB000) (by decide) (by decide) (by decide) (by decide)

theorem smA71 : scalarMultAux 186 0x11F144ED833E8292CAD6500C43C6B199C49EBEA4A84EE4D (Point.mk 0x5A146EBA956B5FBB2A911ED45E5A320D24160C2940FC3102A8738E92B3CFEC90 0x74D4732C3522224E2590AAA3D40BD898D949FD9C09A541BA24E96B63C4A7B890) (Point.mk 0xC15C8C23D90C8E35C1A214DDE2D4383C0735AE45BEF61F10AA1A1C255984CF74 0x2BA954D828522235C8DC6F45E25FD7BA47BF772D50B015A2C4A48CD839CCB000) = scalarMultAux 185 0x8F8A276C19F4149656B280621E358CCE24F5F525427726 (Point.mk 0xB5D5CF1090AF03C471A371F7EE6B38F4B494AF36F15ED6DBDBD931F4DABD8E37 0xF680B5A77B28A17AD0F74EC174904D7D845B426352E2F7FE9E550CCCC0DDCFCF) (Point.mk 0x0948BF809B1988A46B06C9F1919413B10F9226C60F668832FFD959AF60C82A0A 0x53A562856DCB6646DC6B74C5D1C3418C6D4DFF08C97CD2BED4CB7F88D8C8E589) :=
  scalarMultAux_step 185 0x11F144ED833E8292CAD6500C43C6B199C49EBEA4A84EE4D 0x8F8A276C19F4149656B280621E358CCE24F5F525427726 (Point.mk 0x5A146EBA956B5FBB2A911ED45E5A320D24160C2940FC3102A8738E92B3CFEC90 0x74D4732C3522224E2590AAA3D40BD898D949FD9C09A541BA24E96B63C4A7B890) (Point.mk 0xC15C8C23D90C8E35C1A214DDE2D4383C0735AE45BEF61F10AA1A1C255984CF74 0x2BA954D828522235C8DC6F45E25FD7BA47BF772D50B015A2C4A48CD839CCB000) (Point.mk 0xB5D5CF1090AF03C471A371F7EE6B38F4B494AF36F15ED6DBDBD931F4DABD8E37 0xF680B5A77B28A17AD0F74EC174904D7D845B426352E2F7FE9E550CCCC0DDCFCF) (Point.mk 0x0948BF809B1988A46B06C9F1919413B10F9226C60F668832FFD959AF60C82A0A 0x53A562856DCB6646DC6B74C5D1C3418C6D4DFF08C97CD2BED4CB7F88D8C8E589) (by decide) (by decide) (by decide) (by decide)

theorem smA72 : scalarMultAux 185 0x8F8A276C19F4149656B280621E358CCE24F5F525427726 (Point.mk 0xB5D5CF1090AF03C471A371F7EE6B38F4B494AF36F15ED6DBDBD931F4DABD8E37 0xF680B5A77B28A17AD0F74EC174904D7D845B426352E2F7FE9E550CCCC0DDCFCF) (Point.mk 0x0948BF809B1988A46B06C9F1919413B10F9226C60F668832FFD959AF60C82A0A 0x53A562856DCB6646DC6B74C5D1C3418C6D4DFF08C97CD2BED4CB7F88D8C8E589) = scalarMultAux 184 0x47C513B60CFA0A4B2B5940310F1AC667127AFA92A13B93 (Point.mk 0xB5D5CF1090AF03C471A371F7EE6B38F4B494AF36F15ED6DBDBD931F4DABD8E37 0xF680B5A77B28A17AD0F74EC174904D7D845B426352E2F7FE9E550CCCC0DDCFCF) (Point.mk 0x26952C7F372E59360D5CE4C66291F0B6EF16C1331E825E51396EB0457E8B000A 0xF513EA4C5800A68862BC893D2D688422DEBE398F653D67318C3D401F05EF705A) :=
  scalarMultAux_step 184 0x8F8A276C19F4149656B280621E358CCE24F5F525427726 0x47C513B60CFA0A4B2B5940310F1AC667127AFA92A13B93 (Point.mk 0xB5D5CF1090AF03C471A371F7EE6B38F4B494AF36F15ED6DBDBD931F4DABD8E37 0xF680B5A77B28A17AD0F74EC174904D7D845B426352E2F7FE9E550CCCC0DDCFCF) (Point.mk 0x0948BF809B1988A46B06C9F1919413B10F9226C60F668832FFD959AF60C82A0A 0x53A562856DCB6646DC6B74C5D1C3418C6D4DFF08C97CD2BED4CB7F88D8C8E589) (Point.mk 0xB5D5CF1090AF03C471A371F7EE6B38F4B494AF36F15ED6DBDBD931F4DABD8E37 0xF680B5A77B28A17AD0F74EC174904D7D845B426352E2F7FE9E550CCCC0DDCFCF) (Point.mk 0x26952C7F372E59360D5CE4C66291F0B6EF16C1331E825E51396EB0457E8B000A 0xF513EA4C5800A68862BC893D2D688422DEBE398F653D67318C3D401F05EF705A) (by decide) (by decide) (by decide) (by decide)

theorem smA73 : scalarMultAux 184 0x47C513B60CFA0A4B2B5940310F1AC667127AFA92A13B93 (Point.mk 0xB5D5CF1090AF03C471A371F7EE6B38F4B494AF36F15ED6DBDBD931F4DABD8E37 0xF680B5A77B28A17AD0F74EC174904D7D845B426352E2F7FE9E550CCCC0DDCFCF) (Point.mk 0x26952C7F372E59360D5CE4C66291F0B6EF16C1331E825E51396EB0457E8B000A 0xF513EA4C5800A68862BC893D2D688422DEBE398F653D67318C3D401F05EF705A) = scalarMultAux 183 0x23E289DB067D052595ACA018878D6333893D7D49509DC9 (Point.mk 0xDB1B5E3DABCA36D8D60FBAC073B46388868C36972D197D08D742424C57AD6263 0xA76038B5655DE94C8A35CDEE04CCCDAA58AD538C93E445483C0CBD97D9B0901B) (Point.mk 0xC62E58E6FC23C5BDBEF2BE8B131FF243F521196572D6B0E9F102588976134F96 0x4397827D45B1A1678C3D676753141FC5BCFB853563731C3E82277ED4D14CF97E) :=
  scalarMultAux_step 183 0x47C513B60CFA0A4B2B5940310F1AC667127AFA92A13B93 0x23E289DB067D052595ACA018878D6333893D7D49509DC9 (Point.mk 0xB5D5CF1090AF03C471A371F7EE6B38F4B494AF36F15ED6DBDBD931F4DABD8E37 0xF680B5A77B28A17AD0F74EC174904D7D845B426352E2F7FE9E550CCCC0DDCFCF) (Point.mk 0x26952C7F372E59360D5CE4C66291F0B6EF16C1331E825E51396EB0457E8B000A 0xF513EA4C5800A68862BC893D2D688422DEBE398F653D67318C3D401F05EF705A) (Point.mk 0xDB1B5E3DABCA36D8D60FBAC073B46388868C36972D197D08D742424C57AD6263 0xA76038B5655DE94C8A35CDEE04CCCDAA58AD538C93E445483C0CBD97D9B0901B) (Point.mk 0xC62E58E6FC23C5BDBEF2BE8B131FF243F521196572D6B0E9F102588976134F96 0x4397827D45B1A1678C3D676753141FC5BCFB853563731C3E82277ED4D14CF97E) (by decide) (by decide) (by decide) (by decide)

theorem smA74 : scalarMultAux 183 0x23E289DB067D052595ACA018878D6333893D7D49509DC9 (Point.mk 0xDB1B5E3DABCA36D8D60FBAC073B46388868C36972D197D08D742424C57AD6263 0xA76038B5655DE94C8A35CDEE04CCCDAA58AD538C93E445483C0CBD97D9B0901B) (Point.mk 0xC62E58E6FC23C5BDBEF2BE8B131FF243F521196572D6B0E9F102588976134F96 0x4397827D45B1A1678C3D676753141FC5BCFB853563731C3E82277ED4D14CF97E) = scalarMultAux 182 0x11F144ED833E8292CAD6500C43C6B199C49EBEA4A84EE4 (Point.mk 0x83A2086C08865ED7A168B0C73766CCD26845EC6075CCF9DAA9C2524BF4325E47 0xAA600D8F29E1BB4346C34F34B0EDE46F099AC5AC03FFD023D8A5543C46087148) (Point.mk 0x107460520EEC5C741683329A716622B0B81C03200807DE973686F8800B188CBB 0xABE5D4C09A21598C35326B9B9CF54A11242E0D748DCE3DA601D7B6361F272124) :=
  scalarMultAux_step 182 0x23E289DB067D052595ACA018878D6333893D7D49509DC9 0x11F144ED833E8292CAD6500C43C6B199C49EBEA4A84EE4 (Point.mk 0xDB1B5E3DABCA36D8D60FBAC073B46388868C36972D197D08D742424C57AD6263 0xA76038B5655DE94C8A35CDEE04CCCDAA58AD538C93E445483C0CBD97D9B0901B) (Point.mk 0xC62E58E6FC23C5BDBEF2BE8B131FF243F521196572D6B0E9F102588976134F96 0x4397827D45B1A1678C3D676753141FC5BCFB853563731C3E82277ED4D14CF97E) (Point.mk 0x83A2086C08865ED7A168B0C73766CCD26845EC6075CCF9DAA9C2524BF4325E47 0xAA600D8F29E1BB4346C34F34B0EDE46F099AC5AC03FFD023D8A5543C46087148) (Point.mk 0x107460520EEC5C741683329A716622B0B81C03200807DE973686F8800B188CBB 0xABE5D4C09A21598C35326B9B9CF54A11242E0D748DCE3DA601D7B6361F272124) (by decide) (by decide) (by decide) (by decide)

theorem smA75 : scalarMultAux 182 0x11F144ED833E8292CAD6500C43C6B199C49EBEA4A84EE4 (Point.mk 0x83A2086C08865ED7A168B0C73766CCD26845EC6075CCF9DAA9C2524BF4325E47 0xAA600D8F29E1BB4346C34F34B0EDE46F099AC5AC03FFD023D8A5543C46087148) (Point.mk 0x107460520EEC5C741683329A716622B0B81C03200807DE973686F8800B188CBB 0xABE5D4C09A21598C35326B9B9CF54A11242E0D748DCE3DA601D7B6361F272124) = scalarMultAux 181 0x8F8A276C19F4149656B280621E358CCE24F5F52542772 (Point.mk 0x83A2086C08865ED7A168B0C73766CCD26845EC6075CCF9DAA9C2524BF4325E47 0xAA600D8F29E1BB4346C34F34B0EDE46F099AC5AC03FFD023D8A5543C46087148) (Point.mk 0x6260CE7F461801C34F067CE0F02873A8F1B0E44DFC69752ACCECD819F38FD8E8 0xBC2DA82B6FA5B571A7F09049776A1EF7ECD292238051C198C1A84E95B2B4AE17) :=
  scalarMultAux_step 181 0x11F144ED833E8292CAD6500C43C6B199C49EBEA4A84EE4 0x8F8A276C19F4149656B280621E358CCE24F5F52542772 (Point.mk 0x83A2086C08865ED7A168B0C73766CCD26845EC6075CCF9DAA9C2524BF4325E47 0xAA600D8F29E1BB4346C34F34B0EDE46F099AC5AC03FFD023D8A5543C46087148) (Point.mk 0x107460520EEC5C741683329A716622B0B81C03200807DE973686F8800B188CBB 0xABE5D4C09A21598C35326B9B9CF54A11242E0D748DCE3DA601D7B6361F272124) (Point.mk 0x83A2086C08865ED7A168B0C73766CCD26845EC6075CCF9DAA9C2524BF4325E47 0xAA600D8F29E1BB4346C34F34B0EDE46F099AC5AC03FFD023D8A5543C46087148) (Point.mk 0x6260CE7F461801C34F067CE0F02873A8F1B0E44DFC69752ACCECD819F38FD8E8 0xBC2DA82B6FA5B571A7F09049776A1EF7ECD292238051C198C1A84E95B2B4AE17) (by decide) (by decide) (by decide) (by decide)

theorem smA76 : scalarMultAux 181 0x8F8A276C19F4149656B280621E358CCE24F5F52542772 (Point.mk 0x83A2086C08865ED7A168B0C73766CCD26845EC6075CCF9DAA9C2524BF4325E47 0xAA600D8F29E1BB4346C34F34B0EDE46F099AC5AC03FFD023D8A5543C46087148) (Point.mk 0x6260CE7F461801C34F067CE0F02873A8F1B0E44DFC69752ACCECD819F38FD8E8 0xBC2DA82B6FA5B571A7F09049776A1EF7ECD292238051C198C1A84E95B2B4AE17) = scalarMultAux 180 0x47C513B60CFA0A4B2B5940310F1AC667127AFA92A13B9 (Point.mk 0x83A2086C08865ED7A168B0C73766CCD26845EC6075CCF9DAA9C2524BF4325E47 0xAA600D8F29E1BB4346C34F34B0EDE46F099AC5AC03FFD023D8A5543C46087148) (Point.mk 0x85D8DA4748AD1A73DEC8409BE84F1A1316E65C5196AAD27E0766746F3D477C2D 0x58948B53665C6690586B536531EFC7BC94B0A02033C4D5A62079816FC7D1DD70) :=
  scalarMultAux_step 180 0x8F8A276C19F4149656B280621E358CCE24F5F52542772 0x47C513B60CFA0A4B2B5940310F1AC667127AFA92A13B9 (Point.mk 0x83A2086C08865ED7A168B0C73766CCD26845EC6075CCF9DAA9C2524BF4325E47 0xAA600D8F29E1BB4346C34F34B0EDE46F099AC5AC03FFD023D8A5543C46087148) (Point.mk 0x6260CE7F461801C34F067CE0F02873A8F1B0E44DFC69752ACCECD819F38FD8E8 0xBC2DA82B6FA5B571A7F09049776A1EF7ECD292238051C198C1A84E95B2B4AE17) (Point.mk 0x83A2086C08865ED7A168B0C73766CCD26845EC6075CCF9DAA9C2524BF4325E47 0xAA600D8F29E1BB4346C34F34B0EDE46F099AC5AC03FFD023D8A5543C46087148) (Point.mk 0x85D8DA4748AD1A73DEC8409BE84F1A1316E65C5196AAD27E0766746F3D477C2D 0x58948B53665C6690586B536531EFC7BC94B0A02033C4D5A62079816FC7D1DD70) (by decide) (by decide) (by decide) (by decide)

theorem smA77 : scalarMultAux 180 0x47C513B60CFA0A4B2B5940310F1AC667127AFA92A13B9 (Point.mk 0x83A2086C08865ED7A168B0C73766CCD26845EC6075CCF9DAA9C2524BF4325E47 0xAA600D8F29E1BB4346C34F34B0EDE46F099AC5AC03FFD023D8A5543C46087148) (Point.mk 0x85D8DA4748AD1A73DEC8409BE84F1A1316E65C5196AAD27E0766746F3D477C2D 0x58948B53665C6690586B536531EFC7BC94B0A02033C4D5A62079816FC7D1DD70) = scalarMultAux 179 0x23E289DB067D052595ACA018878D6333893D7D49509DC (Point.mk 0x83C743E32154692A58BAFF73D377B0F6A5AF8C5E4FD3E4124939F7A4A1EF5B57 0x3449B2DB298DE2F012B290B86F324AED75B5D0DFAABEF1D6183D9FD21FF42F04) (Point.mk 0x8E2A7166E7EC4B968C0892E9CC3EE3EE4D1E7E100FDC47F04850312D6C0B80D9 0xEADB0BA9AE2CBE592CEDD29B716A9D485297B688D706349A49C61F2AD6B29F50) :=
  scalarMultAux_step 179 0x47C513B60CFA0A4B2B5940310F1AC667127AFA92A13B9 0x23E289DB067D052595ACA018878D6333893D7D49509DC (Point.mk 0x83A2086C08865ED7A168B0C73766CCD26845EC6075CCF9DAA9C2524BF4325E47 0xAA600D8F29E1BB4346C34F34B0EDE46F099AC5AC03FFD023D8A5543C46087148) (Point.mk 0x85D8DA4748AD1A73DEC8409BE84F1A1316E65C5196AAD27E0766746F3D477C2D 0x58948B53665C6690586B536531EFC7BC94B0A02033C4D5A62079816FC7D1DD70) (Point.mk 0x83C743E32154692A58BAFF73D377B0F6A5AF8C5E4FD3E4124939F7A4A1EF5B57 0x3449B2DB298DE2F012B290B86F324AED75B5D0DFAABEF1D6183D9FD21FF42F04) (Point.mk 0x8E2A7166E7EC4B968C0892E9CC3EE3EE4D1E7E100FDC47F04850312D6C0B80D9 0xEADB0BA9AE2CBE592CEDD29B716A9D485297B688D706349A49C61F2AD6B29F50) (by decide) (by decide) (by decide) (by decide)

theorem smA78 : scalarMultAux 179 0x23E289DB067D052595ACA018878D6333893D7D49509DC (Point.mk 0x83C743E32154692A58BAFF73D377B0F6A5AF8C5E4FD3E4124939F7A4A1EF5B57 0x3449B2DB298DE2F012B290B86F324AED75B5D0DFAABEF1D6183D9FD21FF42F04) (Point.mk 0x8E2A7166E7EC4B968C0892E9CC3EE3EE4D1E7E100FDC47F04850312D6C0B80D9 0xEADB0BA9AE2CBE592CEDD29B716A9D485297B688D706349A49C61F2AD6B29F50) = scalarMultAux 178 0x11F144ED833E8292CAD6500C43C6B199C49EBEA4A84EE (Point.mk 0x83C743E32154692A58BAFF73D377B0F6A5AF8C5E4FD3E4124939F7A4A1EF5B57 0x3449B2DB298DE2F012B290B86F324AED75B5D0DFAABEF1D6183D9FD21FF42F04) (Point.mk 0x769BC75842BFF58EDC8366ECD78F8950EE4AB2E81359D90F9921FA3D2C4561BE 0x4BF817362FE783BAC8DCE4CEF73F5D4741A177767B7873ADD5920BFFB0D9685F) :=
  scalarMultAux_step 178 0x23E289DB067D052595ACA018878D6333893D7D49509DC 0x11F144ED833E8292CAD6500C43C6B199C49EBEA4A84EE (Point.mk 0x83C743E32154692A58BAFF73D377B0F6A5AF8C5E4FD3E4124939F7A4A1EF5B57 0x3449B2DB298DE2F012B290B86F324AED75B5D0DFAABEF1D6183D9FD21FF42F04) (Point.mk 0x8E2A7166E7EC4B968C0892E9CC3EE3EE4D1E7E100FDC47F04850312D6C0B80D9 0xEADB0BA9AE2CBE592CEDD29B716A9D485297B688D706349A49C61F2AD6B29F50) (Point.mk 0x83C743E32154692A58BAFF73D377B0F6A5AF8C5E4FD3E4124939F7A4A1EF5B57 0x3449B2DB298DE2F012B290B86F324AED75B5D0DFAABEF1D6183D9FD21FF42F04) (Point.mk 0x769BC75842BFF58EDC8366ECD78F8950EE4AB2E81359D90F9921FA3D2C4561BE 0x4BF817362FE783BAC8DCE4CEF73F5D4741A177767B7873ADD5920BFFB0D9685F) (by decide) (by decide) (by decide) (by decide)

theorem smA79 : scalarMultAux 178 0x11F144ED833E8292CAD6500C43C6B199C49EBEA4A84EE (Point.mk 0x83C743E32154692A58BAFF73D377B0F6A5AF8C5E4FD3E4124939F7A4A1EF5B57 0x3449B2DB298DE2F012B290B86F324AED75B5D0DFAABEF1D6183D9FD21FF42F04) (Point.mk 0x769BC75842BFF58EDC8366ECD78F8950EE4AB2E81359D90F9921FA3D2C4561BE 0x4BF817362FE783BAC8DCE4CEF73F5D4741A177767B7873ADD5920BFFB0D9685F) = scalarMultAux 177 0x8F8A276C19F4149656B280621E358CCE24F5F5254277 (Point.mk 0x83C743E32154692A58BAFF73D377B0F6A5AF8C5E4FD3E4124939F7A4A1EF5B57 0x3449B2DB298DE2F012B290B86F324AED75B5D0DFAABEF1D6183D9FD21FF42F04) (Point.mk 0xE5037DE0AFC1D8D43D8348414BBF4103043EC8F575BFDC432953CC8D2037FA2D 0x4571534BAA94D3B5F9F98D09FB990BDDBD5F5B03EC481F10E0E5DC841D755BDA) :=
  scalarMultAux_step 177 0x11F144ED833E8292CAD6500C43C6B199C49EBEA4A84EE 0x8F8A276C19F4149656B280621E358CCE24F5F5254277 (Point.mk 0x83C743E32154692A58BAFF73D377B0F6A5AF8C5E4FD3E4124939F7A4A1EF5B57 0x3449B2DB298DE2F012B290B86F324AED75B5D0DFAABEF1D6183D9FD21FF42F04) (Point.mk 0x769BC75842BFF58EDC8366ECD78F8950EE4AB2E81359D90F9921FA3D2C4561BE 0x4BF817362FE783BAC8DCE4CEF73F5D4741A177767B7873ADD5920BFFB0D9685F) (Point.mk 0x83C743E32154692A58BAFF73D377B0F6A5AF8C5E4FD3E4124939F7A4A1EF5B57 0x3449B2DB298DE2F012B290B86F324AED75B5D0DFAABEF1D6183D9FD21FF42F04) (Point.mk 0xE5037DE0AFC1D8D43D8348414BBF4103043EC8F575BFDC432953CC8D2037FA2D 0x4571534BAA94D3B5F9F98D09FB990BDDBD5F5B03EC481F10E0E5DC841D755BDA) (by decide) (by decide) (by decide) (by decide)

theorem smA80 : scalarMultAux 177 0x8F8A276C19F4149656B280621E358CCE24F5F5254277 (Point.mk 0x83C743E32154692A58BAFF73D377B0F6A5AF8C5E4FD3E4124939F7A4A1EF5B57 0x3449B2DB298DE2F012B290B86F324AED75B5D0DFAABEF1D6183D9FD21FF42F04) (Point.mk 0xE5037DE0AFC1D8D43D8348414BBF4103043EC8F575BFDC432953CC8D2037FA2D 0x4571534BAA94D3B5F9F98D09FB990BDDBD5F5B03EC481F10E0E5DC841D755BDA) = scalarMultAux 176 0x47C513B60CFA0A4B2B5940310F1AC667127AFA92A13B (Point.mk 0x5D9EF0ABE834E1CD618D2A15837011592B4C710DD606210D63A9FE3E6FE3C184 0xED1D03D3F23F37D258512FAD7E191C24C8360AB270E804DE7BA33A2DE6B01636) (Point.mk 0xA5E00DA467FD5494F40B6CF7D2D61B3EC3AB217C792A2DDB8C63C8C79E3D34EF 0x098FE5F5E5608555421726FE99BF43D25B60DCFE790900ACB855C5CE2F7ADB4C) :=
  scalarMultAux_step 176 0x8F8A276C19F4149656B280621E358CCE24F5F5254277 0x47C513B60CFA0A4B2B5940310F1AC667127AFA92A13B (Point.mk 0x83C743E32154692A58BAFF73D377B0F6A5AF8C5E4FD3E4124939F7A4A1EF5B57 0x3449B2DB298DE2F012B290B86F324AED75B5D0DFAABEF1D6183D9FD21FF42F04) (Point.mk 0xE5037DE0AFC1D8D43D8348414BBF4103043EC8F575BFDC432953CC8D2037FA2D 0x4571534BAA94D3B5F9F98D09FB990BDDBD5F5B03EC481F10E0E5DC841D755BDA) (Point.mk 0x5D9EF0ABE834E1CD618D2A15837011592B4C710DD606210D63A9FE3E6FE3C184 0xED1D03D3F23F37D258512FAD7E191C24C8360AB270E804DE7BA33A2DE6B01636) (Point.mk 0xA5E00DA467FD5494F40B6CF7D2D61B3EC3AB217C792A2DDB8C63C8C79E3D34EF 0x098FE5F5E5608555421726FE99BF43D25B60DCFE790900ACB855C5CE2F7ADB4C) (by decide) (by decide) (by decide) (by decide)

theorem smA81 : scalarMultAux 176 0x47C513B60CFA0A4B2B5940310F1AC667127AFA92A13B (Point.mk 0x5D9EF0ABE834E1CD618D2A15837011592B4C710DD606210D63A9FE3E6FE3C184 0xED1D03D3F23F37D258512FAD7E191C24C8360AB270E804DE7BA33A2DE6B01636) (Point.mk 0xA5E00DA467FD5494F40B6CF7D2D61B3EC3AB217C792A2DDB8C63C8C79E3D34EF 0x098FE5F5E5608555421726FE99BF43D25B60DCFE790900ACB855C5CE2F7ADB4C) = scalarMultAux 175 0x23E289DB067D052595ACA018878D6333893D7D49509D (Point.mk 0x11C536D6BD9C08CFEA8DD168BCF3115F26998E509C1BBDE6D086A011607DAC5D 0x289080EDB993FDF46A03B2A3D19D9C56C6568855BBA3C3C3BFB2D8CD313BEA71) (Point.mk 0xA99415F5EF3A2B403519F4BB1C9BFBC46D4AFD2E4477572AE6737160D7B91252 0x82D0E64CAE81F84BB9E2F10F24F6F6B6899A16AD590F4DDD73A377AC4BEDC264) :=
  scalarMultAux_step 175 0x47C513B60CFA0A4B2B5940310F1AC667127AFA92A13B 0x23E289DB067D052595ACA018878D6333893D7D49509D (Point.mk 0x5D9EF0ABE834E1CD618D2A15837011592B4C710DD606210D63A9FE3E6FE3C184 0xED1D03D3F23F37D258512FAD7E191C24C8360AB270E804DE7BA33A2DE6B01636) (Point.mk 0xA5E00DA467FD5494F40B6CF7D2D61B3EC3AB217C792A2DDB8C63C8C79E3D34EF 0x098FE5F5E5608555421726FE99BF43D25B60DCFE790900ACB855C5CE2F7ADB4C) (Point.mk 0x11C536D6BD9C08CFEA8DD168BCF3115F26998E509C1BBDE6D086A011607DAC5D 0x289080EDB993FDF46A03B2A3D19D9C56C6568855BBA3C3C3BFB2D8CD313BEA71) (Point.mk 0xA99415F5EF3A2B403519F4BB1C9BFBC46D4AFD2E4477572AE6737160D7B91252 0x82D0E64CAE81F84BB9E2F10F24F6F6B6899A16AD590F4DDD73A377AC4BEDC264) (by decide) (by decide) (by decide) (by decide)

theorem smA82 : scalarMultAux 175 0x23E289DB067D052595ACA018878D6333893D7D49509D (Point.mk 0x11C536D6BD9C08CFEA8DD168BCF3115F26998E509C1BBDE6D086A011607DAC5D 0x289080EDB993FDF46A03B2A3D19D9C56C6568855BBA3C3C3BFB2D8CD313BEA71) (Point.mk 0xA99415F5EF3A2B403519F4BB1C9BFBC46D4AFD2E4477572AE6737160D7B91252 0x82D0E64CAE81F84BB9E2F10F24F6F6B6899A16AD590F4DDD73A377AC4BEDC264) = scalarMultAux 174 0x11F144ED833E8292CAD6500C43C6B199C49EBEA4A84E (Point.mk 0x2602A931E7951B3A15959B91D3EC6BAA6BFF291E94F5810D67DD1EE7C3470BA9 0x87B9EE96EB3AB27EEB23558A7CE73217D35411A0643649FF17D7542318B103A0) (Point.mk 0xB56F4E9F9E4FD1FC7D8EDDE098F935F84C750D705F0C132BD8C465B66A540F17 0x32E8E53429CCA856D3DC11ADF0582D1D21D42963CBCCA85446A2FCAE0200102D) :=
  scalarMultAux_step 174 0x23E289DB067D052595ACA018878D6333893D7D49509D 0x11F144ED833E8292CAD6500C43C6B199C49EBEA4A84E (Point.mk 0x11C536D6BD9C08CFEA8DD168BCF3115F26998E509C1BBDE6D086A011607DAC5D 0x289080EDB993FDF46A03B2A3D19D9C56C6568855BBA3C3C3BFB2D8CD313BEA71) (Point.mk 0xA99415F5EF3A2B403519F4BB1C9BFBC46D4AFD2E4477572AE6737160D7B91252 0x82D0E64CAE81F84BB9E2F10F24F6F6B6899A16AD590F4DDD73A377AC4BEDC264) (Point.mk 0x2602A931E7951B3A15959B91D3EC6BAA6BFF291E94F5810D67DD1EE7C3470BA9 0x87B9EE96EB3AB27EEB23558A7CE73217D35411A0643649FF17D7542318B103A0) (Point.mk 0xB56F4E9F9E4FD1FC7D8EDDE098F935F84C750D705F0C132BD8C465B66A540F17 0x32E8E53429CCA856D3DC11ADF0582D1D21D42963CBCCA85446A2FCAE0200102D) (by decide) (by decide) (by decide) (by decide)

theorem smA83 : scalarMultAux 174 0x11F144ED833E8292CAD6500C43C6B199C49EBEA4A84E (Point.mk 0x2602A931E7951B3A15959B91D3EC6BAA6BFF291E94F5810D67DD1EE7C3470BA9 0x87B9EE96EB3AB27EEB23558A7CE73217D35411A0643649FF17D7542318B103A0) (Point.mk 0xB56F4E9F9E4FD1FC7D8EDDE098F935F84C750D705F0C132BD8C465B66A540F17 0x32E8E53429CCA856D3DC11ADF0582D1D21D42963CBCCA85446A2FCAE0200102D) = scalarMultAux 173 0x8F8A276C19F4149656B280621E358CCE24F5F525427 (Point.mk 0x2602A931E7951B3A15959B91D3EC6BAA6BFF291E94F5810D67DD1EE7C3470BA9 0x87B9EE96EB3AB27EEB23558A7CE73217D35411A0643649FF17D7542318B103A0) (Point.mk 0xE06372B0F4A207ADF5EA905E8F1771B4E7E8DBD1C6A6C5B725866A0AE4FCE725 0x7A908974BCE18CFE12A27BB2AD5A488CD7484A7787104870B27034F94EEE31DD) :=
  scalarMultAux_step 173 0x11F144ED833E8292CAD6500C43C6B199C49EBEA4A84E 0x8F8A276C19F4149656B280621E358CCE24F5F525427 (Point.mk 0x2602A931E7951B3A15959B91D3EC6BAA6BFF291E94F5810D67DD1EE7C3470BA9 0x87B9EE96EB3AB27EEB23558A7CE73217D35411A0643649FF17D7542318B103A0) (Point.mk 0xB56F4E9F9E4FD1FC7D8EDDE098F935F84C750D705F0C132BD8C465B66A540F17 0x32E8E53429CCA856D3DC11ADF0582D1D21D42963CBCCA85446A2FCAE0200102D) (Point.mk 0x2602A931E7951B3A15959B91D3EC6BAA6BFF291E94F5810D67DD1EE7C3470BA9 0x87B9EE96EB3AB27EEB23558A7CE73217D35411A0643649FF17D7542318B103A0) (Point.mk 0xE06372B0F4A207ADF5EA905E8F1771B4E7E8DBD1C6A6C5B725866A0AE4FCE725 0x7A908974BCE18CFE12A27BB2AD5A488CD7484A7787104870B27034F94EEE31DD) (by decide) (by decide) (by decide) (by decide)

theorem smA84 : scalarMultAux 173 0x8F8A276C19F4149656B280621E358CCE24F5F525427 (Point.mk 0x2602A931E7951B3A15959B91D3EC6BAA6BFF291E94F5810D67DD1EE7C3470BA9 0x87B9EE96EB3AB27EEB23558A7CE73217D35411A0643649FF17D7542318B103A0) (Point.mk 0xE06372B0F4A207ADF5EA905E8F1771B4E7E8DBD1C6A6C5B725866A0AE4FCE725 0x7A908974BCE18CFE12A27BB2AD5A488CD7484A7787104870B27034F94EEE31DD) = scalarMultAux 172 0x47C513B60CFA0A4B2B5940310F1AC667127AFA92A13 (Point.mk 0x85D9B8619996B2A905B8CB5D2617CC73E259DE69003186170FC95311A6EDA138 0x8DD807701C869FA621454DB9AB64DB51445995CC91456ADC718AE2BD33060746) (Point.mk 0x0EAC134CA2046B8F9C8DBD304FAD3F3C045EBFDB4EC6ED3CFE09AEE43ED2FF3E 0x49630DBE79359B4245BF103BF2B11799AC19F696B7F21376E17206207D210988) :=
  scalarMultAux_step 172 0x8F8A276C19F4149656B280621E358CCE24F5F525427 0x47C513B60CFA0A4B2B5940310F1AC667127AFA92A13 (Point.mk 0x2602A931E7951B3A15959B91D3EC6BAA6BFF291E94F5810D67DD1EE7C3470BA9 0x87B9EE96EB3AB27EEB23558A7CE73217D35411A0643649FF17D7542318B103A0) (Point.mk 0xE06372B0F4A207ADF5EA905E8F1771B4E7E8DBD1C6A6C5B725866A0AE4FCE725 0x7A908974BCE18CFE12A27BB2AD5A488CD7484A7787104870B27034F94EEE31DD) (Point.mk 0x85D9B8619996B2A905B8CB5D2617CC73E259DE69003186170FC95311A6EDA138 0x8DD807701C869FA621454DB9AB64DB51445995CC91456ADC718AE2BD33060746) (Point.mk 0x0EAC134CA2046B8F9C8DBD304FAD3F3C045EBFDB4EC6ED3CFE09AEE43ED2FF3E 0x49630DBE79359B4245BF103BF2B11799AC19F696B7F21376E17206207D210988) (by decide) (by decide) (by decide) (by decide)

theorem smA85 : scalarMultAux 172 0x47C513B60CFA0A4B2B5940310F1AC667127AFA92A13 (Point.mk 0x85D9B8619996B2A905B8CB5D2617CC73E259DE69003186170FC95311A6EDA138 0x8DD807701C869FA621454DB9AB64DB51445995CC91456ADC718AE2BD33060746) (Point.mk 0x0EAC134CA2046B8F9C8DBD304FAD3F3C045EBFDB4EC6ED3CFE09AEE43ED2FF3E 0x49630DBE79359B4245BF103BF2B11799AC19F696B7F21376E17206207D210988) = scalarMultAux 171 0x23E289DB067D052595ACA018878D6333893D7D49509 (Point.mk 0x0D3E9A6249129FDE4880C9960541ECCD1572D9F848741E1DB2A7A6BA8FE72D4D 0x299E6E0EB35F030F18EDB4687BDCA8C28FB94F7168F52365FC826A64B585845F) (Point.mk 0xD6788590731FEA198392119D7ADBB41FF5948A7804C85B17476706E4DFBFA4DC 0x28EAA8C89D5063C4940EF5C6D21C13AA6206F1C4DDC9A07CCA7BCD6BBD3B5406) :=
  scalarMultAux_step 171 0x47C513B60CFA0A4B2B5940310F1AC667127AFA92A13 0x23E289DB067D052595ACA018878D6333893D7D49509 (Point.mk 0x85D9B8619996B2A905B8CB5D2617CC73E259DE69003186170FC95311A6EDA138 0x8DD807701C869FA621454DB9AB64DB51445995CC91456ADC718AE2BD33060746) (Point.mk 0x0EAC134CA2046B8F9C8DBD304FAD3F3C045EBFDB4EC6ED3CFE09AEE43ED2FF3E 0x49630DBE79359B4245BF103BF2B11799AC19F696B7F21376E17206207D210988) (Point.mk 0x0D3E9A6249129FDE4880C9960541ECCD1572D9F848741E1DB2A7A6BA8FE72D4D 0x299E6E0EB35F030F18EDB4687BDCA8C28FB94F7168F52365FC826A64B585845F) (Point.mk 0xD6788590731FEA198392119D7ADBB41FF5948A7804C85B17476706E4DFBFA4DC 0x28EAA8C89D5063C4940EF5C6D21C13AA6206F1C4DDC9A07CCA7BCD6BBD3B5406) (by decide) (by decide) (by decide) (by decide)

theorem smA86 : scalarMultAux 171 0x23E289DB067D052595ACA018878D6333893D7D49509 (Point.mk 0x0D3E9A6249129FDE4880C9960541ECCD1572D9F848741E1DB2A7A6BA8FE72D4D 0x299E6E0EB35F030F18EDB4687BDCA8C28FB94F7168F52365FC826A64B585845F) (Point.mk 0xD6788590731FEA198392119D7ADBB41FF5948A7804C85B17476706E4DFBFA4DC 0x28EAA8C89D5063C4940EF5C6D21C13AA6206F1C4DDC9A07CCA7BCD6BBD3B5406) = scalarMultAux 170 0x11F144ED833E8292CAD6500C43C6B199C49EBEA4A84 (Point.mk 0xE3887DF9FB4E077AB1C438CA7E97C8D45CB99226BACDB8DA2AC3CC3FE7EF24A7 0x08A7E86395532A2FF962C1DED9F35C34961C335ABA793F2F6C81EF30F19C258B) (Point.mk 0x6930FCCBD9A040974ABF210F12B71D4BC7B1A6205599B01A7275FB40E48FF9B3 0x7F02AE94B94701EADA30FCDB875F6D78090F9B13E4ACC51ACFDDAB5F8EE96A4E) :=
  scalarMultAux_step 170 0x23E289DB067D052595ACA018878D6333893D7D49509 0x11F144ED833E8292CAD6500C43C6B199C49EBEA4A84 (Point.mk 0x0D3E9A6249129FDE4880C9960541ECCD1572D9F848741E1DB2A7A6BA8FE72D4D 0x299E6E0EB35F030F18EDB4687BDCA8C28FB94F7168F52365FC826A64B585845F) (Point.mk 0xD6788590731FEA198392119D7ADBB41FF5948A7804C85B17476706E4DFBFA4DC 0x28EAA8C89D5063C4940EF5C6D21C13AA6206F1C4DDC9A07CCA7BCD6BBD3B5406) (Point.mk 0xE3887DF9FB4E077AB1C438CA7E97C8D45CB99226BACDB8DA2AC3CC3FE7EF24A7 0x08A7E86395532A2FF962C1DED9F35C34961C335ABA793F2F6C81EF30F19C258B) (Point.mk 0x6930FCCBD9A040974ABF210F12B71D4BC7B1A6205599B01A7275FB40E48FF9B3 0x7F02AE94B94701EADA30FCDB875F6D78090F9B13E4ACC51ACFDDAB5F8EE96A4E) (by decide) (by decide) (by decide) (by decide)

theorem smA87 : scalarMultAux 170 0x11F144ED833E8292CAD6500C43C6B199C49EBEA4A84 (Point.mk 0xE3887DF9FB4E077AB1C438CA7E97C8D45CB99226BACDB8DA2AC3CC3FE7EF24A7 0x08A7E86395532A2FF962C1DED9F35C34961C335ABA793F2F6C81EF30F19C258B) (Point.mk 0x6930FCCBD9A040974ABF210F12B71D4BC7B1A6205599B01A7275FB40E48FF9B3 0x7F02AE94B94701EADA30FCDB875F6D78090F9B13E4ACC51ACFDDAB5F8EE96A4E) = scalarMultAux 169 0x8F8A276C19F4149656B280621E358CCE24F5F52542 (Point.mk 0xE3887DF9FB4E077AB1C438CA7E97C8D45CB99226BACDB8DA2AC3CC3FE7EF24A7 0x08A7E86395532A2FF962C1DED9F35C34961C335ABA793F2F6C81EF30F19C258B) (Point.mk 0x213C7A715CD5D45358D0BBF9DC0CE02204B10BDDE2A3F58540AD6908D0559754 0x4B6DAD0B5AE462507013AD06245BA190BB4850F5F36A7EEDDFF2C27534B458F2) :=
  scalarMultAux_step 169 0x11F144ED833E8292CAD6500C43C6B199C49EBEA4A84 0x8F8A276C19F4149656B280621E358CCE24F5F52542 (Point.mk 0xE3887DF9FB4E077AB1C438CA7E97C8D45CB99226BACDB8DA2AC3CC3FE7EF24A7 0x08A7E86395532A2FF962C1DED9F35C34961C335ABA793F2F6C81EF30F19C258B) (Point.mk 0x6930FCCBD9A040974ABF210F12B71D4BC7B1A6205599B01A7275FB40E48FF9B3 0x7F02AE94B94701EADA30FCDB875F6D78090F9B13E4ACC51ACFDDAB5F8EE96A4E) (Point.mk 0xE3887DF9FB4E077AB1C438CA7E97C8D45CB99226BACDB8DA2AC3CC3FE7EF24A7 0x08A7E86395532A2FF962C1DED9F35C34961C335ABA793F2F6C81EF30F19C258B) (Point.mk 0x213C7A715CD5D45358D0BBF9DC0CE02204B10BDDE2A3F58540AD6908D0559754 0x4B6DAD0B5AE462507013AD06245BA190BB4850F5F36A7EEDDFF2C27534B458F2) (by decide) (by decide) (by decide) (by decide)

theorem smA88 : scalarMultAux 169 0x8F8A276C19F4149656B280621E358CCE24F5F52542 (Point.mk 0xE3887DF9FB4E077AB1C438CA7E97C8D45CB99226BACDB8DA2AC3CC3FE7EF24A7 0x08A7E86395532A2FF962C1DED9F35C34961C335ABA793F2F6C81EF30F19C258B) (Point.mk 0x213C7A715CD5D45358D0BBF9DC0CE02204B10BDDE2A3F58540AD6908D0559754 0x4B6DAD0B5AE462507013AD06245BA190BB4850F5F36A7EEDDFF2C27534B458F2) = scalarMultAux 168 0x47C513B60CFA0A4B2B5940310F1AC667127AFA92A1 (Point.mk 0xE3887DF9FB4E077AB1C438CA7E97C8D45CB99226BACDB8DA2AC3CC3FE7EF24A7 0x08A7E86395532A2FF962C1DED9F35C34961C335ABA793F2F6C81EF30F19C258B) (Point.mk 0x1C5E548132B49A7F66AE9FED8323480E0D1AB974622E7CF08993895E0EC87FAC 0x4FFCF60F837F468F2BB959FA1D4C2AD3A3DEACEB26FE324C555D7B3D5FC2D4EF) :=
  scalarMultAux_step 168 0x8F8A276C19F4149656B280621E358CCE24F5F52542 0x47C513B60CFA0A4B2B5940310F1AC667127AFA92A1 (Point.mk 0xE3887DF9FB4E077AB1C438CA7E97C8D45CB99226BACDB8DA2AC3CC3FE7EF24A7 0x08A7E86395532A2FF962C1DED9F35C34961C335ABA793F2F6C81EF30F19C258B) (Point.mk 0x213C7A715CD5D45358D0BBF9DC0CE02204B10BDDE2A3F58540AD6908D0559754 0x4B6DAD0B5AE462507013AD06245BA190BB4850F5F36A7EEDDFF2C27534B458F2) (Point.mk 0xE3887DF9FB4E077AB1C438CA7E97C8D45CB99226BACDB8DA2AC3CC3FE7EF24A7 0x08A7E86395532A2FF962C1DED9F35C34961C335ABA793F2F6C81EF30F19C258B) (Point.mk 0x1C5E548132B49A7F66AE9FED8323480E0D1AB974622E7CF08993895E0EC87FAC 0x4FFCF60F837F468F2BB959FA1D4C2AD3A3DEACEB26FE324C555D7B3D5FC2D4EF) (by decide) (by decide) (by decide) (by decide)

theorem smA89 : scalarMultAux 168 0x47C513B60CFA0A4B2B5940310F1AC667127AFA92A1 (Point.mk 0xE3887DF9FB4E077AB1C438CA7E97C8D45CB99226BACDB8DA2AC3CC3FE7EF24A7 0x08A7E86395532A2FF962C1DED9F35C34961C335ABA793F2F6C81EF30F19C258B) (Point.mk 0x1C5E548132B49A7F66AE9FED8323480E0D1AB974622E7CF08993895E0EC87FAC 0x4FFCF60F837F468F2BB959FA1D4C2AD3A3DEACEB26FE324C555D7B3D5FC2D4EF) = scalarMultAux 167 0x23E289DB067D052595ACA018878D6333893D7D4950 (Point.mk 0x20F649B8C0FE78541DF45F61DBE4803663D65A7ACC0B630E48B6E6A6AA7E9EC0 0x6BDFF47C0004AB62041E4B24B759485657CE16CB6354DAB57D050F070AAA3A69) (Point.mk 0x46276D0602C5668DDEF6E94210BBC7CE1F901C19FED5C970E20FCBA1D4531DBC 0x0E0F7F24D44C75B84A292287570DED99498BADFBFFE1BC99AF8730099686B8E2) :=
  scalarMultAux_step 167 0x47C513B60CFA0A4B2B5940310F1AC667127AFA92A1 0x23E289DB067D052595ACA018878D6333893D7D4950 (Point.mk 0xE3887DF9FB4E077AB1C438CA7E97C8D45CB99226BACDB8DA2AC3CC3FE7EF24A7 0x08A7E86395532A2FF962C1DED9F35C34961C335ABA793F2F6C81EF30F19C258B) (Point.mk 0x1C5E548132B49A7F66AE9FED8323480E0D1AB974622E7CF08993895E0EC87FAC 0x4FFCF60F837F468F2BB959FA1D4C2AD3A3DEACEB26FE324C555D7B3D5FC2D4EF) (Point.mk 0x20F649B8C0FE78541DF45F61DBE4803663D65A7ACC0B630E48B6E6A6AA7E9EC0 0x6BDFF47C0004AB62041E4B24B759485657CE16CB6354DAB57D050F070AAA3A69) (Point.mk 0x46276D0602C5668DDEF6E94210BBC7CE1F901C19FED5C970E20FCBA1D4531DBC 0x0E0F7F24D44C75B84A292287570DED99498BADFBFFE1BC99AF8730099686B8E2) (by decide) (by decide) (by decide) (by decide)

theorem smA90 : scalarMultAux 167 0x23E289DB067D052595ACA018878D6333893D7D4950 (Point.mk 0x20F649B8C0FE78541DF45F61DBE4803663D65A7ACC0B630E48B6E6A6AA7E9EC0 0x6BDFF47C0004AB62041E4B24B759485657CE16CB6354DAB57D050F070AAA3A69) (Point.mk 0x46276D0602C5668DDEF6E94210BBC7CE1F901C19FED5C970E20FCBA1D4531DBC 0x0E0F7F24D44C75B84A292287570DED99498BADFBFFE1BC99AF8730099686B8E2) = scalarMultAux 166 0x11F144ED833E8292CAD6500C43C6B199C49EBEA4A8 (Point.mk 0x20F649B8C0FE78541DF45F61DBE4803663D65A7ACC0B630E48B6E6A6AA7E9EC0 0x6BDFF47C0004AB62041E4B24B759485657CE16CB6354DAB57D050F070AAA3A69) (Point.mk 0xEFEA68ECA7A6C24F4E65EB211C3191636850E0ACDC78D8996114EF13522F001D 0xAAB847869D583C14DA150307A3719A17E413959FB3848771C128419F73BC4415) :=
  scalarMultAux_step 166 0x23E289DB067D052595ACA018878D6333893D7D4950 0x11F144ED833E8292CAD6500C43C6B199C49EBEA4A8 (Point.mk 0x20F649B8C0FE78541DF45F61DBE4803663D65A7ACC0B630E48B6E6A6AA7E9EC0 0x6BDFF47C0004AB62041E4B24B759485657CE16CB6354DAB57D050F070AAA3A69) (Point.mk 0x46276D0602C5668DDEF6E94210BBC7CE1F901C19FED5C970E20FCBA1D4531DBC 0x0E0F7F24D44C75B84A292287570DED99498BADFBFFE1BC99AF8730099686B8E2) (Point.mk 0x20F649B8C0FE78541DF45F61DBE4803663D65A7ACC0B630E48B6E6A6AA7E9EC0 0x6BDFF47C0004AB62041E4B24B759485657CE16CB6354DAB57D050F070AAA3A69) (Point.mk 0xEFEA68ECA7A6C24F4E65EB211C3191636850E0ACDC78D8996114EF13522F001D 0xAAB847869D583C14DA150307A3719A17E413959FB3848771C128419F73BC4415) (by decide) (by decide) (by decide) (by decide)

theorem smA91 : scalarMultAux 166 0x11F144ED833E8292CAD6500C43C6B199C49EBEA4A8 (Point.mk 0x20F649B8C0FE78541DF45F61DBE4803663D65A7ACC0B630E48B6E6A6AA7E9EC0 0x6BDFF47C0004AB62041E4B24B759485657CE16CB6354DAB57D050F070AAA3A69) (Point.mk 0xEFEA68ECA7A6C24F4E65EB211C3191636850E0ACDC78D8996114EF13522F001D 0xAAB847869D583C14DA150307A3719A17E413959FB3848771C128419F73BC4415) = scalarMultAux 165 0x8F8A276C19F4149656B280621E358CCE24F5F5254 (Point.mk 0x20F649B8C0FE78541DF45F61DBE4803663D65A7ACC0B630E48B6E6A6AA7E9EC0 0x6BDFF47C0004AB62041E4B24B759485657CE16CB6354DAB57D050F070AAA3A69) (Point.mk 0x4E7C272A7AF4B34E8DBB9352A5419A87E2838C70ADC62CDDF0CC3A3B08FBD53C 0x17749C766C9D0B18E16FD09F6DEF681B530B9614BFF7DD33E0B3941817DCAAE6) :=
  scalarMultAux_step 165 0x11F144ED833E8292CAD6500C43C6B199C49EBEA4A8 0x8F8A276C19F4149656B280621E358CCE24F5F5254 (Point.mk 0x20F649B8C0FE78541DF45F61DBE4803663D65A7ACC0B630E48B6E6A6AA7E9EC0 0x6BDFF47C0004AB62041E4B24B759485657CE16CB6354DAB57D050F070AAA3A69) (Point.mk 0xEFEA68ECA7A6C24F4E65EB211C3191636850E0ACDC78D8996114EF13522F001D 0xAAB847869D583C14DA150307A3719A17E413959FB3848771C128419F73BC4415) (Point.mk 0x20F649B8C0FE78541DF45F61DBE4803663D65A7ACC0B630E48B6E6A6AA7E9EC0 0x6BDFF47C0004AB62041E4B24B759485657CE16CB6354DAB57D050F070AAA3A69) (Point.mk 0x4E7C272A7AF4B34E8DBB9352A5419A87E2838C70ADC62CDDF0CC3A3B08FBD53C 0x17749C766C9D0B18E16FD09F6DEF681B530B9614BFF7DD33E0B3941817DCAAE6) (by decide) (by decide) (by decide) (by decide)

theorem smA92 : scalarMultAux 165 0x8F8A276C19F4149656B280621E358CCE24F5F5254 (Point.mk 0x20F649B8C0FE78541DF45F61DBE4803663D65A7ACC0B630E48B6E6A6AA7E9EC0 0x6BDFF47C0004AB62041E4B24B759485657CE16CB6354DAB57D050F070AAA3A69) (Point.mk 0x4E7C272A7AF4B34E8DBB9352A5419A87E2838C70ADC62CDDF0CC3A3B08FBD53C 0x17749C766C9D0B18E16FD09F6DEF681B530B9614BFF7DD33E0B3941817DCAAE6) = scalarMultAux 164 0x47C513B60CFA0A4B2B5940310F1AC667127AFA92A (Point.mk 0x20F649B8C0FE78541DF45F61DBE4803663D65A7ACC0B630E48B6E6A6AA7E9EC0 0x6BDFF47C0004AB62041E4B24B759485657CE16CB6354DAB57D050F070AAA3A69) (Point.mk 0x899017B02696888F268A269F4E385D9C9B11F25A1BEF8790E2821E6E7C6E1B4D 0x43AE2CDAB5B334F0BB45798336358BFAE4E51BC0F932B212009AEBDAD814AB2B) :=
  scalarMultAux_step 164 0x8F8A276C19F4149656B280621E358CCE24F5F5254 0x47C513B60CFA0A4B2B5940310F1AC667127AFA92A (Point.mk 0x20F649B8C0FE78541DF45F61DBE4803663D65A7ACC0B630E48B6E6A6AA7E9EC0 0x6BDFF47C0004AB62041E4B24B759485657CE16CB6354DAB57D050F070AAA3A69) (Point.mk 0x4E7C272A7AF4B34E8DBB9352A5419A87E2838C70ADC62CDDF0CC3A3B08FBD53C 0x17749C766C9D0B18E16FD09F6DEF681B530B9614BFF7DD33E0B3941817DCAAE6) (Point.mk 0x20F649B8C0FE78541DF45F61DBE4803663D65A7ACC0B630E48B6E6A6AA7E9EC0 0x6BDFF47C0004AB62041E4B24B759485657CE16CB6354DAB57D050F070AAA3A69) (Point.mk 0x899017B02696888F268A269F4E385D9C9B11F25A1BEF8790E2821E6E7C6E1B4D 0x43AE2CDAB5B334F0BB45798336358BFAE4E51BC0F932B212009AEBDAD814AB2B) (by decide) (by decide) (by decide) (by decide)

theorem smA93 : scalarMultAux 164 0x47C513B60CFA0A4B2B5940310F1AC667127AFA92A (Point.mk 0x20F649B8C0FE78541DF45F61DBE4803663D65A7ACC0B630E48B6E6A6AA7E9EC0 0x6BDFF47C0004AB62041E4B24B759485657CE16CB6354DAB57D050F070AAA3A69) (Point.mk 0x899017B02696888F268A269F4E385D9C9B11F25A1BEF8790E2821E6E7C6E1B4D 0x43AE2CDAB5B334F0BB45798336358BFAE4E51BC0F932B212009AEBDAD814AB2B) = scalarMultAux 163 0x23E289DB067D052595ACA018878D6333893D7D495 (Point.mk 0x20F649B8C0FE78541DF45F61DBE4803663D65A7ACC0B630E48B6E6A6AA7E9EC0 0x6BDFF47C0004AB62041E4B24B759485657CE16CB6354DAB57D050F070AAA3A69) (Point.mk 0x67F644F76E905FD4A8F4728E63227F0E2831F5BF91B583A8AF2635A17E5F712F 0xB833D68F66445D04F05ADEB7B586CF785E0E1488F7D36198D68ACB5E707160E5) :=
  scalarMultAux_step 163 0x47C513B60CFA0A4B2B5940310F1AC667127AFA92A 0x23E289DB067D052595ACA018878D6333893D7D495 (Point.mk 0x20F649B8C0FE78541DF45F61DBE4803663D65A7ACC0B630E48B6E6A6AA7E9EC0 0x6BDFF47C0004AB62041E4B24B759485657CE16CB6354DAB57D050F070AAA3A69) (Point.mk 0x899017B02696888F268A269F4E385D9C9B11F25A1BEF8790E2821E6E7C6E1B4D 0x43AE2CDAB5B334F0BB45798336358BFAE4E51BC0F932B212009AEBDAD814AB2B) (Point.mk 0x20F649B8C0FE78541DF45F61DBE4803663D65A7ACC0B630E48B6E6A6AA7E9EC0 0x6BDFF47C0004AB62041E4B24B759485657CE16CB6354DAB57D050F070AAA3A69) (Point.mk 0x67F644F76E905FD4A8F4728E63227F0E2831F5BF91B583A8AF2635A17E5F712F 0xB833D68F66445D04F05ADEB7B586CF785E0E1488F7D36198D68ACB5E707160E5) (by decide) (by decide) (by decide) (by decide)

theorem smA94 : scalarMultAux 163 0x23E289DB067D052595ACA018878D6333893D7D495 (Point.mk 0x20F649B8C0FE78541DF45F61DBE4803663D65A7ACC0B630E48B6E6A6AA7E9EC0 0x6BDFF47C0004AB62041E4B24B759485657CE16CB6354DAB57D050F070AAA3A69) (Point.mk 0x67F644F76E905FD4A8F4728E63227F0E2831F5BF91B583A8AF2635A17E5F712F 0xB833D68F66445D04F05ADEB7B586CF785E0E1488F7D36198D68ACB5E707160E5) = scalarMultAux 162 0x11F144ED833E8292CAD6500C43C6B199C49EBEA4A (Point.mk 0xBC8C2ACF0891FEB96C11AC8F149784D175193AB5AD070B4BB3A060F3BC801F59 0x21F787BE40CCD8BDF230010C168B3B392B7216C5CD2D6AD35ACBE56015CDBC17) (Point.mk 0x327F876C93652555FA80A054968B4712930DC93012EE6B8DC10263ED3B89A762 0xB2D404EAB3524026B09969255E1997B975535070FEBD7DFE9C9FD959B9203301) :=
  scalarMultAux_step 162 0x23E289DB067D052595ACA018878D6333893D7D495 0x11F144ED833E8292CAD6500C43C6B199C49EBEA4A (Point.mk 0x20F649B8C0FE78541DF45F61DBE4803663D65A7ACC0B630E48B6E6A6AA7E9EC0 0x6BDFF47C0004AB62041E4B24B759485657CE16CB6354DAB57D050F070AAA3A69) (Point.mk 0x67F644F76E905FD4A8F4728E63227F0E2831F5BF91B583A8AF2635A17E5F712F 0xB833D68F66445D04F05ADEB7B586CF785E0E1488F7D36198D68ACB5E707160E5) (Point.mk 0xBC8C2ACF0891FEB96C11AC8F149784D175193AB5AD070B4BB3A060F3BC801F59 0x21F787BE40CCD8BDF230010C168B3B392B7216C5CD2D6AD35ACBE56015CDBC17) (Point.mk 0x327F876C93652555FA80A054968B4712930DC93012EE6B8DC10263ED3B89A762 0xB2D404EAB3524026B09969255E1997B975535070FEBD7DFE9C9FD959B9203301) (by decide) (by decide) (by decide) (by decide)

theorem smA95 : scalarMultAux 162 0x11F144ED833E8292CAD6500C43C6B199C49EBEA4A (Point.mk 0xBC8C2ACF0891FEB96C11AC8F149784D175193AB5AD070B4BB3A060F3BC801F59 0x21F787BE40CCD8BDF230010C168B3B392B7216C5CD2D6AD35ACBE56015CDBC17) (Point.mk 0x327F876C93652555FA80A054968B4712930DC93012EE6B8DC10263ED3B89A762 0xB2D404EAB3524026B09969255E1997B975535070FEBD7DFE9C9FD959B9203301) = scalarMultAux 161 0x8F8A276C19F4149656B280621E358CCE24F5F525 (Point.mk 0xBC8C2ACF0891FEB96C11AC8F149784D175193AB5AD070B4BB3A060F3BC801F59 0x21F787BE40CCD8BDF230010C168B3B392B7216C5CD2D6AD35ACBE56015CDBC17) (Point.mk 0xFEA74E3DBE778B1B10F238AD61686AA5C76E3DB2BE43057632427E2840FB27B6 0x6E0568DB9B0B13297CF674DECCB6AF93126B596B973F7B77701D3DB7F23CB96F) :=
  scalarMultAux_step 161 0x11F144ED833E8292CAD6500C43C6B199C49EBEA4A 0x8F8A276C19F4149656B280621E358CCE24F5F525 (Point.mk 0xBC8C2ACF0891FEB96C11AC8F149784D175193AB5AD070B4BB3A060F3BC801F59 0x21F787BE40CCD8BDF230010C168B3B392B7216C5CD2D6AD35ACBE56015CDBC17) (Point.mk 0x327F876C93652555FA80A054968B4712930DC93012EE6B8DC10263ED3B89A762 0xB2D404EAB3524026B09969255E1997B975535070FEBD7DFE9C9FD959B9203301) (Point.mk 0xBC8C2ACF0891FEB96C11AC8F149784D175193AB5AD070B4BB3A060F3BC801F59 0x21F787BE40CCD8BDF230010C168B3B392B7216C5CD2D6AD35ACBE56015CDBC17) (Point.mk 0xFEA74E3DBE778B1B10F238AD61686AA5C76E3DB2BE43057632427E2840FB27B6 0x6E0568DB9B0B13297CF674DECCB6AF93126B596B973F7B77701D3DB7F23CB96F) (by decide) (by decide) (by decide) (by decide)

theorem smA96 : scalarMultAux 161 0x8F8A276C19F4149656B280621E358CCE24F5F525 (Point.mk 0xBC8C2ACF0891FEB96C11AC8F149784D175193AB5AD070B4BB3A060F3BC801F59 0x21F787BE40CCD8BDF230010C168B3B392B7216C5CD2D6AD35ACBE56015CDBC17) (Point.mk 0xFEA74E3DBE778B1B10F238AD61686AA5C76E3DB2BE43057632427E2840FB27B6 0x6E0568DB9B0B13297CF674DECCB6AF93126B596B973F7B77701D3DB7F23CB96F) = scalarMultAux 160 0x47C513B60CFA0A4B2B5940310F1AC667127AFA92 (Point.mk 0xC79BB24FE06A4B0B4A187E47A1F76EE17BBEC448B73468788C824FFBE378ADD1 0x9A7FC02EC63BC0B86387991211B003F81DB4C5DB7A6A19E9A869B97C8DA9FF45) (Point.mk 0xED9441C8304280FF180E03D850E8CD0EBB570EE5DE3730488FD97C961F9756E4 0x3DBE9E9EFE8BFA19AFA176128B13911E09F23774FE4DE98BFF0E09F93F3ABFAE) :=
  scalarMultAux_step 160 0x8F8A276C19F4149656B280621E358CCE24F5F525 0x47C513B60CFA0A4B2B5940310F1AC667127AFA92 (Point.mk 0xBC8C2ACF0891FEB96C11AC8F149784D175193AB5AD070B4BB3A060F3BC801F59 0x21F787BE40CCD8BDF230010C168B3B392B7216C5CD2D6AD35ACBE56015CDBC17) (Point.mk 0xFEA74E3DBE778B1B10F238AD61686AA5C76E3DB2BE43057632427E2840FB27B6 0x6E0568DB9B0B13297CF674DECCB6AF93126B596B973F7B77701D3DB7F23CB96F) (Point.mk 0xC79BB24FE06A4B0B4A187E47A1F76EE17BBEC448B73468788C824FFBE378ADD1 0x9A7FC02EC63BC0B86387991211B003F81DB4C5DB7A6A19E9A869B97C8DA9FF45) (Point.mk 0xED9441C8304280FF180E03D850E8CD0EBB570EE5DE3730488FD97C961F9756E4 0x3DBE9E9EFE8BFA19AFA176128B13911E09F23774FE4DE98BFF0E09F93F3ABFAE) (by decide) (by decide) (by decide) (by decide)

theorem smA97 : scalarMultAux 160 0x47C513B60CFA0A4B2B5940310F1AC667127AFA92 (Point.mk 0xC79BB24FE06A4B0B4A187E47A1F76EE17BBEC448B73468788C824FFBE378ADD1 0x9A7FC02EC63BC0B86387991211B003F81DB4C5DB7A6A19E9A869B97C8DA9FF45) (Point.mk 0xED9441C8304280FF180E03D850E8CD0EBB570EE5DE3730488FD97C961F9756E4 0x3DBE9E9EFE8BFA19AFA176128B13911E09F23774FE4DE98BFF0E09F93F3ABFAE) = scalarMultAux 159 0x23E289DB067D052595ACA018878D6333893D7D49 (Point.mk 0xC79BB24FE06A4B0B4A187E47A1F76EE17BBEC448B73468788C824FFBE378ADD1 0x9A7FC02EC63BC0B86387991211B003F81DB4C5DB7A6A19E9A869B97C8DA9FF45) (Point.mk 0x29D9698EE67A7C3FC9FED3F624B487515B10BDD84FAB4D3015BAD033D51CF119 0x7FD02C517DC82B45277A125404F1C96FB89C940E93A7C2963C88740575056339) :=
  scalarMultAux_step 159 0x47C513B60CFA0A4B2B5940310F1AC667127AFA92 0x23E289DB067D052595ACA018878D6333893D7D49 (Point.mk 0xC79BB24FE06A4B0B4A187E47A1F76EE17BBEC448B73468788C824FFBE378ADD1 0x9A7FC02EC63BC0B86387991211B003F81DB4C5DB7A6A19E9A869B97C8DA9FF45) (Point.mk 0xED9441C8304280FF180E03D850E8CD0EBB570EE5DE3730488FD97C961F9756E4 0x3DBE9E9EFE8BFA19AFA176128B13911E09F23774FE4DE98BFF0E09F93F3ABFAE) (Point.mk 0xC79BB24FE06A4B0B4A187E47A1F76EE17BBEC448B73468788C824FFBE378ADD1 0x9A7FC02EC63BC0B86387991211B003F81DB4C5DB7A6A19E9A869B97C8DA9FF45) (Point.mk 0x29D9698EE67A7C3FC9FED3F624B487515B10BDD84FAB4D3015BAD033D51CF119 0x7FD02C517DC82B45277A125404F1C96FB89C940E93A7C2963C88740575056339) (by decide) (by decide) (by decide) (by decide)

theorem smA98 : scalarMultAux 159 0x23E289DB067D052595ACA018878D6333893D7D49 (Point.mk 0xC79BB24FE06A4B0B4A187E47A1F76EE17BBEC448B73468788C824FFBE378ADD1 0x9A7FC02EC63BC0B86387991211B003F81DB4C5DB7A6A19E9A869B97C8DA9FF45) (Point.mk 0x29D9698EE67A7C3FC9FED3F624B487515B10BDD84FAB4D3015BAD033D51CF119 0x7FD02C517DC82B45277A125404F1C96FB89C940E93A7C2963C88740575056339) = scalarMultAux 158 0x11F144ED833E8292CAD6500C43C6B199C49EBEA4 (Point.mk 0xC482D000C201DA3EEB0FAF953D8185A313ED89A126E6816035E664DFDB21F55B 0x4685F1D8444BEA6A65F25F74E61E1EF0778E052F24DB09421792BA3028CF34A1) (Point.mk 0x126B57D05013936D6F3FB7BD33580A31FD453E4A86060CFF467C44537F422491 0xC1A7DC13061662C2E3C4A3EBA2BF3FB0E148BAC30BF39347AFA31F199DA3EF84) :=
  scalarMultAux_step 158 0x23E289DB067D052595ACA018878D6333893D7D49 0x11F144ED833E8292CAD6500C43C6B199C49EBEA4 (Point.mk 0xC79BB24FE06A4B0B4A187E47A1F76EE17BBEC448B73468788C824FFBE378ADD1 0x9A7FC02EC63BC0B86387991211B003F81DB4C5DB7A6A19E9A869B97C8DA9FF45) (Point.mk 0x29D9698EE67A7C3FC9FED3F624B487515B10BDD84FAB4D3015BAD033D51CF119 0x7FD02C517DC82B45277A125404F1C96FB89C940E93A7C2963C88740575056339) (Point.mk 0xC482D000C201DA3EEB0FAF953D8185A313ED89A126E6816035E664DFDB21F55B 0x4685F1D8444BEA6A65F25F74E61E1EF0778E052F24DB09421792BA3028CF34A1) (Point.mk 0x126B57D05013936D6F3FB7BD33580A31FD453E4A86060CFF467C44537F422491 0xC1A7DC13061662C2E3C4A3EBA2BF3FB0E148BAC30BF39347AFA31F199DA3EF84) (by decide) (by decide) (by decide) (by decide)

theorem smA99 : scalarMultAux 158 0x11F144ED833E8292CAD6500C43C6B199C49EBEA4 (Point.mk 0xC482D000C201DA3EEB0FAF953D8185A313ED89A126E6816035E664DFDB21F55B 0x4685F1D8444BEA6A65F25F74E61E1EF0778E052F24DB09421792BA3028CF34A1) (Point.mk 0x126B57D05013936D6F3FB7BD33580A31FD453E4A86060CFF467C44537F422491 0xC1A7DC13061662C2E3C4A3EBA2BF3FB0E148BAC30BF39347AFA31F199DA3EF84) = scalarMultAux 157 0x8F8A276C19F4149656B280621E358CCE24F5F52 (Point.mk 0xC482D000C201DA3EEB0FAF953D8185A313ED89A126E6816035E664DFDB21F55B 0x4685F1D8444BEA6A65F25F74E61E1EF0778E052F24DB09421792BA3028CF34A1) (Point.mk 0x76E64113F677CF0E10A2570D599968D31544E179B760432952C02A4417BDDE39 0xC90DDF8DEE4E95CF577066D70681F0D35E2A33D2B56D2032B4B1752D1901AC01) :=
  scalarMultAux_step 157 0x11F144ED833E8292CAD6500C43C6B199C49EBEA4 0x8F8A276C19F4149656B280621E358CCE24F5F52 (Point.mk 0xC482D000C201DA3EEB0FAF953D8185A313ED89A126E6816035E664DFDB21F55B 0x4685F1D8444BEA6A65F25F74E61E1EF0778E052F24DB09421792BA3028CF34A1) (Point.mk 0x126B57D05013936D6F3FB7BD33580A31FD453E4A86060CFF467C44537F422491 0xC1A7DC13061662C2E3C4A3EBA2BF3FB0E148BAC30BF39347AFA31F199DA3EF84) (Point.mk 0xC482D000C201DA3EEB0FAF953D8185A313ED89A126E6816035E664DFDB21F55B 0x4685F1D8444BEA6A65F25F74E61E1EF0778E052F24DB09421792BA3028CF34A1) (Point.mk 0x76E64113F677CF0E10A2570D599968D31544E179B760432952C02A4417BDDE39 0xC90DDF8DEE4E95CF577066D70681F0D35E2A33D2B56D2032B4B1752D1901AC01) (by decide) (by decide) (by decide) (by decide)

theorem smA100 : scalarMultAux 157 0x8F8A276C19F4149656B280621E358CCE24F5F52 (Point.mk 0xC482D000C201DA3EEB0FAF953D8185A313ED89A126E6816035E664DFDB21F55B 0x4685F1D8444BEA6A65F25F74E61E1EF0778E052F24DB09421792BA3028CF34A1) (Point.mk 0x76E64113F677CF0E10A2570D599968D31544E179B760432952C02A4417BDDE39 0xC90DDF8DEE4E95CF577066D70681F0D35E2A33D2B56D2032B4B1752D1901AC01) = scalarMultAux 156 0x47C513B60CFA0A4B2B5940310F1AC667127AFA9 (Point.mk 0xC482D000C201DA3EEB0FAF953D8185A313ED89A126E6816035E664DFDB21F55B 0x4685F1D8444BEA6A65F25F74E61E1EF0778E052F24DB09421792BA3028CF34A1) (Point.mk 0x708A530E9E52C73BEE87C9D88161C810005D57622C29AE691CF999A83A1187A5 0x9B884811E1F9A897FA9656DCBB6D38283ECDA73C6D353E8A58A4F19B473DB9C0) :=
  scalarMultAux_step 156 0x8F8A276C19F4149656B280621E358CCE24F5F52 0x47C513B60CFA0A4B2B5940310F1AC667127AFA9 (Point.mk 0xC482D000C201DA3EEB0FAF953D8185A313ED89A126E6816035E664DFDB21F55B 0x4685F1D8444BEA6A65F25F74E61E1EF0778E052F24DB09421792BA3028CF34A1) (Point.mk 0x76E64113F677CF0E10A2570D599968D31544E179B760432952C02A4417BDDE39 0xC90DDF8DEE4E95CF577066D70681F0D35E2A33D2B56D2032B4B1752D1901AC01) (Point.mk 0xC482D000C201DA3EEB0FAF953D8185A313ED89A126E6816035E664DFDB21F55B 0x4685F1D8444BEA6A65F25F74E61E1EF0778E052F24DB09421792BA3028CF34A1) (Point.mk 0x708A530E9E52C73BEE87C9D88161C810005D57622C29AE691CF999A83A1187A5 0x9B884811E1F9A897FA9656DCBB6D38283ECDA73C6D353E8A58A4F19B473DB9C0) (by decide) (by decide) (by decide) (by decide)

theorem smA101 : scalarMultAux 156 0x47C513B60CFA0A4B2B5940310F1AC667127AFA9 (Point.mk 0xC482D000C201DA3EEB0FAF953D8185A313ED89A126E6816035E664DFDB21F55B 0x4685F1D8444BEA6A65F25F74E61E1EF0778E052F24DB09421792BA3028CF34A1) (Point.mk 0x708A530E9E52C73BEE87C9D88161C810005D57622C29AE691CF999A83A1187A5 0x9B884811E1F9A897FA9656DCBB6D38283ECDA73C6D353E8A58A4F19B473DB9C0) = scalarMultAux 155 0x23E289DB067D052595ACA018878D6333893D7D4 (Point.mk 0xAF0EDC7B795F51808C3133D97543C5350D8456F212C2B0CAEBD354D06C7EC345 0xC2E33748F79317268F29589E49804F889C3B2DF048455F2F2F3B665A1D73480A) (Point.mk 0x19CF034FC48B3BE219BD648395E462CF9F374B6D86B2B59E2E1B16C6CDE4F5BE 0x28E32B06A15AB466C3B4BE68AB181947EF91D1C93F0F1C0C0A91532B6F321AF2) :=
  scalarMultAux_step 155 0x47C513B60CFA0A4B2B5940310F1AC667127AFA9 0x23E289DB067D052595ACA018878D6333893D7D4 (Point.mk 0xC482D000C201DA3EEB0FAF953D8185A313ED89A126E6816035E664DFDB21F55B 0x4685F1D8444BEA6A65F25F74E61E1EF0778E052F24DB09421792BA3028CF34A1) (Point.mk 0x708A530E9E52C73BEE87C9D88161C810005D57622C29AE691CF999A83A1187A5 0x9B884811E1F9A897FA9656DCBB6D38283ECDA73C6D353E8A58A4F19B473DB9C0) (Point.mk 0xAF0EDC7B795F51808C3133D97543C5350D8456F212C2B0CAEBD354D06C7EC345 0xC2E33748F79317268F29589E49804F889C3B2DF048455F2F2F3B665A1D73480A) (Point.mk 0x19CF034FC48B3BE219BD648395E462CF9F374B6D86B2B59E2E1B16C6CDE4F5BE 0x28E32B06A15AB466C3B4BE68AB181947EF91D1C93F0F1C0C0A91532B6F321AF2) (by decide) (by decide) (by decide) (by decide)

theorem smA102 : scalarMultAux 155 0x23E289DB067D052595ACA018878D6333893D7D4 (Point.mk 0xAF0EDC7B795F51808C3133D97543C5350D8456F212C2B0CAEBD354D06C7EC345 0xC2E33748F79317268F29589E49804F889C3B2DF048455F2F2F3B665A1D73480A) (Point.mk 0x19CF034FC48B3BE219BD648395E462CF9F374B6D86B2B59E2E1B16C6CDE4F5BE 0x28E32B06A15AB466C3B4BE68AB181947EF91D1C93F0F1C0C0A91532B6F321AF2) = scalarMultAux 154 0x11F144ED833E8292CAD6500C43C6B199C49EBEA (Point.mk 0xAF0EDC7B795F51808C3133D97543C5350D8456F212C2B0CAEBD354D06C7EC345 0xC2E33748F79317268F29589E49804F889C3B2DF048455F2F2F3B665A1D73480A) (Point.mk 0xAF6C44A078CB5F0D7C719C2F8397F576EE93BD034BEA2219E3ABC209D17CF3E8 0x0784096FE85D4B30AF9E73153CB246DFEC362AEA7CA0D435B8ADD0601751BAEA) :=
  scalarMultAux_step 154 0x23E289DB067D052595ACA018878D6333893D7D4 0x11F144ED833E8292CAD6500C43C6B199C49EBEA (Point.mk 0xAF0EDC7B795F51808C3133D97543C5350D8456F212C2B0CAEBD354D06C7EC345 0xC2E33748F79317268F29589E49804F889C3B2DF048455F2F2F3B665A1D73480A) (Point.mk 0x19CF034FC48B3BE219BD648395E462CF9F374B6D86B2B59E2E1B16C6CDE4F5BE 0x28E32B06A15AB466C3B4BE68AB181947EF91D1C93F0F1C0C0A91532B6F321AF2) (Point.mk 0xAF0EDC7B795F51808C3133D97543C5350D8456F212C2B0CAEBD354D06C7EC345 0xC2E33748F79317268F29589E49804F889C3B2DF048455F2F2F3B665A1D73480A) (Point.mk 0xAF6C44A078CB5F0D7C719C2F8397F576EE93BD034BEA2219E3ABC209D17CF3E8 0x0784096FE85D4B30AF9E73153CB246DFEC362AEA7CA0D435B8ADD0601751BAEA) (by decide) (by decide) (by decide) (by decide)

theorem smA103 : scalarMultAux 154 0x11F144ED833E8292CAD6500C43C6B199C49EBEA (Point.mk 0xAF0EDC7B795F51808C3133D97543C5350D8456F212C2B0CAEBD354D06C7EC345 0xC2E33748F79317268F29589E49804F889C3B2DF048455F2F2F3B665A1D73480A) (Point.mk 0xAF6C44A078CB5F0D7C719C2F8397F576EE93BD034BEA2219E3ABC209D17CF3E8 0x0784096FE85D4B30AF9E73153CB246DFEC362AEA7CA0D435B8ADD0601751BAEA) = scalarMultAux 153 0x8F8A276C19F4149656B280621E358CCE24F5F5 (Point.mk 0xAF0EDC7B795F51808C3133D97543C5350D8456F212C2B0CAEBD354D06C7EC345 0xC2E33748F79317268F29589E49804F889C3B2DF048455F2F2F3B665A1D73480A) (Point.mk 0xC738C56B03B2ABE1E8281BAA743F8F9A8F7CC643DF26CBEE3AB150242BCBB891 0x893FB578951AD2537F718F2EACBFBBBB82314EEF7880CFE917E735D9699A84C3) :=
  scalarMultAux_step 153 0x11F144ED833E8292CAD6500C43C6B199C49EBEA 0x8F8A276C19F4149656B280621E358CCE24F5F5 (Point.mk 0xAF0EDC7B795F51808C3133D97543C5350D8456F212C2B0CAEBD354D06C7EC345 0xC2E33748F79317268F29589E49804F889C3B2DF048455F2F2F3B665A1D73480A) (Point.mk 0xAF6C44A078CB5F0D7C719C2F8397F576EE93BD034BEA2219E3ABC209D17CF3E8 0x0784096FE85D4B30AF9E73153CB246DFEC362AEA7CA0D435B8ADD0601751BAEA) (Point.mk 0xAF0EDC7B795F51808C3133D97543C5350D8456F212C2B0CAEBD354D06C7EC345 0xC2E33748F79317268F29589E49804F889C3B2DF048455F2F2F3B665A1D73480A) (Point.mk 0xC738C56B03B2ABE1E8281BAA743F8F9A8F7CC643DF26CBEE3AB150242BCBB891 0x893FB578951AD2537F718F2EACBFBBBB82314EEF7880CFE917E735D9699A84C3) (by decide) (by decide) (by decide) (by decide)

theorem smA104 : scalarMultAux 153 0x8F8A276C19F4149656B280621E358CCE24F5F5 (Point.mk 0xAF0EDC7B795F51808C3133D97543C5350D8456F212C2B0CAEBD354D06C7EC345 0xC2E33748F79317268F29589E49804F889C3B2DF048455F2F2F3B665A1D73480A) (Point.mk 0xC738C56B03B2ABE1E8281BAA743F8F9A8F7CC643DF26CBEE3AB150242BCBB891 0x893FB578951AD2537F718F2EACBFBBBB82314EEF7880CFE917E735D9699A84C3) = scalarMultAux 152 0x47C513B60CFA0A4B2B5940310F1AC667127AFA (Point.mk 0xC27453644C80AD2C1C3AEE57D7219F152A25464B6DCF18DC88A2BBA51BE921E0 0x2984077FE0ABB543B6ACDA61EA4039CB6038690769301A8A7F511A4F0050C797) (Point.mk 0x5578845ECD7C037435B32A6992E7AA94647197EA49B8C9E4DDAAB0784662AB1B 0xE61D07978B6DE2C3CEA6D0A51D2A4053F653A7746A5D64DE316D18F3056F3511) :=
  scalarMultAux_step 152 0x8F8A276C19F4149656B280621E358CCE24F5F5 0x47C513B60CFA0A4B2B5940310F1AC667127AFA (Point.mk 0xAF0EDC7B795F51808C3133D97543C5350D8456F212C2B0CAEBD354D06C7EC345 0xC2E33748F79317268F29589E49804F889C3B2DF048455F2F2F3B665A1D73480A) (Point.mk 0xC738C56B03B2ABE1E8281BAA743F8F9A8F7CC643DF26CBEE3AB150242BCBB891 0x893FB578951AD2537F718F2EACBFBBBB82314EEF7880CFE917E735D9699A84C3) (Point.mk 0xC27453644C80AD2C1C3AEE57D7219F152A25464B6DCF18DC88A2BBA51BE921E0 0x2984077FE0ABB543B6ACDA61EA4039CB6038690769301A8A7F511A4F0050C797) (Point.mk 0x5578845ECD7C037435B32A6992E7AA94647197EA49B8C9E4DDAAB0784662AB1B 0xE61D07978B6DE2C3CEA6D0A51D2A4053F653A7746A5D64DE316D18F3056F3511) (by decide) (by decide) (by decide) (by decide)

theorem smA105 : scalarMultAux 152 0x47C513B60CFA0A4B2B5940310F1AC667127AFA (Point.mk 0xC27453644C80AD2C1C3AEE57D7219F152A25464B6DCF18DC88A2BBA51BE921E0 0x2984077FE0ABB543B6ACDA61EA4039CB6038690769301A8A7F511A4F0050C797) (Point.mk 0x5578845ECD7C037435B32A6992E7AA94647197EA49B8C9E4DDAAB0784662AB1B 0xE61D07978B6DE2C3CEA6D0A51D2A4053F653A7746A5D64DE316D18F3056F3511) = scalarMultAux 151 0x23E289DB067D052595ACA018878D6333893D7D (Point.mk 0xC27453644C80AD2C1C3AEE57D7219F152A25464B6DCF18DC88A2BBA51BE921E0 0x2984077FE0ABB543B6ACDA61EA4039CB6038690769301A8A7F511A4F0050C797) (Point.mk 0x47F3383888A364CC4ABFA3BC1D0CECCD22F12354FCE3996094F869B8948B6C29 0x48CA9A8D0F032937190E48675B416C7118BB499588F994A81EDEE1120E537EF9) :=
  scalarMultAux_step 151 0x47C513B60CFA0A4B2B5940310F1AC667127AFA 0x23E289DB067D052595ACA018878D6333893D7D (Point.mk 0xC27453644C80AD2C1C3AEE57D7219F152A25464B6DCF18DC88A2BBA51BE921E0 0x2984077FE0ABB543B6ACDA61EA4039CB6038690769301A8A7F511A4F0050C797) (Point.mk 0x5578845ECD7C037435B32A6992E7AA94647197EA49B8C9E4DDAAB0784662AB1B 0xE61D07978B6DE2C3CEA6D0A51D2A4053F653A7746A5D64DE316D18F3056F3511) (Point.mk 0xC27453644C80AD2C1C3AEE57D7219F152A25464B6DCF18DC88A2BBA51BE921E0 0x2984077FE0ABB543B6ACDA61EA4039CB6038690769301A8A7F511A4F0050C797) (Point.mk 0x47F3383888A364CC4ABFA3BC1D0CECCD22F12354FCE3996094F869B8948B6C29 0x48CA9A8D0F032937190E48675B416C7118BB499588F994A81EDEE1120E537EF9) (by decide) (by decide) (by decide) (by decide)

theorem smA106 : scalarMultAux 151 0x23E289DB067D052595ACA018878D6333893D7D (Point.mk 0xC27453644C80AD2C1C3AEE57D7219F152A25464B6DCF18DC88A2BBA51BE921E0 0x2984077FE0ABB543B6ACDA61EA4039CB6038690769301A8A7F511A4F0050C797) (Point.mk 0x47F3383888A364CC4ABFA3BC1D0CECCD22F12354FCE3996094F869B8948B6C29 0x48CA9A8D0F032937190E48675B416C7118BB499588F994A81EDEE1120E537EF9) = scalarMultAux 150 0x11F144ED833E8292CAD6500C43C6B199C49EBE (Point.mk 0xC823EC22765D840100D6EC9C81BDB621B89A282252BDB312C4535C7A0042DD5B 0x54895A4417FE789FCCA59D7F2D971879BDA74F53C41C9BA16C796DF97CC360FA) (Point.mk 0xC0C01F34AE41B8CFE466B4C9C6A5D5F614F570D6FCBEF768A81A6C8F05FF4ADB 0x0B84F5BEE4357F5C7C937A0B4075B8CECDBC43D170D15B85FC4EFF73AC351065) :=
  scalarMultAux_step 150 0x23E289DB067D052595ACA018878D6333893D7D 0x11F144ED833E8292CAD6500C43C6B199C49EBE (Point.mk 0xC27453644C80AD2C1C3AEE57D7219F152A25464B6DCF18DC88A2BBA51BE921E0 0x2984077FE0ABB543B6ACDA61EA4039CB6038690769301A8A7F511A4F0050C797) (Point.mk 0x47F3383888A364CC4ABFA3BC1D0CECCD22F12354FCE3996094F869B8948B6C29 0x48CA9A8D0F032937190E48675B416C7118BB499588F994A81EDEE1120E537EF9) (Point.mk 0xC823EC22765D840100D6EC9C81BDB621B89A282252BDB312C4535C7A0042DD5B 0x54895A4417FE789FCCA59D7F2D971879BDA74F53C41C9BA16C796DF97CC360FA) (Point.mk 0xC0C01F34AE41B8CFE466B4C9C6A5D5F614F570D6FCBEF768A81A6C8F05FF4ADB 0x0B84F5BEE4357F5C7C937A0B4075B8CECDBC43D170D15B85FC4EFF73AC351065) (by decide) (by decide) (by decide) (by decide)

theorem smA107 : scalarMultAux 150 0x11F144ED833E8292CAD6500C43C6B199C49EBE (Point.mk 0xC823EC22765D840100D6EC9C81BDB621B89A282252BDB312C4535C7A0042DD5B 0x54895A4417FE789FCCA59D7F2D971879BDA74F53C41C9BA16C796DF97CC360FA) (Point.mk 0xC0C01F34AE41B8CFE466B4C9C6A5D5F614F570D6FCBEF768A81A6C8F05FF4ADB 0x0B84F5BEE4357F5C7C937A0B4075B8CECDBC43D170D15B85FC4EFF73AC351065) = scalarMultAux 149 0x8F8A276C19F4149656B280621E358CCE24F5F (Point.mk 0xC823EC22765D840100D6EC9C81BDB621B89A282252BDB312C4535C7A0042DD5B 0x54895A4417FE789FCCA59D7F2D971879BDA74F53C41C9BA16C796DF97CC360FA) (Point.mk 0xD895626548B65B81E264C7637C972877D1D72E5F3A925014372E9F6588F6C14B 0xFEBFAA38F2BC7EAE728EC60818C340EB03428D632BB067E179363ED75D7D991F) :=
  scalarMultAux_step 149 0x11F144ED833E8292CAD6500C43C6B199C49EBE 0x8F8A276C19F4149656B280621E358CCE24F5F (Point.mk 0xC823EC22765D840100D6EC9C81BDB621B89A282252BDB312C4535C7A0042DD5B 0x54895A4417FE789FCCA59D7F2D971879BDA74F53C41C9BA16C796DF97CC360FA) (Point.mk 0xC0C01F34AE41B8CFE466B4C9C6A5D5F614F570D6FCBEF768A81A6C8F05FF4ADB 0x0B84F5BEE4357F5C7C937A0B4075B8CECDBC43D170D15B85FC4EFF73AC351065) (Point.mk 0xC823EC22765D840100D6EC9C81BDB621B89A282252BDB312C4535C7A0042DD5B 0x54895A4417FE789FCCA59D7F2D971879BDA74F53C41C9BA16C796DF97CC360FA) (Point.mk 0xD895626548B65B81E264C7637C972877D1D72E5F3A925014372E9F6588F6C14B 0xFEBFAA38F2BC7EAE728EC60818C340EB03428D632BB067E179363ED75D7D991F) (by decide) (by decide) (by decide) (by decide)

theorem smA108 : scalarMultAux 149 0x8F8A276C19F4149656B280621E358CCE24F5F (Point.mk 0xC823EC22765D840100D6EC9C81BDB621B89A282252BDB312C4535C7A0042DD5B 0x54895A4417FE789FCCA59D7F2D971879BDA74F53C41C9BA16C796DF97CC360FA) (Point.mk 0xD895626548B65B81E264C7637C972877D1D72E5F3A925014372E9F6588F6C14B 0xFEBFAA38F2BC7EAE728EC60818C340EB03428D632BB067E179363ED75D7D991F) = scalarMultAux 148 0x47C513B60CFA0A4B2B5940310F1AC667127AF (Point.mk 0x5A6E2054F897506275DB4E3D3B13134A3EEAE0F65D08EE766EC2A4D67FB5BBB4 0x86DD2D5968F888094918E7769C2F0D654F226A449EFF588C4061D25724990F6A) (Point.mk 0xFD136EEF8971044E8A3A43622003A26703ECAF7A0EC40C3FBA5B594B77078424 0x218DA834F3C652CC67A1D191B5C5EFA57CF2B1F78A2ADFA8CD61EEEFC671DDF1) :=
  scalarMultAux_step 148 0x8F8A276C19F4149656B280621E358CCE24F5F 0x47C513B60CFA0A4B2B5940310F1AC667127AF (Point.mk 0xC823EC22765D840100D6EC9C81BDB621B89A282252BDB312C4535C7A0042DD5B 0x54895A4417FE789FCCA59D7F2D971879BDA74F53C41C9BA16C796DF97CC360FA) (Point.mk 0xD895626548B65B81E264C7637C972877D1D72E5F3A925014372E9F6588F6C14B 0xFEBFAA38F2BC7EAE728EC60818C340EB03428D632BB067E179363ED75D7D991F) (Point.mk 0x5A6E2054F897506275DB4E3D3B13134A3EEAE0F65D08EE766EC2A4D67FB5BBB4 0x86DD2D5968F888094918E7769C2F0D654F226A449EFF588C4061D25724990F6A) (Point.mk 0xFD136EEF8971044E8A3A43622003A26703ECAF7A0EC40C3FBA5B594B77078424 0x218DA834F3C652CC67A1D191B5C5EFA57CF2B1F78A2ADFA8CD61EEEFC671DDF1) (by decide) (by decide) (by decide) (by decide)

theorem smA109 : scalarMultAux 148 0x47C513B60CFA0A4B2B5940310F1AC667127AF (Point.mk 0x5A6E2054F897506275DB4E3D3B13134A3EEAE0F65D08EE766EC2A4D67FB5BBB4 0x86DD2D5968F888094918E7769C2F0D654F226A449EFF588C4061D25724990F6A) (Point.mk 0xFD136EEF8971044E8A3A43622003A26703ECAF7A0EC40C3FBA5B594B77078424 0x218DA834F3C652CC67A1D191B5C5EFA57CF2B1F78A2ADFA8CD61EEEFC671DDF1) = scalarMultAux 147 0x23E289DB067D052595ACA018878D6333893D7 (Point.mk 0x7275E3D03C02166019DD613B9526013FA9313B84758DBBF559E5379028A438BB 0xE529B773559A38E1BCEAC0C6AB64A3E942719507A3DF7591C2092757D797DA94) (Point.mk 0xD99E8E9DD9638D140E9CCA5367519F861B7003A0D43F024A5F1D84EC8DB1CB3C 0x36DC19AD1CC0A3A7A945BB321BCEBA6E6286FEF8FFC8765CD88A29E36B8637A7) :=
  scalarMultAux_step 147 0x47C513B60CFA0A4B2B5940310F1AC667127AF 0x23E289DB067D052595ACA018878D6333893D7 (Point.mk 0x5A6E2054F897506275DB4E3D3B13134A3EEAE0F65D08EE766EC2A4D67FB5BBB4 0x86DD2D5968F888094918E7769C2F0D654F226A449EFF588C4061D25724990F6A) (Point.mk 0xFD136EEF8971044E8A3A43622003A26703ECAF7A0EC40C3FBA5B594B77078424 0x218DA834F3C652CC67A1D191B5C5EFA57CF2B1F78A2ADFA8CD61EEEFC671DDF1) (Point.mk 0x7275E3D03C02166019DD613B9526013FA9313B84758DBBF559E5379028A438BB 0xE529B773559A38E1BCEAC0C6AB64A3E942719507A3DF7591C2092757D797DA94) (Point.mk 0xD99E8E9DD9638D140E9CCA5367519F861B7003A0D43F024A5F1D84EC8DB1CB3C 0x36DC19AD1CC0A3A7A945BB321BCEBA6E6286FEF8FFC8765CD88A29E36B8637A7) (by decide) (by decide) (by decide) (by decide)

theorem smA110 : scalarMultAux 147 0x23E289DB067D052595ACA018878D6333893D7 (Point.mk 0x7275E3D03C02166019DD613B9526013FA9313B84758DBBF559E5379028A438BB 0xE529B773559A38E1BCEAC0C6AB64A3E942719507A3DF7591C2092757D797DA94) (Point.mk 0xD99E8E9DD9638D140E9CCA5367519F861B7003A0D43F024A5F1D84EC8DB1CB3C 0x36DC19AD1CC0A3A7A945BB321BCEBA6E6286FEF8FFC8765CD88A29E36B8637A7) = scalarMultAux 146 0x11F144ED833E8292CAD6500C43C6B199C49EB (Point.mk 0xC6341E5900A6747CA25B47C962F8941C06B982F66DA0CD5A15CB6B364990EB28 0x43569C31E7148939185BE568115A70BE3ACBE4A27D77B313EAB09C98993C101F) (Point.mk 0x03FDF1619A198317A1BD8A54E5B09191D203351E0440E636FD46F68D3C385172 0x408D02C06E5C12C3FE470C7D3C8573755B9B929E90E7232B79AC67F0FCCB9794) :=
  scalarMultAux_step 146 0x23E289DB067D052595ACA018878D6333893D7 0x11F144ED833E8292CAD6500C43C6B199C49EB (Point.mk 0x7275E3D03C02166019DD613B9526013FA9313B84758DBBF559E5379028A438BB 0xE529B773559A38E1BCEAC0C6AB64A3E942719507A3DF7591C2092757D797DA94) (Point.mk 0xD99E8E9DD9638D140E9CCA5367519F861B7003A0D43F024A5F1D84EC8DB1CB3C 0x36DC19AD1CC0A3A7A945BB321BCEBA6E6286FEF8FFC8765CD88A29E36B8637A7) (Point.mk 0xC6341E5900A6747CA25B47C962F8941C06B982F66DA0CD5A15CB6B364990EB28 0x43569C31E7148939185BE568115A70BE3ACBE4A27D77B313EAB09C98993C101F) (Point.mk 0x03FDF1619A198317A1BD8A54E5B09191D203351E0440E636FD46F68D3C385172 0x408D02C06E5C12C3FE470C7D3C8573755B9B929E90E7232B79AC67F0FCCB9794) (by decide) (by decide) (by decide) (by decide)

theorem smA111 : scalarMultAux 146 0x11F144ED833E8292CAD6500C43C6B199C49EB (Point.mk 0xC6341E5900A6747CA25B47C962F8941C06B982F66DA0CD5A15CB6B364990EB28 0x43569C31E7148939185BE568115A70BE3ACBE4A27D77B313EAB09C98993C101F) (Point.mk 0x03FDF1619A198317A1BD8A54E5B09191D203351E0440E636FD46F68D3C385172 0x408D02C06E5C12C3FE470C7D3C8573755B9B929E90E7232B79AC67F0FCCB9794) = scalarMultAux 145 0x8F8A276C19F4149656B280621E358CCE24F5 (Point.mk 0xED87DBB96460B9BE56F7D1CCACFC3BBD8BA873F15A5794E19F41EE35E539E15A 0xA8AA7602194948A01B618A6C540B274083E78E6742F26EFE2A12FE54CE19C50F) (Point.mk 0xB8DA94032A957518EB0F6433571E8761CEFFC73693E84EDD49150A564F676E03 0x2804DFA44805A1E4D7C99CC9762808B092CC584D95FF3B511488E4E74EFDF6E7) :=
  scalarMultAux_step 145 0x11F144ED833E8292CAD6500C43C6B199C49EB 0x8F8A276C19F4149656B280621E358CCE24F5 (Point.mk 0xC6341E5900A6747CA25B47C962F8941C06B982F66DA0CD5A15CB6B364990EB28 0x43569C31E7148939185BE568115A70BE3ACBE4A27D77B313EAB09C98993C101F) (Point.mk 0x03FDF1619A198317A1BD8A54E5B09191D203351E0440E636FD46F68D3C385172 0x408D02C06E5C12C3FE470C7D3C8573755B9B929E90E7232B79AC67F0FCCB9794) (Point.mk 0xED87DBB96460B9BE56F7D1CCACFC3BBD8BA873F15A5794E19F41EE35E539E15A 0xA8AA7602194948A01B618A6C540B274083E78E6742F26EFE2A12FE54CE19C50F) (Point.mk 0xB8DA94032A957518EB0F6433571E8761CEFFC73693E84EDD49150A564F676E03 0x2804DFA44805A1E4D7C99CC9762808B092CC584D95FF3B511488E4E74EFDF6E7) (by decide) (by decide) (by decide) (by decide)

theorem smA112 : scalarMultAux 145 0x8F8A276C19F4149656B280621E358CCE24F5 (Point.mk 0xED87DBB96460B9BE56F7D1CCACFC3BBD8BA873F15A5794E19F41EE35E539E15A 0xA8AA7602194948A01B618A6C540B274083E78E6742F26EFE2A12FE54CE19C50F) (Point.mk 0xB8DA94032A957518EB0F6433571E8761CEFFC73693E84EDD49150A564F676E03 0x2804DFA44805A1E4D7C99CC9762808B092CC584D95FF3B511488E4E74EFDF6E7) = scalarMultAux 144 0x47C513B60CFA0A4B2B5940310F1AC667127A (Point.mk 0xBA73F24C58A806EE6416980E32CC100CC486BB8FE81E0AAE630D549622B6FBFC 0xBC4298909DA5CCBCC1220D7A766D5864F2047A905B5217DC743428B26D30F778) (Point.mk 0x6D36D105ED8CC5CE53F2CB698AB620F9469A3E5CB25BF6E6D413F414C5AF726A 0xE4BA5C34E377669E72D8C66C95C50029DCC59936B4108A35C570491A13F9FC7D) :=
  scalarMultAux_step 144 0x8F8A276C19F4149656B280621E358CCE24F5 0x47C513B60CFA0A4B2B5940310F1AC667127A (Point.mk 0xED87DBB96460B9BE56F7D1CCACFC3BBD8BA873F15A5794E19F41EE35E539E15A 0xA8AA7602194948A01B618A6C540B274083E78E6742F26EFE2A12FE54CE19C50F) (Point.mk 0xB8DA94032A957518EB0F6433571E8761CEFFC73693E84EDD49150A564F676E03 0x2804DFA44805A1E4D7C99CC9762808B092CC584D95FF3B511488E4E74EFDF6E7) (Point.mk 0xBA73F24C58A806EE6416980E32CC100CC486BB8FE81E0AAE630D549622B6FBFC 0xBC4298909DA5CCBCC1220D7A766D5864F2047A905B5217DC743428B26D30F778) (Point.mk 0x6D36D105ED8CC5CE53F2CB698AB620F9469A3E5CB25BF6E6D413F414C5AF726A 0xE4BA5C34E377669E72D8C66C95C50029DCC59936B4108A35C570491A13F9FC7D) (by decide) (by decide) (by decide) (by decide)

theorem smA113 : scalarMultAux 144 0x47C513B60CFA0A4B2B5940310F1AC667127A (Point.mk 0xBA73F24C58A806EE6416980E32CC100CC486BB8FE81E0AAE630D549622B6FBFC 0xBC4298909DA5CCBCC1220D7A766D5864F2047A905B5217DC743428B26D30F778) (Point.mk 0x6D36D105ED8CC5CE53F2CB698AB620F9469A3E5CB25BF6E6D413F414C5AF726A 0xE4BA5C34E377669E72D8C66C95C50029DCC59936B4108A35C570491A13F9FC7D) = scalarMultAux 143 0x23E289DB067D052595ACA018878D6333893D (Point.mk 0xBA73F24C58A806EE6416980E32CC100CC486BB8FE81E0AAE630D549622B6FBFC 0xBC4298909DA5CCBCC1220D7A766D5864F2047A905B5217DC743428B26D30F778) (Point.mk 0x3AB6BDE10CD3AC0CD06883FA66F0B0E3EB1309C0534B812286E2A30CA540DB99 0xBACA62079BE871D7FC3117A96A13E99C38D137B0E369C043E6873FE31BDA78A3) :=
  scalarMultAux_step 143 0x47C513B60CFA0A4B2B5940310F1AC667127A 0x23E289DB067D052595ACA018878D6333893D (Point.mk 0xBA73F24C58A806EE6416980E32CC100CC486BB8FE81E0AAE630D549622B6FBFC 0xBC4298909DA5CCBCC1220D7A766D5864F2047A905B5217DC743428B26D30F778) (Point.mk 0x6D36D105ED8CC5CE53F2CB698AB620F9469A3E5CB25BF6E6D413F414C5AF726A 0xE4BA5C34E377669E72D8C66C95C50029DCC59936B4108A35C570491A13F9FC7D) (Point.mk 0xBA73F24C58A806EE6416980E32CC100CC486BB8FE81E0AAE630D549622B6FBFC 0xBC4298909DA5CCBCC1220D7A766D5864F2047A905B5217DC743428B26D30F778) (Point.mk 0x3AB6BDE10CD3AC0CD06883FA66F0B0E3EB1309C0534B812286E2A30CA540DB99 0xBACA62079BE871D7FC3117A96A13E99C38D137B0E369C043E6873FE31BDA78A3) (by decide) (by decide) (by decide) (by decide)

theorem smA114 : scalarMultAux 143 0x23E289DB067D052595ACA018878D6333893D (Point.mk 0xBA73F24C58A806EE6416980E32CC100CC486BB8FE81E0AAE630D549622B6FBFC 0xBC4298909DA5CCBCC1220D7A766D5864F2047A905B5217DC743428B26D30F778) (Point.mk 0x3AB6BDE10CD3AC0CD06883FA66F0B0E3EB1309C0534B812286E2A30CA540DB99 0xBACA62079BE871D7FC3117A96A13E99C38D137B0E369C043E6873FE31BDA78A3) = scalarMultAux 142 0x11F144ED833E8292CAD6500C43C6B199C49E (Point.mk 0x0B1AFBDAE9DB2764E11C10A41D20BF83E88403918CD74DF1859233495E70EB7C 0x108ED2EFD5694815AEB9A19F3BE19E14F22BD132A7D1C5AB329D57D719323B6F) (Point.mk 0x796634E3F1AD56F0FDBA069D9D07BCE2BA2FD4F373DDD3BA7777BF279F1048DA 0x4D8EE2B6CFB20B8956DE74735A7927F2532576D8CFD74862E8F9BE24A106CF01) :=
  scalarMultAux_step 142 0x23E289DB067D052595ACA018878D6333893D 0x11F144ED833E8292CAD6500C43C6B199C49E (Point.mk 0xBA73F24C58A806EE6416980E32CC100CC486BB8FE81E0AAE630D549622B6FBFC 0xBC4298909DA5CCBCC1220D7A766D5864F2047A905B5217DC743428B26D30F778) (Point.mk 0x3AB6BDE10CD3AC0CD06883FA66F0B0E3EB1309C0534B812286E2A30CA540DB99 0xBACA62079BE871D7FC3117A96A13E99C38D137B0E369C043E6873FE31BDA78A3) (Point.mk 0x0B1AFBDAE9DB2764E11C10A41D20BF83E88403918CD74DF1859233495E70EB7C 0x108ED2EFD5694815AEB9A19F3BE19E14F22BD132A7D1C5AB329D57D719323B6F) (Point.mk 0x796634E3F1AD56F0FDBA069D9D07BCE2BA2FD4F373DDD3BA7777BF279F1048DA 0x4D8EE2B6CFB20B8956DE74735A7927F2532576D8CFD74862E8F9BE24A106CF01) (by decide) (by decide) (by decide) (by decide)

theorem smA115 : scalarMultAux 142 0x11F144ED833E8292CAD6500C43C6B199C49E (Point.mk 0x0B1AFBDAE9DB2764E11C10A41D20BF83E88403918CD74DF1859233495E70EB7C 0x108ED2EFD5694815AEB9A19F3BE19E14F22BD132A7D1C5AB329D57D719323B6F) (Point.mk 0x796634E3F1AD56F0FDBA069D9D07BCE2BA2FD4F373DDD3BA7777BF279F1048DA 0x4D8EE2B6CFB20B8956DE74735A7927F2532576D8CFD74862E8F9BE24A106CF01) = scalarMultAux 141 0x8F8A276C19F4149656B280621E358CCE24F (Point.mk 0x0B1AFBDAE9DB2764E11C10A41D20BF83E88403918CD74DF1859233495E70EB7C 0x108ED2EFD5694815AEB9A19F3BE19E14F22BD132A7D1C5AB329D57D719323B6F) (Point.mk 0xE80FEA14441FB33A7D8ADAB9475D7FAB2019EFFB5156A792F1A11778E3C0DF5D 0xEED1DE7F638E00771E89768CA3CA94472D155E80AF322EA9FCB4291B6AC9EC78) :=
  scalarMultAux_step 141 0x11F144ED833E8292CAD6500C43C6B199C49E 0x8F8A276C19F4149656B280621E358CCE24F (Point.mk 0x0B1AFBDAE9DB2764E11C10A41D20BF83E88403918CD74DF1859233495E70EB7C 0x108ED2EFD5694815AEB9A19F3BE19E14F22BD132A7D1C5AB329D57D719323B6F) (Point.mk 0x796634E3F1AD56F0FDBA069D9D07BCE2BA2FD4F373DDD3BA7777BF279F1048DA 0x4D8EE2B6CFB20B8956DE74735A7927F2532576D8CFD74862E8F9BE24A106CF01) (Point.mk 0x0B1AFBDAE9DB2764E11C10A41D20BF83E88403918CD74DF1859233495E70EB7C 0x108ED2EFD5694815AEB9A19F3BE19E14F22BD132A7D1C5AB329D57D719323B6F) (Point.mk 0xE80FEA14441FB33A7D8ADAB9475D7FAB2019EFFB5156A792F1A11778E3C0DF5D 0xEED1DE7F638E00771E89768CA3CA94472D155E80AF322EA9FCB4291B6AC9EC78) (by decide) (by decide) (by decide) (by decide)

theorem smA116 : scalarMultAux 141 0x8F8A276C19F4149656B280621E358CCE24F (Point.mk 0x0B1AFBDAE9DB2764E11C10A41D20BF83E88403918CD74DF1859233495E70EB7C 0x108ED2EFD5694815AEB9A19F3BE19E14F22BD132A7D1C5AB329D57D719323B6F) (Point.mk 0xE80FEA14441FB33A7D8ADAB9475D7FAB2019EFFB5156A792F1A11778E3C0DF5D 0xEED1DE7F638E00771E89768CA3CA94472D155E80AF322EA9FCB4291B6AC9EC78) = scalarMultAux 140 0x47C513B60CFA0A4B2B5940310F1AC667127 (Point.mk 0xEF5504A3B6B75F63D9CC768CF41C7A3C7093F6CC73ED749941C4AB2828181DD7 0xDE869702FCC1963C8EBAEE3B61AF447D8765C133375DE53BEC8F16FE5B14B1DE) (Point.mk 0x440CA1F08EA41265981AC4ED1EFE7A37122DCC3877D2F9162DB0E78B0F83CD58 0xA6C8B0D2CD5EE122AF8954DC9D4E2F02A21E4D4269C0A260B07BC069B88A3F4B) :=
  scalarMultAux_step 140 0x8F8A276C19F4149656B280621E358CCE24F 0x47C513B60CFA0A4B2B5940310F1AC667127 (Point.mk 0x0B1AFBDAE9DB2764E11C10A41D20BF83E88403918CD74DF1859233495E70EB7C 0x108ED2EFD5694815AEB9A19F3BE19E14F22BD132A7D1C5AB329D57D719323B6F) (Point.mk 0xE80FEA14441FB33A7D8ADAB9475D7FAB2019EFFB5156A792F1A11778E3C0DF5D 0xEED1DE7F638E00771E89768CA3CA94472D155E80AF322EA9FCB4291B6AC9EC78) (Point.mk 0xEF5504A3B6B75F63D9CC768CF41C7A3C7093F6CC73ED749941C4AB2828181DD7 0xDE869702FCC1963C8EBAEE3B61AF447D8765C133375DE53BEC8F16FE5B14B1DE) (Point.mk 0x440CA1F08EA41265981AC4ED1EFE7A37122DCC3877D2F9162DB0E78B0F83CD58 0xA6C8B0D2CD5EE122AF8954DC9D4E2F02A21E4D4269C0A260B07BC069B88A3F4B) (by decide) (by decide) (by decide) (by decide)

theorem smA117 : scalarMultAux 140 0x47C513B60CFA0A4B2B5940310F1AC667127 (Point.mk 0xEF5504A3B6B75F63D9CC768CF41C7A3C7093F6CC73ED749941C4AB2828181DD7 0xDE869702FCC1963C8EBAEE3B61AF447D8765C133375DE53BEC8F16FE5B14B1DE) (Point.mk 0x440CA1F08EA41265981AC4ED1EFE7A37122DCC3877D2F9162DB0E78B0F83CD58 0xA6C8B0D2CD5EE122AF8954DC9D4E2F02A21E4D4269C0A260B07BC069B88A3F4B) = scalarMultAux 139 0x23E289DB067D052595ACA018878D6333893 (Point.mk 0x5FA72A2477F3D0BCE5A941FDF7EC7BF81E139314ABB3B4A6CD497A3C03A72967 0x1164F48A6F09D71337256C771D50996BC058449B887928A68230FD13FC362884) (Point.mk 0xF694CBAF2B966C1CC5F7F829D3A907819BC70EBCC1B229D9E81BDA2712998B10 0x40A63EBA61BEF03D633C5FFACC46D82AEB6C64C3183C2A47F6788B1700F05E51) :=
  scalarMultAux_step 139 0x47C513B60CFA0A4B2B5940310F1AC667127 0x23E289DB067D052595ACA018878D6333893 (Point.mk 0xEF5504A3B6B75F63D9CC768CF41C7A3C7093F6CC73ED749941C4AB2828181DD7 0xDE869702FCC1963C8EBAEE3B61AF447D8765C133375DE53BEC8F16FE5B14B1DE) (Point.mk 0x440CA1F08EA41265981AC4ED1EFE7A37122DCC3877D2F9162DB0E78B0F83CD58 0xA6C8B0D2CD5EE122AF8954DC9D4E2F02A21E4D4269C0A260B07BC069B88A3F4B) (Point.mk 0x5FA72A2477F3D0BCE5A941FDF7EC7BF81E139314ABB3B4A6CD497A3C03A72967 0x1164F48A6F09D71337256C771D50996BC058449B887928A68230FD13FC362884) (Point.mk 0xF694CBAF2B966C1CC5F7F829D3A907819BC70EBCC1B229D9E81BDA2712998B10 0x40A63EBA61BEF03D633C5FFACC46D82AEB6C64C3183C2A47F6788B1700F05E51) (by decide) (by decide) (by decide) (by decide)

theorem smA118 : scalarMultAux 139 0x23E289DB067D052595ACA018878D6333893 (Point.mk 0x5FA72A2477F3D0BCE5A941FDF7EC7BF81E139314ABB3B4A6CD497A3C03A72967 0x1164F48A6F09D71337256C771D50996BC058449B887928A68230FD13FC362884) (Point.mk 0xF694CBAF2B966C1CC5F7F829D3A907819BC70EBCC1B229D9E81BDA2712998B10 0x40A63EBA61BEF03D633C5FFACC46D82AEB6C64C3183C2A47F6788B1700F05E51) = scalarMultAux 138 0x11F144ED833E8292CAD6500C43C6B199C49 (Point.mk 0x18E86AA8A7746BD8339A00A9BCEE8CED06CAA0B24BDD05D15B3ACC0E58068A8A 0xA2C9D6EEB895332C298ECA896C0C5775A8688285B90BBCF52B8C1A183ED06794) (Point.mk 0x8B6E862A3556684850B6D4F439A2595047ABF695C08B6414F95A13358DD553FD 0xEA5E08910ED11CB40D10BC2DF4EB9FA124AC3C5A183383D0D803DAD33E9BE5ED) :=
  scalarMultAux_step 138 0x23E289DB067D052595ACA018878D6333893 0x11F144ED833E8292CAD6500C43C6B199C49 (Point.mk 0x5FA72A2477F3D0BCE5A941FDF7EC7BF81E139314ABB3B4A6CD497A3C03A72967 0x1164F48A6F09D71337256C771D50996BC058449B887928A68230FD13FC362884) (Point.mk 0xF694CBAF2B966C1CC5F7F829D3A907819BC70EBCC1B229D9E81BDA2712998B10 0x40A63EBA61BEF03D633C5FFACC46D82AEB6C64C3183C2A47F6788B1700F05E51) (Point.mk 0x18E86AA8A7746BD8339A00A9BCEE8CED06CAA0B24BDD05D15B3ACC0E58068A8A 0xA2C9D6EEB895332C298ECA896C0C5775A8688285B90BBCF52B8C1A183ED06794) (Point.mk 0x8B6E862A3556684850B6D4F439A2595047ABF695C08B6414F95A13358DD553FD 0xEA5E08910ED11CB40D10BC2DF4EB9FA124AC3C5A183383D0D803DAD33E9BE5ED) (by decide) (by decide) (by decide) (by decide)

theorem smA119 : scalarMultAux 138 0x11F144ED833E8292CAD6500C43C6B199C49 (Point.mk 0x18E86AA8A7746BD8339A00A9BCEE8CED06CAA0B24BDD05D15B3ACC0E58068A8A 0xA2C9D6EEB895332C298ECA896C0C5775A8688285B90BBCF52B8C1A183ED06794) (Point.mk 0x8B6E862A3556684850B6D4F439A2595047ABF695C08B6414F95A13358DD553FD 0xEA5E08910ED11CB40D10BC2DF4EB9FA124AC3C5A183383D0D803DAD33E9BE5ED) = scalarMultAux 137 0x8F8A276C19F4149656B280621E358CCE24 (Point.mk 0x8642338BA843082FDA46EE8C819C90F7AC287DBBA2ADB4878B2E6FE77F2AA50D 0x7C454418999B242D63BBEEC20EE9118B46C2E6AB29DD7B61A19E361D993F8233) (Point.mk 0xA301697BDFCD704313BA48E51D567543F2A182031EFD6915DDC07BBCC4E16070 0x7370F91CFB67E4F5081809FA25D40F9B1735DBF7C0A11A130C0D1A041E177EA1) :=
  scalarMultAux_step 137 0x11F144ED833E8292CAD6500C43C6B199C49 0x8F8A276C19F4149656B280621E358CCE24 (Point.mk 0x18E86AA8A7746BD8339A00A9BCEE8CED06CAA0B24BDD05D15B3ACC0E58068A8A 0xA2C9D6EEB895332C298ECA896C0C5775A8688285B90BBCF52B8C1A183ED06794) (Point.mk 0x8B6E862A3556684850B6D4F439A2595047ABF695C08B6414F95A13358DD553FD 0xEA5E08910ED11CB40D10BC2DF4EB9FA124AC3C5A183383D0D803DAD33E9BE5ED) (Point.mk 0x8642338BA843082FDA46EE8C819C90F7AC287DBBA2ADB4878B2E6FE77F2AA50D 0x7C454418999B242D63BBEEC20EE9118B46C2E6AB29DD7B61A19E361D993F8233) (Point.mk 0xA301697BDFCD704313BA48E51D567543F2A182031EFD6915DDC07BBCC4E16070 0x7370F91CFB67E4F5081809FA25D40F9B1735DBF7C0A11A130C0D1A041E177EA1) (by decide) (by decide) (by decide) (by decide)

theorem smA120 : scalarMultAux 137 0x8F8A276C19F4149656B280621E358CCE24 (Point.mk 0x8642338BA843082FDA46EE8C819C90F7AC287DBBA2ADB4878B2E6FE77F2AA50D 0x7C454418999B242D63BBEEC20EE9118B46C2E6AB29DD7B61A19E361D993F8233) (Point.mk 0xA301697BDFCD704313BA48E51D567543F2A182031EFD6915DDC07BBCC4E16070 0x7370F91CFB67E4F5081809FA25D40F9B1735DBF7C0A11A130C0D1A041E177EA1) = scalarMultAux 136 0x47C513B60CFA0A4B2B5940310F1AC66712 (Point.mk 0x8642338BA843082FDA46EE8C819C90F7AC287DBBA2ADB4878B2E6FE77F2AA50D 0x7C454418999B242D63BBEEC20EE9118B46C2E6AB29DD7B61A19E361D993F8233) (Point.mk 0x27E1E59CFF79F049F3E8D2419E0BFF74B43965004C34B5D811420316F24BA5AE 0x310B26A6C804E209EE1B5E3CFC79DF05DF48A1A69AFA63F784A5BFEE883A45B3) :=
  scalarMultAux_step 136 0x8F8A276C19F4149656B280621E358CCE24 0x47C513B60CFA0A4B2B5940310F1AC66712 (Point.mk 0x8642338BA843082FDA46EE8C819C90F7AC287DBBA2ADB4878B2E6FE77F2AA50D 0x7C454418999B242D63BBEEC20EE9118B46C2E6AB29DD7B61A19E361D993F8233) (Point.mk 0xA301697BDFCD704313BA48E51D567543F2A182031EFD6915DDC07BBCC4E16070 0x7370F91CFB67E4F5081809FA25D40F9B1735DBF7C0A11A130C0D1A041E177EA1) (Point.mk 0x8642338BA843082FDA46EE8C819C90F7AC287DBBA2ADB4878B2E6FE77F2AA50D 0x7C454418999B242D63BBEEC20EE9118B46C2E6AB29DD7B61A19E361D993F8233) (Point.mk 0x27E1E59CFF79F049F3E8D2419E0BFF74B43965004C34B5D811420316F24BA5AE 0x310B26A6C804E209EE1B5E3CFC79DF05DF48A1A69AFA63F784A5BFEE883A45B3) (by decide) (by decide) (by decide) (by decide)

theorem smA121 : scalarMultAux 136 0x47C513B60CFA0A4B2B5940310F1AC66712 (Point.mk 0x8642338BA843082FDA46EE8C819C90F7AC287DBBA2ADB4878B2E6FE77F2AA50D 0x7C454418999B242D63BBEEC20EE9118B46C2E6AB29DD7B61A19E361D993F8233) (Point.mk 0x27E1E59CFF79F049F3E8D2419E0BFF74B43965004C34B5D811420316F24BA5AE 0x310B26A6C804E209EE1B5E3CFC79DF05DF48A1A69AFA63F784A5BFEE883A45B3) = scalarMultAux 135 0x23E289DB067D052595ACA018878D633389 (Point.mk 0x8642338BA843082FDA46EE8C819C90F7AC287DBBA2ADB4878B2E6FE77F2AA50D 0x7C454418999B242D63BBEEC20EE9118B46C2E6AB29DD7B61A19E361D993F8233) (Point.mk 0xC712E7A5F6864AEE16588EC3892D7E4F5A39ADDE84FBFB4F9969175C9CAED7AE 0x49644107516363B365ED4B82311DD9E5380D8E544B0CE63784D148AA46156294) :=
  scalarMultAux_step 135 0x47C513B60CFA0A4B2B5940310F1AC66712 0x23E289DB067D052595ACA018878D633389 (Point.mk 0x8642338BA843082FDA46EE8C819C90F7AC287DBBA2ADB4878B2E6FE77F2AA50D 0x7C454418999B242D63BBEEC20EE9118B46C2E6AB29DD7B61A19E361D993F8233) (Point.mk 0x27E1E59CFF79F049F3E8D2419E0BFF74B43965004C34B5D811420316F24BA5AE 0x310B26A6C804E209EE1B5E3CFC79DF05DF48A1A69AFA63F784A5BFEE883A45B3) (Point.mk 0x8642338BA843082FDA46EE8C819C90F7AC287DBBA2ADB4878B2E6FE77F2AA50D 0x7C454418999B242D63BBEEC20EE9118B46C2E6AB29DD7B61A19E361D993F8233) (Point.mk 0xC712E7A5F6864AEE16588EC3892D7E4F5A39ADDE84FBFB4F9969175C9CAED7AE 0x49644107516363B365ED4B82311DD9E5380D8E544B0CE63784D148AA46156294) (by decide) (by decide) (by decide) (by decide)

theorem smA122 : scalarMultAux 135 0x23E289DB067D052595ACA018878D633389 (Point.mk 0x8642338BA843082FDA46EE8C819C90F7AC287DBBA2ADB4878B2E6FE77F2AA50D 0x7C454418999B242D63BBEEC20EE9118B46C2E6AB29DD7B61A19E361D993F8233) (Point.mk 0xC712E7A5F6864AEE16588EC3892D7E4F5A39ADDE84FBFB4F9969175C9CAED7AE 0x49644107516363B365ED4B82311DD9E5380D8E544B0CE63784D148AA46156294) = scalarMultAux 134 0x11F144ED833E8292CAD6500C43C6B199C4 (Point.mk 0x4393056B644828F741932FCE958F819FD7A3BF3A9FF9EECBE7B9EF83B396F26E 0x39904943746F51AE7D2635EF0189C8BF368FD635C3CAB7D26206842BCDADA0DC) (Point.mk 0x0BFC0504A4B3235D065C0D426B8675FCB2C85D6F58275D791B43E1FE44A6DB03 0x1955467A6C34F3453FB8EC7F94A6C99237427197345D4F0558AC8D1A464B8542) :=
  scalarMultAux_step 134 0x23E289DB067D052595ACA018878D633389 0x11F144ED833E8292CAD6500C43C6B199C4 (Point.mk 0x8642338BA843082FDA46EE8C819C90F7AC287DBBA2ADB4878B2E6FE77F2AA50D 0x7C454418999B242D63BBEEC20EE9118B46C2E6AB29DD7B61A19E361D993F8233) (Point.mk 0xC712E7A5F6864AEE16588EC3892D7E4F5A39ADDE84FBFB4F9969175C9CAED7AE 0x49644107516363B365ED4B82311DD9E5380D8E544B0CE63784D148AA46156294) (Point.mk 0x4393056B644828F741932FCE958F819FD7A3BF3A9FF9EECBE7B9EF83B396F26E 0x39904943746F51AE7D2635EF0189C8BF368FD635C3CAB7D26206842BCDADA0DC) (Point.mk 0x0BFC0504A4B3235D065C0D426B8675FCB2C85D6F58275D791B43E1FE44A6DB03 0x1955467A6C34F3453FB8EC7F94A6C99237427197345D4F0558AC8D1A464B8542) (by decide) (by decide) (by decide) (by decide)

theorem smA123 : scalarMultAux 134 0x11F144ED833E8292CAD6500C43C6B199C4 (Point.mk 0x4393056B644828F741932FCE958F819FD7A3BF3A9FF9EECBE7B9EF83B396F26E 0x39904943746F51AE7D2635EF0189C8BF368FD635C3CAB7D26206842BCDADA0DC) (Point.mk 0x0BFC0504A4B3235D065C0D426B8675FCB2C85D6F58275D791B43E1FE44A6DB03 0x1955467A6C34F3453FB8EC7F94A6C99237427197345D4F0558AC8D1A464B8542) = scalarMultAux 133 0x8F8A276C19F4149656B280621E358CCE2 (Point.mk 0x4393056B644828F741932FCE958F819FD7A3BF3A9FF9EECBE7B9EF83B396F26E 0x39904943746F51AE7D2635EF0189C8BF368FD635C3CAB7D26206842BCDADA0DC) (Point.mk 0x90AD85B389D6B936463F9D0512678DE208CC330B11307FFFAB7AC63E3FB04ED4 0x0E507A3620A38261AFFDCBD9427222B839AEFABE1582894D991D4D48CB6EF150) :=
  scalarMultAux_step 133 0x11F144ED833E8292CAD6500C43C6B199C4 0x8F8A276C19F4149656B280621E358CCE2 (Point.mk 0x4393056B644828F741932FCE958F819FD7A3BF3A9FF9EECBE7B9EF83B396F26E 0x39904943746F51AE7D2635EF0189C8BF368FD635C3CAB7D26206842BCDADA0DC) (Point.mk 0x0BFC0504A4B3235D065C0D426B8675FCB2C85D6F58275D791B43E1FE44A6DB03 0x1955467A6C34F3453FB8EC7F94A6C99237427197345D4F0558AC8D1A464B8542) (Point.mk 0x4393056B644828F741932FCE958F819FD7A3BF3A9FF9EECBE7B9EF83B396F26E 0x39904943746F51AE7D2635EF0189C8BF368FD635C3CAB7D26206842BCDADA0DC) (Point.mk 0x90AD85B389D6B936463F9D0512678DE208CC330B11307FFFAB7AC63E3FB04ED4 0x0E507A3620A38261AFFDCBD9427222B839AEFABE1582894D991D4D48CB6EF150) (by decide) (by decide) (by decide) (by decide)

theorem smA124 : scalarMultAux 133 0x8F8A276C19F4149656B280621E358CCE2 (Point.mk 0x4393056B644828F741932FCE958F819FD7A3BF3A9FF9EECBE7B9EF83B396F26E 0x39904943746F51AE7D2635EF0189C8BF368FD635C3CAB7D26206842BCDADA0DC) (Point.mk 0x90AD85B389D6B936463F9D0512678DE208CC330B11307FFFAB7AC63E3FB04ED4 0x0E507A3620A38261AFFDCBD9427222B839AEFABE1582894D991D4D48CB6EF150) = scalarMultAux 132 0x47C513B60CFA0A4B2B5940310F1AC6671 (Point.mk 0x4393056B644828F741932FCE958F819FD7A3BF3A9FF9EECBE7B9EF83B396F26E 0x39904943746F51AE7D2635EF0189C8BF368FD635C3CAB7D26206842BCDADA0DC) (Point.mk 0x7E2CD40EF8C94077F44B1D1548425E3D7E125BE646707BAD2818B0EDA7DC0151 0x905B75082ADCFAB382A61A8B321EF95D889BEE40AEEE082C9A3BC53920721EC7) :=
  scalarMultAux_step 132 0x8F8A276C19F4149656B280621E358CCE2 0x47C513B60CFA0A4B2B5940310F1AC6671 (Point.mk 0x4393056B644828F741932FCE958F819FD7A3BF3A9FF9EECBE7B9EF83B396F26E 0x39904943746F51AE7D2635EF0189C8BF368FD635C3CAB7D26206842BCDADA0DC) (Point.mk 0x90AD85B389D6B936463F9D0512678DE208CC330B11307FFFAB7AC63E3FB04ED4 0x0E507A3620A38261AFFDCBD9427222B839AEFABE1582894D991D4D48CB6EF150) (Point.mk 0x4393056B644828F741932FCE958F819FD7A3BF3A9FF9EECBE7B9EF83B396F26E 0x39904943746F51AE7D2635EF0189C8BF368FD635C3CAB7D26206842BCDADA0DC) (Point.mk 0x7E2CD40EF8C94077F44B1D1548425E3D7E125BE646707BAD2818B0EDA7DC0151 0x905B75082ADCFAB382A61A8B321EF95D889BEE40AEEE082C9A3BC53920721EC7) (by decide) (by decide) (by decide) (by decide)

theorem smA125 : scalarMultAux 132 0x47C513B60CFA0A4B2B5940310F1AC6671 (Point.mk 0x4393056B644828F741932FCE958F819FD7A3BF3A9FF9EECBE7B9EF83B396F26E 0x39904943746F51AE7D2635EF0189C8BF368FD635C3CAB7D26206842BCDADA0DC) (Point.mk 0x7E2CD40EF8C94077F44B1D1548425E3D7E125BE646707BAD2818B0EDA7DC0151 0x905B75082ADCFAB382A61A8B321EF95D889BEE40AEEE082C9A3BC53920721EC7) = scalarMultAux 131 0x23E289DB067D052595ACA018878D63338 (Point.mk 0x4AFBE324E4EF77DC3F374875FF88D87A153730C24B3F8CFF1AD3BCA4E13DE536 0x93D16CB9984DEFE4ED708239FF7B30DC007F47E016F7EE8A3D94144D4CF50AD6) (Point.mk 0xA146F52195BEDACE21C975BBD1EF52A79C636BF9DB853CF90E103AE41345E597 0xA5A99B0AB053FEB09AE95DD2DBB31B40EA67A5B221F094B07675676AF45A770A) :=
  scalarMultAux_step 131 0x47C513B60CFA0A4B2B5940310F1AC6671 0x23E289DB067D052595ACA018878D63338 (Point.mk 0x4393056B644828F741932FCE958F819FD7A3BF3A9FF9EECBE7B9EF83B396F26E 0x39904943746F51AE7D2635EF0189C8BF368FD635C3CAB7D26206842BCDADA0DC) (Point.mk 0x7E2CD40EF8C94077F44B1D1548425E3D7E125BE646707BAD2818B0EDA7DC0151 0x905B75082ADCFAB382A61A8B321EF95D889BEE40AEEE082C9A3BC53920721EC7) (Point.mk 0x4AFBE324E4EF77DC3F374875FF88D87A153730C24B3F8CFF1AD3BCA4E13DE536 0x93D16CB9984DEFE4ED708239FF7B30DC007F47E016F7EE8A3D94144D4CF50AD6) (Point.mk 0xA146F52195BEDACE21C975BBD1EF52A79C636BF9DB853CF90E103AE41345E597 0xA5A99B0AB053FEB09AE95DD2DBB31B40EA67A5B221F094B07675676AF45A770A) (by decide) (by decide) (by decide) (by decide)

theorem smA126 : scalarMultAux 131 0x23E289DB067D052595ACA018878D63338 (Point.mk 0x4AFBE324E4EF77DC3F374875FF88D87A153730C24B3F8CFF1AD3BCA4E13DE536 0x93D16CB9984DEFE4ED708239FF7B30DC007F47E016F7EE8A3D94144D4CF50AD6) (Point.mk 0xA146F52195BEDACE21C975BBD1EF52A79C636BF9DB853CF90E103AE41345E597 0xA5A99B0AB053FEB09AE95DD2DBB31B40EA67A5B221F094B07675676AF45A770A) = scalarMultAux 130 0x11F144ED833E8292CAD6500C43C6B199C (Point.mk 0x4AFBE324E4EF77DC3F374875FF88D87A153730C24B3F8CFF1AD3BCA4E13DE536 0x93D16CB9984DEFE4ED708239FF7B30DC007F47E016F7EE8A3D94144D4CF50AD6) (Point.mk 0xD24C75A1CF1993B9BCFBF9DAB25A8114DBDE421EFECCC4E20CBB53FC4CE45444 0x58FE1D2DE84DC1D1CFCB7D1810E5A78ABF7593F499F1E524CB93246987DD4A57) :=
  scalarMultAux_step 130 0x23E289DB067D052595ACA018878D63338 0x11F144ED833E8292CAD6500C43C6B199C (Point.mk 0x4AFBE324E4EF77DC3F374875FF88D87A153730C24B3F8CFF1AD3BCA4E13DE536 0x93D16CB9984DEFE4ED708239FF7B30DC007F47E016F7EE8A3D94144D4CF50AD6) (Point.mk 0xA146F52195BEDACE21C975BBD1EF52A79C636BF9DB853CF90E103AE41345E597 0xA5A99B0AB053FEB09AE95DD2DBB31B40EA67A5B221F094B07675676AF45A770A) (Point.mk 0x4AFBE324E4EF77DC3F374875FF88D87A153730C24B3F8CFF1AD3BCA4E13DE536 0x93D16CB9984DEFE4ED708239FF7B30DC007F47E016F7EE8A3D94144D4CF50AD6) (Point.mk 0xD24C75A1CF1993B9BCFBF9DAB25A8114DBDE421EFECCC4E20CBB53FC4CE45444 0x58FE1D2DE84DC1D1CFCB7D1810E5A78ABF7593F499F1E524CB93246987DD4A57) (by decide) (by decide) (by decide) (by decide)

theorem smA127 : scalarMultAux 130 0x11F144ED833E8292CAD6500C43C6B199C (Point.mk 0x4AFBE324E4EF77DC3F374875FF88D87A153730C24B3F8CFF1AD3BCA4E13DE536 0x93D16CB9984DEFE4ED708239FF7B30DC007F47E016F7EE8A3D94144D4CF50AD6) (Point.mk 0xD24C75A1CF1993B9BCFBF9DAB25A8114DBDE421EFECCC4E20CBB53FC4CE45444 0x58FE1D2DE84DC1D1CFCB7D1810E5A78ABF7593F499F1E524CB93246987DD4A57) = scalarMultAux 129 0x8F8A276C19F4149656B280621E358CCE (Point.mk 0x4AFBE324E4EF77DC3F374875FF88D87A153730C24B3F8CFF1AD3BCA4E13DE536 0x93D16CB9984DEFE4ED708239FF7B30DC007F47E016F7EE8A3D94144D4CF50AD6) (Point.mk 0x8F68B9D2F63B5F339239C1AD981F162EE88C5678723EA3351B7B444C9EC4C0DA 0x662A9F2DBA063986DE1D90C2B6BE215DBBEA2CFE95510BFDF23CBF79501FFF82) :=
  scalarMultAux_step 129 0x11F144ED833E8292CAD6500C43C6B199C 0x8F8A276C19F4149656B280621E358CCE (Point.mk 0x4AFBE324E4EF77DC3F374875FF88D87A153730C24B3F8CFF1AD3BCA4E13DE536 0x93D16CB9984DEFE4ED708239FF7B30DC007F47E016F7EE8A3D94144D4CF50AD6) (Point.mk 0xD24C75A1CF1993B9BCFBF9DAB25A8114DBDE421EFECCC4E20CBB53FC4CE45444 0x58FE1D2DE84DC1D1CFCB7D1810E5A78ABF7593F499F1E524CB93246987DD4A57) (Point.mk 0x4AFBE324E4EF77DC3F374875FF88D87A153730C24B3F8CFF1AD3BCA4E13DE536 0x93D16CB9984DEFE4ED708239FF7B30DC007F47E016F7EE8A3D94144D4CF50AD6) (Point.mk 0x8F68B9D2F63B5F339239C1AD981F162EE88C5678723EA3351B7B444C9EC4C0DA 0x662A9F2DBA063986DE1D90C2B6BE215DBBEA2CFE95510BFDF23CBF79501FFF82) (by decide) (by decide) (by decide) (by decide)

theorem smA128 : scalarMultAux 129 0x8F8A276C19F4149656B280621E358CCE (Point.mk 0x4AFBE324E4EF77DC3F374875FF88D87A153730C24B3F8CFF1AD3BCA4E13DE536 0x93D16CB9984DEFE4ED708239FF7B30DC007F47E016F7EE8A3D94144D4CF50AD6) (Point.mk 0x8F68B9D2F63B5F339239C1AD981F162EE88C5678723EA3351B7B444C9EC4C0DA 0x662A9F2DBA063986DE1D90C2B6BE215DBBEA2CFE95510BFDF23CBF79501FFF82) = scalarMultAux 128 0x47C513B60CFA0A4B2B5940310F1AC667 (Point.mk 0x4AFBE324E4EF77DC3F374875FF88D87A153730C24B3F8CFF1AD3BCA4E13DE536 0x93D16CB9984DEFE4ED708239FF7B30DC007F47E016F7EE8A3D94144D4CF50AD6) (Point.mk 0x4D49AEFD784E8158FCAFEBE77FD9AF59D89858ADE7627EAEE6847DF84CF27076 0xCD32FC59A10DD135E723F210359CA6F06E0F2D1A7DF4D8466B90B66203AA781E) :=
  scalarMultAux_step 128 0x8F8A276C19F4149656B280621E358CCE 0x47C513B60CFA0A4B2B5940310F1AC667 (Point.mk 0x4AFBE324E4EF77DC3F374875FF88D87A153730C24B3F8CFF1AD3BCA4E13DE536 0x93D16CB9984DEFE4ED708239FF7B30DC007F47E016F7EE8A3D94144D4CF50AD6) (Point.mk 0x8F68B9D2F63B5F339239C1AD981F162EE88C5678723EA3351B7B444C9EC4C0DA 0x662A9F2DBA063986DE1D90C2B6BE215DBBEA2CFE95510BFDF23CBF79501FFF82) (Point.mk 0x4AFBE324E4EF77DC3F374875FF88D87A153730C24B3F8CFF1AD3BCA4E13DE536 0x93D16CB9984DEFE4ED708239FF7B30DC007F47E016F7EE8A3D94144D4CF50AD6) (Point.mk 0x4D49AEFD784E8158FCAFEBE77FD9AF59D89858ADE7627EAEE6847DF84CF27076 0xCD32FC59A10DD135E723F210359CA6F06E0F2D1A7DF4D8466B90B66203AA781E) (by decide) (by decide) (by decide) (by decide)

theorem smA129 : scalarMultAux 128 0x47C513B60CFA0A4B2B5940310F1AC667 (Point.mk 0x4AFBE324E4EF77DC3F374875FF88D87A153730C24B3F8CFF1AD3BCA4E13DE536 0x93D16CB9984DEFE4ED708239FF7B30DC007F47E016F7EE8A3D94144D4CF50AD6) (Point.mk 0x4D49AEFD784E8158FCAFEBE77FD9AF59D89858ADE7627EAEE6847DF84CF27076 0xCD32FC59A10DD135E723F210359CA6F06E0F2D1A7DF4D8466B90B66203AA781E) = scalarMultAux 127 0x23E289DB067D052595ACA018878D6333 (Point.mk 0xB562A15EA47225AA082C0CB4AF66C9EF254ADD7FCF5773ABBCA840BA59BBC658 0xBE0ED138D1F88843A1695CCC6A92C8F2B0CEBB04D89D75702C8D0222E375A5BA) (Point.mk 0x7564539E85D56F8537D6619E1F5C5AA78D2A3DE0889D1D4EE8DBCB5729B62026 0xC1D685413749B3C65231DF524A722925684AACD954B79F334172C8FADACE0CF3) :=
  scalarMultAux_step 127 0x47C513B60CFA0A4B2B5940310F1AC667 0x23E289DB067D052595ACA018878D6333 (Point.mk 0x4AFBE324E4EF77DC3F374875FF88D87A153730C24B3F8CFF1AD3BCA4E13DE536 0x93D16CB9984DEFE4ED708239FF7B30DC007F47E016F7EE8A3D94144D4CF50AD6) (Point.mk 0x4D49AEFD784E8158FCAFEBE77FD9AF59D89858ADE7627EAEE6847DF84CF27076 0xCD32FC59A10DD135E723F210359CA6F06E0F2D1A7DF4D8466B90B66203AA781E) (Point.mk 0xB562A15EA47225AA082C0CB4AF66C9EF254ADD7FCF5773ABBCA840BA59BBC658 0xBE0ED138D1F88843A1695CCC6A92C8F2B0CEBB04D89D75702C8D0222E375A5BA) (Point.mk 0x7564539E85D56F8537D6619E1F5C5AA78D2A3DE0889D1D4EE8DBCB5729B62026 0xC1D685413749B3C65231DF524A722925684AACD954B79F334172C8FADACE0CF3) (by decide) (by decide) (by decide) (by decide)

theorem smA130 : scalarMultAux 127 0x23E289DB067D052595ACA018878D6333 (Point.mk 0xB562A15EA47225AA082C0CB4AF66C9EF254ADD7FCF5773ABBCA840BA59BBC658 0xBE0ED138D1F88843A1695CCC6A92C8F2B0CEBB04D89D75702C8D0222E375A5BA) (Point.mk 0x7564539E85D56F8537D6619E1F5C5AA78D2A3DE0889D1D4EE8DBCB5729B62026 0xC1D685413749B3C65231DF524A722925684AACD954B79F334172C8FADACE0CF3) = scalarMultAux 126 0x11F144ED833E8292CAD6500C43C6B199 (Point.mk 0x0EBA13736619FF253A1DD29D17EAEAFDF05C470BAC42FFE50DE42C3C1947C1CB 0x71FFA336C1F8E5A73A1918F9FB43B26A8520296AA22B6430EE633E0818BEC3BE) (Point.mk 0x210A917AD9DF27796746FF301AD9CCC878F61A5F1FF4082B5364DACD57B4A278 0x670E1B5450B5E57B7A39BE81F8D6737D3789E61AAFF20BFC7F2713FD0C7B2231) :=
  scalarMultAux_step 126 0x23E289DB067D052595ACA018878D6333 0x11F144ED833E8292CAD6500C43C6B199 (Point.mk 0xB562A15EA47225AA082C0CB4AF66C9EF254ADD7FCF5773ABBCA840BA59BBC658 0xBE0ED138D1F88843A1695CCC6A92C8F2B0CEBB04D89D75702C8D0222E375A5BA) (Point.mk 0x7564539E85D56F8537D6619E1F5C5AA78D2A3DE0889D1D4EE8DBCB5729B62026 0xC1D685413749B3C65231DF524A722925684AACD954B79F334172C8FADACE0CF3) (Point.mk 0x0EBA13736619FF253A1DD29D17EAEAFDF05C470BAC42FFE50DE42C3C1947C1CB 0x71FFA336C1F8E5A73A1918F9FB43B26A8520296AA22B6430EE633E0818BEC3BE) (Point.mk 0x210A917AD9DF27796746FF301AD9CCC878F61A5F1FF4082B5364DACD57B4A278 0x670E1B5450B5E57B7A39BE81F8D6737D3789E61AAFF20BFC7F2713FD0C7B2231) (by decide) (by decide) (by decide) (by decide)

theorem smA131 : scalarMultAux 126 0x11F144ED833E8292CAD6500C43C6B199 (Point.mk 0x0EBA13736619FF253A1DD29D17EAEAFDF05C470BAC42FFE50DE42C3C1947C1CB 0x71FFA336C1F8E5A73A1918F9FB43B26A8520296AA22B6430EE633E0818BEC3BE) (Point.mk 0x210A917AD9DF27796746FF301AD9CCC878F61A5F1FF4082B5364DACD57B4A278 0x670E1B5450B5E57B7A39BE81F8D6737D3789E61AAFF20BFC7F2713FD0C7B2231) = scalarMultAux 125 0x8F8A276C19F4149656B280621E358CC (Point.mk 0x673AD382F48F5AB2765FE688ED56DEFB8C4D2CCD3194BB34E0DCB61DEB27A987 0x80D71B7255BCBF6210E0F62677369E18DA3AD88C6FD740D6F9B526FCFBF866C1) (Point.mk 0xE4F3FB0176AF85D65FF99FF9198C36091F48E86503681E3E6686FD5053231E11 0x1E63633AD0EF4F1C1661A6D0EA02B7286CC7E74EC951D1C9822C38576FEB73BC) :=
  scalarMultAux_step 125 0x11F144ED833E8292CAD6500C43C6B199 0x8F8A276C19F4149656B280621E358CC (Point.mk 0x0EBA13736619FF253A1DD29D17EAEAFDF05C470BAC42FFE50DE42C3C1947C1CB 0x71FFA336C1F8E5A73A1918F9FB43B26A8520296AA22B6430EE633E0818BEC3BE) (Point.mk 0x210A917AD9DF27796746FF301AD9CCC878F61A5F1FF4082B5364DACD57B4A278 0x670E1B5450B5E57B7A39BE81F8D6737D3789E61AAFF20BFC7F2713FD0C7B2231) (Point.mk 0x673AD382F48F5AB2765FE688ED56DEFB8C4D2CCD3194BB34E0DCB61DEB27A987 0x80D71B7255BCBF6210E0F62677369E18DA3AD88C6FD740D6F9B526FCFBF866C1) (Point.mk 0xE4F3FB0176AF85D65FF99FF9198C36091F48E86503681E3E6686FD5053231E11 0x1E63633AD0EF4F1C1661A6D0EA02B7286CC7E74EC951D1C9822C38576FEB73BC) (by decide) (by decide) (by decide) (by decide)

theorem smA132 : scalarMultAux 125 0x8F8A276C19F4149656B280621E358CC (Point.mk 0x673AD382F48F5AB2765FE688ED56DEFB8C4D2CCD3194BB34E0DCB61DEB27A987 0x80D71B7255BCBF6210E0F62677369E18DA3AD88C6FD740D6F9B526FCFBF866C1) (Point.mk 0xE4F3FB0176AF85D65FF99FF9198C36091F48E86503681E3E6686FD5053231E11 0x1E63633AD0EF4F1C1661A6D0EA02B7286CC7E74EC951D1C9822C38576FEB73BC) = scalarMultAux 124 0x47C513B60CFA0A4B2B5940310F1AC66 (Point.mk 0x673AD382F48F5AB2765FE688ED56DEFB8C4D2CCD3194BB34E0DCB61DEB27A987 0x80D71B7255BCBF6210E0F62677369E18DA3AD88C6FD740D6F9B526FCFBF866C1) (Point.mk 0x4B30CBB7686773E01EC64110ABDB362F88531A825BA172953BFEE2233BCDAF2F 0x74C6350265BB629B6F9E2C5777C3C4A91FDF3C81E434857568033D463D26B5B7) :=
  scalarMultAux_step 124 0x8F8A276C19F4149656B280621E358CC 0x47C513B60CFA0A4B2B5940310F1AC66 (Point.mk 0x673AD382F48F5AB2765FE688ED56DEFB8C4D2CCD3194BB34E0DCB61DEB27A987 0x80D71B7255BCBF6210E0F62677369E18DA3AD88C6FD740D6F9B526FCFBF866C1) (Point.mk 0xE4F3FB0176AF85D65FF99FF9198C36091F48E86503681E3E6686FD5053231E11 0x1E63633AD0EF4F1C1661A6D0EA02B7286CC7E74EC951D1C9822C38576FEB73BC) (Point.mk 0x673AD382F48F5AB2765FE688ED56DEFB8C4D2CCD3194BB34E0DCB61DEB27A987 0x80D71B7255BCBF6210E0F62677369E18DA3AD88C6FD740D6F9B526FCFBF866C1) (Point.mk 0x4B30CBB7686773E01EC64110ABDB362F88531A825BA172953BFEE2233BCDAF2F 0x74C6350265BB629B6F9E2C5777C3C4A91FDF3C81E434857568033D463D26B5B7) (by decide) (by decide) (by decide) (by decide)

theorem smA133 : scalarMultAux 124 0x47C513B60CFA0A4B2B5940310F1AC66 (Point.mk 0x673AD382F48F5AB2765FE688ED56DEFB8C4D2CCD3194BB34E0DCB61DEB27A987 0x80D71B7255BCBF6210E0F62677369E18DA3AD88C6FD740D6F9B526FCFBF866C1) (Point.mk 0x4B30CBB7686773E01EC64110ABDB362F88531A825BA172953BFEE2233BCDAF2F 0x74C6350265BB629B6F9E2C5777C3C4A91FDF3C81E434857568033D463D26B5B7) = scalarMultAux 123 0x23E289DB067D052595ACA018878D633 (Point.mk 0x673AD382F48F5AB2765FE688ED56DEFB8C4D2CCD3194BB34E0DCB61DEB27A987 0x80D71B7255BCBF6210E0F62677369E18DA3AD88C6FD740D6F9B526FCFBF866C1) (Point.mk 0xCBB434AA7AE1700DCD15B20B17464817EC11715050E0FA192FFE9C29A673059F 0x4A1A200AB4DABD17562D492338B5DFAD41D45E4F0AD5F845B7DA9642227C070C) :=
  scalarMultAux_step 123 0x47C513B60CFA0A4B2B5940310F1AC66 0x23E289DB067D052595ACA018878D633 (Point.mk 0x673AD382F48F5AB2765FE688ED56DEFB8C4D2CCD3194BB34E0DCB61DEB27A987 0x80D71B7255BCBF6210E0F62677369E18DA3AD88C6FD740D6F9B526FCFBF866C1) (Point.mk 0x4B30CBB7686773E01EC64110ABDB362F88531A825BA172953BFEE2233BCDAF2F 0x74C6350265BB629B6F9E2C5777C3C4A91FDF3C81E434857568033D463D26B5B7) (Point.mk 0x673AD382F48F5AB2765FE688ED56DEFB8C4D2CCD3194BB34E0DCB61DEB27A987 0x80D71B7255BCBF6210E0F62677369E18DA3AD88C6FD740D6F9B526FCFBF866C1) (Point.mk 0xCBB434AA7AE1700DCD15B20B17464817EC11715050E0FA192FFE9C29A673059F 0x4A1A200AB4DABD17562D492338B5DFAD41D45E4F0AD5F845B7DA9642227C070C) (by decide) (by decide) (by decide) (by decide)

theorem smA134 : scalarMultAux 123 0x23E289DB067D052595ACA018878D633 (Point.mk 0x673AD382F48F5AB2765FE688ED56DEFB8C4D2CCD3194BB34E0DCB61DEB27A987 0x80D71B7255BCBF6210E0F62677369E18DA3AD88C6FD740D6F9B526FCFBF866C1) (Point.mk 0xCBB434AA7AE1700DCD15B20B17464817EC11715050E0FA192FFE9C29A673059F 0x4A1A200AB4DABD17562D492338B5DFAD41D45E4F0AD5F845B7DA9642227C070C) = scalarMultAux 122 0x11F144ED833E8292CAD6500C43C6B19 (Point.mk 0xFAB7F1C80ABF971DBEFE9E8B58BC8370F56D250C4EECF59DA972038AF7AF77DD 0x6AD87BD0B0F3EC7F3309B8DAB7A1EA1874880DD77511ACF644DF295198C9F90E) (Point.mk 0xF478056D9C102C1CD06D7B1E7557244C6D9CDAC5874610E94D4786E106DE12C0 0x7F09E610F33E3946E68095E01068694C26C17EF609AB92D769A76CE6CA5361FE) :=
  scalarMultAux_step 122 0x23E289DB067D052595ACA018878D633 0x11F144ED833E8292CAD6500C43C6B19 (Point.mk 0x673AD382F48F5AB2765FE688ED56DEFB8C4D2CCD3194BB34E0DCB61DEB27A987 0x80D71B7255BCBF6210E0F62677369E18DA3AD88C6FD740D6F9B526FCFBF866C1) (Point.mk 0xCBB434AA7AE1700DCD15B20B17464817EC11715050E0FA192FFE9C29A673059F 0x4A1A200AB4DABD17562D492338B5DFAD41D45E4F0AD5F845B7DA9642227C070C) (Point.mk 0xFAB7F1C80ABF971DBEFE9E8B58BC8370F56D250C4EECF59DA972038AF7AF77DD 0x6AD87BD0B0F3EC7F3309B8DAB7A1EA1874880DD77511ACF644DF295198C9F90E) (Point.mk 0xF478056D9C102C1CD06D7B1E7557244C6D9CDAC5874610E94D4786E106DE12C0 0x7F09E610F33E3946E68095E01068694C26C17EF609AB92D769A76CE6CA5361FE) (by decide) (by decide) (by decide) (by decide)

theorem smA135 : scalarMultAux 122 0x11F144ED833E8292CAD6500C43C6B19 (Point.mk 0xFAB7F1C80ABF971DBEFE9E8B58BC8370F56D250C4EECF59DA972038AF7AF77DD 0x6AD87BD0B0F3EC7F3309B8DAB7A1EA1874880DD77511ACF644DF295198C9F90E) (Point.mk 0xF478056D9C102C1CD06D7B1E7557244C6D9CDAC5874610E94D4786E106DE12C0 0x7F09E610F33E3946E68095E01068694C26C17EF609AB92D769A76CE6CA5361FE) = scalarMultAux 121 0x8F8A276C19F4149656B280621E358C (Point.mk 0x080F459E614CD0B91BC2CE7D5E7DAF73B6D1508D3A54F0BFE78023E1C8D7B4C6 0x0373461732928DCCAD4A69A1199D0A587349D2D714D4982E5B5A7A0CD01E95CC) (Point.mk 0x8C00FA9B18EBF331EB961537A45A4266C7034F2F0D4E1D0716FB6EAE20EAE29E 0xEFA47267FEA521A1A9DC343A3736C974C2FADAFA81E36C54E7D2A4C66702414B) :=
  scalarMultAux_step 121 0x11F144ED833E8292CAD6500C43C6B19 0x8F8A276C19F4149656B280621E358C (Point.mk 0xFAB7F1C80ABF971DBEFE9E8B58BC8370F56D250C4EECF59DA972038AF7AF77DD 0x6AD87BD0B0F3EC7F3309B8DAB7A1EA1874880DD77511ACF644DF295198C9F90E) (Point.mk 0xF478056D9C102C1CD06D7B1E7557244C6D9CDAC5874610E94D4786E106DE12C0 0x7F09E610F33E3946E68095E01068694C26C17EF609AB92D769A76CE6CA5361FE) (Point.mk 0x080F459E614CD0B91BC2CE7D5E7DAF73B6D1508D3A54F0BFE78023E1C8D7B4C6 0x0373461732928DCCAD4A69A1199D0A587349D2D714D4982E5B5A7A0CD01E95CC) (Point.mk 0x8C00FA9B18EBF331EB961537A45A4266C7034F2F0D4E1D0716FB6EAE20EAE29E 0xEFA47267FEA521A1A9DC343A3736C974C2FADAFA81E36C54E7D2A4C66702414B) (by decide) (by decide) (by decide) (by decide)

theorem smA136 : scalarMultAux 121 0x8F8A276C19F4149656B280621E358C (Point.mk 0x080F459E614CD0B91BC2CE7D5E7DAF73B6D1508D3A54F0BFE78023E1C8D7B4C6 0x0373461732928DCCAD4A69A1199D0A587349D2D714D4982E5B5A7A0CD01E95CC) (Point.mk 0x8C00FA9B18EBF331EB961537A45A4266C7034F2F0D4E1D0716FB6EAE20EAE29E 0xEFA47267FEA521A1A9DC343A3736C974C2FADAFA81E36C54E7D2A4C66702414B) = scalarMultAux 120 0x47C513B60CFA0A4B2B5940310F1AC6 (Point.mk 0x080F459E614CD0B91BC2CE7D5E7DAF73B6D1508D3A54F0BFE78023E1C8D7B4C6 0x0373461732928DCCAD4A69A1199D0A587349D2D714D4982E5B5A7A0CD01E95CC) (Point.mk 0x24CFC0176DA2B46FA8BB5BF9636BE1EFFD7E297F29122FB3E84C9AB0C18ADA5F 0xEBFF8FBB079C61A69868714D5DEDA927ED959CA1A4F814F268FA6139978A586B) :=
  scalarMultAux_step 120 0x8F8A276C19F4149656B280621E358C 0x47C513B60CFA0A4B2B5940310F1AC6 (Point.mk 0x080F459E614CD0B91BC2CE7D5E7DAF73B6D1508D3A54F0BFE78023E1C8D7B4C6 0x0373461732928DCCAD4A69A1199D0A587349D2D714D4982E5B5A7A0CD01E95CC) (Point.mk 0x8C00FA9B18EBF331EB961537A45A4266C7034F2F0D4E1D0716FB6EAE20EAE29E 0xEFA47267FEA521A1A9DC343A3736C974C2FADAFA81E36C54E7D2A4C66702414B) (Point.mk 0x080F459E614CD0B91BC2CE7D5E7DAF73B6D1508D3A54F0BFE78023E1C8D7B4C6 0x0373461732928DCCAD4A69A1199D0A587349D2D714D4982E5B5A7A0CD01E95CC) (Point.mk 0x24CFC0176DA2B46FA8BB5BF9636BE1EFFD7E297F29122FB3E84C9AB0C18ADA5F 0xEBFF8FBB079C61A69868714D5DEDA927ED959CA1A4F814F268FA6139978A586B) (by decide) (by decide) (by decide) (by decide)

theorem smA137 : scalarMultAux 120 0x47C513B60CFA0A4B2B5940310F1AC6 (Point.mk 0x080F459E614CD0B91BC2CE7D5E7DAF73B6D1508D3A54F0BFE78023E1C8D7B4C6 0x0373461732928DCCAD4A69A1199D0A587349D2D714D4982E5B5A7A0CD01E95CC) (Point.mk 0x24CFC0176DA2B46FA8BB5BF9636BE1EFFD7E297F29122FB3E84C9AB0C18ADA5F 0xEBFF8FBB079C61A69868714D5DEDA927ED959CA1A4F814F268FA6139978A586B) = scalarMultAux 119 0x23E289DB067D052595ACA018878D63 (Point.mk 0x080F459E614CD0B91BC2CE7D5E7DAF73B6D1508D3A54F0BFE78023E1C8D7B4C6 0x0373461732928DCCAD4A69A1199D0A587349D2D714D4982E5B5A7A0CD01E95CC) (Point.mk 0x004A7D58D4B9BC82EA2DED72A1292EC616DDD67FC7F057EDF103189594679DA2 0xB98AC5B76702CB75E6B1D8147EC71B3B71C3B494963FA28A4877F484779FFE26) :=
  scalarMultAux_step 119 0x47C513B60CFA0A4B2B5940310F1AC6 0x23E289DB067D052595ACA018878D63 (Point.mk 0x080F459E614CD0B91BC2CE7D5E7DAF73B6D1508D3A54F0BFE78023E1C8D7B4C6 0x0373461732928DCCAD4A69A1199D0A587349D2D714D4982E5B5A7A0CD01E95CC) (Point.mk 0x24CFC0176DA2B46FA8BB5BF9636BE1EFFD7E297F29122FB3E84C9AB0C18ADA5F 0xEBFF8FBB079C61A69868714D5DEDA927ED959CA1A4F814F268FA6139978A586B) (Point.mk 0x080F459E614CD0B91BC2CE7D5E7DAF73B6D1508D3A54F0BFE78023E1C8D7B4C6 0x0373461732928DCCAD4A69A1199D0A587349D2D714D4982E5B5A7A0CD01E95CC) (Point.mk 0x004A7D58D4B9BC82EA2DED72A1292EC616DDD67FC7F057EDF103189594679DA2 0xB98AC5B76702CB75E6B1D8147EC71B3B71C3B494963FA28A4877F484779FFE26) (by decide) (by decide) (by decide) (by decide)

theorem smA138 : scalarMultAux 119 0x23E289DB067D052595ACA018878D63 (Point.mk 0x080F459E614CD0B91BC2CE7D5E7DAF73B6D1508D3A54F0BFE78023E1C8D7B4C6 0x0373461732928DCCAD4A69A1199D0A587349D2D714D4982E5B5A7A0CD01E95CC) (Point.mk 0x004A7D58D4B9BC82EA2DED72A1292EC616DDD67FC7F057EDF103189594679DA2 0xB98AC5B76702CB75E6B1D8147EC71B3B71C3B494963FA28A4877F484779FFE26) = scalarMultAux 118 0x11F144ED833E8292CAD6500C43C6B1 (Point.mk 0xDE8B95C26FF9583BC349DBF8B5227F99CEFEC6D09E499D88BEACA65DD973F3FF 0xFC5C43CF365D0DA1736D15FFE70F530B7D2EAC166F212BCCC01E7DF09AE21802) (Point.mk 0xEE7D69C4CBD001C7FC76C5E2C066CE4996F8808A1E07B2A9CCF34EADC87C4B65 0xECC8626EC1A413821A192ABF030F2EE2C33E8999BAE942E523E8F44ED136A95A) :=
  scalarMultAux_step 118 0x23E289DB067D052595ACA018878D63 0x11F144ED833E8292CAD6500C43C6B1 (Point.mk 0x080F459E614CD0B91BC2CE7D5E7DAF73B6D1508D3A54F0BFE78023E1C8D7B4C6 0x0373461732928DCCAD4A69A1199D0A587349D2D714D4982E5B5A7A0CD01E95CC) (Point.mk 0x004A7D58D4B9BC82EA2DED72A1292EC616DDD67FC7F057EDF103189594679DA2 0xB98AC5B76702CB75E6B1D8147EC71B3B71C3B494963FA28A4877F484779FFE26) (Point.mk 0xDE8B95C26FF9583BC349DBF8B5227F99CEFEC6D09E499D88BEACA65DD973F3FF 0xFC5C43CF365D0DA1736D15FFE70F530B7D2EAC166F212BCCC01E7DF09AE21802) (Point.mk 0xEE7D69C4CBD001C7FC76C5E2C066CE4996F8808A1E07B2A9CCF34EADC87C4B65 0xECC8626EC1A413821A192ABF030F2EE2C33E8999BAE942E523E8F44ED136A95A) (by decide) (by decide) (by decide) (by decide)

theorem smA139 : scalarMultAux 118 0x11F144ED833E8292CAD6500C43C6B1 (Point.mk 0xDE8B95C26FF9583BC349DBF8B5227F99CEFEC6D09E499D88BEACA65DD973F3FF 0xFC5C43CF365D0DA1736D15FFE70F530B7D2EAC166F212BCCC01E7DF09AE21802) (Point.mk 0xEE7D69C4CBD001C7FC76C5E2C066CE4996F8808A1E07B2A9CCF34EADC87C4B65 0xECC8626EC1A413821A192ABF030F2EE2C33E8999BAE942E523E8F44ED136A95A) = scalarMultAux 117 0x8F8A276C19F4149656B280621E358 (Point.mk 0x9B63F54DEEBDA8170A6C56A45CBB541D036810BDCE88D17676902C844CCB98D1 0x462BB9AB000119C45D842A4FB606CEFCB93CD27086D7D19A573C7E2D1BD3F896) (Point.mk 0xE7A26CE69DD4829F3E10CEC0A9E98ED3143D084F308B92C0997FDDFC60CB3E41 0x2A758E300FA7984B471B006A1AAFBB18D0A6B2C0420E83E20E8A9421CF2CFD51) :=
  scalarMultAux_step 117 0x11F144ED833E8292CAD6500C43C6B1 0x8F8A276C19F4149656B280621E358 (Point.mk 0xDE8B95C26FF9583BC349DBF8B5227F99CEFEC6D09E499D88BEACA65DD973F3FF 0xFC5C43CF365D0DA1736D15FFE70F530B7D2EAC166F212BCCC01E7DF09AE21802) (Point.mk 0xEE7D69C4CBD001C7FC76C5E2C066CE4996F8808A1E07B2A9CCF34EADC87C4B65 0xECC8626EC1A413821A192ABF030F2EE2C33E8999BAE942E523E8F44ED136A95A) (Point.mk 0x9B63F54DEEBDA8170A6C56A45CBB541D036810BDCE88D17676902C844CCB98D1 0x462BB9AB000119C45D842A4FB606CEFCB93CD27086D7D19A573C7E2D1BD3F896) (Point.mk 0xE7A26CE69DD4829F3E10CEC0A9E98ED3143D084F308B92C0997FDDFC60CB3E41 0x2A758E300FA7984B471B006A1AAFBB18D0A6B2C0420E83E20E8A9421CF2CFD51) (by decide) (by decide) (by decide) (by decide)

theorem smA140 : scalarMultAux 117 0x8F8A276C19F4149656B280621E358 (Point.mk 0x9B63F54DEEBDA8170A6C56A45CBB541D036810BDCE88D17676902C844CCB98D1 0x462BB9AB000119C45D842A4FB606CEFCB93CD27086D7D19A573C7E2D1BD3F896) (Point.mk 0xE7A26CE69DD4829F3E10CEC0A9E98ED3143D084F308B92C0997FDDFC60CB3E41 0x2A758E300FA7984B471B006A1AAFBB18D0A6B2C0420E83E20E8A9421CF2CFD51) = scalarMultAux 116 0x47C513B60CFA0A4B2B5940310F1AC (Point.mk 0x9B63F54DEEBDA8170A6C56A45CBB541D036810BDCE88D17676902C844CCB98D1 0x462BB9AB000119C45D842A4FB606CEFCB93CD27086D7D19A573C7E2D1BD3F896) (Point.mk 0xF5CAFABA036BF8D00D38BFB6772089F5203C35E4D6E32FA9D97E5B917B4AE861 0x19E83B8A022A6D817BFF9904640839159B3B2A9C552F05F3CC9C239C0D82239C) :=
  scalarMultAux_step 116 0x8F8A276C19F4149656B280621E358 0x47C513B60CFA0A4B2B5940310F1AC (Point.mk 0x9B63F54DEEBDA8170A6C56A45CBB541D036810BDCE88D17676902C844CCB98D1 0x462BB9AB000119C45D842A4FB606CEFCB93CD27086D7D19A573C7E2D1BD3F896) (Point.mk 0xE7A26CE69DD4829F3E10CEC0A9E98ED3143D084F308B92C0997FDDFC60CB3E41 0x2A758E300FA7984B471B006A1AAFBB18D0A6B2C0420E83E20E8A9421CF2CFD51) (Point.mk 0x9B63F54DEEBDA8170A6C56A45CBB541D036810BDCE88D17676902C844CCB98D1 0x462BB9AB000119C45D842A4FB606CEFCB93CD27086D7D19A573C7E2D1BD3F896) (Point.mk 0xF5CAFABA036BF8D00D38BFB6772089F5203C35E4D6E32FA9D97E5B917B4AE861 0x19E83B8A022A6D817BFF9904640839159B3B2A9C552F05F3CC9C239C0D82239C) (by decide) (by decide) (by decide) (by decide)

theorem smA141 : scalarMultAux 116 0x47C513B60CFA0A4B2B5940310F1AC (Point.mk 0x9B63F54DEEBDA8170A6C56A45CBB541D036810BDCE88D17676902C844CCB98D1 0x462BB9AB000119C45D842A4FB606CEFCB93CD27086D7D19A573C7E2D1BD3F896) (Point.mk 0xF5CAFABA036BF8D00D38BFB6772089F5203C35E4D6E32FA9D97E5B917B4AE861 0x19E83B8A022A6D817BFF9904640839159B3B2A9C552F05F3CC9C239C0D82239C) = scalarMultAux 115 0x23E289DB067D052595ACA018878D6 (Point.mk 0x9B63F54DEEBDA8170A6C56A45CBB541D036810BDCE88D17676902C844CCB98D1 0x462BB9AB000119C45D842A4FB606CEFCB93CD27086D7D19A573C7E2D1BD3F896) (Point.mk 0xE9389024CEB63F1F12DF5156D7E805428F9E509C494C982084FD4CD7BD2A9651 0x8648688723726595F9287ABAF671AAF18D7110CEC6770BFEFEFDE2B75E786824) :=
  scalarMultAux_step 115 0x47C513B60CFA0A4B2B5940310F1AC 0x23E289DB067D052595ACA018878D6 (Point.mk 0x9B63F54DEEBDA8170A6C56A45CBB541D036810BDCE88D17676902C844CCB98D1 0x462BB9AB000119C45D842A4FB606CEFCB93CD27086D7D19A573C7E2D1BD3F896) (Point.mk 0xF5CAFABA036BF8D00D38BFB6772089F5203C35E4D6E32FA9D97E5B917B4AE861 0x19E83B8A022A6D817BFF9904640839159B3B2A9C552F05F3CC9C239C0D82239C) (Point.mk 0x9B63F54DEEBDA8170A6C56A45CBB541D036810BDCE88D17676902C844CCB98D1 0x462BB9AB000119C45D842A4FB606CEFCB93CD27086D7D19A573C7E2D1BD3F896) (Point.mk 0xE9389024CEB63F1F12DF5156D7E805428F9E509C494C982084FD4CD7BD2A9651 0x8648688723726595F9287ABAF671AAF18D7110CEC6770BFEFEFDE2B75E786824) (by decide) (by decide) (by decide) (by decide)

theorem smA142 : scalarMultAux 115 0x23E289DB067D052595ACA018878D6 (Point.mk 0x9B63F54DEEBDA8170A6C56A45CBB541D036810BDCE88D17676902C844CCB98D1 0x462BB9AB000119C45D842A4FB606CEFCB93CD27086D7D19A573C7E2D1BD3F896) (Point.mk 0xE9389024CEB63F1F12DF5156D7E805428F9E509C494C982084FD4CD7BD2A9651 0x8648688723726595F9287ABAF671AAF18D7110CEC6770BFEFEFDE2B75E786824) = scalarMultAux 114 0x11F144ED833E8292CAD6500C43C6B (Point.mk 0x9B63F54DEEBDA8170A6C56A45CBB541D036810BDCE88D17676902C844CCB98D1 0x462BB9AB000119C45D842A4FB606CEFCB93CD27086D7D19A573C7E2D1BD3F896) (Point.mk 0x264559D87829256BED116900D82D0C379F0E4D1253C68E6FCF2D41AE7CDDAB8B 0x79E5BD1926D3512CEF7BC637034072D77A8631AF39CAF1E6C9F64B45001DE473) :=
  scalarMultAux_step 114 0x23E289DB067D052595ACA018878D6 0x11F144ED833E8292CAD6500C43C6B (Point.mk 0x9B63F54DEEBDA8170A6C56A45CBB541D036810BDCE88D17676902C844CCB98D1 0x462BB9AB000119C45D842A4FB606CEFCB93CD27086D7D19A573C7E2D1BD3F896) (Point.mk 0xE9389024CEB63F1F12DF5156D7E805428F9E509C494C982084FD4CD7BD2A9651 0x8648688723726595F9287ABAF671AAF18D7110CEC6770BFEFEFDE2B75E786824) (Point.mk 0x9B63F54DEEBDA8170A6C56A45CBB541D036810BDCE88D17676902C844CCB98D1 0x462BB9AB000119C45D842A4FB606CEFCB93CD27086D7D19A573C7E2D1BD3F896) (Point.mk 0x264559D87829256BED116900D82D0C379F0E4D1253C68E6FCF2D41AE7CDDAB8B 0x79E5BD1926D3512CEF7BC637034072D77A8631AF39CAF1E6C9F64B45001DE473) (by decide) (by decide) (by decide) (by decide)

theorem smA143 : scalarMultAux 114 0x11F144ED833E8292CAD6500C43C6B (Point.mk 0x9B63F54DEEBDA8170A6C56A45CBB541D036810BDCE88D17676902C844CCB98D1 0x462BB9AB000119C45D842A4FB606CEFCB93CD27086D7D19A573C7E2D1BD3F896) (Point.mk 0x264559D87829256BED116900D82D0C379F0E4D1253C68E6FCF2D41AE7CDDAB8B 0x79E5BD1926D3512CEF7BC637034072D77A8631AF39CAF1E6C9F64B45001DE473) = scalarMultAux 113 0x8F8A276C19F4149656B280621E35 (Point.mk 0xB38B202605173FC9B71526C88BC0E3D88F8DEAFD8EA5ABFB2F1343CCEDFA62CC 0x18BA57115270A39FD5BDB8C8C35943BAAF806F3C02A443500C73B1D8C6354FF7) (Point.mk 0xB6459E0EE3662EC8D23540C223BCBDC571CBCB967D79424F3CF29EB3DE6B80EF 0x067C876D06F3E06DE1DADF16E5661DB3C4B3AE6D48E35B2FF30BF0B61A71BA45) :=
  scalarMultAux_step 113 0x11F144ED833E8292CAD6500C43C6B 0x8F8A276C19F4149656B280621E35 (Point.mk 0x9B63F54DEEBDA8170A6C56A45CBB541D036810BDCE88D17676902C844CCB98D1 0x462BB9AB000119C45D842A4FB606CEFCB93CD27086D7D19A573C7E2D1BD3F896) (Point.mk 0x264559D87829256BED116900D82D0C379F0E4D1253C68E6FCF2D41AE7CDDAB8B 0x79E5BD1926D3512CEF7BC637034072D77A8631AF39CAF1E6C9F64B45001DE473) (Point.mk 0xB38B202605173FC9B71526C88BC0E3D88F8DEAFD8EA5ABFB2F1343CCEDFA62CC 0x18BA57115270A39FD5BDB8C8C35943BAAF806F3C02A443500C73B1D8C6354FF7) (Point.mk 0xB6459E0EE3662EC8D23540C223BCBDC571CBCB967D79424F3CF29EB3DE6B80EF 0x067C876D06F3E06DE1DADF16E5661DB3C4B3AE6D48E35B2FF30BF0B61A71BA45) (by decide) (by decide) (by decide) (by decide)

theorem smA144 : scalarMultAux 113 0x8F8A276C19F4149656B280621E35 (Point.mk 0xB38B202605173FC9B71526C88BC0E3D88F8DEAFD8EA5ABFB2F1343CCEDFA62CC 0x18BA57115270A39FD5BDB8C8C35943BAAF806F3C02A443500C73B1D8C6354FF7) (Point.mk 0xB6459E0EE3662EC8D23540C223BCBDC571CBCB967D79424F3CF29EB3DE6B80EF 0x067C876D06F3E06DE1DADF16E5661DB3C4B3AE6D48E35B2FF30BF0B61A71BA45) = scalarMultAux 112 0x47C513B60CFA0A4B2B5940310F1A (Point.mk 0xC54F29BB99648215F4CFE078187BAB49F65B1519D27010E8134378D9BDBBCFB5 0xB7F1F77A1011152B9967F250E6B6BAB1BEC67DE5430F90CA6527BBA06120BE7F) (Point.mk 0xE5D8E8F0D9823C88E4D36F7301F41593B6890576BE79C211253EF375033EB51F 0x4DC1E9B7861E3E04ABB16A57D8FEEEF0E509DC46D9F0F54979D5BD965A62A2D9) :=
  scalarMultAux_step 112 0x8F8A276C19F4149656B280621E35 0x47C513B60CFA0A4B2B5940310F1A (Point.mk 0xB38B202605173FC9B71526C88BC0E3D88F8DEAFD8EA5ABFB2F1343CCEDFA62CC 0x18BA57115270A39FD5BDB8C8C35943BAAF806F3C02A443500C73B1D8C6354FF7) (Point.mk 0xB6459E0EE3662EC8D23540C223BCBDC571CBCB967D79424F3CF29EB3DE6B80EF 0x067C876D06F3E06DE1DADF16E5661DB3C4B3AE6D48E35B2FF30BF0B61A71BA45) (Point.mk 0xC54F29BB99648215F4CFE078187BAB49F65B1519D27010E8134378D9BDBBCFB5 0xB7F1F77A1011152B9967F250E6B6BAB1BEC67DE5430F90CA6527BBA06120BE7F) (Point.mk 0xE5D8E8F0D9823C88E4D36F7301F41593B6890576BE79C211253EF375033EB51F 0x4DC1E9B7861E3E04ABB16A57D8FEEEF0E509DC46D9F0F54979D5BD965A62A2D9) (by decide) (by decide) (by decide) (by decide)

theorem smA145 : scalarMultAux 112 0x47C513B60CFA0A4B2B5940310F1A (Point.mk 0xC54F29BB99648215F4CFE078187BAB49F65B1519D27010E8134378D9BDBBCFB5 0xB7F1F77A1011152B9967F250E6B6BAB1BEC67DE5430F90CA6527BBA06120BE7F) (Point.mk 0xE5D8E8F0D9823C88E4D36F7301F41593B6890576BE79C211253EF375033EB51F 0x4DC1E9B7861E3E04ABB16A57D8FEEEF0E509DC46D9F0F54979D5BD965A62A2D9) = scalarMultAux 111 0x23E289DB067D052595ACA018878D (Point.mk 0xC54F29BB99648215F4CFE078187BAB49F65B1519D27010E8134378D9BDBBCFB5 0xB7F1F77A1011152B9967F250E6B6BAB1BEC67DE5430F90CA6527BBA06120BE7F) (Point.mk 0xA9CA27F77DBC8C3DC56B0F7321BAE0DDAB66BE4FA8A3011737A676480F155E64 0xF4BB335678FB14D4D197D2246C02D004875D41821BCAF0AE1F3F333C561B3297) :=
  scalarMultAux_step 111 0x47C513B60CFA0A4B2B5940310F1A 0x23E289DB067D052595ACA018878D (Point.mk 0xC54F29BB99648215F4CFE078187BAB49F65B1519D27010E8134378D9BDBBCFB5 0xB7F1F77A1011152B9967F250E6B6BAB1BEC67DE5430F90CA6527BBA06120BE7F) (Point.mk 0xE5D8E8F0D9823C88E4D36F7301F41593B6890576BE79C211253EF375033EB51F 0x4DC1E9B7861E3E04ABB16A57D8FEEEF0E509DC46D9F0F54979D5BD965A62A2D9) (Point.mk 0xC54F29BB99648215F4CFE078187BAB49F65B1519D27010E8134378D9BDBBCFB5 0xB7F1F77A1011152B9967F250E6B6BAB1BEC67DE5430F90CA6527BBA06120BE7F) (Point.mk 0xA9CA27F77DBC8C3DC56B0F7321BAE0DDAB66BE4FA8A3011737A676480F155E64 0xF4BB335678FB14D4D197D2246C02D004875D41821BCAF0AE1F3F333C561B3297) (by decide) (by decide) (by decide) (by decide)

theorem smA146 : scalarMultAux 111 0x23E289DB067D052595ACA018878D (Point.mk 0xC54F29BB99648215F4CFE078187BAB49F65B1519D27010E8134378D9BDBBCFB5 0xB7F1F77A1011152B9967F250E6B6BAB1BEC67DE5430F90CA6527BBA06120BE7F) (Point.mk 0xA9CA27F77DBC8C3DC56B0F7321BAE0DDAB66BE4FA8A3011737A676480F155E64 0xF4BB335678FB14D4D197D2246C02D004875D41821BCAF0AE1F3F333C561B3297) = scalarMultAux 110 0x11F144ED833E8292CAD6500C43C6 (Point.mk 0xFE71F4188AAAF9DEA17A91C010D25A2249078BF42B861DD9DDD947C77C650002 0x3132CCA53C8AB351469E5C10C27DBEFE31D44975E83BB3CD42F6C8AC19956FF5) (Point.mk 0x68FB71800686D7F25EBA105611CFE7591F478E847F51CEE06D4BC629D6EE247C 0xCD12D23462DD963673735427501B0C079A8D580B04C73C9DAE1F822D1A01865D) :=
  scalarMultAux_step 110 0x23E289DB067D052595ACA018878D 0x11F144ED833E8292CAD6500C43C6 (Point.mk 0xC54F29BB99648215F4CFE078187BAB49F65B1519D27010E8134378D9BDBBCFB5 0xB7F1F77A1011152B9967F250E6B6BAB1BEC67DE5430F90CA6527BBA06120BE7F) (Point.mk 0xA9CA27F77DBC8C3DC56B0F7321BAE0DDAB66BE4FA8A3011737A676480F155E64 0xF4BB335678FB14D4D197D2246C02D004875D41821BCAF0AE1F3F333C561B3297) (Point.mk 0xFE71F4188AAAF9DEA17A91C010D25A2249078BF42B861DD9DDD947C77C650002 0x3132CCA53C8AB351469E5C10C27DBEFE31D44975E83BB3CD42F6C8AC19956FF5) (Point.mk 0x68FB71800686D7F25EBA105611CFE7591F478E847F51CEE06D4BC629D6EE247C 0xCD12D23462DD963673735427501B0C079A8D580B04C73C9DAE1F822D1A01865D) (by decide) (by decide) (by decide) (by decide)

theorem smA147 : scalarMultAux 110 0x11F144ED833E8292CAD6500C43C6 (Point.mk 0xFE71F4188AAAF9DEA17A91C010D25A2249078BF42B861DD9DDD947C77C650002 0x3132CCA53C8AB351469E5C10C27DBEFE31D44975E83BB3CD42F6C8AC19956FF5) (Point.mk 0x68FB71800686D7F25EBA105611CFE7591F478E847F51CEE06D4BC629D6EE247C 0xCD12D23462DD963673735427501B0C079A8D580B04C73C9DAE1F822D1A01865D) = scalarMultAux 109 0x8F8A276C19F4149656B280621E3 (Point.mk 0xFE71F4188AAAF9DEA17A91C010D25A2249078BF42B861DD9DDD947C77C650002 0x3132CCA53C8AB351469E5C10C27DBEFE31D44975E83BB3CD42F6C8AC19956FF5) (Point.mk 0xD68A80C8280BB840793234AA118F06231D6F1FC67E73C5A5DEDA0F5B496943E8 0xDB8BA9FFF4B586D00C4B1F9177B0E28B5B0E7B8F7845295A294C84266B133120) :=
  scalarMultAux_step 109 0x11F144ED833E8292CAD6500C43C6 0x8F8A276C19F4149656B280621E3 (Point.mk 0xFE71F4188AAAF9DEA17A91C010D25A2249078BF42B861DD9DDD947C77C650002 0x3132CCA53C8AB351469E5C10C27DBEFE31D44975E83BB3CD42F6C8AC19956FF5) (Point.mk 0x68FB71800686D7F25EBA105611CFE7591F478E847F51CEE06D4BC629D6EE247C 0xCD12D23462DD963673735427501B0C079A8D580B04C73C9DAE1F822D1A01865D) (Point.mk 0xFE71F4188AAAF9DEA17A91C010D25A2249078BF42B861DD9DDD947C77C650002 0x3132CCA53C8AB351469E5C10C27DBEFE31D44975E83BB3CD42F6C8AC19956FF5) (Point.mk 0xD68A80C8280BB840793234AA118F06231D6F1FC67E73C5A5DEDA0F5B496943E8 0xDB8BA9FFF4B586D00C4B1F9177B0E28B5B0E7B8F7845295A294C84266B133120) (by decide) (by decide) (by decide) (by decide)

theorem smA148 : scalarMultAux 109 0x8F8A276C19F4149656B280621E3 (Point.mk 0xFE71F4188AAAF9DEA17A91C010D25A2249078BF42B861DD9DDD947C77C650002 0x3132CCA53C8AB351469E5C10C27DBEFE31D44975E83BB3CD42F6C8AC19956FF5) (Point.mk 0xD68A80C8280BB840793234AA118F06231D6F1FC67E73C5A5DEDA0F5B496943E8 0xDB8BA9FFF4B586D00C4B1F9177B0E28B5B0E7B8F7845295A294C84266B133120) = scalarMultAux 108 0x47C513B60CFA0A4B2B5940310F1 (Point.mk 0x5C84AA390C2C83E28AB2CD7274E7F4134ABCF24197996143D42BB950C8480B04 0x37F654FBACBA2788F66AD6FDD5378E29EFF0FA6F4C504F9C885D8AA918774ED5) (Point.mk 0xF16A409C677A40BE402F8EFB3752373CACED053C6F702B828BDA222CA412B6FD 0x2A41311714532799D7A6A75A74E30E4E16540659249EBCA4268DAE77ECA052DA) :=
  scalarMultAux_step 108 0x8F8A276C19F4149656B280621E3 0x47C513B60CFA0A4B2B5940310F1 (Point.mk 0xFE71F4188AAAF9DEA17A91C010D25A2249078BF42B861DD9DDD947C77C650002 0x3132CCA53C8AB351469E5C10C27DBEFE31D44975E83BB3CD42F6C8AC19956FF5) (Point.mk 0xD68A80C8280BB840793234AA118F06231D6F1FC67E73C5A5DEDA0F5B496943E8 0xDB8BA9FFF4B586D00C4B1F9177B0E28B5B0E7B8F7845295A294C84266B133120) (Point.mk 0x5C84AA390C2C83E28AB2CD7274E7F4134ABCF24197996143D42BB950C8480B04 0x37F654FBACBA2788F66AD6FDD5378E29EFF0FA6F4C504F9C885D8AA918774ED5) (Point.mk 0xF16A409C677A40BE402F8EFB3752373CACED053C6F702B828BDA222CA412B6FD 0x2A41311714532799D7A6A75A74E30E4E16540659249EBCA4268DAE77ECA052DA) (by decide) (by decide) (by decide) (by decide)

theorem smA149 : scalarMultAux 108 0x47C513B60CFA0A4B2B5940310F1 (Point.mk 0x5C84AA390C2C83E28AB2CD7274E7F4134ABCF24197996143D42BB950C8480B04 0x37F654FBACBA2788F66AD6FDD5378E29EFF0FA6F4C504F9C885D8AA918774ED5) (Point.mk 0xF16A409C677A40BE402F8EFB3752373CACED053C6F702B828BDA222CA412B6FD 0x2A41311714532799D7A6A75A74E30E4E16540659249EBCA4268DAE77ECA052DA) = scalarMultAux 107 0x23E289DB067D052595ACA018878 (Point.mk 0x6B1BE987BDA7ED87915B8F87E7F0620A490704A0E754854B48D34C5AB7D4A46A 0x2EFEBBCFB78174CD9B1A85E507A4A81666B4C566EBB7B04FC4D53BB38B4DCA72) (Point.mk 0x4154B506AB766F42FBE37F699976F84DB89F4F2F6BED98325C1A0B6E326DD4E4 0x23AD075043C5988894C6E44D61025FF6414EA9D9D1E22DD46C859295075DED1C) :=
  scalarMultAux_step 107 0x47C513B60CFA0A4B2B5940310F1 0x23E289DB067D052595ACA018878 (Point.mk 0x5C84AA390C2C83E28AB2CD7274E7F4134ABCF24197996143D42BB950C8480B04 0x37F654FBACBA2788F66AD6FDD5378E29EFF0FA6F4C504F9C885D8AA918774ED5) (Point.mk 0xF16A409C677A40BE402F8EFB3752373CACED053C6F702B828BDA222CA412B6FD 0x2A41311714532799D7A6A75A74E30E4E16540659249EBCA4268DAE77ECA052DA) (Point.mk 0x6B1BE987BDA7ED87915B8F87E7F0620A490704A0E754854B48D34C5AB7D4A46A 0x2EFEBBCFB78174CD9B1A85E507A4A81666B4C566EBB7B04FC4D53BB38B4DCA72) (Point.mk 0x4154B506AB766F42FBE37F699976F84DB89F4F2F6BED98325C1A0B6E326DD4E4 0x23AD075043C5988894C6E44D61025FF6414EA9D9D1E22DD46C859295075DED1C) (by decide) (by decide) (by decide) (by decide)

theorem smA150 : scalarMultAux 107 0x23E289DB067D052595ACA018878 (Point.mk 0x6B1BE987BDA7ED87915B8F87E7F0620A490704A0E754854B48D34C5AB7D4A46A 0x2EFEBBCFB78174CD9B1A85E507A4A81666B4C566EBB7B04FC4D53BB38B4DCA72) (Point.mk 0x4154B506AB766F42FBE37F699976F84DB89F4F2F6BED98325C1A0B6E326DD4E4 0x23AD075043C5988894C6E44D61025FF6414EA9D9D1E22DD46C859295075DED1C) = scalarMultAux 106 0x11F144ED833E8292CAD6500C43C (Point.mk 0x6B1BE987BDA7ED87915B8F87E7F0620A490704A0E754854B48D34C5AB7D4A46A 0x2EFEBBCFB78174CD9B1A85E507A4A81666B4C566EBB7B04FC4D53BB38B4DCA72) (Point.mk 0xB73C652769CC95C1080A8D4D0B5956EA93E86E49FC727DDF4C51A7A63F7F0246 0x9A67DB107174CA9D4B535893C5B6C1EA1A0D72E4C6E554E5597E5164EA2A407B) :=
  scalarMultAux_step 106 0x23E289DB067D052595ACA018878 0x11F144ED833E8292CAD6500C43C (Point.mk 0x6B1BE987BDA7ED87915B8F87E7F0620A490704A0E754854B48D34C5AB7D4A46A 0x2EFEBBCFB78174CD9B1A85E507A4A81666B4C566EBB7B04FC4D53BB38B4DCA72) (Point.mk 0x4154B506AB766F42FBE37F699976F84DB89F4F2F6BED98325C1A0B6E326DD4E4 0x23AD075043C5988894C6E44D61025FF6414EA9D9D1E22DD46C859295075DED1C) (Point.mk 0x6B1BE987BDA7ED87915B8F87E7F0620A490704A0E754854B48D34C5AB7D4A46A 0x2EFEBBCFB78174CD9B1A85E507A4A81666B4C566EBB7B04FC4D53BB38B4DCA72) (Point.mk 0xB73C652769CC95C1080A8D4D0B5956EA93E86E49FC727DDF4C51A7A63F7F0246 0x9A67DB107174CA9D4B535893C5B6C1EA1A0D72E4C6E554E5597E5164EA2A407B) (by decide) (by decide) (by decide) (by decide)

theorem smA151 : scalarMultAux 106 0x11F144ED833E8292CAD6500C43C (Point.mk 0x6B1BE987BDA7ED87915B8F87E7F0620A490704A0E754854B48D34C5AB7D4A46A 0x2EFEBBCFB78174CD9B1A85E507A4A81666B4C566EBB7B04FC4D53BB38B4DCA72) (Point.mk 0xB73C652769CC95C1080A8D4D0B5956EA93E86E49FC727DDF4C51A7A63F7F0246 0x9A67DB107174CA9D4B535893C5B6C1EA1A0D72E4C6E554E5597E5164EA2A407B) = scalarMultAux 105 0x8F8A276C19F4149656B280621E (Point.mk 0x6B1BE987BDA7ED87915B8F87E7F0620A490704A0E754854B48D34C5AB7D4A46A 0x2EFEBBCFB78174CD9B1A85E507A4A81666B4C566EBB7B04FC4D53BB38B4DCA72) (Point.mk 0x324AED7DF65C804252DC0270907A30B09612AEB973449CEA4095980FC28D3D5D 0x648A365774B61F2FF130C0C35AEC1F4F19213B0C7E332843967224AF96AB7C84) :=
  scalarMultAux_step 105 0x11F144ED833E8292CAD6500C43C 0x8F8A276C19F4149656B280621E (Point.mk 0x6B1BE987BDA7ED87915B8F87E7F0620A490704A0E754854B48D34C5AB7D4A46A 0x2EFEBBCFB78174CD9B1A85E507A4A81666B4C566EBB7B04FC4D53BB38B4DCA72) (Point.mk 0xB73C652769CC95C1080A8D4D0B5956EA93E86E49FC727DDF4C51A7A63F7F0246 0x9A67DB107174CA9D4B535893C5B6C1EA1A0D72E4C6E554E5597E5164EA2A407B) (Point.mk 0x6B1BE987BDA7ED87915B8F87E7F0620A490704A0E754854B48D34C5AB7D4A46A 0x2EFEBBCFB78174CD9B1A85E507A4A81666B4C566EBB7B04FC4D53BB38B4DCA72) (Point.mk 0x324AED7DF65C804252DC0270907A30B09612AEB973449CEA4095980FC28D3D5D 0x648A365774B61F2FF130C0C35AEC1F4F19213B0C7E332843967224AF96AB7C84) (by decide) (by decide) (by decide) (by decide)

theorem smA152 : scalarMultAux 105 0x8F8A276C19F4149656B280621E (Point.mk 0x6B1BE987BDA7ED87915B8F87E7F0620A490704A0E754854B48D34C5AB7D4A46A 0x2EFEBBCFB78174CD9B1A85E507A4A81666B4C566EBB7B04FC4D53BB38B4DCA72) (Point.mk 0x324AED7DF65C804252DC0270907A30B09612AEB973449CEA4095980FC28D3D5D 0x648A365774B61F2FF130C0C35AEC1F4F19213B0C7E332843967224AF96AB7C84) = scalarMultAux 104 0x47C513B60CFA0A4B2B5940310F (Point.mk 0x6B1BE987BDA7ED87915B8F87E7F0620A490704A0E754854B48D34C5AB7D4A46A 0x2EFEBBCFB78174CD9B1A85E507A4A81666B4C566EBB7B04FC4D53BB38B4DCA72) (Point.mk 0x32C9331EA26F490228D32681880D7203F72B3E4A8DE0DB1FA8F38381B2919749 0xD7CD272B34209CB5695A2F02B6F3DBB8268A4ABDAE39AB09631E97B0F290B5E3) :=
  scalarMultAux_step 104 0x8F8A276C19F4149656B280621E 0x47C513B60CFA0A4B2B5940310F (Point.mk 0x6B1BE987BDA7ED87915B8F87E7F0620A490704A0E754854B48D34C5AB7D4A46A 0x2EFEBBCFB78174CD9B1A85E507A4A81666B4C566EBB7B04FC4D53BB38B4DCA72) (Point.mk 0x324AED7DF65C804252DC0270907A30B09612AEB973449CEA4095980FC28D3D5D 0x648A365774B61F2FF130C0C35AEC1F4F19213B0C7E332843967224AF96AB7C84) (Point.mk 0x6B1BE987BDA7ED87915B8F87E7F0620A490704A0E754854B48D34C5AB7D4A46A 0x2EFEBBCFB78174CD9B1A85E507A4A81666B4C566EBB7B04FC4D53BB38B4DCA72) (Point.mk 0x32C9331EA26F490228D32681880D7203F72B3E4A8DE0DB1FA8F38381B2919749 0xD7CD272B34209CB5695A2F02B6F3DBB8268A4ABDAE39AB09631E97B0F290B5E3) (by decide) (by decide) (by decide) (by decide)

theorem smA153 : scalarMultAux 104 0x47C513B60CFA0A4B2B5940310F (Point.mk 0x6B1BE987BDA7ED87915B8F87E7F0620A490704A0E754854B48D34C5AB7D4A46A 0x2EFEBBCFB78174CD9B1A85E507A4A81666B4C566EBB7B04FC4D53BB38B4DCA72) (Point.mk 0x32C9331EA26F490228D32681880D7203F72B3E4A8DE0DB1FA8F38381B2919749 0xD7CD272B34209CB5695A2F02B6F3DBB8268A4ABDAE39AB09631E97B0F290B5E3) = scalarMultAux 103 0x23E289DB067D052595ACA01887 (Point.mk 0x933212DF35843C96BA8EE98E689D5B95E89BBA6550B766A3583084461CC0206C 0xDF6B810D6901E9B7AE38B077CA4A9169A8F16537353F503DDF6045A1621A306F) (Point.mk 0xEB292F3B3B9837854A02F6A70FEC6B1C69C161B6E1846B8E1E1C22527B9795E4 0x8C43C25A96EEBE801696634AF145835B57131D7509111C6F5B7E9D2FAE53A0FE) :=
  scalarMultAux_step 103 0x47C513B60CFA0A4B2B5940310F 0x23E289DB067D052595ACA01887 (Point.mk 0x6B1BE987BDA7ED87915B8F87E7F0620A490704A0E754854B48D34C5AB7D4A46A 0x2EFEBBCFB78174CD9B1A85E507A4A81666B4C566EBB7B04FC4D53BB38B4DCA72) (Point.mk 0x32C9331EA26F490228D32681880D7203F72B3E4A8DE0DB1FA8F38381B2919749 0xD7CD272B34209CB5695A2F02B6F3DBB8268A4ABDAE39AB09631E97B0F290B5E3) (Point.mk 0x933212DF35843C96BA8EE98E689D5B95E89BBA6550B766A3583084461CC0206C 0xDF6B810D6901E9B7AE38B077CA4A9169A8F16537353F503DDF6045A1621A306F) (Point.mk 0xEB292F3B3B9837854A02F6A70FEC6B1C69C161B6E1846B8E1E1C22527B9795E4 0x8C43C25A96EEBE801696634AF145835B57131D7509111C6F5B7E9D2FAE53A0FE) (by decide) (by decide) (by decide) (by decide)

theorem smA154 : scalarMultAux 103 0x23E289DB067D052595ACA01887 (Point.mk 0x933212DF35843C96BA8EE98E689D5B95E89BBA6550B766A3583084461CC0206C 0xDF6B810D6901E9B7AE38B077CA4A9169A8F16537353F503DDF6045A1621A306F) (Point.mk 0xEB292F3B3B9837854A02F6A70FEC6B1C69C161B6E1846B8E1E1C22527B9795E4 0x8C43C25A96EEBE801696634AF145835B57131D7509111C6F5B7E9D2FAE53A0FE) = scalarMultAux 102 0x11F144ED833E8292CAD6500C43 (Point.mk 0xC35FC0D247579ABA20B347CDC0E2293D601BE91D6C20BCA26D2D8000AA270545 0xD2774250E3913FE86393B4C4CC0E6310FC29A61CBDA3A9BAA23860A6A6F12086) (Point.mk 0xA65A3A01DF3B5EF2E620D4310049FBE14D71457F19D1ED35AEA39D5789303FDD 0x798EA0940CFF5C6FB8F43D8D90ED2C7686861D024FAED3CADAD44A8D02E68703) :=
  scalarMultAux_step 102 0x23E289DB067D052595ACA01887 0x11F144ED833E8292CAD6500C43 (Point.mk 0x933212DF35843C96BA8EE98E689D5B95E89BBA6550B766A3583084461CC0206C 0xDF6B810D6901E9B7AE38B077CA4A9169A8F16537353F503DDF6045A1621A306F) (Point.mk 0xEB292F3B3B9837854A02F6A70FEC6B1C69C161B6E1846B8E1E1C22527B9795E4 0x8C43C25A96EEBE801696634AF145835B57131D7509111C6F5B7E9D2FAE53A0FE) (Point.mk 0xC35FC0D247579ABA20B347CDC0E2293D601BE91D6C20BCA26D2D8000AA270545 0xD2774250E3913FE86393B4C4CC0E6310FC29A61CBDA3A9BAA23860A6A6F12086) (Point.mk 0xA65A3A01DF3B5EF2E620D4310049FBE14D71457F19D1ED35AEA39D5789303FDD 0x798EA0940CFF5C6FB8F43D8D90ED2C7686861D024FAED3CADAD44A8D02E68703) (by decide) (by decide) (by decide) (by decide)

theorem smA155 : scalarMultAux 102 0x11F144ED833E8292CAD6500C43 (Point.mk 0xC35FC0D247579ABA20B347CDC0E2293D601BE91D6C20BCA26D2D8000AA270545 0xD2774250E3913FE86393B4C4CC0E6310FC29A61CBDA3A9BAA23860A6A6F12086) (Point.mk 0xA65A3A01DF3B5EF2E620D4310049FBE14D71457F19D1ED35AEA39D5789303FDD 0x798EA0940CFF5C6FB8F43D8D90ED2C7686861D024FAED3CADAD44A8D02E68703) = scalarMultAux 101 0x8F8A276C19F4149656B280621 (Point.mk 0x50DB7E0B9C644D232A40D20CA017887750168740D64BDE72621579C310303BD5 0x73936F8785360CF8E31CB3D2CF0940A4E8F1DAF068599C023FF8D24EC84E25BD) (Point.mk 0x4DF9C14919CDE61F6D51DFDBE5FEE5DCEEC4143BA8D1CA888E8BD373FD054C96 0x0035EC51092D8728050974C23A1D85D4B5D506CDC288490192EBAC06CAD10D5D) :=
  scalarMultAux_step 101 0x11F144ED833E8292CAD6500C43 0x8F8A276C19F4149656B280621 (Point.mk 0xC35FC0D247579ABA20B347CDC0E2293D601BE91D6C20BCA26D2D8000AA270545 0xD2774250E3913FE86393B4C4CC0E6310FC29A61CBDA3A9BAA23860A6A6F12086) (Point.mk 0xA65A3A01DF3B5EF2E620D4310049FBE14D71457F19D1ED35AEA39D5789303FDD 0x798EA0940CFF5C6FB8F43D8D90ED2C7686861D024FAED3CADAD44A8D02E68703) (Point.mk 0x50DB7E0B9C644D232A40D20CA017887750168740D64BDE72621579C310303BD5 0x73936F8785360CF8E31CB3D2CF0940A4E8F1DAF068599C023FF8D24EC84E25BD) (Point.mk 0x4DF9C14919CDE61F6D51DFDBE5FEE5DCEEC4143BA8D1CA888E8BD373FD054C96 0x0035EC51092D8728050974C23A1D85D4B5D506CDC288490192EBAC06CAD10D5D) (by decide) (by decide) (by decide) (by decide)

theorem smA156 : scalarMultAux 101 0x8F8A276C19F4149656B280621 (Point.mk 0x50DB7E0B9C644D232A40D20CA017887750168740D64BDE72621579C310303BD5 0x73936F8785360CF8E31CB3D2CF0940A4E8F1DAF068599C023FF8D24EC84E25BD) (Point.mk 0x4DF9C14919CDE61F6D51DFDBE5FEE5DCEEC4143BA8D1CA888E8BD373FD054C96 0x0035EC51092D8728050974C23A1D85D4B5D506CDC288490192EBAC06CAD10D5D) = scalarMultAux 100 0x47C513B60CFA0A4B2B5940310 (Point.mk 0x9799633978247BD5E89F9895E6F780528F174669885F8DF396AC9CB17E262710 0xDD4499914B0B5F2DB9698482CBD6B5ED862F96E8E4DA0DF03A33B41049FDEA12) (Point.mk 0xED32CAD8D2CC998CD25317D4E4B87088E9DE4554E57A8D70C0C6B0FC1DA49E04 0x129FEF5F1D030204A541CA375859D20B52DA9FACB49FAB7DB63120D17C1DB9E0) :=
  scalarMultAux_step 100 0x8F8A276C19F4149656B280621 0x47C513B60CFA0A4B2B5940310 (Point.mk 0x50DB7E0B9C644D232A40D20CA017887750168740D64BDE72621579C310303BD5 0x73936F8785360CF8E31CB3D2CF0940A4E8F1DAF068599C023FF8D24EC84E25BD) (Point.mk 0x4DF9C14919CDE61F6D51DFDBE5FEE5DCEEC4143BA8D1CA888E8BD373FD054C96 0x0035EC51092D8728050974C23A1D85D4B5D506CDC288490192EBAC06CAD10D5D) (Point.mk 0x9799633978247BD5E89F9895E6F780528F174669885F8DF396AC9CB17E262710 0xDD4499914B0B5F2DB9698482CBD6B5ED862F96E8E4DA0DF03A33B41049FDEA12) (Point.mk 0xED32CAD8D2CC998CD25317D4E4B87088E9DE4554E57A8D70C0C6B0FC1DA49E04 0x129FEF5F1D030204A541CA375859D20B52DA9FACB49FAB7DB63120D17C1DB9E0) (by decide) (by decide) (by decide) (by decide)

theorem smA157 : scalarMultAux 100 0x47C513B60CFA0A4B2B5940310 (Point.mk 0x9799633978247BD5E89F9895E6F780528F174669885F8DF396AC9CB17E262710 0xDD4499914B0B5F2DB9698482CBD6B5ED862F96E8E4DA0DF03A33B41049FDEA12) (Point.mk 0xED32CAD8D2CC998CD25317D4E4B87088E9DE4554E57A8D70C0C6B0FC1DA49E04 0x129FEF5F1D030204A541CA375859D20B52DA9FACB49FAB7DB63120D17C1DB9E0) = scalarMultAux 99 0x23E289DB067D052595ACA0188 (Point.mk 0x9799633978247BD5E89F9895E6F780528F174669885F8DF396AC9CB17E262710 0xDD4499914B0B5F2DB9698482CBD6B5ED862F96E8E4DA0DF03A33B41049FDEA12) (Point.mk 0xE821AB724D6360F18049E4111C70366E28C36DCB63C34016CB7418D4E883F855 0xADEFCBF863F53CE367D0D4115416CF598B3B19C614EC23EFED4E0C6A59852DDF) :=
  scalarMultAux_step 99 0x47C513B60CFA0A4B2B5940310 0x23E289DB067D052595ACA0188 (Point.mk 0x9799633978247BD5E89F9895E6F780528F174669885F8DF396AC9CB17E262710 0xDD4499914B0B5F2DB9698482CBD6B5ED862F96E8E4DA0DF03A33B41049FDEA12) (Point.mk 0xED32CAD8D2CC998CD25317D4E4B87088E9DE4554E57A8D70C0C6B0FC1DA49E04 0x129FEF5F1D030204A541CA375859D20B52DA9FACB49FAB7DB63120D17C1DB9E0) (Point.mk 0x9799633978247BD5E89F9895E6F780528F174669885F8DF396AC9CB17E262710 0xDD4499914B0B5F2DB9698482CBD6B5ED862F96E8E4DA0DF03A33B41049FDEA12) (Point.mk 0xE821AB724D6360F18049E4111C70366E28C36DCB63C34016CB7418D4E883F855 0xADEFCBF863F53CE367D0D4115416CF598B3B19C614EC23EFED4E0C6A59852DDF) (by decide) (by decide) (by decide) (by decide)

theorem smA158 : scalarMultAux 99 0x23E289DB067D052595ACA0188 (Point.mk 0x9799633978247BD5E89F9895E6F780528F174669885F8DF396AC9CB17E262710 0xDD4499914B0B5F2DB9698482CBD6B5ED862F96E8E4DA0DF03A33B41049FDEA12) (Point.mk 0xE821AB724D6360F18049E4111C70366E28C36DCB63C34016CB7418D4E883F855 0xADEFCBF863F53CE367D0D4115416CF598B3B19C614EC23EFED4E0C6A59852DDF) = scalarMultAux 98 0x11F144ED833E8292CAD6500C4 (Point.mk 0x9799633978247BD5E89F9895E6F780528F174669885F8DF396AC9CB17E262710 0xDD4499914B0B5F2DB9698482CBD6B5ED862F96E8E4DA0DF03A33B41049FDEA12) (Point.mk 0x3F0D8994E51AD212F455452FBC9693A72F14A547AF3806E9FBFF59EEB441742E 0xFBD76C23F28C3DC445E5CB0E847A6E0B1E205E2C3AD13D958C65363BCFECADBE) :=
  scalarMultAux_step 98 0x23E289DB067D052595ACA0188 0x11F144ED833E8292CAD6500C4 (Point.mk 0x9799633978247BD5E89F9895E6F780528F174669885F8DF396AC9CB17E262710 0xDD4499914B0B5F2DB9698482CBD6B5ED862F96E8E4DA0DF03A33B41049FDEA12) (Point.mk 0xE821AB724D6360F18049E4111C70366E28C36DCB63C34016CB7418D4E883F855 0xADEFCBF863F53CE367D0D4115416CF598B3B19C614EC23EFED4E0C6A59852DDF) (Point.mk 0x9799633978247BD5E89F9895E6F780528F174669885F8DF396AC9CB17E262710 0xDD4499914B0B5F2DB9698482CBD6B5ED862F96E8E4DA0DF03A33B41049FDEA12) (Point.mk 0x3F0D8994E51AD212F455452FBC9693A72F14A547AF3806E9FBFF59EEB441742E 0xFBD76C23F28C3DC445E5CB0E847A6E0B1E205E2C3AD13D958C65363BCFECADBE) (by decide) (by decide) (by decide) (by decide)

theorem smA159 : scalarMultAux 98 0x11F144ED833E8292CAD6500C4 (Point.mk 0x9799633978247BD5E89F9895E6F780528F174669885F8DF396AC9CB17E262710 0xDD4499914B0B5F2DB9698482CBD6B5ED862F96E8E4DA0DF03A33B41049FDEA12) (Point.mk 0x3F0D8994E51AD212F455452FBC9693A72F14A547AF3806E9FBFF59EEB441742E 0xFBD76C23F28C3DC445E5CB0E847A6E0B1E205E2C3AD13D958C65363BCFECADBE) = scalarMultAux 97 0x8F8A276C19F4149656B28062 (Point.mk 0x9799633978247BD5E89F9895E6F780528F174669885F8DF396AC9CB17E262710 0xDD4499914B0B5F2DB9698482CBD6B5ED862F96E8E4DA0DF03A33B41049FDEA12) (Point.mk 0x9C3919A84A474870FAED8A9C1CC66021523489054D7F0308CBFC99C8AC1F98CD 0xDDB84F0F4A4DDD57584F044BF260E641905326F76C64C8E6BE7E5E03D4FC599D) :=
  scalarMultAux_step 97 0x11F144ED833E8292CAD6500C4 0x8F8A276C19F4149656B28062 (Point.mk 0x9799633978247BD5E89F9895E6F780528F174669885F8DF396AC9CB17E262710 0xDD4499914B0B5F2DB9698482CBD6B5ED862F96E8E4DA0DF03A33B41049FDEA12) (Point.mk 0x3F0D8994E51AD212F455452FBC9693A72F14A547AF3806E9FBFF59EEB441742E 0xFBD76C23F28C3DC445E5CB0E847A6E0B1E205E2C3AD13D958C65363BCFECADBE) (Point.mk 0x9799633978247BD5E89F9895E6F780528F174669885F8DF396AC9CB17E262710 0xDD4499914B0B5F2DB9698482CBD6B5ED862F96E8E4DA0DF03A33B41049FDEA12) (Point.mk 0x9C3919A84A474870FAED8A9C1CC66021523489054D7F0308CBFC99C8AC1F98CD 0xDDB84F0F4A4DDD57584F044BF260E641905326F76C64C8E6BE7E5E03D4FC599D) (by decide) (by decide) (by decide) (by decide)

theorem smA160 : scalarMultAux 97 0x8F8A276C19F4149656B28062 (Point.mk 0x9799633978247BD5E89F9895E6F780528F174669885F8DF396AC9CB17E262710 0xDD4499914B0B5F2DB9698482CBD6B5ED862F96E8E4DA0DF03A33B41049FDEA12) (Point.mk 0x9C3919A84A474870FAED8A9C1CC66021523489054D7F0308CBFC99C8AC1F98CD 0xDDB84F0F4A4DDD57584F044BF260E641905326F76C64C8E6BE7E5E03D4FC599D) = scalarMultAux 96 0x47C513B60CFA0A4B2B594031 (Point.mk 0x9799633978247BD5E89F9895E6F780528F174669885F8DF396AC9CB17E262710 0xDD4499914B0B5F2DB9698482CBD6B5ED862F96E8E4DA0DF03A33B41049FDEA12) (Point.mk 0x2E3C05326255D80F0A42FC69D5C92AA40CD326A53E8535F0435EFB7B694A09EC 0x001FF891656C6FB5BDDAE240B82FC1ABE048A53C707B66512534868188C7327E) :=
  scalarMultAux_step 96 0x8F8A276C19F4149656B28062 0x47C513B60CFA0A4B2B594031 (Point.mk 0x9799633978247BD5E89F9895E6F780528F174669885F8DF396AC9CB17E262710 0xDD4499914B0B5F2DB9698482CBD6B5ED862F96E8E4DA0DF03A33B41049FDEA12) (Point.mk 0x9C3919A84A474870FAED8A9C1CC66021523489054D7F0308CBFC99C8AC1F98CD 0xDDB84F0F4A4DDD57584F044BF260E641905326F76C64C8E6BE7E5E03D4FC599D) (Point.mk 0x9799633978247BD5E89F9895E6F780528F174669885F8DF396AC9CB17E262710 0xDD4499914B0B5F2DB9698482CBD6B5ED862F96E8E4DA0DF03A33B41049FDEA12) (Point.mk 0x2E3C05326255D80F0A42FC69D5C92AA40CD326A53E8535F0435EFB7B694A09EC 0x001FF891656C6FB5BDDAE240B82FC1ABE048A53C707B66512534868188C7327E) (by decide) (by decide) (by decide) (by decide)

theorem smA161 : scalarMultAux 96 0x47C513B60CFA0A4B2B594031 (Point.mk 0x9799633978247BD5E89F9895E6F780528F174669885F8DF396AC9CB17E262710 0xDD4499914B0B5F2DB9698482CBD6B5ED862F96E8E4DA0DF03A33B41049FDEA12) (Point.mk 0x2E3C05326255D80F0A42FC69D5C92AA40CD326A53E8535F0435EFB7B694A09EC 0x001FF891656C6FB5BDDAE240B82FC1ABE048A53C707B66512534868188C7327E) = scalarMultAux 95 0x23E289DB067D052595ACA018 (Point.mk 0x33FBAF667ED50579BD0890CE9EAE88B79B1A5969087E9B2FD6D8D033F171C973 0xB1C5A61FEDE0AE11442F5E52611CD59E0F2B12A8E47FC56321BDF69E9D334C7D) (Point.mk 0xE8E2A24CCFA41587AE15FB7E3E24DDA433710316A1908934205F19A2AB9C7CE6 0x46C983CE0C6F5D1B4CAF2B2B3BEE20596E09E603B5C27A73B2C01EB68836267C) :=
  scalarMultAux_step 95 0x47C513B60CFA0A4B2B594031 0x23E289DB067D052595ACA018 (Point.mk 0x9799633978247BD5E89F9895E6F780528F174669885F8DF396AC9CB17E262710 0xDD4499914B0B5F2DB9698482CBD6B5ED862F96E8E4DA0DF03A33B41049FDEA12) (Point.mk 0x2E3C05326255D80F0A42FC69D5C92AA40CD326A53E8535F0435EFB7B694A09EC 0x001FF891656C6FB5BDDAE240B82FC1ABE048A53C707B66512534868188C7327E) (Point.mk 0x33FBAF667ED50579BD0890CE9EAE88B79B1A5969087E9B2FD6D8D033F171C973 0xB1C5A61FEDE0AE11442F5E52611CD59E0F2B12A8E47FC56321BDF69E9D334C7D) (Point.mk 0xE8E2A24CCFA41587AE15FB7E3E24DDA433710316A1908934205F19A2AB9C7CE6 0x46C983CE0C6F5D1B4CAF2B2B3BEE20596E09E603B5C27A73B2C01EB68836267C) (by decide) (by decide) (by decide) (by decide)

theorem smA162 : scalarMultAux 95 0x23E289DB067D052595ACA018 (Point.mk 0x33FBAF667ED50579BD0890CE9EAE88B79B1A5969087E9B2FD6D8D033F171C973 0xB1C5A61FEDE0AE11442F5E52611CD59E0F2B12A8E47FC56321BDF69E9D334C7D) (Point.mk 0xE8E2A24CCFA41587AE15FB7E3E24DDA433710316A1908934205F19A2AB9C7CE6 0x46C983CE0C6F5D1B4CAF2B2B3BEE20596E09E603B5C27A73B2C01EB68836267C) = scalarMultAux 94 0x11F144ED833E8292CAD6500C (Point.mk 0x33FBAF667ED50579BD0890CE9EAE88B79B1A5969087E9B2FD6D8D033F171C973 0xB1C5A61FEDE0AE11442F5E52611CD59E0F2B12A8E47FC56321BDF69E9D334C7D) (Point.mk 0xA7549AAC5D8573C2B2F0A38B170032A212ACAF92383D5B5F5B0D39668AC7B3C2 0xBD17D1B90D1C2415335A1D70C1947D2B5D6B5115537116DFFA0C91719287EAEF) :=
  scalarMultAux_step 94 0x23E289DB067D052595ACA018 0x11F144ED833E8292CAD6500C (Point.mk 0x33FBAF667ED50579BD0890CE9EAE88B79B1A5969087E9B2FD6D8D033F171C973 0xB1C5A61FEDE0AE11442F5E52611CD59E0F2B12A8E47FC56321BDF69E9D334C7D) (Point.mk 0xE8E2A24CCFA41587AE15FB7E3E24DDA433710316A1908934205F19A2AB9C7CE6 0x46C983CE0C6F5D1B4CAF2B2B3BEE20596E09E603B5C27A73B2C01EB68836267C) (Point.mk 0x33FBAF667ED50579BD0890CE9EAE88B79B1A5969087E9B2FD6D8D033F171C973 0xB1C5A61FEDE0AE11442F5E52611CD59E0F2B12A8E47FC56321BDF69E9D334C7D) (Point.mk 0xA7549AAC5D8573C2B2F0A38B170032A212ACAF92383D5B5F5B0D39668AC7B3C2 0xBD17D1B90D1C2415335A1D70C1947D2B5D6B5115537116DFFA0C91719287EAEF) (by decide) (by decide) (by decide) (by decide)

theorem smA163 : scalarMultAux 94 0x11F144ED833E8292CAD6500C (Point.mk 0x33FBAF667ED50579BD0890CE9EAE88B79B1A5969087E9B2FD6D8D033F171C973 0xB1C5A61FEDE0AE11442F5E52611CD59E0F2B12A8E47FC56321BDF69E9D334C7D) (Point.mk 0xA7549AAC5D8573C2B2F0A38B170032A212ACAF92383D5B5F5B0D39668AC7B3C2 0xBD17D1B90D1C2415335A1D70C1947D2B5D6B5115537116DFFA0C91719287EAEF) = scalarMultAux 93 0x8F8A276C19F4149656B2806 (Point.mk 0x33FBAF667ED50579BD0890CE9EAE88B79B1A5969087E9B2FD6D8D033F171C973 0xB1C5A61FEDE0AE11442F5E52611CD59E0F2B12A8E47FC56321BDF69E9D334C7D) (Point.mk 0x6057170B1DD12FDF8DE05F281D8E06BB91E1493A8B91D4CC5A21382120A959E5 0x9A1AF0B26A6A4807ADD9A2DAF71DF262465152BC3EE24C65E899BE932385A2A8) :=
  scalarMultAux_step 93 0x11F144ED833E8292CAD6500C 0x8F8A276C19F4149656B2806 (Point.mk 0x33FBAF667ED50579BD0890CE9EAE88B79B1A5969087E9B2FD6D8D033F171C973 0xB1C5A61FEDE0AE11442F5E52611CD59E0F2B12A8E47FC56321BDF69E9D334C7D) (Point.mk 0xA7549AAC5D8573C2B2F0A38B170032A212ACAF92383D5B5F5B0D39668AC7B3C2 0xBD17D1B90D1C2415335A1D70C1947D2B5D6B5115537116DFFA0C91719287EAEF) (Point.mk 0x33FBAF667ED50579BD0890CE9EAE88B79B1A5969087E9B2FD6D8D033F171C973 0xB1C5A61FEDE0AE11442F5E52611CD59E0F2B12A8E47FC56321BDF69E9D334C7D) (Point.mk 0x6057170B1DD12FDF8DE05F281D8E06BB91E1493A8B91D4CC5A21382120A959E5 0x9A1AF0B26A6A4807ADD9A2DAF71DF262465152BC3EE24C65E899BE932385A2A8) (by decide) (by decide) (by decide) (by decide)

theorem smA164 : scalarMultAux 93 0x8F8A276C19F4149656B2806 (Point.mk 0x33FBAF667ED50579BD0890CE9EAE88B79B1A5969087E9B2FD6D8D033F171C973 0xB1C5A61FEDE0AE11442F5E52611CD59E0F2B12A8E47FC56321BDF69E9D334C7D) (Point.mk 0x6057170B1DD12FDF8DE05F281D8E06BB91E1493A8B91D4CC5A21382120A959E5 0x9A1AF0B26A6A4807ADD9A2DAF71DF262465152BC3EE24C65E899BE932385A2A8) = scalarMultAux 92 0x47C513B60CFA0A4B2B59403 (Point.mk 0x33FBAF667ED50579BD0890CE9EAE88B79B1A5969087E9B2FD6D8D033F171C973 0xB1C5A61FEDE0AE11442F5E52611CD59E0F2B12A8E47FC56321BDF69E9D334C7D) (Point.mk 0x6773FD677C52E0640394110A46DC85DF7C133F8DD4A28E661899CA5D82FD545C 0x444EB6D8CD97652F0F0F25C9DD2B246BEAD780F5A1C6CF98E8C7F034947EB1AE) :=
  scalarMultAux_step 92 0x8F8A276C19F4149656B2806 0x47C513B60CFA0A4B2B59403 (Point.mk 0x33FBAF667ED50579BD0890CE9EAE88B79B1A5969087E9B2FD6D8D033F171C973 0xB1C5A61FEDE0AE11442F5E52611CD59E0F2B12A8E47FC56321BDF69E9D334C7D) (Point.mk 0x6057170B1DD12FDF8DE05F281D8E06BB91E1493A8B91D4CC5A21382120A959E5 0x9A1AF0B26A6A4807ADD9A2DAF71DF262465152BC3EE24C65E899BE932385A2A8) (Point.mk 0x33FBAF667ED50579BD0890CE9EAE88B79B1A5969087E9B2FD6D8D033F171C973 0xB1C5A61FEDE0AE11442F5E52611CD59E0F2B12A8E47FC56321BDF69E9D334C7D) (Point.mk 0x6773FD677C52E0640394110A46DC85DF7C133F8DD4A28E661899CA5D82FD545C 0x444EB6D8CD97652F0F0F25C9DD2B246BEAD780F5A1C6CF98E8C7F034947EB1AE) (by decide) (by decide) (by decide) (by decide)

theorem smA165 : scalarMultAux 92 0x47C513B60CFA0A4B2B59403 (Point.mk 0x33FBAF667ED50579BD0890CE9EAE88B79B1A5969087E9B2FD6D8D033F171C973 0xB1C5A61FEDE0AE11442F5E52611CD59E0F2B12A8E47FC56321BDF69E9D334C7D) (Point.mk 0x6773FD677C52E0640394110A46DC85DF7C133F8DD4A28E661899CA5D82FD545C 0x444EB6D8CD97652F0F0F25C9DD2B246BEAD780F5A1C6CF98E8C7F034947EB1AE) = scalarMultAux 91 0x23E289DB067D052595ACA01 (Point.mk 0x358225A10A9F3BD16A860EB2B7D74E5723BDD32A4039218A70507312B8E417E6 0x36E5B9812119BF5A73042D22BCDB0FE43AC7FAC261A76B89E09E59765E22D6EC) (Point.mk 0xE0F86D94D17CE565237C79AACE0C87C20374E43810468050373C616B0B86F021 0x0C571C73730ABCF47A91E832F1C89A2C9A80BCC0115FC45B3B6B79CCB5BF325A) :=
  scalarMultAux_step 91 0x47C513B60CFA0A4B2B59403 0x23E289DB067D052595ACA01 (Point.mk 0x33FBAF667ED50579BD0890CE9EAE88B79B1A5969087E9B2FD6D8D033F171C973 0xB1C5A61FEDE0AE11442F5E52611CD59E0F2B12A8E47FC56321BDF69E9D334C7D) (Point.mk 0x6773FD677C52E0640394110A46DC85DF7C133F8DD4A28E661899CA5D82FD545C 0x444EB6D8CD97652F0F0F25C9DD2B246BEAD780F5A1C6CF98E8C7F034947EB1AE) (Point.mk 0x358225A10A9F3BD16A860EB2B7D74E5723BDD32A4039218A70507312B8E417E6 0x36E5B9812119BF5A73042D22BCDB0FE43AC7FAC261A76B89E09E59765E22D6EC) (Point.mk 0xE0F86D94D17CE565237C79AACE0C87C20374E43810468050373C616B0B86F021 0x0C571C73730ABCF47A91E832F1C89A2C9A80BCC0115FC45B3B6B79CCB5BF325A) (by decide) (by decide) (by decide) (by decide)

theorem smA166 : scalarMultAux 91 0x23E289DB067D052595ACA01 (Point.mk 0x358225A10A9F3BD16A860EB2B7D74E5723BDD32A4039218A70507312B8E417E6 0x36E5B9812119BF5A73042D22BCDB0FE43AC7FAC261A76B89E09E59765E22D6EC) (Point.mk 0xE0F86D94D17CE565237C79AACE0C87C20374E43810468050373C616B0B86F021 0x0C571C73730ABCF47A91E832F1C89A2C9A80BCC0115FC45B3B6B79CCB5BF325A) = scalarMultAux 90 0x11F144ED833E8292CAD6500 (Point.mk 0x1CEEDE8296E99FE5E5A632B27BEA5CAFE891768C869A152CD4815A9FC027BBF1 0x1CAD779A0A66EBCD8303BFE5C2FF4C0950A35BBBCF51713499A3219EC0EC126F) (Point.mk 0x42CA15AB9F245041CE991E193D696F4F4C277DF908CAD6038AD0772C02DA6E03 0x68D2EF26C81C57C9647CE4D1FCB800EED66E85A68106BEA7836889FA8C347793) :=
  scalarMultAux_step 90 0x23E289DB067D052595ACA01 0x11F144ED833E8292CAD6500 (Point.mk 0x358225A10A9F3BD16A860EB2B7D74E5723BDD32A4039218A70507312B8E417E6 0x36E5B9812119BF5A73042D22BCDB0FE43AC7FAC261A76B89E09E59765E22D6EC) (Point.mk 0xE0F86D94D17CE565237C79AACE0C87C20374E43810468050373C616B0B86F021 0x0C571C73730ABCF47A91E832F1C89A2C9A80BCC0115FC45B3B6B79CCB5BF325A) (Point.mk 0x1CEEDE8296E99FE5E5A632B27BEA5CAFE891768C869A152CD4815A9FC027BBF1 0x1CAD779A0A66EBCD8303BFE5C2FF4C0950A35BBBCF51713499A3219EC0EC126F) (Point.mk 0x42CA15AB9F245041CE991E193D696F4F4C277DF908CAD6038AD0772C02DA6E03 0x68D2EF26C81C57C9647CE4D1FCB800EED66E85A68106BEA7836889FA8C347793) (by decide) (by decide) (by decide) (by decide)

theorem smA167 : scalarMultAux 90 0x11F144ED833E8292CAD6500 (Point.mk 0x1CEEDE8296E99FE5E5A632B27BEA5CAFE891768C869A152CD4815A9FC027BBF1 0x1CAD779A0A66EBCD8303BFE5C2FF4C0950A35BBBCF51713499A3219EC0EC126F) (Point.mk 0x42CA15AB9F245041CE991E193D696F4F4C277DF908CAD6038AD0772C02DA6E03 0x68D2EF26C81C57C9647CE4D1FCB800EED66E85A68106BEA7836889FA8C347793) = scalarMultAux 89 0x8F8A276C19F4149656B280 (Point.mk 0x1CEEDE8296E99FE5E5A632B27BEA5CAFE891768C869A152CD4815A9FC027BBF1 0x1CAD779A0A66EBCD8303BFE5C2FF4C0950A35BBBCF51713499A3219EC0EC126F) (Point.mk 0xA576DF8E23A08411421439A4518DA31880CEF0FBA7D4DF12B1A6973EECB94266 0x40A6BF20E76640B2C92B97AFE58CD82C432E10A7F514D9F3EE8BE11AE1B28EC8) :=
  scalarMultAux_step 89 0x11F144ED833E8292CAD6500 0x8F8A276C19F4149656B280 (Point.mk 0x1CEEDE8296E99FE5E5A632B27BEA5CAFE891768C869A152CD4815A9FC027BBF1 0x1CAD779A0A66EBCD8303BFE5C2FF4C0950A35BBBCF51713499A3219EC0EC126F) (Point.mk 0x42CA15AB9F245041CE991E193D696F4F4C277DF908CAD6038AD0772C02DA6E03 0x68D2EF26C81C57C9647CE4D1FCB800EED66E85A68106BEA7836889FA8C347793) (Point.mk 0x1CEEDE8296E99FE5E5A632B27BEA5CAFE891768C869A152CD4815A9FC027BBF1 0x1CAD779A0A66EBCD8303BFE5C2FF4C0950A35BBBCF51713499A3219EC0EC126F) (Point.mk 0xA576DF8E23A08411421439A4518DA31880CEF0FBA7D4DF12B1A6973EECB94266 0x40A6BF20E76640B2C92B97AFE58CD82C432E10A7F514D9F3EE8BE11AE1B28EC8) (by decide) (by decide) (by decide) (by decide)

theorem smA168 : scalarMultAux 89 0x8F8A276C19F4149656B280 (Point.mk 0x1CEEDE8296E99FE5E5A632B27BEA5CAFE891768C869A152CD4815A9FC027BBF1 0x1CAD779A0A66EBCD8303BFE5C2FF4C0950A35BBBCF51713499A3219EC0EC126F) (Point.mk 0xA576DF8E23A08411421439A4518DA31880CEF0FBA7D4DF12B1A6973EECB94266 0x40A6BF20E76640B2C92B97AFE58CD82C432E10A7F514D9F3EE8BE11AE1B28EC8) = scalarMultAux 88 0x47C513B60CFA0A4B2B5940 (Point.mk 0x1CEEDE8296E99FE5E5A632B27BEA5CAFE891768C869A152CD4815A9FC027BBF1 0x1CAD779A0A66EBCD8303BFE5C2FF4C0950A35BBBCF51713499A3219EC0EC126F) (Point.mk 0x9E5DCC62EF3B5A3B546520867BE71BAE6F3BA063C9ACFB8DCEC5725BDA704896 0x6FEDD12DDB925F3EA5FD3A2154C7612279605D186030F51248F2769DCA82C835) :=
  scalarMultAux_step 88 0x8F8A276C19F4149656B280 0x47C513B60CFA0A4B2B5940 (Point.mk 0x1CEEDE8296E99FE5E5A632B27BEA5CAFE891768C869A152CD4815A9FC027BBF1 0x1CAD779A0A66EBCD8303BFE5C2FF4C0950A35BBBCF51713499A3219EC0EC126F) (Point.mk 0xA576DF8E23A08411421439A4518DA31880CEF0FBA7D4DF12B1A6973EECB94266 0x40A6BF20E76640B2C92B97AFE58CD82C432E10A7F514D9F3EE8BE11AE1B28EC8) (Point.mk 0x1CEEDE8296E99FE5E5A632B27BEA5CAFE891768C869A152CD4815A9FC027BBF1 0x1CAD779A0A66EBCD8303BFE5C2FF4C0950A35BBBCF51713499A3219EC0EC126F) (Point.mk 0x9E5DCC62EF3B5A3B546520867BE71BAE6F3BA063C9ACFB8DCEC5725BDA704896 0x6FEDD12DDB925F3EA5FD3A2154C7612279605D186030F51248F2769DCA82C835) (by decide) (by decide) (by decide) (by decide)

theorem smA169 : scalarMultAux 88 0x47C513B60CFA0A4B2B5940 (Point.mk 0x1CEEDE8296E99FE5E5A632B27BEA5CAFE891768C869A152CD4815A9FC027BBF1 0x1CAD779A0A66EBCD8303BFE5C2FF4C0950A35BBBCF51713499A3219EC0EC126F) (Point.mk 0x9E5DCC62EF3B5A3B546520867BE71BAE6F3BA063C9ACFB8DCEC5725BDA704896 0x6FEDD12DDB925F3EA5FD3A2154C7612279605D186030F51248F2769DCA82C835) = scalarMultAux 87 0x23E289DB067D052595ACA0 (Point.mk 0x1CEEDE8296E99FE5E5A632B27BEA5CAFE891768C869A152CD4815A9FC027BBF1 0x1CAD779A0A66EBCD8303BFE5C2FF4C0950A35BBBCF51713499A3219EC0EC126F) (Point.mk 0xA7DE08375B8745ADF8D6E9F976F03B20E33625A05CEF5833953ED58744BF7EA0 0xA63D96B057ADA5E52104A0B334888E9A645A47C0FEBC5AA2E04C05539BBCABAA) :=
  scalarMultAux_step 87 0x47C513B60CFA0A4B2B5940 0x23E289DB067D052595ACA0 (Point.mk 0x1CEEDE8296E99FE5E5A632B27BEA5CAFE891768C869A152CD4815A9FC027BBF1 0x1CAD779A0A66EBCD8303BFE5C2FF4C0950A35BBBCF51713499A3219EC0EC126F) (Point.mk 0x9E5DCC62EF3B5A3B546520867BE71BAE6F3BA063C9ACFB8DCEC5725BDA704896 0x6FEDD12DDB925F3EA5FD3A2154C7612279605D186030F51248F2769DCA82C835) (Point.mk 0x1CEEDE8296E99FE5E5A632B27BEA5CAFE891768C869A152CD4815A9FC027BBF1 0x1CAD779A0A66EBCD8303BFE5C2FF4C0950A35BBBCF51713499A3219EC0EC126F) (Point.mk 0xA7DE08375B8745ADF8D6E9F976F03B20E33625A05CEF5833953ED58744BF7EA0 0xA63D96B057ADA5E52104A0B334888E9A645A47C0FEBC5AA2E04C05539BBCABAA) (by decide) (by decide) (by decide) (by decide)

theorem smA170 : scalarMultAux 87 0x23E289DB067D052595ACA0 (Point.mk 0x1CEEDE8296E99FE5E5A632B27BEA5CAFE891768C869A152CD4815A9FC027BBF1 0x1CAD779A0A66EBCD8303BFE5C2FF4C0950A35BBBCF51713499A3219EC0EC126F) (Point.mk 0xA7DE08375B8745ADF8D6E9F976F03B20E33625A05CEF5833953ED58744BF7EA0 0xA63D96B057ADA5E52104A0B334888E9A645A47C0FEBC5AA2E04C05539BBCABAA) = scalarMultAux 86 0x11F144ED833E8292CAD650 (Point.mk 0x1CEEDE8296E99FE5E5A632B27BEA5CAFE891768C869A152CD4815A9FC027BBF1 0x1CAD779A0A66EBCD8303BFE5C2FF4C0950A35BBBCF51713499A3219EC0EC126F) (Point.mk 0xC266658E689080C9C13C35AC01CFF4CBE68065FDE949E4A3A9F8FA104AD916FB 0xE7E8593854E7DAAB0F798170B24627AB6B8FECDFEB61138856AEF52BA0887814) :=
  scalarMultAux_step 86 0x23E289DB067D052595ACA0 0x11F144ED833E8292CAD650 (Point.mk 0x1CEEDE8296E99FE5E5A632B27BEA5CAFE891768C869A152CD4815A9FC027BBF1 0x1CAD779A0A66EBCD8303BFE5C2FF4C0950A35BBBCF51713499A3219EC0EC126F) (Point.mk 0xA7DE08375B8745ADF8D6E9F976F03B20E33625A05CEF5833953ED58744BF7EA0 0xA63D96B057ADA5E52104A0B334888E9A645A47C0FEBC5AA2E04C05539BBCABAA) (Point.mk 0x1CEEDE8296E99FE5E5A632B27BEA5CAFE891768C869A152CD4815A9FC027BBF1 0x1CAD779A0A66EBCD8303BFE5C2FF4C0950A35BBBCF51713499A3219EC0EC126F) (Point.mk 0xC266658E689080C9C13C35AC01CFF4CBE68065FDE949E4A3A9F8FA104AD916FB 0xE7E8593854E7DAAB0F798170B24627AB6B8FECDFEB61138856AEF52BA0887814) (by decide) (by decide) (by decide) (by decide)

theorem smA171 : scalarMultAux 86 0x11F144ED833E8292CAD650 (Point.mk 0x1CEEDE8296E99FE5E5A632B27BEA5CAFE891768C869A152CD4815A9FC027BBF1 0x1CAD779A0A66EBCD8303BFE5C2FF4C0950A35BBBCF51713499A3219EC0EC126F) (Point.mk 0xC266658E689080C9C13C35AC01CFF4CBE68065FDE949E4A3A9F8FA104AD916FB 0xE7E8593854E7DAAB0F798170B24627AB6B8FECDFEB61138856AEF52BA0887814) = scalarMultAux 85 0x8F8A276C19F4149656B28 (Point.mk 0x1CEEDE8296E99FE5E5A632B27BEA5CAFE891768C869A152CD4815A9FC027BBF1 0x1CAD779A0A66EBCD8303BFE5C2FF4C0950A35BBBCF51713499A3219EC0EC126F) (Point.mk 0x7778A78C28DEC3E30A05FE9629DE8C38BB30D1F5CF9A3A208F763889BE58AD71 0x34626D9AB5A5B22FF7098E12F2FF580087B38411FF24AC563B513FC1FD9F43AC) :=
  scalarMultAux_step 85 0x11F144ED833E8292CAD650 0x8F8A276C19F4149656B28 (Point.mk 0x1CEEDE8296E99FE5E5A632B27BEA5CAFE891768C869A152CD4815A9FC027BBF1 0x1CAD779A0A66EBCD8303BFE5C2FF4C0950A35BBBCF51713499A3219EC0EC126F) (Point.mk 0xC266658E689080C9C13C35AC01CFF4CBE68065FDE949E4A3A9F8FA104AD916FB 0xE7E8593854E7DAAB0F798170B24627AB6B8FECDFEB61138856AEF52BA0887814) (Point.mk 0x1CEEDE8296E99FE5E5A632B27BEA5CAFE891768C869A152CD4815A9FC027BBF1 0x1CAD779A0A66EBCD8303BFE5C2FF4C0950A35BBBCF51713499A3219EC0EC126F) (Point.mk 0x7778A78C28DEC3E30A05FE9629DE8C38BB30D1F5CF9A3A208F763889BE58AD71 0x34626D9AB5A5B22FF7098E12F2FF580087B38411FF24AC563B513FC1FD9F43AC) (by decide) (by decide) (by decide) (by decide)

theorem smA172 : scalarMultAux 85 0x8F8A276C19F4149656B28 (Point.mk 0x1CEEDE8296E99FE5E5A632B27BEA5CAFE891768C869A152CD4815A9FC027BBF1 0x1CAD779A0A66EBCD8303BFE5C2FF4C0950A35BBBCF51713499A3219EC0EC126F) (Point.mk 0x7778A78C28DEC3E30A05FE9629DE8C38BB30D1F5CF9A3A208F763889BE58AD71 0x34626D9AB5A5B22FF7098E12F2FF580087B38411FF24AC563B513FC1FD9F43AC) = scalarMultAux 84 0x47C513B60CFA0A4B2B594 (Point.mk 0x1CEEDE8296E99FE5E5A632B27BEA5CAFE891768C869A152CD4815A9FC027BBF1 0x1CAD779A0A66EBCD8303BFE5C2FF4C0950A35BBBCF51713499A3219EC0EC126F) (Point.mk 0xE7B9796B5CA006D1632F482D7F0FE3932CF16A5AE104EEA7A7EA1C251073E879 0x12B8988C19169E2FDF42102A737CC1CA9CB5BF25EDA98AF338E71089BAA89D98) :=
  scalarMultAux_step 84 0x8F8A276C19F4149656B28 0x47C513B60CFA0A4B2B594 (Point.mk 0x1CEEDE8296E99FE5E5A632B27BEA5CAFE891768C869A152CD4815A9FC027BBF1 0x1CAD779A0A66EBCD8303BFE5C2FF4C0950A35BBBCF51713499A3219EC0EC126F) (Point.mk 0x7778A78C28DEC3E30A05FE9629DE8C38BB30D1F5CF9A3A208F763889BE58AD71 0x34626D9AB5A5B22FF7098E12F2FF580087B38411FF24AC563B513FC1FD9F43AC) (Point.mk 0x1CEEDE8296E99FE5E5A632B27BEA5CAFE891768C869A152CD4815A9FC027BBF1 0x1CAD779A0A66EBCD8303BFE5C2FF4C0950A35BBBCF51713499A3219EC0EC126F) (Point.mk 0xE7B9796B5CA006D1632F482D7F0FE3932CF16A5AE104EEA7A7EA1C251073E879 0x12B8988C19169E2FDF42102A737CC1CA9CB5BF25EDA98AF338E71089BAA89D98) (by decide) (by decide) (by decide) (by decide)

theorem smA173 : scalarMultAux 84 0x47C513B60CFA0A4B2B594 (Point.mk 0x1CEEDE8296E99FE5E5A632B27BEA5CAFE891768C869A152CD4815A9FC027BBF1 0x1CAD779A0A66EBCD8303BFE5C2FF4C0950A35BBBCF51713499A3219EC0EC126F) (Point.mk 0xE7B9796B5CA006D1632F482D7F0FE3932CF16A5AE104EEA7A7EA1C251073E879 0x12B8988C19169E2FDF42102A737CC1CA9CB5BF25EDA98AF338E71089BAA89D98) = scalarMultAux 83 0x23E289DB067D052595ACA (Point.mk 0x1CEEDE8296E99FE5E5A632B27BEA5CAFE891768C869A152CD4815A9FC027BBF1 0x1CAD779A0A66EBCD8303BFE5C2FF4C0950A35BBBCF51713499A3219EC0EC126F) (Point.mk 0x071BF01850876203C2C915A24BE09A7365423DAAF2AEE919865D722BF2628F0F 0x527AA15D504DCF4AE33600BC1C084CE2098F9C6A231C80BBB57C5CBD45A1C334) :=
  scalarMultAux_step 83 0x47C513B60CFA0A4B2B594 0x23E289DB067D052595ACA (Point.mk 0x1CEEDE8296E99FE5E5A632B27BEA5CAFE891768C869A152CD4815A9FC027BBF1 0x1CAD779A0A66EBCD8303BFE5C2FF4C0950A35BBBCF51713499A3219EC0EC126F) (Point.mk 0xE7B9796B5CA006D1632F482D7F0FE3932CF16A5AE104EEA7A7EA1C251073E879 0x12B8988C19169E2FDF42102A737CC1CA9CB5BF25EDA98AF338E71089BAA89D98) (Point.mk 0x1CEEDE8296E99FE5E5A632B27BEA5CAFE891768C869A152CD4815A9FC027BBF1 0x1CAD779A0A66EBCD8303BFE5C2FF4C0950A35BBBCF51713499A3219EC0EC126F) (Point.mk 0x071BF01850876203C2C915A24BE09A7365423DAAF2AEE919865D722BF2628F0F 0x527AA15D504DCF4AE33600BC1C084CE2098F9C6A231C80BBB57C5CBD45A1C334) (by decide) (by decide) (by decide) (by decide)

theorem smA174 : scalarMultAux 83 0x23E289DB067D052595ACA (Point.mk 0x1CEEDE8296E99FE5E5A632B27BEA5CAFE891768C869A152CD4815A9FC027BBF1 0x1CAD779A0A66EBCD8303BFE5C2FF4C0950A35BBBCF51713499A3219EC0EC126F) (Point.mk 0x071BF01850876203C2C915A24BE09A7365423DAAF2AEE919865D722BF2628F0F 0x527AA15D504DCF4AE33600BC1C084CE2098F9C6A231C80BBB57C5CBD45A1C334) = scalarMultAux 82 0x11F144ED833E8292CAD65 (Point.mk 0x1CEEDE8296E99FE5E5A632B27BEA5CAFE891768C869A152CD4815A9FC027BBF1 0x1CAD779A0A66EBCD8303BFE5C2FF4C0950A35BBBCF51713499A3219EC0EC126F) (Point.mk 0x0218343ACB9BE56833A32E594C03C39E5B1911C8501213786F6376DFA39620E1 0xBEA81D48970A50BEAF3F24FD602FBFC0443299A42F43C9EC5E0199F6506998B5) :=
  scalarMultAux_step 82 0x23E289DB067D052595ACA 0x11F144ED833E8292CAD65 (Point.mk 0x1CEEDE8296E99FE5E5A632B27BEA5CAFE891768C869A152CD4815A9FC027BBF1 0x1CAD779A0A66EBCD8303BFE5C2FF4C0950A35BBBCF51713499A3219EC0EC126F) (Point.mk 0x071BF01850876203C2C915A24BE09A7365423DAAF2AEE919865D722BF2628F0F 0x527AA15D504DCF4AE33600BC1C084CE2098F9C6A231C80BBB57C5CBD45A1C334) (Point.mk 0x1CEEDE8296E99FE5E5A632B27BEA5CAFE891768C869A152CD4815A9FC027BBF1 0x1CAD779A0A66EBCD8303BFE5C2FF4C0950A35BBBCF51713499A3219EC0EC126F) (Point.mk 0x0218343ACB9BE56833A32E594C03C39E5B1911C8501213786F6376DFA39620E1 0xBEA81D48970A50BEAF3F24FD602FBFC0443299A42F43C9EC5E0199F6506998B5) (by decide) (by decide) (by decide) (by decide)

theorem smA175 : scalarMultAux 82 0x11F144ED833E8292CAD65 (Point.mk 0x1CEEDE8296E99FE5E5A632B27BEA5CAFE891768C869A152CD4815A9FC027BBF1 0x1CAD779A0A66EBCD8303BFE5C2FF4C0950A35BBBCF51713499A3219EC0EC126F) (Point.mk 0x0218343ACB9BE56833A32E594C03C39E5B1911C8501213786F6376DFA39620E1 0xBEA81D48970A50BEAF3F24FD602FBFC0443299A42F43C9EC5E0199F6506998B5) = scalarMultAux 81 0x8F8A276C19F4149656B2 (Point.mk 0x108D10E99AC5D3B9189B58B3490A60BC6A517DCA40CD64BB6E488FEB9DD326A2 0xA759E3CB3B5F467DC763173FB61B643AAB80F0DE23B1C6A70437FDE81AE2DF56) (Point.mk 0x0928955EE637A84463729FD30E7AFD2ED5F96274E5AD7E5CB09EDA9C06D903AC 0xC25621003D3F42A827B78A13093A95EEAC3D26EFA8A8D83FC5180E935BCD091F) :=
  scalarMultAux_step 81 0x11F144ED833E8292CAD65 0x8F8A276C19F4149656B2 (Point.mk 0x1CEEDE8296E99FE5E5A632B27BEA5CAFE891768C869A152CD4815A9FC027BBF1 0x1CAD779A0A66EBCD8303BFE5C2FF4C0950A35BBBCF51713499A3219EC0EC126F) (Point.mk 0x0218343ACB9BE56833A32E594C03C39E5B1911C8501213786F6376DFA39620E1 0xBEA81D48970A50BEAF3F24FD602FBFC0443299A42F43C9EC5E0199F6506998B5) (Point.mk 0x108D10E99AC5D3B9189B58B3490A60BC6A517DCA40CD64BB6E488FEB9DD326A2 0xA759E3CB3B5F467DC763173FB61B643AAB80F0DE23B1C6A70437FDE81AE2DF56) (Point.mk 0x0928955EE637A84463729FD30E7AFD2ED5F96274E5AD7E5CB09EDA9C06D903AC 0xC25621003D3F42A827B78A13093A95EEAC3D26EFA8A8D83FC5180E935BCD091F) (by decide) (by decide) (by decide) (by decide)

theorem smA176 : scalarMultAux 81 0x8F8A276C19F4149656B2 (Point.mk 0x108D10E99AC5D3B9189B58B3490A60BC6A517DCA40CD64BB6E488FEB9DD326A2 0xA759E3CB3B5F467DC763173FB61B643AAB80F0DE23B1C6A70437FDE81AE2DF56) (Point.mk 0x0928955EE637A84463729FD30E7AFD2ED5F96274E5AD7E5CB09EDA9C06D903AC 0xC25621003D3F42A827B78A13093A95EEAC3D26EFA8A8D83FC5180E935BCD091F) = scalarMultAux 80 0x47C513B60CFA0A4B2B59 (Point.mk 0x108D10E99AC5D3B9189B58B3490A60BC6A517DCA40CD64BB6E488FEB9DD326A2 0xA759E3CB3B5F467DC763173FB61B643AAB80F0DE23B1C6A70437FDE81AE2DF56) (Point.mk 0x4F89BDEE3771D350DAD163B04CB18AD67CE5E9C55B58F0E7231047A60F59DD9E 0xCA7952D5227A1F695C4BAF4C043BB2471E4882506638DF5C1016AE320156B049) :=
  scalarMultAux_step 80 0x8F8A276C19F4149656B2 0x47C513B60CFA0A4B2B59 (Point.mk 0x108D10E99AC5D3B9189B58B3490A60BC6A517DCA40CD64BB6E488FEB9DD326A2 0xA759E3CB3B5F467DC763173FB61B643AAB80F0DE23B1C6A70437FDE81AE2DF56) (Point.mk 0x0928955EE637A84463729FD30E7AFD2ED5F96274E5AD7E5CB09EDA9C06D903AC 0xC25621003D3F42A827B78A13093A95EEAC3D26EFA8A8D83FC5180E935BCD091F) (Point.mk 0x108D10E99AC5D3B9189B58B3490A60BC6A517DCA40CD64BB6E488FEB9DD326A2 0xA759E3CB3B5F467DC763173FB61B643AAB80F0DE23B1C6A70437FDE81AE2DF56) (Point.mk 0x4F89BDEE3771D350DAD163B04CB18AD67CE5E9C55B58F0E7231047A60F59DD9E 0xCA7952D5227A1F695C4BAF4C043BB2471E4882506638DF5C1016AE320156B049) (by decide) (by decide) (by decide) (by decide)

theorem smA177 : scalarMultAux 80 0x47C513B60CFA0A4B2B59 (Point.mk 0x108D10E99AC5D3B9189B58B3490A60BC6A517DCA40CD64BB6E488FEB9DD326A2 0xA759E3CB3B5F467DC763173FB61B643AAB80F0DE23B1C6A70437FDE81AE2DF56) (Point.mk 0x4F89BDEE3771D350DAD163B04CB18AD67CE5E9C55B58F0E7231047A60F59DD9E 0xCA7952D5227A1F695C4BAF4C043BB2471E4882506638DF5C1016AE320156B049) = scalarMultAux 79 0x23E289DB067D052595AC (Point.mk 0xB2A23F546073BD38EF82805D8B717F600E011E7759176D224287A84442C3E5AF 0x8BCBAA0B554FD314DD7288172B6823B8C704D8DFC98A548E5F2EF3C9DB18491A) (Point.mk 0xCB9E8304CAE3C5A80C396BACA2C3C4C994B668F079A245BF529C314CFFF01197 0x62C7D2801EB80E6A127258CDFF08891741B2D18C015E0A24C334E0763B989C1D) :=
  scalarMultAux_step 79 0x47C513B60CFA0A4B2B59 0x23E289DB067D052595AC (Point.mk 0x108D10E99AC5D3B9189B58B3490A60BC6A517DCA40CD64BB6E488FEB9DD326A2 0xA759E3CB3B5F467DC763173FB61B643AAB80F0DE23B1C6A70437FDE81AE2DF56) (Point.mk 0x4F89BDEE3771D350DAD163B04CB18AD67CE5E9C55B58F0E7231047A60F59DD9E 0xCA7952D5227A1F695C4BAF4C043BB2471E4882506638DF5C1016AE320156B049) (Point.mk 0xB2A23F546073BD38EF82805D8B717F600E011E7759176D224287A84442C3E5AF 0x8BCBAA0B554FD314DD7288172B6823B8C704D8DFC98A548E5F2EF3C9DB18491A) (Point.mk 0xCB9E8304CAE3C5A80C396BACA2C3C4C994B668F079A245BF529C314CFFF01197 0x62C7D2801EB80E6A127258CDFF08891741B2D18C015E0A24C334E0763B989C1D) (by decide) (by decide) (by decide) (by decide)

theorem smA178 : scalarMultAux 79 0x23E289DB067D052595AC (Point.mk 0xB2A23F546073BD38EF82805D8B717F600E011E7759176D224287A84442C3E5AF 0x8BCBAA0B554FD314DD7288172B6823B8C704D8DFC98A548E5F2EF3C9DB18491A) (Point.mk 0xCB9E8304CAE3C5A80C396BACA2C3C4C994B668F079A245BF529C314CFFF01197 0x62C7D2801EB80E6A127258CDFF08891741B2D18C015E0A24C334E0763B989C1D) = scalarMultAux 78 0x11F144ED833E8292CAD6 (Point.mk 0xB2A23F546073BD38EF82805D8B717F600E011E7759176D224287A84442C3E5AF 0x8BCBAA0B554FD314DD7288172B6823B8C704D8DFC98A548E5F2EF3C9DB18491A) (Point.mk 0xE2F349B0F89C69BD3C8CF2A410730DC58E0BEED47048C58C15F9FFC2508D2CC2 0x1FEB2F280F82723781860AEC760215BA42344BE8E09CBDB37E347BD8E0D4C04F) :=
  scalarMultAux_step 78 0x23E289DB067D052595AC 0x11F144ED833E8292CAD6 (Point.mk 0xB2A23F546073BD38EF82805D8B717F600E011E7759176D224287A84442C3E5AF 0x8BCBAA0B554FD314DD7288172B6823B8C704D8DFC98A548E5F2EF3C9DB18491A) (Point.mk 0xCB9E8304CAE3C5A80C396BACA2C3C4C994B668F079A245BF529C314CFFF01197 0x62C7D2801EB80E6A127258CDFF08891741B2D18C015E0A24C334E0763B989C1D) (Point.mk 0xB2A23F546073BD38EF82805D8B717F600E011E7759176D224287A84442C3E5AF 0x8BCBAA0B554FD314DD7288172B6823B8C704D8DFC98A548E5F2EF3C9DB18491A) (Point.mk 0xE2F349B0F89C69BD3C8CF2A410730DC58E0BEED47048C58C15F9FFC2508D2CC2 0x1FEB2F280F82723781860AEC760215BA42344BE8E09CBDB37E347BD8E0D4C04F) (by decide) (by decide) (by decide) (by decide)

theorem smA179 : scalarMultAux 78 0x11F144ED833E8292CAD6 (Point.mk 0xB2A23F546073BD38EF82805D8B717F600E011E7759176D224287A84442C3E5AF 0x8BCBAA0B554FD314DD7288172B6823B8C704D8DFC98A548E5F2EF3C9DB18491A) (Point.mk 0xE2F349B0F89C69BD3C8CF2A410730DC58E0BEED47048C58C15F9FFC2508D2CC2 0x1FEB2F280F82723781860AEC760215BA42344BE8E09CBDB37E347BD8E0D4C04F) = scalarMultAux 77 0x8F8A276C19F4149656B (Point.mk 0xB2A23F546073BD38EF82805D8B717F600E011E7759176D224287A84442C3E5AF 0x8BCBAA0B554FD314DD7288172B6823B8C704D8DFC98A548E5F2EF3C9DB18491A) (Point.mk 0x85D0FEF3EC6DB109399064F3A0E3B2855645B4A907AD354527AAE75163D82751 0x1F03648413A38C0BE29D496E582CF5663E8751E96877331582C237A24EB1F962) :=
  scalarMultAux_step 77 0x11F144ED833E8292CAD6 0x8F8A276C19F4149656B (Point.mk 0xB2A23F546073BD38EF82805D8B717F600E011E7759176D224287A84442C3E5AF 0x8BCBAA0B554FD314DD7288172B6823B8C704D8DFC98A548E5F2EF3C9DB18491A) (Point.mk 0xE2F349B0F89C69BD3C8CF2A410730DC58E0BEED47048C58C15F9FFC2508D2CC2 0x1FEB2F280F82723781860AEC760215BA42344BE8E09CBDB37E347BD8E0D4C04F) (Point.mk 0xB2A23F546073BD38EF82805D8B717F600E011E7759176D224287A84442C3E5AF 0x8BCBAA0B554FD314DD7288172B6823B8C704D8DFC98A548E5F2EF3C9DB18491A) (Point.mk 0x85D0FEF3EC6DB109399064F3A0E3B2855645B4A907AD354527AAE75163D82751 0x1F03648413A38C0BE29D496E582CF5663E8751E96877331582C237A24EB1F962) (by decide) (by decide) (by decide) (by decide)

theorem smA180 : scalarMultAux 77 0x8F8A276C19F4149656B (Point.mk 0xB2A23F546073BD38EF82805D8B717F600E011E7759176D224287A84442C3E5AF 0x8BCBAA0B554FD314DD7288172B6823B8C704D8DFC98A548E5F2EF3C9DB18491A) (Point.mk 0x85D0FEF3EC6DB109399064F3A0E3B2855645B4A907AD354527AAE75163D82751 0x1F03648413A38C0BE29D496E582CF5663E8751E96877331582C237A24EB1F962) = scalarMultAux 76 0x47C513B60CFA0A4B2B5 (Point.mk 0x87AA504C89ED647D805336214A28161FC15BBE5AFA7A2B3B8EE50F386B04C1A1 0xD671B773C5A48834F0B0E55E57C1EC7C17E88D446CDF730F6FD6122ABE3F55E4) (Point.mk 0x6B790F4B19A4C4F4F607A6CFCD11DF0468B482E009711FF756356D141D5FCADE 0xD03A981B2FF9EB3EF296661F9CAE09CBA83FA5B47BE26B0AB6FFF86FC338D3FF) :=
  scalarMultAux_step 76 0x8F8A276C19F4149656B 0x47C513B60CFA0A4B2B5 (Point.mk 0xB2A23F546073BD38EF82805D8B717F600E011E7759176D224287A84442C3E5AF 0x8BCBAA0B554FD314DD7288172B6823B8C704D8DFC98A548E5F2EF3C9DB18491A) (Point.mk 0x85D0FEF3EC6DB109399064F3A0E3B2855645B4A907AD354527AAE75163D82751 0x1F03648413A38C0BE29D496E582CF5663E8751E96877331582C237A24EB1F962) (Point.mk 0x87AA504C89ED647D805336214A28161FC15BBE5AFA7A2B3B8EE50F386B04C1A1 0xD671B773C5A48834F0B0E55E57C1EC7C17E88D446CDF730F6FD6122ABE3F55E4) (Point.mk 0x6B790F4B19A4C4F4F607A6CFCD11DF0468B482E009711FF756356D141D5FCADE 0xD03A981B2FF9EB3EF296661F9CAE09CBA83FA5B47BE26B0AB6FFF86FC338D3FF) (by decide) (by decide) (by decide) (by decide)

theorem smA181 : scalarMultAux 76 0x47C513B60CFA0A4B2B5 (Point.mk 0x87AA504C89ED647D805336214A28161FC15BBE5AFA7A2B3B8EE50F386B04C1A1 0xD671B773C5A48834F0B0E55E57C1EC7C17E88D446CDF730F6FD6122ABE3F55E4) (Point.mk 0x6B790F4B19A4C4F4F607A6CFCD11DF0468B482E009711FF756356D141D5FCADE 0xD03A981B2FF9EB3EF296661F9CAE09CBA83FA5B47BE26B0AB6FFF86FC338D3FF) = scalarMultAux 75 0x23E289DB067D052595A (Point.mk 0xE2CC7472903DDD7B21932CC69CF348900C4019087ED780D18E2977E99F45A666 0xE31CD238ACDE003036BE3A3B2B7033564A862894F7AC357F26DF49D3ED4B2AA3) (Point.mk 0x41149B2C2D7EBED3C162C367ACC4F8FE3D2479DE85978BE0BB0CCDABE3A3E0CB 0xC90D5B92DB7C30542B415C9B9902CF28B3EC7805EF490F2470E92E98339033A8) :=
  scalarMultAux_step 75 0x47C513B60CFA0A4B2B5 0x23E289DB067D052595A (Point.mk 0x87AA504C89ED647D805336214A28161FC15BBE5AFA7A2B3B8EE50F386B04C1A1 0xD671B773C5A48834F0B0E55E57C1EC7C17E88D446CDF730F6FD6122ABE3F55E4) (Point.mk 0x6B790F4B19A4C4F4F607A6CFCD11DF0468B482E009711FF756356D141D5FCADE 0xD03A981B2FF9EB3EF296661F9CAE09CBA83FA5B47BE26B0AB6FFF86FC338D3FF) (Point.mk 0xE2CC7472903DDD7B21932CC69CF348900C4019087ED780D18E2977E99F45A666 0xE31CD238ACDE003036BE3A3B2B7033564A862894F7AC357F26DF49D3ED4B2AA3) (Point.mk 0x41149B2C2D7EBED3C162C367ACC4F8FE3D2479DE85978BE0BB0CCDABE3A3E0CB 0xC90D5B92DB7C30542B415C9B9902CF28B3EC7805EF490F2470E92E98339033A8) (by decide) (by decide) (by decide) (by decide)

theorem smA182 : scalarMultAux 75 0x23E289DB067D052595A (Point.mk 0xE2CC7472903DDD7B21932CC69CF348900C4019087ED780D18E2977E99F45A666 0xE31CD238ACDE003036BE3A3B2B7033564A862894F7AC357F26DF49D3ED4B2AA3) (Point.mk 0x41149B2C2D7EBED3C162C367ACC4F8FE3D2479DE85978BE0BB0CCDABE3A3E0CB 0xC90D5B92DB7C30542B415C9B9902CF28B3EC7805EF490F2470E92E98339033A8) = scalarMultAux 74 0x11F144ED833E8292CAD (Point.mk 0xE2CC7472903DDD7B21932CC69CF348900C4019087ED780D18E2977E99F45A666 0xE31CD238ACDE003036BE3A3B2B7033564A862894F7AC357F26DF49D3ED4B2AA3) (Point.mk 0xD1FAD4FA4E7C849DFAEC3DFE2872A7BA664A9B8205C29CEBF8DDDD28E3F3D3FC 0x8FE19714A348FDFE5473F70E858B7818BAD37131EFF37326ED22343C50F3704D) :=
  scalarMultAux_step 74 0x23E289DB067D052595A 0x11F144ED833E8292CAD (Point.mk 0xE2CC7472903DDD7B21932CC69CF348900C4019087ED780D18E2977E99F45A666 0xE31CD238ACDE003036BE3A3B2B7033564A862894F7AC357F26DF49D3ED4B2AA3) (Point.mk 0x41149B2C2D7EBED3C162C367ACC4F8FE3D2479DE85978BE0BB0CCDABE3A3E0CB 0xC90D5B92DB7C30542B415C9B9902CF28B3EC7805EF490F2470E92E98339033A8) (Point.mk 0xE2CC7472903DDD7B21932CC69CF348900C4019087ED780D18E2977E99F45A666 0xE31CD238ACDE003036BE3A3B2B7033564A862894F7AC357F26DF49D3ED4B2AA3) (Point.mk 0xD1FAD4FA4E7C849DFAEC3DFE2872A7BA664A9B8205C29CEBF8DDDD28E3F3D3FC 0x8FE19714A348FDFE5473F70E858B7818BAD37131EFF37326ED22343C50F3704D) (by decide) (by decide) (by decide) (by decide)

theorem smA183 : scalarMultAux 74 0x11F144ED833E8292CAD (Point.mk 0xE2CC7472903DDD7B21932CC69CF348900C4019087ED780D18E2977E99F45A666 0xE31CD238ACDE003036BE3A3B2B7033564A862894F7AC357F26DF49D3ED4B2AA3) (Point.mk 0xD1FAD4FA4E7C849DFAEC3DFE2872A7BA664A9B8205C29CEBF8DDDD28E3F3D3FC 0x8FE19714A348FDFE5473F70E858B7818BAD37131EFF37326ED22343C50F3704D) = scalarMultAux 73 0x8F8A276C19F4149656 (Point.mk 0x6F71B385F9E5843892D4AD219F0245BE11198EF3615C9BA291A650B02969C2F2 0x48B69D2CF02CBE687E710C46E696BA54E3D7D3B4586CFDE1861FD85FB633CAD6) (Point.mk 0xFF2B0DCE97EECE97C1C9B6041798B85DFDFB6D8882DA20308F5404824526087E 0x493D13FEF524BA188AF4C4DC54D07936C7B7ED6FB90E2CEB2C951E01F0C29907) :=
  scalarMultAux_step 73 0x11F144ED833E8292CAD 0x8F8A276C19F4149656 (Point.mk 0xE2CC7472903DDD7B21932CC69CF348900C4019087ED780D18E2977E99F45A666 0xE31CD238ACDE003036BE3A3B2B7033564A862894F7AC357F26DF49D3ED4B2AA3) (Point.mk 0xD1FAD4FA4E7C849DFAEC3DFE2872A7BA664A9B8205C29CEBF8DDDD28E3F3D3FC 0x8FE19714A348FDFE5473F70E858B7818BAD37131EFF37326ED22343C50F3704D) (Point.mk 0x6F71B385F9E5843892D4AD219F0245BE11198EF3615C9BA291A650B02969C2F2 0x48B69D2CF02CBE687E710C46E696BA54E3D7D3B4586CFDE1861FD85FB633CAD6) (Point.mk 0xFF2B0DCE97EECE97C1C9B6041798B85DFDFB6D8882DA20308F5404824526087E 0x493D13FEF524BA188AF4C4DC54D07936C7B7ED6FB90E2CEB2C951E01F0C29907) (by decide) (by decide) (by decide) (by decide)

theorem smA184 : scalarMultAux 73 0x8F8A276C19F4149656 (Point.mk 0x6F71B385F9E5843892D4AD219F0245BE11198EF3615C9BA291A650B02969C2F2 0x48B69D2CF02CBE687E710C46E696BA54E3D7D3B4586CFDE1861FD85FB633CAD6) (Point.mk 0xFF2B0DCE97EECE97C1C9B6041798B85DFDFB6D8882DA20308F5404824526087E 0x493D13FEF524BA188AF4C4DC54D07936C7B7ED6FB90E2CEB2C951E01F0C29907) = scalarMultAux 72 0x47C513B60CFA0A4B2B (Point.mk 0x6F71B385F9E5843892D4AD219F0245BE11198EF3615C9BA291A650B02969C2F2 0x48B69D2CF02CBE687E710C46E696BA54E3D7D3B4586CFDE1861FD85FB633CAD6) (Point.mk 0x2982DBBC5F366C9F78E29EBBECB1BB223DEB5C4EE638B4583BD3A9AF3149F8EF 0xA61B5BE9AF66220AB9FA5339C7B5BC9D095DB99412E3ED8456E726B016C7A248) :=
  scalarMultAux_step 72 0x8F8A276C19F4149656 0x47C513B60CFA0A4B2B (Point.mk 0x6F71B385F9E5843892D4AD219F0245BE11198EF3615C9BA291A650B02969C2F2 0x48B69D2CF02CBE687E710C46E696BA54E3D7D3B4586CFDE1861FD85FB633CAD6) (Point.mk 0xFF2B0DCE97EECE97C1C9B6041798B85DFDFB6D8882DA20308F5404824526087E 0x493D13FEF524BA188AF4C4DC54D07936C7B7ED6FB90E2CEB2C951E01F0C29907) (Point.mk 0x6F71B385F9E5843892D4AD219F0245BE11198EF3615C9BA291A650B02969C2F2 0x48B69D2CF02CBE687E710C46E696BA54E3D7D3B4586CFDE1861FD85FB633CAD6) (Point.mk 0x2982DBBC5F366C9F78E29EBBECB1BB223DEB5C4EE638B4583BD3A9AF3149F8EF 0xA61B5BE9AF66220AB9FA5339C7B5BC9D095DB99412E3ED8456E726B016C7A248) (by decide) (by decide) (by decide) (by decide)

theorem smA185 : scalarMultAux 72 0x47C513B60CFA0A4B2B (Point.mk 0x6F71B385F9E5843892D4AD219F0245BE11198EF3615C9BA291A650B02969C2F2 0x48B69D2CF02CBE687E710C46E696BA54E3D7D3B4586CFDE1861FD85FB633CAD6) (Point.mk 0x2982DBBC5F366C9F78E29EBBECB1BB223DEB5C4EE638B4583BD3A9AF3149F8EF 0xA61B5BE9AF66220AB9FA5339C7B5BC9D095DB99412E3ED8456E726B016C7A248) = scalarMultAux 71 0x23E289DB067D052595 (Point.mk 0xB28DBFB67BB08BDD70CA33438D72FD65754E7A408A87F9A91F11320892EDF701 0xE9093520C0AB2374D48759D0771521EF6E6BD93A245B00D6EB0B7EFC05B152DC) (Point.mk 0x1A28E5042AF0C0F6B436EB590497DB5860011F4580E1765885289F612380441B 0x55779A7996C59DAB7C78329A8976F0ED04B3E75B46EE67AEB05F606A8452AF25) :=
  scalarMultAux_step 71 0x47C513B60CFA0A4B2B 0x23E289DB067D052595 (Point.mk 0x6F71B385F9E5843892D4AD219F0245BE11198EF3615C9BA291A650B02969C2F2 0x48B69D2CF02CBE687E710C46E696BA54E3D7D3B4586CFDE1861FD85FB633CAD6) (Point.mk 0x2982DBBC5F366C9F78E29EBBECB1BB223DEB5C4EE638B4583BD3A9AF3149F8EF 0xA61B5BE9AF66220AB9FA5339C7B5BC9D095DB99412E3ED8456E726B016C7A248) (Point.mk 0xB28DBFB67BB08BDD70CA33438D72FD65754E7A408A87F9A91F11320892EDF701 0xE9093520C0AB2374D48759D0771521EF6E6BD93A245B00D6EB0B7EFC05B152DC) (Point.mk 0x1A28E5042AF0C0F6B436EB590497DB5860011F4580E1765885289F612380441B 0x55779A7996C59DAB7C78329A8976F0ED04B3E75B46EE67AEB05F606A8452AF25) (by decide) (by decide) (by decide) (by decide)

theorem smA186 : scalarMultAux 71 0x23E289DB067D052595 (Point.mk 0xB28DBFB67BB08BDD70CA33438D72FD65754E7A408A87F9A91F11320892EDF701 0xE9093520C0AB2374D48759D0771521EF6E6BD93A245B00D6EB0B7EFC05B152DC) (Point.mk 0x1A28E5042AF0C0F6B436EB590497DB5860011F4580E1765885289F612380441B 0x55779A7996C59DAB7C78329A8976F0ED04B3E75B46EE67AEB05F606A8452AF25) = scalarMultAux 70 0x11F144ED833E8292CA (Point.mk 0x2EF425EFE69B75D6FE317AAC55652332E569BDE7FDD630E2599FF29BAEE8E698 0x1B54E0BFDC355A4C2062EB43A6C4DC455A0BAB09EA69A4F4C56DEE0FFBD34A55) (Point.mk 0x0C8B83E9535F30601D250CC0BD3F20142EDD5EB7985D83242EEF0E39621E30A7 0x0DCC7077065FDAC7B850E3F17EFDC854AACAD237B987134DBEBF7BEB9FF688DE) :=
  scalarMultAux_step 70 0x23E289DB067D052595 0x11F144ED833E8292CA (Point.mk 0xB28DBFB67BB08BDD70CA33438D72FD65754E7A408A87F9A91F11320892EDF701 0xE9093520C0AB2374D48759D0771521EF6E6BD93A245B00D6EB0B7EFC05B152DC) (Point.mk 0x1A28E5042AF0C0F6B436EB590497DB5860011F4580E1765885289F612380441B 0x55779A7996C59DAB7C78329A8976F0ED04B3E75B46EE67AEB05F606A8452AF25) (Point.mk 0x2EF425EFE69B75D6FE317AAC55652332E569BDE7FDD630E2599FF29BAEE8E698 0x1B54E0BFDC355A4C2062EB43A6C4DC455A0BAB09EA69A4F4C56DEE0FFBD34A55) (Point.mk 0x0C8B83E9535F30601D250CC0BD3F20142EDD5EB7985D83242EEF0E39621E30A7 0x0DCC7077065FDAC7B850E3F17EFDC854AACAD237B987134DBEBF7BEB9FF688DE) (by decide) (by decide) (by decide) (by decide)

theorem smA187 : scalarMultAux 70 0x11F144ED833E8292CA (Point.mk 0x2EF425EFE69B75D6FE317AAC55652332E569BDE7FDD630E2599FF29BAEE8E698 0x1B54E0BFDC355A4C2062EB43A6C4DC455A0BAB09EA69A4F4C56DEE0FFBD34A55) (Point.mk 0x0C8B83E9535F30601D250CC0BD3F20142EDD5EB7985D83242EEF0E39621E30A7 0x0DCC7077065FDAC7B850E3F17EFDC854AACAD237B987134DBEBF7BEB9FF688DE) = scalarMultAux 69 0x8F8A276C19F414965 (Point.mk 0x2EF425EFE69B75D6FE317AAC55652332E569BDE7FDD630E2599FF29BAEE8E698 0x1B54E0BFDC355A4C2062EB43A6C4DC455A0BAB09EA69A4F4C56DEE0FFBD34A55) (Point.mk 0x827FBBE4B1E880EA9ED2B2E6301B212B57F1EE148CD6DD28780E5E2CF856E241 0xC60F9C923C727B0B71BEF2C67D1D12687FF7A63186903166D605B68BAEC293EC) :=
  scalarMultAux_step 69 0x11F144ED833E8292CA 0x8F8A276C19F414965 (Point.mk 0x2EF425EFE69B75D6FE317AAC55652332E569BDE7FDD630E2599FF29BAEE8E698 0x1B54E0BFDC355A4C2062EB43A6C4DC455A0BAB09EA69A4F4C56DEE0FFBD34A55) (Point.mk 0x0C8B83E9535F30601D250CC0BD3F20142EDD5EB7985D83242EEF0E39621E30A7 0x0DCC7077065FDAC7B850E3F17EFDC854AACAD237B987134DBEBF7BEB9FF688DE) (Point.mk 0x2EF425EFE69B75D6FE317AAC55652332E569BDE7FDD630E2599FF29BAEE8E698 0x1B54E0BFDC355A4C2062EB43A6C4DC455A0BAB09EA69A4F4C56DEE0FFBD34A55) (Point.mk 0x827FBBE4B1E880EA9ED2B2E6301B212B57F1EE148CD6DD28780E5E2CF856E241 0xC60F9C923C727B0B71BEF2C67D1D12687FF7A63186903166D605B68BAEC293EC) (by decide) (by decide) (by decide) (by decide)

theorem smA188 : scalarMultAux 69 0x8F8A276C19F414965 (Point.mk 0x2EF425EFE69B75D6FE317AAC55652332E569BDE7FDD630E2599FF29BAEE8E698 0x1B54E0BFDC355A4C2062EB43A6C4DC455A0BAB09EA69A4F4C56DEE0FFBD34A55) (Point.mk 0x827FBBE4B1E880EA9ED2B2E6301B212B57F1EE148CD6DD28780E5E2CF856E241 0xC60F9C923C727B0B71BEF2C67D1D12687FF7A63186903166D605B68BAEC293EC) = scalarMultAux 68 0x47C513B60CFA0A4B2 (Point.mk 0xEA07A27B8CEBDD074B02E387BA0742CB061254BD1EBF69C3F931333379BFA4C8 0x30E269D6BF1613C57F79FA6363245E5DDBD0EE64891C192C3B9EFC83729C3ED3) (Point.mk 0xB77F12A7DCE56B973E2D7C8D576E6B3660470A9218B87461EF6E44B70CB1815D 0x4B6F85B14F86ACC43F0CEFB373CC2E654C42F0F91A44816D6BA3D2BC8E57DBC5) :=
  scalarMultAux_step 68 0x8F8A276C19F414965 0x47C513B60CFA0A4B2 (Point.mk 0x2EF425EFE69B75D6FE317AAC55652332E569BDE7FDD630E2599FF29BAEE8E698 0x1B54E0BFDC355A4C2062EB43A6C4DC455A0BAB09EA69A4F4C56DEE0FFBD34A55) (Point.mk 0x827FBBE4B1E880EA9ED2B2E6301B212B57F1EE148CD6DD28780E5E2CF856E241 0xC60F9C923C727B0B71BEF2C67D1D12687FF7A63186903166D605B68BAEC293EC) (Point.mk 0xEA07A27B8CEBDD074B02E387BA0742CB061254BD1EBF69C3F931333379BFA4C8 0x30E269D6BF1613C57F79FA6363245E5DDBD0EE64891C192C3B9EFC83729C3ED3) (Point.mk 0xB77F12A7DCE56B973E2D7C8D576E6B3660470A9218B87461EF6E44B70CB1815D 0x4B6F85B14F86ACC43F0CEFB373CC2E654C42F0F91A44816D6BA3D2BC8E57DBC5) (by decide) (by decide) (by decide) (by decide)

theorem smA189 : scalarMultAux 68 0x47C513B60CFA0A4B2 (Point.mk 0xEA07A27B8CEBDD074B02E387BA0742CB061254BD1EBF69C3F931333379BFA4C8 0x30E269D6BF1613C57F79FA6363245E5DDBD0EE64891C192C3B9EFC83729C3ED3) (Point.mk 0xB77F12A7DCE56B973E2D7C8D576E6B3660470A9218B87461EF6E44B70CB1815D 0x4B6F85B14F86ACC43F0CEFB373CC2E654C42F0F91A44816D6BA3D2BC8E57DBC5) = scalarMultAux 67 0x23E289DB067D05259 (Point.mk 0xEA07A27B8CEBDD074B02E387BA0742CB061254BD1EBF69C3F931333379BFA4C8 0x30E269D6BF1613C57F79FA6363245E5DDBD0EE64891C192C3B9EFC83729C3ED3) (Point.mk 0x48973B943018BF1247B308B2CB79F956D858D8DF4977C5970FE5DAD2C45565EC 0x761F75684F3CDC1B6437BB3A01445AF1511B3596580477B83B879075FAED07E9) :=
  scalarMultAux_step 67 0x47C513B60CFA0A4B2 0x23E289DB067D05259 (Point.mk 0xEA07A27B8CEBDD074B02E387BA0742CB061254BD1EBF69C3F931333379BFA4C8 0x30E269D6BF1613C57F79FA6363245E5DDBD0EE64891C192C3B9EFC83729C3ED3) (Point.mk 0xB77F12A7DCE56B973E2D7C8D576E6B3660470A9218B87461EF6E44B70CB1815D 0x4B6F85B14F86ACC43F0CEFB373CC2E654C42F0F91A44816D6BA3D2BC8E57DBC5) (Point.mk 0xEA07A27B8CEBDD074B02E387BA0742CB061254BD1EBF69C3F931333379BFA4C8 0x30E269D6BF1613C57F79FA6363245E5DDBD0EE64891C192C3B9EFC83729C3ED3) (Point.mk 0x48973B943018BF1247B308B2CB79F956D858D8DF4977C5970FE5DAD2C45565EC 0x761F75684F3CDC1B6437BB3A01445AF1511B3596580477B83B879075FAED07E9) (by decide) (by decide) (by decide) (by decide)

theorem smA190 : scalarMultAux 67 0x23E289DB067D05259 (Point.mk 0xEA07A27B8CEBDD074B02E387BA0742CB061254BD1EBF69C3F931333379BFA4C8 0x30E269D6BF1613C57F79FA6363245E5DDBD0EE64891C192C3B9EFC83729C3ED3) (Point.mk 0x48973B943018BF1247B308B2CB79F956D858D8DF4977C5970FE5DAD2C45565EC 0x761F75684F3CDC1B6437BB3A01445AF1511B3596580477B83B879075FAED07E9) = scalarMultAux 66 0x11F144ED833E8292C (Point.mk 0x2420065B049A7417240FB03BAF52DDE92D5AEC5F2C2A8BE5E9C0746A1D484473 0xBBDD9732A3F9B29C58EA94CA02B07C05E1CAEF1BC89151E52F500AF40B55A02B) (Point.mk 0xE931258E8EB5559C6D6972728A704C170B775A265B4527D4A4D4D742BBFD71FA 0xFB1E33364C3FDEE0E85EB4169C954B40B3946CE1BB5E35F33D9BD0D3174D3307) :=
  scalarMultAux_step 66 0x23E289DB067D05259 0x11F144ED833E8292C (Point.mk 0xEA07A27B8CEBDD074B02E387BA0742CB061254BD1EBF69C3F931333379BFA4C8 0x30E269D6BF1613C57F79FA6363245E5DDBD0EE64891C192C3B9EFC83729C3ED3) (Point.mk 0x48973B943018BF1247B308B2CB79F956D858D8DF4977C5970FE5DAD2C45565EC 0x761F75684F3CDC1B6437BB3A01445AF1511B3596580477B83B879075FAED07E9) (Point.mk 0x2420065B049A7417240FB03BAF52DDE92D5AEC5F2C2A8BE5E9C0746A1D484473 0xBBDD9732A3F9B29C58EA94CA02B07C05E1CAEF1BC89151E52F500AF40B55A02B) (Point.mk 0xE931258E8EB5559C6D6972728A704C170B775A265B4527D4A4D4D742BBFD71FA 0xFB1E33364C3FDEE0E85EB4169C954B40B3946CE1BB5E35F33D9BD0D3174D3307) (by decide) (by decide) (by decide) (by decide)

theorem smA191 : scalarMultAux 66 0x11F144ED833E8292C (Point.mk 0x2420065B049A7417240FB03BAF52DDE92D5AEC5F2C2A8BE5E9C0746A1D484473 0xBBDD9732A3F9B29C58EA94CA02B07C05E1CAEF1BC89151E52F500AF40B55A02B) (Point.mk 0xE931258E8EB5559C6D6972728A704C170B775A265B4527D4A4D4D742BBFD71FA 0xFB1E33364C3FDEE0E85EB4169C954B40B3946CE1BB5E35F33D9BD0D3174D3307) = scalarMultAux 65 0x8F8A276C19F41496 (Point.mk 0x2420065B049A7417240FB03BAF52DDE92D5AEC5F2C2A8BE5E9C0746A1D484473 0xBBDD9732A3F9B29C58EA94CA02B07C05E1CAEF1BC89151E52F500AF40B55A02B) (Point.mk 0xEAA649F21F51BDBAE7BE4AE34CE6E5217A58FDCE7F47F9AA7F3B58FA2120E2B3 0xBE3279ED5BBBB03AC69A80F89879AA5A01A6B965F13F7E59D47A5305BA5AD93D) :=
  scalarMultAux_step 65 0x11F144ED833E8292C 0x8F8A276C19F41496 (Point.mk 0x2420065B049A7417240FB03BAF52DDE92D5AEC5F2C2A8BE5E9C0746A1D484473 0xBBDD9732A3F9B29C58EA94CA02B07C05E1CAEF1BC89151E52F500AF40B55A02B) (Point.mk 0xE931258E8EB5559C6D6972728A704C170B775A265B4527D4A4D4D742BBFD71FA 0xFB1E33364C3FDEE0E85EB4169C954B40B3946CE1BB5E35F33D9BD0D3174D3307) (Point.mk 0x2420065B049A7417240FB03BAF52DDE92D5AEC5F2C2A8BE5E9C0746A1D484473 0xBBDD9732A3F9B29C58EA94CA02B07C05E1CAEF1BC89151E52F500AF40B55A02B) (Point.mk 0xEAA649F21F51BDBAE7BE4AE34CE6E5217A58FDCE7F47F9AA7F3B58FA2120E2B3 0xBE3279ED5BBBB03AC69A80F89879AA5A01A6B965F13F7E59D47A5305BA5AD93D) (by decide) (by decide) (by decide) (by decide)

theorem smA192 : scalarMultAux 65 0x8F8A276C19F41496 (Point.mk 0x2420065B049A7417240FB03BAF52DDE92D5AEC5F2C2A8BE5E9C0746A1D484473 0xBBDD9732A3F9B29C58EA94CA02B07C05E1CAEF1BC89151E52F500AF40B55A02B) (Point.mk 0xEAA649F21F51BDBAE7BE4AE34CE6E5217A58FDCE7F47F9AA7F3B58FA2120E2B3 0xBE3279ED5BBBB03AC69A80F89879AA5A01A6B965F13F7E59D47A5305BA5AD93D) = scalarMultAux 64 0x47C513B60CFA0A4B (Point.mk 0x2420065B049A7417240FB03BAF52DDE92D5AEC5F2C2A8BE5E9C0746A1D484473 0xBBDD9732A3F9B29C58EA94CA02B07C05E1CAEF1BC89151E52F500AF40B55A02B) (Point.mk 0x3ADB9DB3BEB997EEC2623EA5002279EA9E337B5C705F3DB453DBC1CC1FC9B0A8 0x374E2D6DAEE74E713C774DE07C095FF6AAD9C8F9870266CC61AE7975F05BBDDA) :=
  scalarMultAux_step 64 0x8F8A276C19F41496 0x47C513B60CFA0A4B (Point.mk 0x2420065B049A7417240FB03BAF52DDE92D5AEC5F2C2A8BE5E9C0746A1D484473 0xBBDD9732A3F9B29C58EA94CA02B07C05E1CAEF1BC89151E52F500AF40B55A02B) (Point.mk 0xEAA649F21F51BDBAE7BE4AE34CE6E5217A58FDCE7F47F9AA7F3B58FA2120E2B3 0xBE3279ED5BBBB03AC69A80F89879AA5A01A6B965F13F7E59D47A5305BA5AD93D) (Point.mk 0x2420065B049A7417240FB03BAF52DDE92D5AEC5F2C2A8BE5E9C0746A1D484473 0xBBDD9732A3F9B29C58EA94CA02B07C05E1CAEF1BC89151E52F500AF40B55A02B) (Point.mk 0x3ADB9DB3BEB997EEC2623EA5002279EA9E337B5C705F3DB453DBC1CC1FC9B0A8 0x374E2D6DAEE74E713C774DE07C095FF6AAD9C8F9870266CC61AE7975F05BBDDA) (by decide) (by decide) (by decide) (by decide)

theorem smA193 : scalarMultAux 64 0x47C513B60CFA0A4B (Point.mk 0x2420065B049A7417240FB03BAF52DDE92D5AEC5F2C2A8BE5E9C0746A1D484473 0xBBDD9732A3F9B29C58EA94CA02B07C05E1CAEF1BC89151E52F500AF40B55A02B) (Point.mk 0x3ADB9DB3BEB997EEC2623EA5002279EA9E337B5C705F3DB453DBC1CC1FC9B0A8 0x374E2D6DAEE74E713C774DE07C095FF6AAD9C8F9870266CC61AE7975F05BBDDA) = scalarMultAux 63 0x23E289DB067D0525 (Point.mk 0x1749B9F33261EAEC3536CD4375B6F612BC26599C4F883C4F3CC6E5DA52C97E3D 0x8C86B08556E38C467167AB5BF0E3658044BCD1C9EEB5558D197384549B56B283) (Point.mk 0x129E53AC428E9CBB7E10955E56C5FC69FEFDFF56963E7CAF054E9E0C90AE86F9 0x415ECB958AEE9A29B2DA2115B712183FB2A232FD16B3E01B822EFDCD1E89C85D) :=
  scalarMultAux_step 63 0x47C513B60CFA0A4B 0x23E289DB067D0525 (Point.mk 0x2420065B049A7417240FB03BAF52DDE92D5AEC5F2C2A8BE5E9C0746A1D484473 0xBBDD9732A3F9B29C58EA94CA02B07C05E1CAEF1BC89151E52F500AF40B55A02B) (Point.mk 0x3ADB9DB3BEB997EEC2623EA5002279EA9E337B5C705F3DB453DBC1CC1FC9B0A8 0x374E2D6DAEE74E713C774DE07C095FF6AAD9C8F9870266CC61AE7975F05BBDDA) (Point.mk 0x1749B9F33261EAEC3536CD4375B6F612BC26599C4F883C4F3CC6E5DA52C97E3D 0x8C86B08556E38C467167AB5BF0E3658044BCD1C9EEB5558D197384549B56B283) (Point.mk 0x129E53AC428E9CBB7E10955E56C5FC69FEFDFF56963E7CAF054E9E0C90AE86F9 0x415ECB958AEE9A29B2DA2115B712183FB2A232FD16B3E01B822EFDCD1E89C85D) (by decide) (by decide) (by decide) (by decide)

theorem smA194 : scalarMultAux 63 0x23E289DB067D0525 (Point.mk 0x1749B9F33261EAEC3536CD4375B6F612BC26599C4F883C4F3CC6E5DA52C97E3D 0x8C86B08556E38C467167AB5BF0E3658044BCD1C9EEB5558D197384549B56B283) (Point.mk 0x129E53AC428E9CBB7E10955E56C5FC69FEFDFF56963E7CAF054E9E0C90AE86F9 0x415ECB958AEE9A29B2DA2115B712183FB2A232FD16B3E01B822EFDCD1E89C85D) = scalarMultAux 62 0x11F144ED833E8292 (Point.mk 0xBCDA3D44D2DBCCA9CD1C016AA36C1A6E08836EB3C38BAB0E8D2BC6C2691AA014 0xA5A5A371E233E0CA97A4E66CA5ACF73CC2AA7B2A9FB6442A1B170ED5AFC4511E) (Point.mk 0x60144494C8F694485B85ECB6AEE10956C756267D12894711922243D5E855B8DA 0x8BB5D669F681E6469E8BE1FD9132E65B543955C27E3F2A4BAD500590F34E4BBD) :=
  scalarMultAux_step 62 0x23E289DB067D0525 0x11F144ED833E8292 (Point.mk 0x1749B9F33261EAEC3536CD4375B6F612BC26599C4F883C4F3CC6E5DA52C97E3D 0x8C86B08556E38C467167AB5BF0E3658044BCD1C9EEB5558D197384549B56B283) (Point.mk 0x129E53AC428E9CBB7E10955E56C5FC69FEFDFF56963E7CAF054E9E0C90AE86F9 0x415ECB958AEE9A29B2DA2115B712183FB2A232FD16B3E01B822EFDCD1E89C85D) (Point.mk 0xBCDA3D44D2DBCCA9CD1C016AA36C1A6E08836EB3C38BAB0E8D2BC6C2691AA014 0xA5A5A371E233E0CA97A4E66CA5ACF73CC2AA7B2A9FB6442A1B170ED5AFC4511E) (Point.mk 0x60144494C8F694485B85ECB6AEE10956C756267D12894711922243D5E855B8DA 0x8BB5D669F681E6469E8BE1FD9132E65B543955C27E3F2A4BAD500590F34E4BBD) (by decide) (by decide) (by decide) (by decide)

theorem smA195 : scalarMultAux 62 0x11F144ED833E8292 (Point.mk 0xBCDA3D44D2DBCCA9CD1C016AA36C1A6E08836EB3C38BAB0E8D2BC6C2691AA014 0xA5A5A371E233E0CA97A4E66CA5ACF73CC2AA7B2A9FB6442A1B170ED5AFC4511E) (Point.mk 0x60144494C8F694485B85ECB6AEE10956C756267D12894711922243D5E855B8DA 0x8BB5D669F681E6469E8BE1FD9132E65B543955C27E3F2A4BAD500590F34E4BBD) = scalarMultAux 61 0x8F8A276C19F4149 (Point.mk 0xBCDA3D44D2DBCCA9CD1C016AA36C1A6E08836EB3C38BAB0E8D2BC6C2691AA014 0xA5A5A371E233E0CA97A4E66CA5ACF73CC2AA7B2A9FB6442A1B170ED5AFC4511E) (Point.mk 0xE4A42D43C5CF169D9391DF6DECF42EE541B6D8F0C9A137401E23632DDA34D24F 0x4D9F92E716D1C73526FC99CCFB8AD34CE886EEDFA8D8E4F13A7F7131DEBA9414) :=
  scalarMultAux_step 61 0x11F144ED833E8292 0x8F8A276C19F4149 (Point.mk 0xBCDA3D44D2DBCCA9CD1C016AA36C1A6E08836EB3C38BAB0E8D2BC6C2691AA014 0xA5A5A371E233E0CA97A4E66CA5ACF73CC2AA7B2A9FB6442A1B170ED5AFC4511E) (Point.mk 0x60144494C8F694485B85ECB6AEE10956C756267D12894711922243D5E855B8DA 0x8BB5D669F681E6469E8BE1FD9132E65B543955C27E3F2A4BAD500590F34E4BBD) (Point.mk 0xBCDA3D44D2DBCCA9CD1C016AA36C1A6E08836EB3C38BAB0E8D2BC6C2691AA014 0xA5A5A371E233E0CA97A4E66CA5ACF73CC2AA7B2A9FB6442A1B170ED5AFC4511E) (Point.mk 0xE4A42D43C5CF169D9391DF6DECF42EE541B6D8F0C9A137401E23632DDA34D24F 0x4D9F92E716D1C73526FC99CCFB8AD34CE886EEDFA8D8E4F13A7F7131DEBA9414) (by decide) (by decide) (by decide) (by decide)

theorem smA196 : scalarMultAux 61 0x8F8A276C19F4149 (Point.mk 0xBCDA3D44D2DBCCA9CD1C016AA36C1A6E08836EB3C38BAB0E8D2BC6C2691AA014 0xA5A5A371E233E0CA97A4E66CA5ACF73CC2AA7B2A9FB6442A1B170ED5AFC4511E) (Point.mk 0xE4A42D43C5CF169D9391DF6DECF42EE541B6D8F0C9A137401E23632DDA34D24F 0x4D9F92E716D1C73526FC99CCFB8AD34CE886EEDFA8D8E4F13A7F7131DEBA9414) = scalarMultAux 60 0x47C513B60CFA0A4 (Point.mk 0x479AB2A452095CC2B844C543D7CB87A03FC41A3CC9754189EC795D7325CF2A43 0xCD5A7C3B1ED808A05928A6A29BBEF7614E0A6CABA76E13B8891D3BE8E46B5136) (Point.mk 0xFD6451FB84CFB18D3EF0ACF856C4EF4D0553C562F7AE4D2A303F2EA33E8F62BB 0xE745CEB2B1871578B6FE7A5C1BC344CCFA2AB492D200E83FD0AD9086132C0911) :=
  scalarMultAux_step 60 0x8F8A276C19F4149 0x47C513B60CFA0A4 (Point.mk 0xBCDA3D44D2DBCCA9CD1C016AA36C1A6E08836EB3C38BAB0E8D2BC6C2691AA014 0xA5A5A371E233E0CA97A4E66CA5ACF73CC2AA7B2A9FB6442A1B170ED5AFC4511E) (Point.mk 0xE4A42D43C5CF169D9391DF6DECF42EE541B6D8F0C9A137401E23632DDA34D24F 0x4D9F92E716D1C73526FC99CCFB8AD34CE886EEDFA8D8E4F13A7F7131DEBA9414) (Point.mk 0x479AB2A452095CC2B844C543D7CB87A03FC41A3CC9754189EC795D7325CF2A43 0xCD5A7C3B1ED808A05928A6A29BBEF7614E0A6CABA76E13B8891D3BE8E46B5136) (Point.mk 0xFD6451FB84CFB18D3EF0ACF856C4EF4D0553C562F7AE4D2A303F2EA33E8F62BB 0xE745CEB2B1871578B6FE7A5C1BC344CCFA2AB492D200E83FD0AD9086132C0911) (by decide) (by decide) (by decide) (by decide)

theorem smA197 : scalarMultAux 60 0x47C513B60CFA0A4 (Point.mk 0x479AB2A452095CC2B844C543D7CB87A03FC41A3CC9754189EC795D7325CF2A43 0xCD5A7C3B1ED808A05928A6A29BBEF7614E0A6CABA76E13B8891D3BE8E46B5136) (Point.mk 0xFD6451FB84CFB18D3EF0ACF856C4EF4D0553C562F7AE4D2A303F2EA33E8F62BB 0xE745CEB2B1871578B6FE7A5C1BC344CCFA2AB492D200E83FD0AD9086132C0911) = scalarMultAux 59 0x23E289DB067D052 (Point.mk 0x479AB2A452095CC2B844C543D7CB87A03FC41A3CC9754189EC795D7325CF2A43 0xCD5A7C3B1ED808A05928A6A29BBEF7614E0A6CABA76E13B8891D3BE8E46B5136) (Point.mk 0x1EEE207CB24086BC716E81A06F9EDBBB0042E2D5DCF3C7A1FA1D1FB9D5FE696B 0x652CBD19AEF6269CD2B196D12461C95F7A02062E0AFD694EBB45670E7429337B) :=
  scalarMultAux_step 59 0x47C513B60CFA0A4 0x23E289DB067D052 (Point.mk 0x479AB2A452095CC2B844C543D7CB87A03FC41A3CC9754189EC795D7325CF2A43 0xCD5A7C3B1ED808A05928A6A29BBEF7614E0A6CABA76E13B8891D3BE8E46B5136) (Point.mk 0xFD6451FB84CFB18D3EF0ACF856C4EF4D0553C562F7AE4D2A303F2EA33E8F62BB 0xE745CEB2B1871578B6FE7A5C1BC344CCFA2AB492D200E83FD0AD9086132C0911) (Point.mk 0x479AB2A452095CC2B844C543D7CB87A03FC41A3CC9754189EC795D7325CF2A43 0xCD5A7C3B1ED808A05928A6A29BBEF7614E0A6CABA76E13B8891D3BE8E46B5136) (Point.mk 0x1EEE207CB24086BC716E81A06F9EDBBB0042E2D5DCF3C7A1FA1D1FB9D5FE696B 0x652CBD19AEF6269CD2B196D12461C95F7A02062E0AFD694EBB45670E7429337B) (by decide) (by decide) (by decide) (by decide)

theorem smA198 : scalarMultAux 59 0x23E289DB067D052 (Point.mk 0x479AB2A452095CC2B844C543D7CB87A03FC41A3CC9754189EC795D7325CF2A43 0xCD5A7C3B1ED808A05928A6A29BBEF7614E0A6CABA76E13B8891D3BE8E46B5136) (Point.mk 0x1EEE207CB24086BC716E81A06F9EDBBB0042E2D5DCF3C7A1FA1D1FB9D5FE696B 0x652CBD19AEF6269CD2B196D12461C95F7A02062E0AFD694EBB45670E7429337B) = scalarMultAux 58 0x11F144ED833E829 (Point.mk 0x479AB2A452095CC2B844C543D7CB87A03FC41A3CC9754189EC795D7325CF2A43 0xCD5A7C3B1ED808A05928A6A29BBEF7614E0A6CABA76E13B8891D3BE8E46B5136) (Point.mk 0xCC0EA33EA8A9EB14D465AB2C346E2111E1C0FC017C57257908D40F19EF94C0D5 0xF9907A3B711C8A2FB23DD203B5FBE663F6074F266113F543DEABE597AF452FE6) :=
  scalarMultAux_step 58 0x23E289DB067D052 0x11F144ED833E829 (Point.mk 0x479AB2A452095CC2B844C543D7CB87A03FC41A3CC9754189EC795D7325CF2A43 0xCD5A7C3B1ED808A05928A6A29BBEF7614E0A6CABA76E13B8891D3BE8E46B5136) (Point.mk 0x1EEE207CB24086BC716E81A06F9EDBBB0042E2D5DCF3C7A1FA1D1FB9D5FE696B 0x652CBD19AEF6269CD2B196D12461C95F7A02062E0AFD694EBB45670E7429337B) (Point.mk 0x479AB2A452095CC2B844C543D7CB87A03FC41A3CC9754189EC795D7325CF2A43 0xCD5A7C3B1ED808A05928A6A29BBEF7614E0A6CABA76E13B8891D3BE8E46B5136) (Point.mk 0xCC0EA33EA8A9EB14D465AB2C346E2111E1C0FC017C57257908D40F19EF94C0D5 0xF9907A3B711C8A2FB23DD203B5FBE663F6074F266113F543DEABE597AF452FE6) (by decide) (by decide) (by decide) (by decide)

theorem smA199 : scalarMultAux 58 0x11F144ED833E829 (Point.mk 0x479AB2A452095CC2B844C543D7CB87A03FC41A3CC9754189EC795D7325CF2A43 0xCD5A7C3B1ED808A05928A6A29BBEF7614E0A6CABA76E13B8891D3BE8E46B5136) (Point.mk 0xCC0EA33EA8A9EB14D465AB2C346E2111E1C0FC017C57257908D40F19EF94C0D5 0xF9907A3B711C8A2FB23DD203B5FBE663F6074F266113F543DEABE597AF452FE6) = scalarMultAux 57 0x8F8A276C19F414 (Point.mk 0x6ECC66F459558337A4167185D1413ACA7D5CB62CDD48F1D7981FBC402E11D88A 0x28234938C51641ED81FE7C91FB26956C78FFD004EFDD8C4FBE0F093A6F025D51) (Point.mk 0x1EC80FEF360CBDD954160FADAB352B6B92B53576A88FEA4947173B9D4300BF19 0xAEEFE93756B5340D2F3A4958A7ABBF5E0146E77F6295A07B671CDC1CC107CEFD) :=
  scalarMultAux_step 57 0x11F144ED833E829 0x8F8A276C19F414 (Point.mk 0x479AB2A452095CC2B844C543D7CB87A03FC41A3CC9754189EC795D7325CF2A43 0xCD5A7C3B1ED808A05928A6A29BBEF7614E0A6CABA76E13B8891D3BE8E46B5136) (Point.mk 0xCC0EA33EA8A9EB14D465AB2C346E2111E1C0FC017C57257908D40F19EF94C0D5 0xF9907A3B711C8A2FB23DD203B5FBE663F6074F266113F543DEABE597AF452FE6) (Point.mk 0x6ECC66F459558337A4167185D1413ACA7D5CB62CDD48F1D7981FBC402E11D88A 0x28234938C51641ED81FE7C91FB26956C78FFD004EFDD8C4FBE0F093A6F025D51) (Point.mk 0x1EC80FEF360CBDD954160FADAB352B6B92B53576A88FEA4947173B9D4300BF19 0xAEEFE93756B5340D2F3A4958A7ABBF5E0146E77F6295A07B671CDC1CC107CEFD) (by decide) (by decide) (by decide) (by decide)

theorem smA200 : scalarMultAux 57 0x8F8A276C19F414 (Point.mk 0x6ECC66F459558337A4167185D1413ACA7D5CB62CDD48F1D7981FBC402E11D88A 0x28234938C51641ED81FE7C91FB26956C78FFD004EFDD8C4FBE0F093A6F025D51) (Point.mk 0x1EC80FEF360CBDD954160FADAB352B6B92B53576A88FEA4947173B9D4300BF19 0xAEEFE93756B5340D2F3A4958A7ABBF5E0146E77F6295A07B671CDC1CC107CEFD) = scalarMultAux 56 0x47C513B60CFA0A (Point.mk 0x6ECC66F459558337A4167185D1413ACA7D5CB62CDD48F1D7981FBC402E11D88A 0x28234938C51641ED81FE7C91FB26956C78FFD004EFDD8C4FBE0F093A6F025D51) (Point.mk 0x5BE7EA3519F04BC6CBEEAA0344FC90BB8E8462F6EBD890560DAE805D414FF9E4 0x32F32EC3F638E605477F890F655AB7FE0E99C6302119A3094030B07847E0BDBB) :=
  scalarMultAux_step 56 0x8F8A276C19F414 0x47C513B60CFA0A (Point.mk 0x6ECC66F459558337A4167185D1413ACA7D5CB62CDD48F1D7981FBC402E11D88A 0x28234938C51641ED81FE7C91FB26956C78FFD004EFDD8C4FBE0F093A6F025D51) (Point.mk 0x1EC80FEF360CBDD954160FADAB352B6B92B53576A88FEA4947173B9D4300BF19 0xAEEFE93756B5340D2F3A4958A7ABBF5E0146E77F6295A07B671CDC1CC107CEFD) (Point.mk 0x6ECC66F459558337A4167185D1413ACA7D5CB62CDD48F1D7981FBC402E11D88A 0x28234938C51641ED81FE7C91FB26956C78FFD004EFDD8C4FBE0F093A6F025D51) (Point.mk 0x5BE7EA3519F04BC6CBEEAA0344FC90BB8E8462F6EBD890560DAE805D414FF9E4 0x32F32EC3F638E605477F890F655AB7FE0E99C6302119A3094030B07847E0BDBB) (by decide) (by decide) (by decide) (by decide)

theorem smA201 : scalarMultAux 56 0x47C513B60CFA0A (Point.mk 0x6ECC66F459558337A4167185D1413ACA7D5CB62CDD48F1D7981FBC402E11D88A 0x28234938C51641ED81FE7C91FB26956C78FFD004EFDD8C4FBE0F093A6F025D51) (Point.mk 0x5BE7EA3519F04BC6CBEEAA0344FC90BB8E8462F6EBD890560DAE805D414FF9E4 0x32F32EC3F638E605477F890F655AB7FE0E99C6302119A3094030B07847E0BDBB) = scalarMultAux 55 0x23E289DB067D05 (Point.mk 0x6ECC66F459558337A4167185D1413ACA7D5CB62CDD48F1D7981FBC402E11D88A 0x28234938C51641ED81FE7C91FB26956C78FFD004EFDD8C4FBE0F093A6F025D51) (Point.mk 0x58F099116EAE4E650813FC8698DF7F5CD50028649F853991E3FB545F4DDB7BB8 0x7E07002AAFFE111A0D62FF7614638066507EE4062D174302BDEC73582E5B2D6E) :=
  scalarMultAux_step 55 0x47C513B60CFA0A 0x23E289DB067D05 (Point.mk 0x6ECC66F459558337A4167185D1413ACA7D5CB62CDD48F1D7981FBC402E11D88A 0x28234938C51641ED81FE7C91FB26956C78FFD004EFDD8C4FBE0F093A6F025D51) (Point.mk 0x5BE7EA3519F04BC6CBEEAA0344FC90BB8E8462F6EBD890560DAE805D414FF9E4 0x32F32EC3F638E605477F890F655AB7FE0E99C6302119A3094030B07847E0BDBB) (Point.mk 0x6ECC66F459558337A4167185D1413ACA7D5CB62CDD48F1D7981FBC402E11D88A 0x28234938C51641ED81FE7C91FB26956C78FFD004EFDD8C4FBE0F093A6F025D51) (Point.mk 0x58F099116EAE4E650813FC8698DF7F5CD50028649F853991E3FB545F4DDB7BB8 0x7E07002AAFFE111A0D62FF7614638066507EE4062D174302BDEC73582E5B2D6E) (by decide) (by decide) (by decide) (by decide)

theorem smA202 : scalarMultAux 55 0x23E289DB067D05 (Point.mk 0x6ECC66F459558337A4167185D1413ACA7D5CB62CDD48F1D7981FBC402E11D88A 0x28234938C51641ED81FE7C91FB26956C78FFD004EFDD8C4FBE0F093A6F025D51) (Point.mk 0x58F099116EAE4E650813FC8698DF7F5CD50028649F853991E3FB545F4DDB7BB8 0x7E07002AAFFE111A0D62FF7614638066507EE4062D174302BDEC73582E5B2D6E) = scalarMultAux 54 0x11F144ED833E82 (Point.mk 0xE23162063F9D49322F2CF9F1A72972DD7069127B0C2D0EE064F9B09F41E7C7AB 0x8B28D50926C727FFA1CF3E2C229130A6BFECE97C231E95C5B6BC9EBB8C05E64A) (Point.mk 0xB0F9E4B9B29790B633BCC04FD860CB0F823D8D1A4CC1A1C1413C1606CC9A8E2C 0x49E82BF1843ADE6D41CBB0B906FDE3F03350CC02C171CEE76C2066C4DF3D0DB4) :=
  scalarMultAux_step 54 0x23E289DB067D05 0x11F144ED833E82 (Point.mk 0x6ECC66F459558337A4167185D1413ACA7D5CB62CDD48F1D7981FBC402E11D88A 0x28234938C51641ED81FE7C91FB26956C78FFD004EFDD8C4FBE0F093A6F025D51) (Point.mk 0x58F099116EAE4E650813FC8698DF7F5CD50028649F853991E3FB545F4DDB7BB8 0x7E07002AAFFE111A0D62FF7614638066507EE4062D174302BDEC73582E5B2D6E) (Point.mk 0xE23162063F9D49322F2CF9F1A72972DD7069127B0C2D0EE064F9B09F41E7C7AB 0x8B28D50926C727FFA1CF3E2C229130A6BFECE97C231E95C5B6BC9EBB8C05E64A) (Point.mk 0xB0F9E4B9B29790B633BCC04FD860CB0F823D8D1A4CC1A1C1413C1606CC9A8E2C 0x49E82BF1843ADE6D41CBB0B906FDE3F03350CC02C171CEE76C2066C4DF3D0DB4) (by decide) (by decide) (by decide) (by decide)

theorem smA203 : scalarMultAux 54 0x11F144ED833E82 (Point.mk 0xE23162063F9D49322F2CF9F1A72972DD7069127B0C2D0EE064F9B09F41E7C7AB 0x8B28D50926C727FFA1CF3E2C229130A6BFECE97C231E95C5B6BC9EBB8C05E64A) (Point.mk 0xB0F9E4B9B29790B633BCC04FD860CB0F823D8D1A4CC1A1C1413C1606CC9A8E2C 0x49E82BF1843ADE6D41CBB0B906FDE3F03350CC02C171CEE76C2066C4DF3D0DB4) = scalarMultAux 53 0x8F8A276C19F41 (Point.mk 0xE23162063F9D49322F2CF9F1A72972DD7069127B0C2D0EE064F9B09F41E7C7AB 0x8B28D50926C727FFA1CF3E2C229130A6BFECE97C231E95C5B6BC9EBB8C05E64A) (Point.mk 0x146A778C04670C2F91B00AF4680DFA8BCE3490717D58BA889DDB5928366642BE 0xB318E0EC3354028ADD669827F9D4B2870AAA971D2F7E5ED1D0B297483D83EFD0) :=
  scalarMultAux_step 53 0x11F144ED833E82 0x8F8A276C19F41 (Point.mk 0xE23162063F9D49322F2CF9F1A72972DD7069127B0C2D0EE064F9B09F41E7C7AB 0x8B28D50926C727FFA1CF3E2C229130A6BFECE97C231E95C5B6BC9EBB8C05E64A) (Point.mk 0xB0F9E4B9B29790B633BCC04FD860CB0F823D8D1A4CC1A1C1413C1606CC9A8E2C 0x49E82BF1843ADE6D41CBB0B906FDE3F03350CC02C171CEE76C2066C4DF3D0DB4) (Point.mk 0xE23162063F9D49322F2CF9F1A72972DD7069127B0C2D0EE064F9B09F41E7C7AB 0x8B28D50926C727FFA1CF3E2C229130A6BFECE97C231E95C5B6BC9EBB8C05E64A) (Point.mk 0x146A778C04670C2F91B00AF4680DFA8BCE3490717D58BA889DDB5928366642BE 0xB318E0EC3354028ADD669827F9D4B2870AAA971D2F7E5ED1D0B297483D83EFD0) (by decide) (by decide) (by decide) (by decide)

theorem smA204 : scalarMultAux 53 0x8F8A276C19F41 (Point.mk 0xE23162063F9D49322F2CF9F1A72972DD7069127B0C2D0EE064F9B09F41E7C7AB 0x8B28D50926C727FFA1CF3E2C229130A6BFECE97C231E95C5B6BC9EBB8C05E64A) (Point.mk 0x146A778C04670C2F91B00AF4680DFA8BCE3490717D58BA889DDB5928366642BE 0xB318E0EC3354028ADD669827F9D4B2870AAA971D2F7E5ED1D0B297483D83EFD0) = scalarMultAux 52 0x47C513B60CFA0 (Point.mk 0x644160CE92C797665513DF350CDE962F9C3194934D2CB9DB0D0310FD65C0FC4E 0x42463FD2522540D1CB144364C0A9CBF7B388E6EB59DEE6F6DD608198D2EFFD33) (Point.mk 0x574EF0CE8A597E24E5670B5C0BCD14CFEEFC983C7ECB261911B2365579DE5CAC 0x09B99930281F19C73BD6ADA0569B78451A260A7BEF10008CAE59AEA6C75A4805) :=
  scalarMultAux_step 52 0x8F8A276C19F41 0x47C513B60CFA0 (Point.mk 0xE23162063F9D49322F2CF9F1A72972DD7069127B0C2D0EE064F9B09F41E7C7AB 0x8B28D50926C727FFA1CF3E2C229130A6BFECE97C231E95C5B6BC9EBB8C05E64A) (Point.mk 0x146A778C04670C2F91B00AF4680DFA8BCE3490717D58BA889DDB5928366642BE 0xB318E0EC3354028ADD669827F9D4B2870AAA971D2F7E5ED1D0B297483D83EFD0) (Point.mk 0x644160CE92C797665513DF350CDE962F9C3194934D2CB9DB0D0310FD65C0FC4E 0x42463FD2522540D1CB144364C0A9CBF7B388E6EB59DEE6F6DD608198D2EFFD33) (Point.mk 0x574EF0CE8A597E24E5670B5C0BCD14CFEEFC983C7ECB261911B2365579DE5CAC 0x09B99930281F19C73BD6ADA0569B78451A260A7BEF10008CAE59AEA6C75A4805) (by decide) (by decide) (by decide) (by decide)

theorem smA205 : scalarMultAux 52 0x47C513B60CFA0 (Point.mk 0x644160CE92C797665513DF350CDE962F9C3194934D2CB9DB0D0310FD65C0FC4E 0x42463FD2522540D1CB144364C0A9CBF7B388E6EB59DEE6F6DD608198D2EFFD33) (Point.mk 0x574EF0CE8A597E24E5670B5C0BCD14CFEEFC983C7ECB261911B2365579DE5CAC 0x09B99930281F19C73BD6ADA0569B78451A260A7BEF10008CAE59AEA6C75A4805) = scalarMultAux 51 0x23E289DB067D0 (Point.mk 0x644160CE92C797665513DF350CDE962F9C3194934D2CB9DB0D0310FD65C0FC4E 0x42463FD2522540D1CB144364C0A9CBF7B388E6EB59DEE6F6DD608198D2EFFD33) (Point.mk 0xD3D97E799D8BF9F85D909397B98C835D10A770C1AEFF8645808C2D74260966D3 0x8DDBB46376BAC95E6AAA89275D403AD3B5E48711BE8DC4EEBDDEB850833C2E52) :=
  scalarMultAux_step 51 0x47C513B60CFA0 0x23E289DB067D0 (Point.mk 0x644160CE92C797665513DF350CDE962F9C3194934D2CB9DB0D0310FD65C0FC4E 0x42463FD2522540D1CB144364C0A9CBF7B388E6EB59DEE6F6DD608198D2EFFD33) (Point.mk 0x574EF0CE8A597E24E5670B5C0BCD14CFEEFC983C7ECB261911B2365579DE5CAC 0x09B99930281F19C73BD6ADA0569B78451A260A7BEF10008CAE59AEA6C75A4805) (Point.mk 0x644160CE92C797665513DF350CDE962F9C3194934D2CB9DB0D0310FD65C0FC4E 0x42463FD2522540D1CB144364C0A9CBF7B388E6EB59DEE6F6DD608198D2EFFD33) (Point.mk 0xD3D97E799D8BF9F85D909397B98C835D10A770C1AEFF8645808C2D74260966D3 0x8DDBB46376BAC95E6AAA89275D403AD3B5E48711BE8DC4EEBDDEB850833C2E52) (by decide) (by decide) (by decide) (by decide)

theorem smA206 : scalarMultAux 51 0x23E289DB067D0 (Point.mk 0x644160CE92C797665513DF350CDE962F9C3194934D2CB9DB0D0310FD65C0FC4E 0x42463FD2522540D1CB144364C0A9CBF7B388E6EB59DEE6F6DD608198D2EFFD33) (Point.mk 0xD3D97E799D8BF9F85D909397B98C835D10A770C1AEFF8645808C2D74260966D3 0x8DDBB46376BAC95E6AAA89275D403AD3B5E48711BE8DC4EEBDDEB850833C2E52) = scalarMultAux 50 0x11F144ED833E8 (Point.mk 0x644160CE92C797665513DF350CDE962F9C3194934D2CB9DB0D0310FD65C0FC4E 0x42463FD2522540D1CB144364C0A9CBF7B388E6EB59DEE6F6DD608198D2EFFD33) (Point.mk 0xB1AA653288B318987B974E782CBBEE0AB2BE78CF8F494C120040FB93968C6D4B 0x7ED6071C60810D712684AA8E2D63A83B100A1D909D623CC383D9E62AE891AC51) :=
  scalarMultAux_step 50 0x23E289DB067D0 0x11F144ED833E8 (Point.mk 0x644160CE92C797665513DF350CDE962F9C3194934D2CB9DB0D0310FD65C0FC4E 0x42463FD2522540D1CB144364C0A9CBF7B388E6EB59DEE6F6DD608198D2EFFD33) (Point.mk 0xD3D97E799D8BF9F85D909397B98C835D10A770C1AEFF8645808C2D74260966D3 0x8DDBB46376BAC95E6AAA89275D403AD3B5E48711BE8DC4EEBDDEB850833C2E52) (Point.mk 0x644160CE92C797665513DF350CDE962F9C3194934D2CB9DB0D0310FD65C0FC4E 0x42463FD2522540D1CB144364C0A9CBF7B388E6EB59DEE6F6DD608198D2EFFD33) (Point.mk 0xB1AA653288B318987B974E782CBBEE0AB2BE78CF8F494C120040FB93968C6D4B 0x7ED6071C60810D712684AA8E2D63A83B100A1D909D623CC383D9E62AE891AC51) (by decide) (by decide) (by decide) (by decide)

theorem smA207 : scalarMultAux 50 0x11F144ED833E8 (Point.mk 0x644160CE92C797665513DF350CDE962F9C3194934D2CB9DB0D0310FD65C0FC4E 0x42463FD2522540D1CB144364C0A9CBF7B388E6EB59DEE6F6DD608198D2EFFD33) (Point.mk 0xB1AA653288B318987B974E782CBBEE0AB2BE78CF8F494C120040FB93968C6D4B 0x7ED6071C60810D712684AA8E2D63A83B100A1D909D623CC383D9E62AE891AC51) = scalarMultAux 49 0x8F8A276C19F4 (Point.mk 0x644160CE92C797665513DF350CDE962F9C3194934D2CB9DB0D0310FD65C0FC4E 0x42463FD2522540D1CB144364C0A9CBF7B388E6EB59DEE6F6DD608198D2EFFD33) (Point.mk 0xFA50C0F61D22E5F07E3ACEBB1AA07B128D0012209A28B9776D76A8793180EEF9 0x6B84C6922397EBA9B72CD2872281A68A5E683293A57A213B38CD8D7D3F4F2811) :=
  scalarMultAux_step 49 0x11F144ED833E8 0x8F8A276C19F4 (Point.mk 0x644160CE92C797665513DF350CDE962F9C3194934D2CB9DB0D0310FD65C0FC4E 0x42463FD2522540D1CB144364C0A9CBF7B388E6EB59DEE6F6DD608198D2EFFD33) (Point.mk 0xB1AA653288B318987B974E782CBBEE0AB2BE78CF8F494C120040FB93968C6D4B 0x7ED6071C60810D712684AA8E2D63A83B100A1D909D623CC383D9E62AE891AC51) (Point.mk 0x644160CE92C797665513DF350CDE962F9C3194934D2CB9DB0D0310FD65C0FC4E 0x42463FD2522540D1CB144364C0A9CBF7B388E6EB59DEE6F6DD608198D2EFFD33) (Point.mk 0xFA50C0F61D22E5F07E3ACEBB1AA07B128D0012209A28B9776D76A8793180EEF9 0x6B84C6922397EBA9B72CD2872281A68A5E683293A57A213B38CD8D7D3F4F2811) (by decide) (by decide) (by decide) (by decide)

theorem smA208 : scalarMultAux 49 0x8F8A276C19F4 (Point.mk 0x644160CE92C797665513DF350CDE962F9C3194934D2CB9DB0D0310FD65C0FC4E 0x42463FD2522540D1CB144364C0A9CBF7B388E6EB59DEE6F6DD608198D2EFFD33) (Point.mk 0xFA50C0F61D22E5F07E3ACEBB1AA07B128D0012209A28B9776D76A8793180EEF9 0x6B84C6922397EBA9B72CD2872281A68A5E683293A57A213B38CD8D7D3F4F2811) = scalarMultAux 48 0x47C513B60CFA (Point.mk 0x644160CE92C797665513DF350CDE962F9C3194934D2CB9DB0D0310FD65C0FC4E 0x42463FD2522540D1CB144364C0A9CBF7B388E6EB59DEE6F6DD608198D2EFFD33) (Point.mk 0x63964EEE619074E0780140FE02E90836E72328D2448386D459C5BE23187F5048 0x3B6CFB3A6B89CF41A39FF9B1C34BFBC93D580B934DDE6C84383A284D89309DF8) :=
  scalarMultAux_step 48 0x8F8A276C19F4 0x47C513B60CFA (Point.mk 0x644160CE92C797665513DF350CDE962F9C3194934D2CB9DB0D0310FD65C0FC4E 0x42463FD2522540D1CB144364C0A9CBF7B388E6EB59DEE6F6DD608198D2EFFD33) (Point.mk 0xFA50C0F61D22E5F07E3ACEBB1AA07B128D0012209A28B9776D76A8793180EEF9 0x6B84C6922397EBA9B72CD2872281A68A5E683293A57A213B38CD8D7D3F4F2811) (Point.mk 0x644160CE92C797665513DF350CDE962F9C3194934D2CB9DB0D0310FD65C0FC4E 0x42463FD2522540D1CB144364C0A9CBF7B388E6EB59DEE6F6DD608198D2EFFD33) (Point.mk 0x63964EEE619074E0780140FE02E90836E72328D2448386D459C5BE23187F5048 0x3B6CFB3A6B89CF41A39FF9B1C34BFBC93D580B934DDE6C84383A284D89309DF8) (by decide) (by decide) (by decide) (by decide)

theorem smA209 : scalarMultAux 48 0x47C513B60CFA (Point.mk 0x644160CE92C797665513DF350CDE962F9C3194934D2CB9DB0D0310FD65C0FC4E 0x42463FD2522540D1CB144364C0A9CBF7B388E6EB59DEE6F6DD608198D2EFFD33) (Point.mk 0x63964EEE619074E0780140FE02E90836E72328D2448386D459C5BE23187F5048 0x3B6CFB3A6B89CF41A39FF9B1C34BFBC93D580B934DDE6C84383A284D89309DF8) = scalarMultAux 47 0x23E289DB067D (Point.mk 0x644160CE92C797665513DF350CDE962F9C3194934D2CB9DB0D0310FD65C0FC4E 0x42463FD2522540D1CB144364C0A9CBF7B388E6EB59DEE6F6DD608198D2EFFD33) (Point.mk 0x5A3CE25B4D15B7E22D1469DDF0FC9F75AFD7F12AD3CBDA31F814BA1EBADB2A65 0x8B34125B92E05F63873A6DBFBF3F99AF3EE28BC3D825FE8ED8B170CF1D327F1D) :=
  scalarMultAux_step 47 0x47C513B60CFA 0x23E289DB067D (Point.mk 0x644160CE92C797665513DF350CDE962F9C3194934D2CB9DB0D0310FD65C0FC4E 0x42463FD2522540D1CB144364C0A9CBF7B388E6EB59DEE6F6DD608198D2EFFD33) (Point.mk 0x63964EEE619074E0780140FE02E90836E72328D2448386D459C5BE23187F5048 0x3B6CFB3A6B89CF41A39FF9B1C34BFBC93D580B934DDE6C84383A284D89309DF8) (Point.mk 0x644160CE92C797665513DF350CDE962F9C3194934D2CB9DB0D0310FD65C0FC4E 0x42463FD2522540D1CB144364C0A9CBF7B388E6EB59DEE6F6DD608198D2EFFD33) (Point.mk 0x5A3CE25B4D15B7E22D1469DDF0FC9F75AFD7F12AD3CBDA31F814BA1EBADB2A65 0x8B34125B92E05F63873A6DBFBF3F99AF3EE28BC3D825FE8ED8B170CF1D327F1D) (by decide) (by decide) (by decide) (by decide)

theorem smA210 : scalarMultAux 47 0x23E289DB067D (Point.mk 0x644160CE92C797665513DF350CDE962F9C3194934D2CB9DB0D0310FD65C0FC4E 0x42463FD2522540D1CB144364C0A9CBF7B388E6EB59DEE6F6DD608198D2EFFD33) (Point.mk 0x5A3CE25B4D15B7E22D1469DDF0FC9F75AFD7F12AD3CBDA31F814BA1EBADB2A65 0x8B34125B92E05F63873A6DBFBF3F99AF3EE28BC3D825FE8ED8B170CF1D327F1D) = scalarMultAux 46 0x11F144ED833E (Point.mk 0x99F120A0936F6A0328FDA800FF3445B9024A44539A172331BD7B46CB144C14FA 0xF40B48F5F168A7ECBDA6BD5CA5F8B5D4CD72742F0FF037114B0238A3D111791C) (Point.mk 0x5CE605AF98F93EDA6910BE34F0DE41FF85DBCB6E69A8FA0016A733754A9F44D0 0x4CDDCF9BEC226BFE7BA56BD031C76C58AB3CB1BFA32ECCC6C0D05F3489D30105) :=
  scalarMultAux_step 46 0x23E289DB067D 0x11F144ED833E (Point.mk 0x644160CE92C797665513DF350CDE962F9C3194934D2CB9DB0D0310FD65C0FC4E 0x42463FD2522540D1CB144364C0A9CBF7B388E6EB59DEE6F6DD608198D2EFFD33) (Point.mk 0x5A3CE25B4D15B7E22D1469DDF0FC9F75AFD7F12AD3CBDA31F814BA1EBADB2A65 0x8B34125B92E05F63873A6DBFBF3F99AF3EE28BC3D825FE8ED8B170CF1D327F1D) (Point.mk 0x99F120A0936F6A0328FDA800FF3445B9024A44539A172331BD7B46CB144C14FA 0xF40B48F5F168A7ECBDA6BD5CA5F8B5D4CD72742F0FF037114B0238A3D111791C) (Point.mk 0x5CE605AF98F93EDA6910BE34F0DE41FF85DBCB6E69A8FA0016A733754A9F44D0 0x4CDDCF9BEC226BFE7BA56BD031C76C58AB3CB1BFA32ECCC6C0D05F3489D30105) (by decide) (by decide) (by decide) (by decide)

theorem smA211 : scalarMultAux 46 0x11F144ED833E (Point.mk 0x99F120A0936F6A0328FDA800FF3445B9024A44539A172331BD7B46CB144C14FA 0xF40B48F5F168A7ECBDA6BD5CA5F8B5D4CD72742F0FF037114B0238A3D111791C) (Point.mk 0x5CE605AF98F93EDA6910BE34F0DE41FF85DBCB6E69A8FA0016A733754A9F44D0 0x4CDDCF9BEC226BFE7BA56BD031C76C58AB3CB1BFA32ECCC6C0D05F3489D30105) = scalarMultAux 45 0x8F8A276C19F (Point.mk 0x99F120A0936F6A0328FDA800FF3445B9024A44539A172331BD7B46CB144C14FA 0xF40B48F5F168A7ECBDA6BD5CA5F8B5D4CD72742F0FF037114B0238A3D111791C) (Point.mk 0xDA1D61D0CA721A11B1A5BF6B7D88E8421A288AB5D5BBA5220E53D32B5F067EC2 0x8157F55A7C99306C79C0766161C91E2966A73899D279B48A655FBA0F1AD836F1) :=
  scalarMultAux_step 45 0x11F144ED833E 0x8F8A276C19F (Point.mk 0x99F120A0936F6A0328FDA800FF3445B9024A44539A172331BD7B46CB144C14FA 0xF40B48F5F168A7ECBDA6BD5CA5F8B5D4CD72742F0FF037114B0238A3D111791C) (Point.mk 0x5CE605AF98F93EDA6910BE34F0DE41FF85DBCB6E69A8FA0016A733754A9F44D0 0x4CDDCF9BEC226BFE7BA56BD031C76C58AB3CB1BFA32ECCC6C0D05F3489D30105) (Point.mk 0x99F120A0936F6A0328FDA800FF3445B9024A44539A172331BD7B46CB144C14FA 0xF40B48F5F168A7ECBDA6BD5CA5F8B5D4CD72742F0FF037114B0238A3D111791C) (Point.mk 0xDA1D61D0CA721A11B1A5BF6B7D88E8421A288AB5D5BBA5220E53D32B5F067EC2 0x8157F55A7C99306C79C0766161C91E2966A73899D279B48A655FBA0F1AD836F1) (by decide) (by decide) (by decide) (by decide)

theorem smA212 : scalarMultAux 45 0x8F8A276C19F (Point.mk 0x99F120A0936F6A0328FDA800FF3445B9024A44539A172331BD7B46CB144C14FA 0xF40B48F5F168A7ECBDA6BD5CA5F8B5D4CD72742F0FF037114B0238A3D111791C) (Point.mk 0xDA1D61D0CA721A11B1A5BF6B7D88E8421A288AB5D5BBA5220E53D32B5F067EC2 0x8157F55A7C99306C79C0766161C91E2966A73899D279B48A655FBA0F1AD836F1) = scalarMultAux 44 0x47C513B60CF (Point.mk 0x3F2C32E115F4CE4531116F111C5F1A080EE2B185224CAC307F126AB782B08AB0 0x4814A49ACE4C1B9923CDFEF9218ABCF21CB14EC8A3D7F92FCF731FD3D8CC7932) (Point.mk 0x9C7BE00B4EF4C444DF85D5F61DC1283A23605483E1F8E934B3C210D22CD3C369 0x9220C0DE74B20D2052A26D455CE401483E31153A16769CBD29EE3FEBA2329515) :=
  scalarMultAux_step 44 0x8F8A276C19F 0x47C513B60CF (Point.mk 0x99F120A0936F6A0328FDA800FF3445B9024A44539A172331BD7B46CB144C14FA 0xF40B48F5F168A7ECBDA6BD5CA5F8B5D4CD72742F0FF037114B0238A3D111791C) (Point.mk 0xDA1D61D0CA721A11B1A5BF6B7D88E8421A288AB5D5BBA5220E53D32B5F067EC2 0x8157F55A7C99306C79C0766161C91E2966A73899D279B48A655FBA0F1AD836F1) (Point.mk 0x3F2C32E115F4CE4531116F111C5F1A080EE2B185224CAC307F126AB782B08AB0 0x4814A49ACE4C1B9923CDFEF9218ABCF21CB14EC8A3D7F92FCF731FD3D8CC7932) (Point.mk 0x9C7BE00B4EF4C444DF85D5F61DC1283A23605483E1F8E934B3C210D22CD3C369 0x9220C0DE74B20D2052A26D455CE401483E31153A16769CBD29EE3FEBA2329515) (by decide) (by decide) (by decide) (by decide)

theorem smA213 : scalarMultAux 44 0x47C513B60CF (Point.mk 0x3F2C32E115F4CE4531116F111C5F1A080EE2B185224CAC307F126AB782B08AB0 0x4814A49ACE4C1B9923CDFEF9218ABCF21CB14EC8A3D7F92FCF731FD3D8CC7932) (Point.mk 0x9C7BE00B4EF4C444DF85D5F61DC1283A23605483E1F8E934B3C210D22CD3C369 0x9220C0DE74B20D2052A26D455CE401483E31153A16769CBD29EE3FEBA2329515) = scalarMultAux 43 0x23E289DB067 (Point.mk 0xFA54CC4A42E23820D1D60B2C00AFFC5D3E6DC3E51787DE61A8E9D927838D8B56 0x0768E2BF56E8E1691C1099DB17CF871C622EB5F0365D1C508950DBF61975A3D2) (Point.mk 0x0FCD83F42825263BB55664B238CCC49174DD06A70541178E76BCD92D7BB8C9E3 0x6C0BC1CFEAC5FBCED1D8232DE5FDB683ADBEAECDF1627BF4E86D55FBDF4AA9AD) :=
  scalarMultAux_step 43 0x47C513B60CF 0x23E289DB067 (Point.mk 0x3F2C32E115F4CE4531116F111C5F1A080EE2B185224CAC307F126AB782B08AB0 0x4814A49ACE4C1B9923CDFEF9218ABCF21CB14EC8A3D7F92FCF731FD3D8CC7932) (Point.mk 0x9C7BE00B4EF4C444DF85D5F61DC1283A23605483E1F8E934B3C210D22CD3C369 0x9220C0DE74B20D2052A26D455CE401483E31153A16769CBD29EE3FEBA2329515) (Point.mk 0xFA54CC4A42E23820D1D60B2C00AFFC5D3E6DC3E51787DE61A8E9D927838D8B56 0x0768E2BF56E8E1691C1099DB17CF871C622EB5F0365D1C508950DBF61975A3D2) (Point.mk 0x0FCD83F42825263BB55664B238CCC49174DD06A70541178E76BCD92D7BB8C9E3 0x6C0BC1CFEAC5FBCED1D8232DE5FDB683ADBEAECDF1627BF4E86D55FBDF4AA9AD) (by decide) (by decide) (by decide) (by decide)

theorem smA214 : scalarMultAux 43 0x23E289DB067 (Point.mk 0xFA54CC4A42E23820D1D60B2C00AFFC5D3E6DC3E51787DE61A8E9D927838D8B56 0x0768E2BF56E8E1691C1099DB17CF871C622EB5F0365D1C508950DBF61975A3D2) (Point.mk 0x0FCD83F42825263BB55664B238CCC49174DD06A70541178E76BCD92D7BB8C9E3 0x6C0BC1CFEAC5FBCED1D8232DE5FDB683ADBEAECDF1627BF4E86D55FBDF4AA9AD) = scalarMultAux 42 0x11F144ED833 (Point.mk 0xD04A6AD2948F261BD30F9F8FE6850B220B772487E5F83E2011FDB004D9DA8E08 0xFDB8A4D6A244748DC43429431AED1006DFD23CBBF82300665E6BC631A9675E5F) (Point.mk 0x7175407F1B58F010D4CDA4C62511E59DB7EDCF28F5476D995CF39944B26B64F1 0x43B4554344E3D550F36D3401134CC86EB01FE8B774471D2A426E7EFAB24234D5) :=
  scalarMultAux_step 42 0x23E289DB067 0x11F144ED833 (Point.mk 0xFA54CC4A42E23820D1D60B2C00AFFC5D3E6DC3E51787DE61A8E9D927838D8B56 0x0768E2BF56E8E1691C1099DB17CF871C622EB5F0365D1C508950DBF61975A3D2) (Point.mk 0x0FCD83F42825263BB55664B238CCC49174DD06A70541178E76BCD92D7BB8C9E3 0x6C0BC1CFEAC5FBCED1D8232DE5FDB683ADBEAECDF1627BF4E86D55FBDF4AA9AD) (Point.mk 0xD04A6AD2948F261BD30F9F8FE6850B220B772487E5F83E2011FDB004D9DA8E08 0xFDB8A4D6A244748DC43429431AED1006DFD23CBBF82300665E6BC631A9675E5F) (Point.mk 0x7175407F1B58F010D4CDA4C62511E59DB7EDCF28F5476D995CF39944B26B64F1 0x43B4554344E3D550F36D3401134CC86EB01FE8B774471D2A426E7EFAB24234D5) (by decide) (by decide) (by decide) (by decide)

theorem smA215 : scalarMultAux 42 0x11F144ED833 (Point.mk 0xD04A6AD2948F261BD30F9F8FE6850B220B772487E5F83E2011FDB004D9DA8E08 0xFDB8A4D6A244748DC43429431AED1006DFD23CBBF82300665E6BC631A9675E5F) (Point.mk 0x7175407F1B58F010D4CDA4C62511E59DB7EDCF28F5476D995CF39944B26B64F1 0x43B4554344E3D550F36D3401134CC86EB01FE8B774471D2A426E7EFAB24234D5) = scalarMultAux 41 0x8F8A276C19 (Point.mk 0xBCBB87726D9DF305A9B1F725188EE5EBD584180D37D3D37808B7BFF0E58DFF7E 0x21F98723DFEE5718CF0C31D0AB5040BF0D8E3665ADE26D6488AB070B3C9425E3) (Point.mk 0xA8E282FF0C9706907215FF98E8FD416615311DE0446F1E062A73B0610D064E13 0x7F97355B8DB81C09ABFB7F3C5B2515888B679A3E50DD6BD6CEF7C73111F4CC0C) :=
  scalarMultAux_step 41 0x11F144ED833 0x8F8A276C19 (Point.mk 0xD04A6AD2948F261BD30F9F8FE6850B220B772487E5F83E2011FDB004D9DA8E08 0xFDB8A4D6A244748DC43429431AED1006DFD23CBBF82300665E6BC631A9675E5F) (Point.mk 0x7175407F1B58F010D4CDA4C62511E59DB7EDCF28F5476D995CF39944B26B64F1 0x43B4554344E3D550F36D3401134CC86EB01FE8B774471D2A426E7EFAB24234D5) (Point.mk 0xBCBB87726D9DF305A9B1F725188EE5EBD584180D37D3D37808B7BFF0E58DFF7E 0x21F98723DFEE5718CF0C31D0AB5040BF0D8E3665ADE26D6488AB070B3C9425E3) (Point.mk 0xA8E282FF0C9706907215FF98E8FD416615311DE0446F1E062A73B0610D064E13 0x7F97355B8DB81C09ABFB7F3C5B2515888B679A3E50DD6BD6CEF7C73111F4CC0C) (by decide) (by decide) (by decide) (by decide)

theorem smA216 : scalarMultAux 41 0x8F8A276C19 (Point.mk 0xBCBB87726D9DF305A9B1F725188EE5EBD584180D37D3D37808B7BFF0E58DFF7E 0x21F98723DFEE5718CF0C31D0AB5040BF0D8E3665ADE26D6488AB070B3C9425E3) (Point.mk 0xA8E282FF0C9706907215FF98E8FD416615311DE0446F1E062A73B0610D064E13 0x7F97355B8DB81C09ABFB7F3C5B2515888B679A3E50DD6BD6CEF7C73111F4CC0C) = scalarMultAux 40 0x47C513B60C (Point.mk 0x1FD68CCC5E571567EC04824B474F5B74C93C176B0ECF866A3B82395269EA15D8 0x672A08D2A0593A2EB0484E3C6AD8FB0733453478341B4D4CBA5EED712B625F5A) (Point.mk 0xCAC6F2E7E27FAECBCB876F805EA66E63EFBE9EAA753D67C1C15EB9EA7F7653A1 0xF7D416E5E2AA6F194CDB65D9A42A345081E83AE5688103A068C10AD0FEC5E556) :=
  scalarMultAux_step 40 0x8F8A276C19 0x47C513B60C (Point.mk 0xBCBB87726D9DF305A9B1F725188EE5EBD584180D37D3D37808B7BFF0E58DFF7E 0x21F98723DFEE5718CF0C31D0AB5040BF0D8E3665ADE26D6488AB070B3C9425E3) (Point.mk 0xA8E282FF0C9706907215FF98E8FD416615311DE0446F1E062A73B0610D064E13 0x7F97355B8DB81C09ABFB7F3C5B2515888B679A3E50DD6BD6CEF7C73111F4CC0C) (Point.mk 0x1FD68CCC5E571567EC04824B474F5B74C93C176B0ECF866A3B82395269EA15D8 0x672A08D2A0593A2EB0484E3C6AD8FB0733453478341B4D4CBA5EED712B625F5A) (Point.mk 0xCAC6F2E7E27FAECBCB876F805EA66E63EFBE9EAA753D67C1C15EB9EA7F7653A1 0xF7D416E5E2AA6F194CDB65D9A42A345081E83AE5688103A068C10AD0FEC5E556) (by decide) (by decide) (by decide) (by decide)

theorem smA217 : scalarMultAux 40 0x47C513B60C (Point.mk 0x1FD68CCC5E571567EC04824B474F5B74C93C176B0ECF866A3B82395269EA15D8 0x672A08D2A0593A2EB0484E3C6AD8FB0733453478341B4D4CBA5EED712B625F5A) (Point.mk 0xCAC6F2E7E27FAECBCB876F805EA66E63EFBE9EAA753D67C1C15EB9EA7F7653A1 0xF7D416E5E2AA6F194CDB65D9A42A345081E83AE5688103A068C10AD0FEC5E556) = scalarMultAux 39 0x23E289DB06 (Point.mk 0x1FD68CCC5E571567EC04824B474F5B74C93C176B0ECF866A3B82395269EA15D8 0x672A08D2A0593A2EB0484E3C6AD8FB0733453478341B4D4CBA5EED712B625F5A) (Point.mk 0xE6DFDE46EE37D206EFBC5932E58E43254AB767294238CB11CC9F4AB08624003D 0x8727B3B7BE9139498F2F48F7B88F92203B1CE5EA527FD7DD7548650E2216B93B) :=
  scalarMultAux_step 39 0x47C513B60C 0x23E289DB06 (Point.mk 0x1FD68CCC5E571567EC04824B474F5B74C93C176B0ECF866A3B82395269EA15D8 0x672A08D2A0593A2EB0484E3C6AD8FB0733453478341B4D4CBA5EED712B625F5A) (Point.mk 0xCAC6F2E7E27FAECBCB876F805EA66E63EFBE9EAA753D67C1C15EB9EA7F7653A1 0xF7D416E5E2AA6F194CDB65D9A42A345081E83AE5688103A068C10AD0FEC5E556) (Point.mk 0x1FD68CCC5E571567EC04824B474F5B74C93C176B0ECF866A3B82395269EA15D8 0x672A08D2A0593A2EB0484E3C6AD8FB0733453478341B4D4CBA5EED712B625F5A) (Point.mk 0xE6DFDE46EE37D206EFBC5932E58E43254AB767294238CB11CC9F4AB08624003D 0x8727B3B7BE9139498F2F48F7B88F92203B1CE5EA527FD7DD7548650E2216B93B) (by decide) (by decide) (by decide) (by decide)

theorem smA218 : scalarMultAux 39 0x23E289DB06 (Point.mk 0x1FD68CCC5E571567EC04824B474F5B74C93C176B0ECF866A3B82395269EA15D8 0x672A08D2A0593A2EB0484E3C6AD8FB0733453478341B4D4CBA5EED712B625F5A) (Point.mk 0xE6DFDE46EE37D206EFBC5932E58E43254AB767294238CB11CC9F4AB08624003D 0x8727B3B7BE9139498F2F48F7B88F92203B1CE5EA527FD7DD7548650E2216B93B) = scalarMultAux 38 0x11F144ED83 (Point.mk 0x1FD68CCC5E571567EC04824B474F5B74C93C176B0ECF866A3B82395269EA15D8 0x672A08D2A0593A2EB0484E3C6AD8FB0733453478341B4D4CBA5EED712B625F5A) (Point.mk 0x3C4E089CD9A6823D66A40CFC7AC96082E250E3149CF211D3B0E1103548DCE109 0x43FBBE669FE191B480757BCA15764D379579E142D97FE697E2BF65923A19AEEA) :=
  scalarMultAux_step 38 0x23E289DB06 0x11F144ED83 (Point.mk 0x1FD68CCC5E571567EC04824B474F5B74C93C176B0ECF866A3B82395269EA15D8 0x672A08D2A0593A2EB0484E3C6AD8FB0733453478341B4D4CBA5EED712B625F5A) (Point.mk 0xE6DFDE46EE37D206EFBC5932E58E43254AB767294238CB11CC9F4AB08624003D 0x8727B3B7BE9139498F2F48F7B88F92203B1CE5EA527FD7DD7548650E2216B93B) (Point.mk 0x1FD68CCC5E571567EC04824B474F5B74C93C176B0ECF866A3B82395269EA15D8 0x672A08D2A0593A2EB0484E3C6AD8FB0733453478341B4D4CBA5EED712B625F5A) (Point.mk 0x3C4E089CD9A6823D66A40CFC7AC96082E250E3149CF211D3B0E1103548DCE109 0x43FBBE669FE191B480757BCA15764D379579E142D97FE697E2BF65923A19AEEA) (by decide) (by decide) (by decide) (by decide)

theorem smA219 : scalarMultAux 38 0x11F144ED83 (Point.mk 0x1FD68CCC5E571567EC04824B474F5B74C93C176B0ECF866A3B82395269EA15D8 0x672A08D2A0593A2EB0484E3C6AD8FB0733453478341B4D4CBA5EED712B625F5A) (Point.mk 0x3C4E089CD9A6823D66A40CFC7AC96082E250E3149CF211D3B0E1103548DCE109 0x43FBBE669FE191B480757BCA15764D379579E142D97FE697E2BF65923A19AEEA) = scalarMultAux 37 0x8F8A276C1 (Point.mk 0xF88370E5065F1E2294247AADC79DED2D53F286A19588A81BA5A6D30D78E0B075 0x700CAF13F8E0C580728DA6F26116AE62D810BE8C7BF45F33ADA8DCCFB35FD4D3) (Point.mk 0x174A53B9C9A285872D39E56E6913CAB15D59B1FA512508C022F382DE8319497C 0xCCC9DC37ABFC9C1657B4155F2C47F9E6646B3A1D8CB9854383DA13AC079AFA73) :=
  scalarMultAux_step 37 0x11F144ED83 0x8F8A276C1 (Point.mk 0x1FD68CCC5E571567EC04824B474F5B74C93C176B0ECF866A3B82395269EA15D8 0x672A08D2A0593A2EB0484E3C6AD8FB0733453478341B4D4CBA5EED712B625F5A) (Point.mk 0x3C4E089CD9A6823D66A40CFC7AC96082E250E3149CF211D3B0E1103548DCE109 0x43FBBE669FE191B480757BCA15764D379579E142D97FE697E2BF65923A19AEEA) (Point.mk 0xF88370E5065F1E2294247AADC79DED2D53F286A19588A81BA5A6D30D78E0B075 0x700CAF13F8E0C580728DA6F26116AE62D810BE8C7BF45F33ADA8DCCFB35FD4D3) (Point.mk 0x174A53B9C9A285872D39E56E6913CAB15D59B1FA512508C022F382DE8319497C 0xCCC9DC37ABFC9C1657B4155F2C47F9E6646B3A1D8CB9854383DA13AC079AFA73) (by decide) (by decide) (by decide) (by decide)

theorem smA220 : scalarMultAux 37 0x8F8A276C1 (Point.mk 0xF88370E5065F1E2294247AADC79DED2D53F286A19588A81BA5A6D30D78E0B075 0x700CAF13F8E0C580728DA6F26116AE62D810BE8C7BF45F33ADA8DCCFB35FD4D3) (Point.mk 0x174A53B9C9A285872D39E56E6913CAB15D59B1FA512508C022F382DE8319497C 0xCCC9DC37ABFC9C1657B4155F2C47F9E6646B3A1D8CB9854383DA13AC079AFA73) = scalarMultAux 36 0x47C513B60 (Point.mk 0x5EC557D014512FF8959DC5FA5B863F0EE0C4E9C4411E7163F56B0942FA0E3F9C 0xBD5BB7D31127001DC0519AB989C4D00B44F1AA01E5AC31AA10CA9D8847C05D90) (Point.mk 0x20E6E2E796946BB630C7071EF1B92EA3D53D280E0E4501115F5DA36F840DD273 0xD3AD7AFE4F1559E44A0BA1AD97874655811EC9793DA8693CC07CFD15BB46B593) :=
  scalarMultAux_step 36 0x8F8A276C1 0x47C513B60 (Point.mk 0xF88370E5065F1E2294247AADC79DED2D53F286A19588A81BA5A6D30D78E0B075 0x700CAF13F8E0C580728DA6F26116AE62D810BE8C7BF45F33ADA8DCCFB35FD4D3) (Point.mk 0x174A53B9C9A285872D39E56E6913CAB15D59B1FA512508C022F382DE8319497C 0xCCC9DC37ABFC9C1657B4155F2C47F9E6646B3A1D8CB9854383DA13AC079AFA73) (Point.mk 0x5EC557D014512FF8959DC5FA5B863F0EE0C4E9C4411E7163F56B0942FA0E3F9C 0xBD5BB7D31127001DC0519AB989C4D00B44F1AA01E5AC31AA10CA9D8847C05D90) (Point.mk 0x20E6E2E796946BB630C7071EF1B92EA3D53D280E0E4501115F5DA36F840DD273 0xD3AD7AFE4F1559E44A0BA1AD97874655811EC9793DA8693CC07CFD15BB46B593) (by decide) (by decide) (by decide) (by decide)

theorem smA221 : scalarMultAux 36 0x47C513B60 (Point.mk 0x5EC557D014512FF8959DC5FA5B863F0EE0C4E9C4411E7163F56B0942FA0E3F9C 0xBD5BB7D31127001DC0519AB989C4D00B44F1AA01E5AC31AA10CA9D8847C05D90) (Point.mk 0x20E6E2E796946BB630C7071EF1B92EA3D53D280E0E4501115F5DA36F840DD273 0xD3AD7AFE4F1559E44A0BA1AD97874655811EC9793DA8693CC07CFD15BB46B593) = scalarMultAux 35 0x23E289DB0 (Point.mk 0x5EC557D014512FF8959DC5FA5B863F0EE0C4E9C4411E7163F56B0942FA0E3F9C 0xBD5BB7D31127001DC0519AB989C4D00B44F1AA01E5AC31AA10CA9D8847C05D90) (Point.mk 0x8E0CA824D7A351DBA80280A07E71DB7035AE68136CC24CA3E7B54F301A077674 0x04EC560759192D41DC569D24DA62CF57CFF60419D2F910290B84CBEC12B7ED98) :=
  scalarMultAux_step 35 0x47C513B60 0x23E289DB0 (Point.mk 0x5EC557D014512FF8959DC5FA5B863F0EE0C4E9C4411E7163F56B0942FA0E3F9C 0xBD5BB7D31127001DC0519AB989C4D00B44F1AA01E5AC31AA10CA9D8847C05D90) (Point.mk 0x20E6E2E796946BB630C7071EF1B92EA3D53D280E0E4501115F5DA36F840DD273 0xD3AD7AFE4F1559E44A0BA1AD97874655811EC9793DA8693CC07CFD15BB46B593) (Point.mk 0x5EC557D014512FF8959DC5FA5B863F0EE0C4E9C4411E7163F56B0942FA0E3F9C 0xBD5BB7D31127001DC0519AB989C4D00B44F1AA01E5AC31AA10CA9D8847C05D90) (Point.mk 0x8E0CA824D7A351DBA80280A07E71DB7035AE68136CC24CA3E7B54F301A077674 0x04EC560759192D41DC569D24DA62CF57CFF60419D2F910290B84CBEC12B7ED98) (by decide) (by decide) (by decide) (by decide)

theorem smA222 : scalarMultAux 35 0x23E289DB0 (Point.mk 0x5EC557D014512FF8959DC5FA5B863F0EE0C4E9C4411E7163F56B0942FA0E3F9C 0xBD5BB7D31127001DC0519AB989C4D00B44F1AA01E5AC31AA10CA9D8847C05D90) (Point.mk 0x8E0CA824D7A351DBA80280A07E71DB7035AE68136CC24CA3E7B54F301A077674 0x04EC560759192D41DC569D24DA62CF57CFF60419D2F910290B84CBEC12B7ED98) = scalarMultAux 34 0x11F144ED8 (Point.mk 0x5EC557D014512FF8959DC5FA5B863F0EE0C4E9C4411E7163F56B0942FA0E3F9C 0xBD5BB7D31127001DC0519AB989C4D00B44F1AA01E5AC31AA10CA9D8847C05D90) (Point.mk 0xF7BB50DA51C982D1C5FA63553E3D66C1AFDB5821A321B4AFE96AFC5EA8192441 0x93CC3BE30334A526311BC63BDDE6485DB1CFDC1FBBC4C74BBC640EA1D45165AE) :=
  scalarMultAux_step 34 0x23E289DB0 0x11F144ED8 (Point.mk 0x5EC557D014512FF8959DC5FA5B863F0EE0C4E9C4411E7163F56B0942FA0E3F9C 0xBD5BB7D31127001DC0519AB989C4D00B44F1AA01E5AC31AA10CA9D8847C05D90) (Point.mk 0x8E0CA824D7A351DBA80280A07E71DB7035AE68136CC24CA3E7B54F301A077674 0x04EC560759192D41DC569D24DA62CF57CFF60419D2F910290B84CBEC12B7ED98) (Point.mk 0x5EC557D014512FF8959DC5FA5B863F0EE0C4E9C4411E7163F56B0942FA0E3F9C 0xBD5BB7D31127001DC0519AB989C4D00B44F1AA01E5AC31AA10CA9D8847C05D90) (Point.mk 0xF7BB50DA51C982D1C5FA63553E3D66C1AFDB5821A321B4AFE96AFC5EA8192441 0x93CC3BE30334A526311BC63BDDE6485DB1CFDC1FBBC4C74BBC640EA1D45165AE) (by decide) (by decide) (by decide) (by decide)

theorem smA223 : scalarMultAux 34 0x11F144ED8 (Point.mk 0x5EC557D014512FF8959DC5FA5B863F0EE0C4E9C4411E7163F56B0942FA0E3F9C 0xBD5BB7D31127001DC0519AB989C4D00B44F1AA01E5AC31AA10CA9D8847C05D90) (Point.mk 0xF7BB50DA51C982D1C5FA63553E3D66C1AFDB5821A321B4AFE96AFC5EA8192441 0x93CC3BE30334A526311BC63BDDE6485DB1CFDC1FBBC4C74BBC640EA1D45165AE) = scalarMultAux 33 0x8F8A276C (Point.mk 0x5EC557D014512FF8959DC5FA5B863F0EE0C4E9C4411E7163F56B0942FA0E3F9C 0xBD5BB7D31127001DC0519AB989C4D00B44F1AA01E5AC31AA10CA9D8847C05D90) (Point.mk 0x959396981943785C3D3E57EDF5018CDBE039E730E4918B3D884FDFF09475B7BA 0x2E7E552888C331DD8BA0386A4B9CD6849C653F64C8709385E9B8ABF87524F2FD) :=
  scalarMultAux_step 33 0x11F144ED8 0x8F8A276C (Point.mk 0x5EC557D014512FF8959DC5FA5B863F0EE0C4E9C4411E7163F56B0942FA0E3F9C 0xBD5BB7D31127001DC0519AB989C4D00B44F1AA01E5AC31AA10CA9D8847C05D90) (Point.mk 0xF7BB50DA51C982D1C5FA63553E3D66C1AFDB5821A321B4AFE96AFC5EA8192441 0x93CC3BE30334A526311BC63BDDE6485DB1CFDC1FBBC4C74BBC640EA1D45165AE) (Point.mk 0x5EC557D014512FF8959DC5FA5B863F0EE0C4E9C4411E7163F56B0942FA0E3F9C 0xBD5BB7D31127001DC0519AB989C4D00B44F1AA01E5AC31AA10CA9D8847C05D90) (Point.mk 0x959396981943785C3D3E57EDF5018CDBE039E730E4918B3D884FDFF09475B7BA 0x2E7E552888C331DD8BA0386A4B9CD6849C653F64C8709385E9B8ABF87524F2FD) (by decide) (by decide) (by decide) (by decide)

theorem smA224 : scalarMultAux 33 0x8F8A276C (Point.mk 0x5EC557D014512FF8959DC5FA5B863F0EE0C4E9C4411E7163F56B0942FA0E3F9C 0xBD5BB7D31127001DC0519AB989C4D00B44F1AA01E5AC31AA10CA9D8847C05D90) (Point.mk 0x959396981943785C3D3E57EDF5018CDBE039E730E4918B3D884FDFF09475B7BA 0x2E7E552888C331DD8BA0386A4B9CD6849C653F64C8709385E9B8ABF87524F2FD) = scalarMultAux 32 0x47C513B6 (Point.mk 0x5EC557D014512FF8959DC5FA5B863F0EE0C4E9C4411E7163F56B0942FA0E3F9C 0xBD5BB7D31127001DC0519AB989C4D00B44F1AA01E5AC31AA10CA9D8847C05D90) (Point.mk 0xCBEE1405FF0DA7DEAFE32CA7DD73D95ED702226B391747C707275A940BC8F53B 0xF6211F4F4E75F902B51F3E689B8294CF0D9FF4F68126F7282922E6B278C87F45) :=
  scalarMultAux_step 32 0x8F8A276C 0x47C513B6 (Point.mk 0x5EC557D014512FF8959DC5FA5B863F0EE0C4E9C4411E7163F56B0942FA0E3F9C 0xBD5BB7D31127001DC0519AB989C4D00B44F1AA01E5AC31AA10CA9D8847C05D90) (Point.mk 0x959396981943785C3D3E57EDF5018CDBE039E730E4918B3D884FDFF09475B7BA 0x2E7E552888C331DD8BA0386A4B9CD6849C653F64C8709385E9B8ABF87524F2FD) (Point.mk 0x5EC557D014512FF8959DC5FA5B863F0EE0C4E9C4411E7163F56B0942FA0E3F9C 0xBD5BB7D31127001DC0519AB989C4D00B44F1AA01E5AC31AA10CA9D8847C05D90) (Point.mk 0xCBEE1405FF0DA7DEAFE32CA7DD73D95ED702226B391747C707275A940BC8F53B 0xF6211F4F4E75F902B51F3E689B8294CF0D9FF4F68126F7282922E6B278C87F45) (by decide) (by decide) (by decide) (by decide)

theorem smA225 : scalarMultAux 32 0x47C513B6 (Point.mk 0x5EC557D014512FF8959DC5FA5B863F0EE0C4E9C4411E7163F56B0942FA0E3F9C 0xBD5BB7D31127001DC0519AB989C4D00B44F1AA01E5AC31AA10CA9D8847C05D90) (Point.mk 0xCBEE1405FF0DA7DEAFE32CA7DD73D95ED702226B391747C707275A940BC8F53B 0xF6211F4F4E75F902B51F3E689B8294CF0D9FF4F68126F7282922E6B278C87F45) = scalarMultAux 31 0x23E289DB (Point.mk 0x5EC557D014512FF8959DC5FA5B863F0EE0C4E9C4411E7163F56B0942FA0E3F9C 0xBD5BB7D31127001DC0519AB989C4D00B44F1AA01E5AC31AA10CA9D8847C05D90) (Point.mk 0xADD5BAD28FAAF5ACDD580BFA0BA252E03DE3BEAEFBD71B9CF377C88B14B311DD 0xE9C43CF4DA3DC3A5974E434F8359814F52D4E1E7669B9B8902F982F349D6C38D) :=
  scalarMultAux_step 31 0x47C513B6 0x23E289DB (Point.mk 0x5EC557D014512FF8959DC5FA5B863F0EE0C4E9C4411E7163F56B0942FA0E3F9C 0xBD5BB7D31127001DC0519AB989C4D00B44F1AA01E5AC31AA10CA9D8847C05D90) (Point.mk 0xCBEE1405FF0DA7DEAFE32CA7DD73D95ED702226B391747C707275A940BC8F53B 0xF6211F4F4E75F902B51F3E689B8294CF0D9FF4F68126F7282922E6B278C87F45) (Point.mk 0x5EC557D014512FF8959DC5FA5B863F0EE0C4E9C4411E7163F56B0942FA0E3F9C 0xBD5BB7D31127001DC0519AB989C4D00B44F1AA01E5AC31AA10CA9D8847C05D90) (Point.mk 0xADD5BAD28FAAF5ACDD580BFA0BA252E03DE3BEAEFBD71B9CF377C88B14B311DD 0xE9C43CF4DA3DC3A5974E434F8359814F52D4E1E7669B9B8902F982F349D6C38D) (by decide) (by decide) (by decide) (by decide)

theorem smA226 : scalarMultAux 31 0x23E289DB (Point.mk 0x5EC557D014512FF8959DC5FA5B863F0EE0C4E9C4411E7163F56B0942FA0E3F9C 0xBD5BB7D31127001DC0519AB989C4D00B44F1AA01E5AC31AA10CA9D8847C05D90) (Point.mk 0xADD5BAD28FAAF5ACDD580BFA0BA252E03DE3BEAEFBD71B9CF377C88B14B311DD 0xE9C43CF4DA3DC3A5974E434F8359814F52D4E1E7669B9B8902F982F349D6C38D) = scalarMultAux 30 0x11F144ED (Point.mk 0xC0967C83D0EABBCEE57F62D16503CFA5F4A3BC424415187D583D566A81550D02 0x35007C73DD148CAB33D21EA25D587E079C509FE5E82CA3F4A608E0CB2A744D60) (Point.mk 0x53F2432BA81717143FA9DF3DFF41CED24A29B314BC5A8C96F5F6400A0D7C0979 0xBD52EFFBC1F079B7CCD4E3E0911B07DE4BD5A4F5C9E8B845F9F7E90C537B36A2) :=
  scalarMultAux_step 30 0x23E289DB 0x11F144ED (Point.mk 0x5EC557D014512FF8959DC5FA5B863F0EE0C4E9C4411E7163F56B0942FA0E3F9C 0xBD5BB7D31127001DC0519AB989C4D00B44F1AA01E5AC31AA10CA9D8847C05D90) (Point.mk 0xADD5BAD28FAAF5ACDD580BFA0BA252E03DE3BEAEFBD71B9CF377C88B14B311DD 0xE9C43CF4DA3DC3A5974E434F8359814F52D4E1E7669B9B8902F982F349D6C38D) (Point.mk 0xC0967C83D0EABBCEE57F62D16503CFA5F4A3BC424415187D583D566A81550D02 0x35007C73DD148CAB33D21EA25D587E079C509FE5E82CA3F4A608E0CB2A744D60) (Point.mk 0x53F2432BA81717143FA9DF3DFF41CED24A29B314BC5A8C96F5F6400A0D7C0979 0xBD52EFFBC1F079B7CCD4E3E0911B07DE4BD5A4F5C9E8B845F9F7E90C537B36A2) (by decide) (by decide) (by decide) (by decide)

theorem smA227 : scalarMultAux 30 0x11F144ED (Point.mk 0xC0967C83D0EABBCEE57F62D16503CFA5F4A3BC424415187D583D566A81550D02 0x35007C73DD148CAB33D21EA25D587E079C509FE5E82CA3F4A608E0CB2A744D60) (Point.mk 0x53F2432BA81717143FA9DF3DFF41CED24A29B314BC5A8C96F5F6400A0D7C0979 0xBD52EFFBC1F079B7CCD4E3E0911B07DE4BD5A4F5C9E8B845F9F7E90C537B36A2) = scalarMultAux 29 0x8F8A276 (Point.mk 0xDCC54E6FBB87FCDE348823761EE431CE36F7D3B2943A94ECA8306B0DEBB033D1 0xB8D20088D7F5A0C951C84766607BAAA0612597E0CE0CF44BDBCF01A031E429A3) (Point.mk 0xD2A63A50AE401E56D645A1153B109A8FCCA0A43D561FBA2DBB51340C9D82B151 0xE82D86FB6443FCB7565AEE58B2948220A70F750AF484CA52D4142174DCF89405) :=
  scalarMultAux_step 29 0x11F144ED 0x8F8A276 (Point.mk 0xC0967C83D0EABBCEE57F62D16503CFA5F4A3BC424415187D583D566A81550D02 0x35007C73DD148CAB33D21EA25D587E079C509FE5E82CA3F4A608E0CB2A744D60) (Point.mk 0x53F2432BA81717143FA9DF3DFF41CED24A29B314BC5A8C96F5F6400A0D7C0979 0xBD52EFFBC1F079B7CCD4E3E0911B07DE4BD5A4F5C9E8B845F9F7E90C537B36A2) (Point.mk 0xDCC54E6FBB87FCDE348823761EE431CE36F7D3B2943A94ECA8306B0DEBB033D1 0xB8D20088D7F5A0C951C84766607BAAA0612597E0CE0CF44BDBCF01A031E429A3) (Point.mk 0xD2A63A50AE401E56D645A1153B109A8FCCA0A43D561FBA2DBB51340C9D82B151 0xE82D86FB6443FCB7565AEE58B2948220A70F750AF484CA52D4142174DCF89405) (by decide) (by decide) (by decide) (by decide)

theorem smA228 : scalarMultAux 29 0x8F8A276 (Point.mk 0xDCC54E6FBB87FCDE348823761EE431CE36F7D3B2943A94ECA8306B0DEBB033D1 0xB8D20088D7F5A0C951C84766607BAAA0612597E0CE0CF44BDBCF01A031E429A3) (Point.mk 0xD2A63A50AE401E56D645A1153B109A8FCCA0A43D561FBA2DBB51340C9D82B151 0xE82D86FB6443FCB7565AEE58B2948220A70F750AF484CA52D4142174DCF89405) = scalarMultAux 28 0x47C513B (Point.mk 0xDCC54E6FBB87FCDE348823761EE431CE36F7D3B2943A94ECA8306B0DEBB033D1 0xB8D20088D7F5A0C951C84766607BAAA0612597E0CE0CF44BDBCF01A031E429A3) (Point.mk 0xBAF183A76100525E23BC7202033725F922B9CD6B36C413497C6C4BACCA72DA5F 0xDEAC9FBE9CCB4D335688BD58DD69B1D18E2336C5CA739361377CE628A8F2A0CF) :=
  scalarMultAux_step 28 0x8F8A276 0x47C513B (Point.mk 0xDCC54E6FBB87FCDE348823761EE431CE36F7D3B2943A94ECA8306B0DEBB033D1 0xB8D20088D7F5A0C951C84766607BAAA0612597E0CE0CF44BDBCF01A031E429A3) (Point.mk 0xD2A63A50AE401E56D645A1153B109A8FCCA0A43D561FBA2DBB51340C9D82B151 0xE82D86FB6443FCB7565AEE58B2948220A70F750AF484CA52D4142174DCF89405) (Point.mk 0xDCC54E6FBB87FCDE348823761EE431CE36F7D3B2943A94ECA8306B0DEBB033D1 0xB8D20088D7F5A0C951C84766607BAAA0612597E0CE0CF44BDBCF01A031E429A3) (Point.mk 0xBAF183A76100525E23BC7202033725F922B9CD6B36C413497C6C4BACCA72DA5F 0xDEAC9FBE9CCB4D335688BD58DD69B1D18E2336C5CA739361377CE628A8F2A0CF) (by decide) (by decide) (by decide) (by decide)

theorem smA229 : scalarMultAux 28 0x47C513B (Point.mk 0xDCC54E6FBB87FCDE348823761EE431CE36F7D3B2943A94ECA8306B0DEBB033D1 0xB8D20088D7F5A0C951C84766607BAAA0612597E0CE0CF44BDBCF01A031E429A3) (Point.mk 0xBAF183A76100525E23BC7202033725F922B9CD6B36C413497C6C4BACCA72DA5F 0xDEAC9FBE9CCB4D335688BD58DD69B1D18E2336C5CA739361377CE628A8F2A0CF) = scalarMultAux 27 0x23E289D (Point.mk 0xEC2BF40AA9099ED11C373841541AFC56F3F05CCAFFE24775FC302D99E3F2EF18 0x9AACEFFFEFF6125C795231E02529D0557FDC8E140CE051D4377396FC1937B6BE) (Point.mk 0xF7AEF8A7E38440238F9332906E48F6FD5ADBD02D56B76A5FFA5ACA58C56C3943 0x4E3B0B44D5FFDA797C442BBDC3AB3FCFEEC30184A8DCD003431F627FACF442F1) :=
  scalarMultAux_step 27 0x47C513B 0x23E289D (Point.mk 0xDCC54E6FBB87FCDE348823761EE431CE36F7D3B2943A94ECA8306B0DEBB033D1 0xB8D20088D7F5A0C951C84766607BAAA0612597E0CE0CF44BDBCF01A031E429A3) (Point.mk 0xBAF183A76100525E23BC7202033725F922B9CD6B36C413497C6C4BACCA72DA5F 0xDEAC9FBE9CCB4D335688BD58DD69B1D18E2336C5CA739361377CE628A8F2A0CF) (Point.mk 0xEC2BF40AA9099ED11C373841541AFC56F3F05CCAFFE24775FC302D99E3F2EF18 0x9AACEFFFEFF6125C795231E02529D0557FDC8E140CE051D4377396FC1937B6BE) (Point.mk 0xF7AEF8A7E38440238F9332906E48F6FD5ADBD02D56B76A5FFA5ACA58C56C3943 0x4E3B0B44D5FFDA797C442BBDC3AB3FCFEEC30184A8DCD003431F627FACF442F1) (by decide) (by decide) (by decide) (by decide)

theorem smA230 : scalarMultAux 27 0x23E289D (Point.mk 0xEC2BF40AA9099ED11C373841541AFC56F3F05CCAFFE24775FC302D99E3F2EF18 0x9AACEFFFEFF6125C795231E02529D0557FDC8E140CE051D4377396FC1937B6BE) (Point.mk 0xF7AEF8A7E38440238F9332906E48F6FD5ADBD02D56B76A5FFA5ACA58C56C3943 0x4E3B0B44D5FFDA797C442BBDC3AB3FCFEEC30184A8DCD003431F627FACF442F1) = scalarMultAux 26 0x11F144E (Point.mk 0xE0F1679B8262670BEFFEB69A123A90305CB0EFB031B3E5CACB6AC81B48B3200B 0xAFC36DDA48CF7DD37D4734AF241D14009DEB5849224DCBD3281E69B7C71F0937) (Point.mk 0xDFB547CB10019036C5A2E29F0DDDBB1F7AF2FA25A3C7A78C1FAC945711924459 0x9ACCD2A9BA0F47088B8389CE9DC864CC22AF0930E5C031DCFA205E0DCC65FD9E) :=
  scalarMultAux_step 26 0x23E289D 0x11F144E (Point.mk 0xEC2BF40AA9099ED11C373841541AFC56F3F05CCAFFE24775FC302D99E3F2EF18 0x9AACEFFFEFF6125C795231E02529D0557FDC8E140CE051D4377396FC1937B6BE) (Point.mk 0xF7AEF8A7E38440238F9332906E48F6FD5ADBD02D56B76A5FFA5ACA58C56C3943 0x4E3B0B44D5FFDA797C442BBDC3AB3FCFEEC30184A8DCD003431F627FACF442F1) (Point.mk 0xE0F1679B8262670BEFFEB69A123A90305CB0EFB031B3E5CACB6AC81B48B3200B 0xAFC36DDA48CF7DD37D4734AF241D14009DEB5849224DCBD3281E69B7C71F0937) (Point.mk 0xDFB547CB10019036C5A2E29F0DDDBB1F7AF2FA25A3C7A78C1FAC945711924459 0x9ACCD2A9BA0F47088B8389CE9DC864CC22AF0930E5C031DCFA205E0DCC65FD9E) (by decide) (by decide) (by decide) (by decide)

theorem smA231 : scalarMultAux 26 0x11F144E (Point.mk 0xE0F1679B8262670BEFFEB69A123A90305CB0EFB031B3E5CACB6AC81B48B3200B 0xAFC36DDA48CF7DD37D4734AF241D14009DEB5849224DCBD3281E69B7C71F0937) (Point.mk 0xDFB547CB10019036C5A2E29F0DDDBB1F7AF2FA25A3C7A78C1FAC945711924459 0x9ACCD2A9BA0F47088B8389CE9DC864CC22AF0930E5C031DCFA205E0DCC65FD9E) = scalarMultAux 25 0x8F8A27 (Point.mk 0xE0F1679B8262670BEFFEB69A123A90305CB0EFB031B3E5CACB6AC81B48B3200B 0xAFC36DDA48CF7DD37D4734AF241D14009DEB5849224DCBD3281E69B7C71F0937) (Point.mk 0x64587E2335471EB890EE7896D7CFDC866BACBDBD3839317B3436F9B45617E073 0xD99FCDD5BF6902E2AE96DD6447C299A185B90A39133AEAB358299E5E9FAF6589) :=
  scalarMultAux_step 25 0x11F144E 0x8F8A27 (Point.mk 0xE0F1679B8262670BEFFEB69A123A90305CB0EFB031B3E5CACB6AC81B48B3200B 0xAFC36DDA48CF7DD37D4734AF241D14009DEB5849224DCBD3281E69B7C71F0937) (Point.mk 0xDFB547CB10019036C5A2E29F0DDDBB1F7AF2FA25A3C7A78C1FAC945711924459 0x9ACCD2A9BA0F47088B8389CE9DC864CC22AF0930E5C031DCFA205E0DCC65FD9E) (Point.mk 0xE0F1679B8262670BEFFEB69A123A90305CB0EFB031B3E5CACB6AC81B48B3200B 0xAFC36DDA48CF7DD37D4734AF241D14009DEB5849224DCBD3281E69B7C71F0937) (Point.mk 0x64587E2335471EB890EE7896D7CFDC866BACBDBD3839317B3436F9B45617E073 0xD99FCDD5BF6902E2AE96DD6447C299A185B90A39133AEAB358299E5E9FAF6589) (by decide) (by decide) (by decide) (by decide)

theorem smA232 : scalarMultAux 25 0x8F8A27 (Point.mk 0xE0F1679B8262670BEFFEB69A123A90305CB0EFB031B3E5CACB6AC81B48B3200B 0xAFC36DDA48CF7DD37D4734AF241D14009DEB5849224DCBD3281E69B7C71F0937) (Point.mk 0x64587E2335471EB890EE7896D7CFDC866BACBDBD3839317B3436F9B45617E073 0xD99FCDD5BF6902E2AE96DD6447C299A185B90A39133AEAB358299E5E9FAF6589) = scalarMultAux 24 0x47C513 (Point.mk 0xE24D13F1AFFAAA1873B035DDD79545ED326DCFDBA45E80AA110C0772B99D7E0B 0x5ACE600EFE3A335A68ECE533F012F71119D32150CFC6466EFF00FAD23DC6936B) (Point.mk 0xB866D6B142DF940F2CF28B54C92F0C1294E0B6A22A91F2EF44BCD88C4384480D 0x1914B0B3426AEB7089A278D7EA9AD7AC24E522804B1D86D60E659B470C4CAFA8) :=
  scalarMultAux_step 24 0x8F8A27 0x47C513 (Point.mk 0xE0F1679B8262670BEFFEB69A123A90305CB0EFB031B3E5CACB6AC81B48B3200B 0xAFC36DDA48CF7DD37D4734AF241D14009DEB5849224DCBD3281E69B7C71F0937) (Point.mk 0x64587E2335471EB890EE7896D7CFDC866BACBDBD3839317B3436F9B45617E073 0xD99FCDD5BF6902E2AE96DD6447C299A185B90A39133AEAB358299E5E9FAF6589) (Point.mk 0xE24D13F1AFFAAA1873B035DDD79545ED326DCFDBA45E80AA110C0772B99D7E0B 0x5ACE600EFE3A335A68ECE533F012F71119D32150CFC6466EFF00FAD23DC6936B) (Point.mk 0xB866D6B142DF940F2CF28B54C92F0C1294E0B6A22A91F2EF44BCD88C4384480D 0x1914B0B3426AEB7089A278D7EA9AD7AC24E522804B1D86D60E659B470C4CAFA8) (by decide) (by decide) (by decide) (by decide)

theorem smA233 : scalarMultAux 24 0x47C513 (Point.mk 0xE24D13F1AFFAAA1873B035DDD79545ED326DCFDBA45E80AA110C0772B99D7E0B 0x5ACE600EFE3A335A68ECE533F012F71119D32150CFC6466EFF00FAD23DC6936B) (Point.mk 0xB866D6B142DF940F2CF28B54C92F0C1294E0B6A22A91F2EF44BCD88C4384480D 0x1914B0B3426AEB7089A278D7EA9AD7AC24E522804B1D86D60E659B470C4CAFA8) = scalarMultAux 23 0x23E289 (Point.mk 0x5FBE088541D403DD3D351FA3F85D72BFDB3C7E9781527D07C98DA7D299AFD3A0 0x8E9BB77807B010960DB002242B4B42E8B3BB929BD703210556A656D834839A87) (Point.mk 0xEC2BB89085DE819EC4D9D1646102BA87E2D52AE4ED4FE455D229CDA81DB20D6C 0xCCECC17661E013A1332F66F0650940C633A2364BE87EFA98A0E99C4D629CF4A0) :=
  scalarMultAux_step 23 0x47C513 0x23E289 (Point.mk 0xE24D13F1AFFAAA1873B035DDD79545ED326DCFDBA45E80AA110C0772B99D7E0B 0x5ACE600EFE3A335A68ECE533F012F71119D32150CFC6466EFF00FAD23DC6936B) (Point.mk 0xB866D6B142DF940F2CF28B54C92F0C1294E0B6A22A91F2EF44BCD88C4384480D 0x1914B0B3426AEB7089A278D7EA9AD7AC24E522804B1D86D60E659B470C4CAFA8) (Point.mk 0x5FBE088541D403DD3D351FA3F85D72BFDB3C7E9781527D07C98DA7D299AFD3A0 0x8E9BB77807B010960DB002242B4B42E8B3BB929BD703210556A656D834839A87) (Point.mk 0xEC2BB89085DE819EC4D9D1646102BA87E2D52AE4ED4FE455D229CDA81DB20D6C 0xCCECC17661E013A1332F66F0650940C633A2364BE87EFA98A0E99C4D629CF4A0) (by decide) (by decide) (by decide) (by decide)

theorem smA234 : scalarMultAux 23 0x23E289 (Point.mk 0x5FBE088541D403DD3D351FA3F85D72BFDB3C7E9781527D07C98DA7D299AFD3A0 0x8E9BB77807B010960DB002242B4B42E8B3BB929BD703210556A656D834839A87) (Point.mk 0xEC2BB89085DE819EC4D9D1646102BA87E2D52AE4ED4FE455D229CDA81DB20D6C 0xCCECC17661E013A1332F66F0650940C633A2364BE87EFA98A0E99C4D629CF4A0) = scalarMultAux 22 0x11F144 (Point.mk 0xC0CB7962972CFEC10872494A30FA6EA35E7060C0DA614CCC6C2E4FF054B86029 0xA9C826970C1AD276A1A6DCE0C6A371CBA378A85963997636C17F7F40AE111B95) (Point.mk 0x71C4A7E389E296CED39D75EF5E545905E50050640F50BECF38A60ECB23B09D0F 0x1313FADB737AF3BA0AF3E0A292F810AA786F2B084A62FFC7637B1F01720DDB62) :=
  scalarMultAux_step 22 0x23E289 0x11F144 (Point.mk 0x5FBE088541D403DD3D351FA3F85D72BFDB3C7E9781527D07C98DA7D299AFD3A0 0x8E9BB77807B010960DB002242B4B42E8B3BB929BD703210556A656D834839A87) (Point.mk 0xEC2BB89085DE819EC4D9D1646102BA87E2D52AE4ED4FE455D229CDA81DB20D6C 0xCCECC17661E013A1332F66F0650940C633A2364BE87EFA98A0E99C4D629CF4A0) (Point.mk 0xC0CB7962972CFEC10872494A30FA6EA35E7060C0DA614CCC6C2E4FF054B86029 0xA9C826970C1AD276A1A6DCE0C6A371CBA378A85963997636C17F7F40AE111B95) (Point.mk 0x71C4A7E389E296CED39D75EF5E545905E50050640F50BECF38A60ECB23B09D0F 0x1313FADB737AF3BA0AF3E0A292F810AA786F2B084A62FFC7637B1F01720DDB62) (by decide) (by decide) (by decide) (by decide)

theorem smA235 : scalarMultAux 22 0x11F144 (Point.mk 0xC0CB7962972CFEC10872494A30FA6EA35E7060C0DA614CCC6C2E4FF054B86029 0xA9C826970C1AD276A1A6DCE0C6A371CBA378A85963997636C17F7F40AE111B95) (Point.mk 0x71C4A7E389E296CED39D75EF5E545905E50050640F50BECF38A60ECB23B09D0F 0x1313FADB737AF3BA0AF3E0A292F810AA786F2B084A62FFC7637B1F01720DDB62) = scalarMultAux 21 0x8F8A2 (Point.mk 0xC0CB7962972CFEC10872494A30FA6EA35E7060C0DA614CCC6C2E4FF054B86029 0xA9C826970C1AD276A1A6DCE0C6A371CBA378A85963997636C17F7F40AE111B95) (Point.mk 0x8481BDE0E4E4D885B3A546D3E549DE042F0AA6CEA250E7FD358D6C86DD45E458 0x38EE7B8CBA5404DD84A25BF39CECB2CA900A79C42B262E556D64B1B59779057E) :=
  scalarMultAux_step 21 0x11F144 0x8F8A2 (Point.mk 0xC0CB7962972CFEC10872494A30FA6EA35E7060C0DA614CCC6C2E4FF054B86029 0xA9C826970C1AD276A1A6DCE0C6A371CBA378A85963997636C17F7F40AE111B95) (Point.mk 0x71C4A7E389E296CED39D75EF5E545905E50050640F50BECF38A60ECB23B09D0F 0x1313FADB737AF3BA0AF3E0A292F810AA786F2B084A62FFC7637B1F01720DDB62) (Point.mk 0xC0CB7962972CFEC10872494A30FA6EA35E7060C0DA614CCC6C2E4FF054B86029 0xA9C826970C1AD276A1A6DCE0C6A371CBA378A85963997636C17F7F40AE111B95) (Point.mk 0x8481BDE0E4E4D885B3A546D3E549DE042F0AA6CEA250E7FD358D6C86DD45E458 0x38EE7B8CBA5404DD84A25BF39CECB2CA900A79C42B262E556D64B1B59779057E) (by decide) (by decide) (by decide) (by decide)

theorem smA236 : scalarMultAux 21 0x8F8A2 (Point.mk 0xC0CB7962972CFEC10872494A30FA6EA35E7060C0DA614CCC6C2E4FF054B86029 0xA9C826970C1AD276A1A6DCE0C6A371CBA378A85963997636C17F7F40AE111B95) (Point.mk 0x8481BDE0E4E4D885B3A546D3E549DE042F0AA6CEA250E7FD358D6C86DD45E458 0x38EE7B8CBA5404DD84A25BF39CECB2CA900A79C42B262E556D64B1B59779057E) = scalarMultAux 20 0x47C51 (Point.mk 0xC0CB7962972CFEC10872494A30FA6EA35E7060C0DA614CCC6C2E4FF054B86029 0xA9C826970C1AD276A1A6DCE0C6A371CBA378A85963997636C17F7F40AE111B95) (Point.mk 0x9629A450BD383A8B9FD43C6CD1D492BF392ED605299561DDE54433526CE9F114 0xBF439B280C5FB6D7576BEFD220CEF64DB925593E5C56AF8DCA3972C4A24AA391) :=
  scalarMultAux_step 20 0x8F8A2 0x47C51 (Point.mk 0xC0CB7962972CFEC10872494A30FA6EA35E7060C0DA614CCC6C2E4FF054B86029 0xA9C826970C1AD276A1A6DCE0C6A371CBA378A85963997636C17F7F40AE111B95) (Point.mk 0x8481BDE0E4E4D885B3A546D3E549DE042F0AA6CEA250E7FD358D6C86DD45E458 0x38EE7B8CBA5404DD84A25BF39CECB2CA900A79C42B262E556D64B1B59779057E) (Point.mk 0xC0CB7962972CFEC10872494A30FA6EA35E7060C0DA614CCC6C2E4FF054B86029 0xA9C826970C1AD276A1A6DCE0C6A371CBA378A85963997636C17F7F40AE111B95) (Point.mk 0x9629A450BD383A8B9FD43C6CD1D492BF392ED605299561DDE54433526CE9F114 0xBF439B280C5FB6D7576BEFD220CEF64DB925593E5C56AF8DCA3972C4A24AA391) (by decide) (by decide) (by decide) (by decide)

theorem smA237 : scalarMultAux 20 0x47C51 (Point.mk 0xC0CB7962972CFEC10872494A30FA6EA35E7060C0DA614CCC6C2E4FF054B86029 0xA9C826970C1AD276A1A6DCE0C6A371CBA378A85963997636C17F7F40AE111B95) (Point.mk 0x9629A450BD383A8B9FD43C6CD1D492BF392ED605299561DDE54433526CE9F114 0xBF439B280C5FB6D7576BEFD220CEF64DB925593E5C56AF8DCA3972C4A24AA391) = scalarMultAux 19 0x23E28 (Point.mk 0xA8A27816DE6D231AD600D2E65D91CF7C9FF387399E582B19620F7AEA5450FA43 0x93D855AC443EFC480024FAAC3AE61EAA0EC5799905320BDA472E332A8B9E1812) (Point.mk 0xB73B1C47EF1E4688EB1730DA7CC893DF1477D747E187E18383D38D9626CA6CC3 0x584315CB294922A90A57D64BBCC805097322A25209757F5AFAC35D76A54FDBA3) :=
  scalarMultAux_step 19 0x47C51 0x23E28 (Point.mk 0xC0CB7962972CFEC10872494A30FA6EA35E7060C0DA614CCC6C2E4FF054B86029 0xA9C826970C1AD276A1A6DCE0C6A371CBA378A85963997636C17F7F40AE111B95) (Point.mk 0x9629A450BD383A8B9FD43C6CD1D492BF392ED605299561DDE54433526CE9F114 0xBF439B280C5FB6D7576BEFD220CEF64DB925593E5C56AF8DCA3972C4A24AA391) (Point.mk 0xA8A27816DE6D231AD600D2E65D91CF7C9FF387399E582B19620F7AEA5450FA43 0x93D855AC443EFC480024FAAC3AE61EAA0EC5799905320BDA472E332A8B9E1812) (Point.mk 0xB73B1C47EF1E4688EB1730DA7CC893DF1477D747E187E18383D38D9626CA6CC3 0x584315CB294922A90A57D64BBCC805097322A25209757F5AFAC35D76A54FDBA3) (by decide) (by decide) (by decide) (by decide)

theorem smA238 : scalarMultAux 19 0x23E28 (Point.mk 0xA8A27816DE6D231AD600D2E65D91CF7C9FF387399E582B19620F7AEA5450FA43 0x93D855AC443EFC480024FAAC3AE61EAA0EC5799905320BDA472E332A8B9E1812) (Point.mk 0xB73B1C47EF1E4688EB1730DA7CC893DF1477D747E187E18383D38D9626CA6CC3 0x584315CB294922A90A57D64BBCC805097322A25209757F5AFAC35D76A54FDBA3) = scalarMultAux 18 0x11F14 (Point.mk 0xA8A27816DE6D231AD600D2E65D91CF7C9FF387399E582B19620F7AEA5450FA43 0x93D855AC443EFC480024FAAC3AE61EAA0EC5799905320BDA472E332A8B9E1812) (Point.mk 0xEDFE16B2DB40180311F9892007A2FEF7D05B2A3BB676899F9C6E2192D38F93E0 0xEE6902F1FCA5DB3694D74FAA4B05D0D25B3D5100C46E227E3D01793DE29405AD) :=
  scalarMultAux_step 18 0x23E28 0x11F14 (Point.mk 0xA8A27816DE6D231AD600D2E65D91CF7C9FF387399E582B19620F7AEA5450FA43 0x93D855AC443EFC480024FAAC3AE61EAA0EC5799905320BDA472E332A8B9E1812) (Point.mk 0xB73B1C47EF1E4688EB1730DA7CC893DF1477D747E187E18383D38D9626CA6CC3 0x584315CB294922A90A57D64BBCC805097322A25209757F5AFAC35D76A54FDBA3) (Point.mk 0xA8A27816DE6D231AD600D2E65D91CF7C9FF387399E582B19620F7AEA5450FA43 0x93D855AC443EFC480024FAAC3AE61EAA0EC5799905320BDA472E332A8B9E1812) (Point.mk 0xEDFE16B2DB40180311F9892007A2FEF7D05B2A3BB676899F9C6E2192D38F93E0 0xEE6902F1FCA5DB3694D74FAA4B05D0D25B3D5100C46E227E3D01793DE29405AD) (by decide) (by decide) (by decide) (by decide)

theorem smA239 : scalarMultAux 18 0x11F14 (Point.mk 0xA8A27816DE6D231AD600D2E65D91CF7C9FF387399E582B19620F7AEA5450FA43 0x93D855AC443EFC480024FAAC3AE61EAA0EC5799905320BDA472E332A8B9E1812) (Point.mk 0xEDFE16B2DB40180311F9892007A2FEF7D05B2A3BB676899F9C6E2192D38F93E0 0xEE6902F1FCA5DB3694D74FAA4B05D0D25B3D5100C46E227E3D01793DE29405AD) = scalarMultAux 17 0x8F8A (Point.mk 0xA8A27816DE6D231AD600D2E65D91CF7C9FF387399E582B19620F7AEA5450FA43 0x93D855AC443EFC480024FAAC3AE61EAA0EC5799905320BDA472E332A8B9E1812) (Point.mk 0x13464A57A78102AA62B6979AE817F4637FFCFED3C4B1CE30BCD6303F6CAF666B 0x69BE159004614580EF7E433453CCB0CA48F300A81D0942E13F495A907F6ECC27) :=
  scalarMultAux_step 17 0x11F14 0x8F8A (Point.mk 0xA8A27816DE6D231AD600D2E65D91CF7C9FF387399E582B19620F7AEA5450FA43 0x93D855AC443EFC480024FAAC3AE61EAA0EC5799905320BDA472E332A8B9E1812) (Point.mk 0xEDFE16B2DB40180311F9892007A2FEF7D05B2A3BB676899F9C6E2192D38F93E0 0xEE6902F1FCA5DB3694D74FAA4B05D0D25B3D5100C46E227E3D01793DE29405AD) (Point.mk 0xA8A27816DE6D231AD600D2E65D91CF7C9FF387399E582B19620F7AEA5450FA43 0x93D855AC443EFC480024FAAC3AE61EAA0EC5799905320BDA472E332A8B9E1812) (Point.mk 0x13464A57A78102AA62B6979AE817F4637FFCFED3C4B1CE30BCD6303F6CAF666B 0x69BE159004614580EF7E433453CCB0CA48F300A81D0942E13F495A907F6ECC27) (by decide) (by decide) (by decide) (by decide)

theorem smA240 : scalarMultAux 17 0x8F8A (Point.mk 0xA8A27816DE6D231AD600D2E65D91CF7C9FF387399E582B19620F7AEA5450FA43 0x93D855AC443EFC480024FAAC3AE61EAA0EC5799905320BDA472E332A8B9E1812) (Point.mk 0x13464A57A78102AA62B6979AE817F4637FFCFED3C4B1CE30BCD6303F6CAF666B 0x69BE159004614580EF7E433453CCB0CA48F300A81D0942E13F495A907F6ECC27) = scalarMultAux 16 0x47C5 (Point.mk 0xA8A27816DE6D231AD600D2E65D91CF7C9FF387399E582B19620F7AEA5450FA43 0x93D855AC443EFC480024FAAC3AE61EAA0EC5799905320BDA472E332A8B9E1812) (Point.mk 0xEB3CF8F532245362EC05C88C85FE12D19182BE7DCEABE577C75849C6065084AE 0xC833C78222D9D70043FE63DCEFDCA4A1F52B45C5E7DBD2A66F67C1FFF96B9480) :=
  scalarMultAux_step 16 0x8F8A 0x47C5 (Point.mk 0xA8A27816DE6D231AD600D2E65D91CF7C9FF387399E582B19620F7AEA5450FA43 0x93D855AC443EFC480024FAAC3AE61EAA0EC5799905320BDA472E332A8B9E1812) (Point.mk 0x13464A57A78102AA62B6979AE817F4637FFCFED3C4B1CE30BCD6303F6CAF666B 0x69BE159004614580EF7E433453CCB0CA48F300A81D0942E13F495A907F6ECC27) (Point.mk 0xA8A27816DE6D231AD600D2E65D91CF7C9FF387399E582B19620F7AEA5450FA43 0x93D855AC443EFC480024FAAC3AE61EAA0EC5799905320BDA472E332A8B9E1812) (Point.mk 0xEB3CF8F532245362EC05C88C85FE12D19182BE7DCEABE577C75849C6065084AE 0xC833C78222D9D70043FE63DCEFDCA4A1F52B45C5E7DBD2A66F67C1FFF96B9480) (by decide) (by decide) (by decide) (by decide)

theorem smA241 : scalarMultAux 16 0x47C5 (Point.mk 0xA8A27816DE6D231AD600D2E65D91CF7C9FF387399E582B19620F7AEA5450FA43 0x93D855AC443EFC480024FAAC3AE61EAA0EC5799905320BDA472E332A8B9E1812) (Point.mk 0xEB3CF8F532245362EC05C88C85FE12D19182BE7DCEABE577C75849C6065084AE 0xC833C78222D9D70043FE63DCEFDCA4A1F52B45C5E7DBD2A66F67C1FFF96B9480) = scalarMultAux 15 0x23E2 (Point.mk 0x3EB390CC3F8B77E4A4BFCC7467A79F54E9A944123FD03B35DA6DF247C2F78435 0x65110AB86E8951CB32F85E499291C200ABC29E79ACCC7C55D1260A3DB8C73E1F) (Point.mk 0xBDF1A67D092D99974F7A60F2184519B2A576FCF984A201D9F8E5BCBCC2E9A5D0 0x4095902BAB65A1AAA80BE54A86BF7BAAA6280B61E5626461CDB4F7018562FF7B) :=
  scalarMultAux_step 15 0x47C5 0x23E2 (Point.mk 0xA8A27816DE6D231AD600D2E65D91CF7C9FF387399E582B19620F7AEA5450FA43 0x93D855AC443EFC480024FAAC3AE61EAA0EC5799905320BDA472E332A8B9E1812) (Point.mk 0xEB3CF8F532245362EC05C88C85FE12D19182BE7DCEABE577C75849C6065084AE 0xC833C78222D9D70043FE63DCEFDCA4A1F52B45C5E7DBD2A66F67C1FFF96B9480) (Point.mk 0x3EB390CC3F8B77E4A4BFCC7467A79F54E9A944123FD03B35DA6DF247C2F78435 0x65110AB86E8951CB32F85E499291C200ABC29E79ACCC7C55D1260A3DB8C73E1F) (Point.mk 0xBDF1A67D092D99974F7A60F2184519B2A576FCF984A201D9F8E5BCBCC2E9A5D0 0x4095902BAB65A1AAA80BE54A86BF7BAAA6280B61E5626461CDB4F7018562FF7B) (by decide) (by decide) (by decide) (by decide)

theorem smA242 : scalarMultAux 15 0x23E2 (Point.mk 0x3EB390CC3F8B77E4A4BFCC7467A79F54E9A944123FD03B35DA6DF247C2F78435 0x65110AB86E8951CB32F85E499291C200ABC29E79ACCC7C55D1260A3DB8C73E1F) (Point.mk 0xBDF1A67D092D99974F7A60F2184519B2A576FCF984A201D9F8E5BCBCC2E9A5D0 0x4095902BAB65A1AAA80BE54A86BF7BAAA6280B61E5626461CDB4F7018562FF7B) = scalarMultAux 14 0x11F1 (Point.mk 0x3EB390CC3F8B77E4A4BFCC7467A79F54E9A944123FD03B35DA6DF247C2F78435 0x65110AB86E8951CB32F85E499291C200ABC29E79ACCC7C55D1260A3DB8C73E1F) (Point.mk 0x68856A6EDDC4EC29CD5BE267B64483B48C3B4196477DA62ABDE5FC173B27E771 0x77A33DF14F79A1FB13B6FD49C19F7B4A331D22F293B0733A6118D62A07BBDAB6) :=
  scalarMultAux_step 14 0x23E2 0x11F1 (Point.mk 0x3EB390CC3F8B77E4A4BFCC7467A79F54E9A944123FD03B35DA6DF247C2F78435 0x65110AB86E8951CB32F85E499291C200ABC29E79ACCC7C55D1260A3DB8C73E1F) (Point.mk 0xBDF1A67D092D99974F7A60F2184519B2A576FCF984A201D9F8E5BCBCC2E9A5D0 0x4095902BAB65A1AAA80BE54A86BF7BAAA6280B61E5626461CDB4F7018562FF7B) (Point.mk 0x3EB390CC3F8B77E4A4BFCC7467A79F54E9A944123FD03B35DA6DF247C2F78435 0x65110AB86E8951CB32F85E499291C200ABC29E79ACCC7C55D1260A3DB8C73E1F) (Point.mk 0x68856A6EDDC4EC29CD5BE267B64483B48C3B4196477DA62ABDE5FC173B27E771 0x77A33DF14F79A1FB13B6FD49C19F7B4A331D22F293B0733A6118D62A07BBDAB6) (by decide) (by decide) (by decide) (by decide)

theorem smA243 : scalarMultAux 14 0x11F1 (Point.mk 0x3EB390CC3F8B77E4A4BFCC7467A79F54E9A944123FD03B35DA6DF247C2F78435 0x65110AB86E8951CB32F85E499291C200ABC29E79ACCC7C55D1260A3DB8C73E1F) (Point.mk 0x68856A6EDDC4EC29CD5BE267B64483B48C3B4196477DA62ABDE5FC173B27E771 0x77A33DF14F79A1FB13B6FD49C19F7B4A331D22F293B0733A6118D62A07BBDAB6) = scalarMultAux 13 0x8F8 (Point.mk 0xE13069C99402DCA155F141E6A5094BE0285BE7A40074AEDCA62D6017A2D3E81B 0xDBFC72F137C8B142D8C57779EC1F53654EFFF6C040CB5FBDC2FCD2A00E988CE3) (Point.mk 0xBC4A9DF5B713FE2E9AEF430BCC1DC97A0CD9CCEDE2F28588CADA3A0D2D83F366 0x0D3A81CA6E785C06383937ADF4B798CAA6E8A9FBFA547B16D758D666581F33C1) :=
  scalarMultAux_step 13 0x11F1 0x8F8 (Point.mk 0x3EB390CC3F8B77E4A4BFCC7467A79F54E9A944123FD03B35DA6DF247C2F78435 0x65110AB86E8951CB32F85E499291C200ABC29E79ACCC7C55D1260A3DB8C73E1F) (Point.mk 0x68856A6EDDC4EC29CD5BE267B64483B48C3B4196477DA62ABDE5FC173B27E771 0x77A33DF14F79A1FB13B6FD49C19F7B4A331D22F293B0733A6118D62A07BBDAB6) (Point.mk 0xE13069C99402DCA155F141E6A5094BE0285BE7A40074AEDCA62D6017A2D3E81B 0xDBFC72F137C8B142D8C57779EC1F53654EFFF6C040CB5FBDC2FCD2A00E988CE3) (Point.mk 0xBC4A9DF5B713FE2E9AEF430BCC1DC97A0CD9CCEDE2F28588CADA3A0D2D83F366 0x0D3A81CA6E785C06383937ADF4B798CAA6E8A9FBFA547B16D758D666581F33C1) (by decide) (by decide) (by decide) (by decide)

theorem smA244 : scalarMultAux 13 0x8F8 (Point.mk 0xE13069C99402DCA155F141E6A5094BE0285BE7A40074AEDCA62D6017A2D3E81B 0xDBFC72F137C8B142D8C57779EC1F53654EFFF6C040CB5FBDC2FCD2A00E988CE3) (Point.mk 0xBC4A9DF5B713FE2E9AEF430BCC1DC97A0CD9CCEDE2F28588CADA3A0D2D83F366 0x0D3A81CA6E785C06383937ADF4B798CAA6E8A9FBFA547B16D758D666581F33C1) = scalarMultAux 12 0x47C (Point.mk 0xE13069C99402DCA155F141E6A5094BE0285BE7A40074AEDCA62D6017A2D3E81B 0xDBFC72F137C8B142D8C57779EC1F53654EFFF6C040CB5FBDC2FCD2A00E988CE3) (Point.mk 0xDA433D5E11CECCC0ABC5C7626CE7BAB42E89B221F785C409282DE545F3FCEB19 0xE498DBD321A810301DEBBDC4AF95E5218E77FC2D9227B277684E7120A6F5CC64) :=
  scalarMultAux_step 12 0x8F8 0x47C (Point.mk 0xE13069C99402DCA155F141E6A5094BE0285BE7A40074AEDCA62D6017A2D3E81B 0xDBFC72F137C8B142D8C57779EC1F53654EFFF6C040CB5FBDC2FCD2A00E988CE3) (Point.mk 0xBC4A9DF5B713FE2E9AEF430BCC1DC97A0CD9CCEDE2F28588CADA3A0D2D83F366 0x0D3A81CA6E785C06383937ADF4B798CAA6E8A9FBFA547B16D758D666581F33C1) (Point.mk 0xE13069C99402DCA155F141E6A5094BE0285BE7A40074AEDCA62D6017A2D3E81B 0xDBFC72F137C8B142D8C57779EC1F53654EFFF6C040CB5FBDC2FCD2A00E988CE3) (Point.mk 0xDA433D5E11CECCC0ABC5C7626CE7BAB42E89B221F785C409282DE545F3FCEB19 0xE498DBD321A810301DEBBDC4AF95E5218E77FC2D9227B277684E7120A6F5CC64) (by decide) (by decide) (by decide) (by decide)

theorem smA245 : scalarMultAux 12 0x47C (Point.mk 0xE13069C99402DCA155F141E6A5094BE0285BE7A40074AEDCA62D6017A2D3E81B 0xDBFC72F137C8B142D8C57779EC1F53654EFFF6C040CB5FBDC2FCD2A00E988CE3) (Point.mk 0xDA433D5E11CECCC0ABC5C7626CE7BAB42E89B221F785C409282DE545F3FCEB19 0xE498DBD321A810301DEBBDC4AF95E5218E77FC2D9227B277684E7120A6F5CC64) = scalarMultAux 11 0x23E (Point.mk 0xE13069C99402DCA155F141E6A5094BE0285BE7A40074AEDCA62D6017A2D3E81B 0xDBFC72F137C8B142D8C57779EC1F53654EFFF6C040CB5FBDC2FCD2A00E988CE3) (Point.mk 0x031E8E1EE9E8C7EC1C1C116981C16EFDBCC4838A72207E0654DE275C5ACF692A 0xAD7E7F5B465B353DD9D0970290D6743B70649827C5BF73B09CC2A84EB16F667A) :=
  scalarMultAux_step 11 0x47C 0x23E (Point.mk 0xE13069C99402DCA155F141E6A5094BE0285BE7A40074AEDCA62D6017A2D3E81B 0xDBFC72F137C8B142D8C57779EC1F53654EFFF6C040CB5FBDC2FCD2A00E988CE3) (Point.mk 0xDA433D5E11CECCC0ABC5C7626CE7BAB42E89B221F785C409282DE545F3FCEB19 0xE498DBD321A810301DEBBDC4AF95E5218E77FC2D9227B277684E7120A6F5CC64) (Point.mk 0xE13069C99402DCA155F141E6A5094BE0285BE7A40074AEDCA62D6017A2D3E81B 0xDBFC72F137C8B142D8C57779EC1F53654EFFF6C040CB5FBDC2FCD2A00E988CE3) (Point.mk 0x031E8E1EE9E8C7EC1C1C116981C16EFDBCC4838A72207E0654DE275C5ACF692A 0xAD7E7F5B465B353DD9D0970290D6743B70649827C5BF73B09CC2A84EB16F667A) (by decide) (by decide) (by decide) (by decide)

theorem smA246 : scalarMultAux 11 0x23E (Point.mk 0xE13069C99402DCA155F141E6A5094BE0285BE7A40074AEDCA62D6017A2D3E81B 0xDBFC72F137C8B142D8C57779EC1F53654EFFF6C040CB5FBDC2FCD2A00E988CE3) (Point.mk 0x031E8E1EE9E8C7EC1C1C116981C16EFDBCC4838A72207E0654DE275C5ACF692A 0xAD7E7F5B465B353DD9D0970290D6743B70649827C5BF73B09CC2A84EB16F667A) = scalarMultAux 10 0x11F (Point.mk 0xE13069C99402DCA155F141E6A5094BE0285BE7A40074AEDCA62D6017A2D3E81B 0xDBFC72F137C8B142D8C57779EC1F53654EFFF6C040CB5FBDC2FCD2A00E988CE3) (Point.mk 0xA9878607A88D61155D3E00D862657F73E9C9BF363FC7A91592BBD7FF81F488B6 0xD181A1ABD58895D61C063E7C82157C2239D0F01964AD5C6D495A7BBB031DAB1D) :=
  scalarMultAux_step 10 0x23E 0x11F (Point.mk 0xE13069C99402DCA155F141E6A5094BE0285BE7A40074AEDCA62D6017A2D3E81B 0xDBFC72F137C8B142D8C57779EC1F53654EFFF6C040CB5FBDC2FCD2A00E988CE3) (Point.mk 0x031E8E1EE9E8C7EC1C1C116981C16EFDBCC4838A72207E0654DE275C5ACF692A 0xAD7E7F5B465B353DD9D0970290D6743B70649827C5BF73B09CC2A84EB16F667A) (Point.mk 0xE13069C99402DCA155F141E6A5094BE0285BE7A40074AEDCA62D6017A2D3E81B 0xDBFC72F137C8B142D8C57779EC1F53654EFFF6C040CB5FBDC2FCD2A00E988CE3) (Point.mk 0xA9878607A88D61155D3E00D862657F73E9C9BF363FC7A91592BBD7FF81F488B6 0xD181A1ABD58895D61C063E7C82157C2239D0F01964AD5C6D495A7BBB031DAB1D) (by decide) (by decide) (by decide) (by decide)

theorem smA247 : scalarMultAux 10 0x11F (Point.mk 0xE13069C99402DCA155F141E6A5094BE0285BE7A40074AEDCA62D6017A2D3E81B 0xDBFC72F137C8B142D8C57779EC1F53654EFFF6C040CB5FBDC2FCD2A00E988CE3) (Point.mk 0xA9878607A88D61155D3E00D862657F73E9C9BF363FC7A91592BBD7FF81F488B6 0xD181A1ABD58895D61C063E7C82157C2239D0F01964AD5C6D495A7BBB031DAB1D) = scalarMultAux 9 0x8F (Point.mk 0x2CEF3BDA9057D0BB9548B1435BF8B435F05129E9635DF00D0464D3FFA24645D3 0xE8E38509E72212F5767FC43CDB89D1CACA843DCB1EEAE3CE9A3E227E640043D3) (Point.mk 0x8C28A97BF8298BC0D23D8C749452A32E694B65E30A9472A3954AB30FE5324CAA 0x40A30463A3305193378FEDF31F7CC0EB7AE784F0451CB9459E71DC73CBEF9482) :=
  scalarMultAux_step 9 0x11F 0x8F (Point.mk 0xE13069C99402DCA155F141E6A5094BE0285BE7A40074AEDCA62D6017A2D3E81B 0xDBFC72F137C8B142D8C57779EC1F53654EFFF6C040CB5FBDC2FCD2A00E988CE3) (Point.mk 0xA9878607A88D61155D3E00D862657F73E9C9BF363FC7A91592BBD7FF81F488B6 0xD181A1ABD58895D61C063E7C82157C2239D0F01964AD5C6D495A7BBB031DAB1D) (Point.mk 0x2CEF3BDA9057D0BB9548B1435BF8B435F05129E9635DF00D0464D3FFA24645D3 0xE8E38509E72212F5767FC43CDB89D1CACA843DCB1EEAE3CE9A3E227E640043D3) (Point.mk 0x8C28A97BF8298BC0D23D8C749452A32E694B65E30A9472A3954AB30FE5324CAA 0x40A30463A3305193378FEDF31F7CC0EB7AE784F0451CB9459E71DC73CBEF9482) (by decide) (by decide) (by decide) (by decide)

theorem smA248 : scalarMultAux 9 0x8F (Point.mk 0x2CEF3BDA9057D0BB9548B1435BF8B435F05129E9635DF00D0464D3FFA24645D3 0xE8E38509E72212F5767FC43CDB89D1CACA843DCB1EEAE3CE9A3E227E640043D3) (Point.mk 0x8C28A97BF8298BC0D23D8C749452A32E694B65E30A9472A3954AB30FE5324CAA 0x40A30463A3305193378FEDF31F7CC0EB7AE784F0451CB9459E71DC73CBEF9482) = scalarMultAux 8 0x47 (Point.mk 0xBBA737FA90008E49D73CC457F8654CCE5156C58C10F5DF38CEC61C13A79F11AA 0x1A9EAF183308C580A4E552FAF51C37F38E82D63A6B39C6BA9D4D22246B6FF9D3) (Point.mk 0xAB1AC1872A38A2F196BED5A6047F0DA2C8130FE8DE49FC4D5DFB201F7611D8E2 0x13F4A37A324D17A1E9AA5F39DB6A42B6F7EF93D33E1E545F01A581F3C429D15B) :=
  scalarMultAux_step 8 0x8F 0x47 (Point.mk 0x2CEF3BDA9057D0BB9548B1435BF8B435F05129E9635DF00D0464D3FFA24645D3 0xE8E38509E72212F5767FC43CDB89D1CACA843DCB1EEAE3CE9A3E227E640043D3) (Point.mk 0x8C28A97BF8298BC0D23D8C749452A32E694B65E30A9472A3954AB30FE5324CAA 0x40A30463A3305193378FEDF31F7CC0EB7AE784F0451CB9459E71DC73CBEF9482) (Point.mk 0xBBA737FA90008E49D73CC457F8654CCE5156C58C10F5DF38CEC61C13A79F11AA 0x1A9EAF183308C580A4E552FAF51C37F38E82D63A6B39C6BA9D4D22246B6FF9D3) (Point.mk 0xAB1AC1872A38A2F196BED5A6047F0DA2C8130FE8DE49FC4D5DFB201F7611D8E2 0x13F4A37A324D17A1E9AA5F39DB6A42B6F7EF93D33E1E545F01A581F3C429D15B) (by decide) (by decide) (by decide) (by decide)

theorem smA249 : scalarMultAux 8 0x47 (Point.mk 0xBBA737FA90008E49D73CC457F8654CCE5156C58C10F5DF38CEC61C13A79F11AA 0x1A9EAF183308C580A4E552FAF51C37F38E82D63A6B39C6BA9D4D22246B6FF9D3) (Point.mk 0xAB1AC1872A38A2F196BED5A6047F0DA2C8130FE8DE49FC4D5DFB201F7611D8E2 0x13F4A37A324D17A1E9AA5F39DB6A42B6F7EF93D33E1E545F01A581F3C429D15B) = scalarMultAux 7 0x23 (Point.mk 0x6F22AC5272BF811614D6C40BE4D61C7A12FB681B4744FE4E58E284D7A16896AD 0xF47796DB0D92A55E602EFF6B9BBC1ADFBC89EB69BCB20F28A134BECF3F49864E) (Point.mk 0x2564FE9B5BEEF82D3703A607253F31EF8EA1B365772DF434226AEE642651B3FA 0x8AD9F7A60678389095FA14AE1203925F14F37DAB6B79816EDB82E6A301E5122D) :=
  scalarMultAux_step 7 0x47 0x23 (Point.mk 0xBBA737FA90008E49D73CC457F8654CCE5156C58C10F5DF38CEC61C13A79F11AA 0x1A9EAF183308C580A4E552FAF51C37F38E82D63A6B39C6BA9D4D22246B6FF9D3) (Point.mk 0xAB1AC1872A38A2F196BED5A6047F0DA2C8130FE8DE49FC4D5DFB201F7611D8E2 0x13F4A37A324D17A1E9AA5F39DB6A42B6F7EF93D33E1E545F01A581F3C429D15B) (Point.mk 0x6F22AC5272BF811614D6C40BE4D61C7A12FB681B4744FE4E58E284D7A16896AD 0xF47796DB0D92A55E602EFF6B9BBC1ADFBC89EB69BCB20F28A134BECF3F49864E) (Point.mk 0x2564FE9B5BEEF82D3703A607253F31EF8EA1B365772DF434226AEE642651B3FA 0x8AD9F7A60678389095FA14AE1203925F14F37DAB6B79816EDB82E6A301E5122D) (by decide) (by decide) (by decide) (by decide)

theorem smA250 : scalarMultAux 7 0x23 (Point.mk 0x6F22AC5272BF811614D6C40BE4D61C7A12FB681B4744FE4E58E284D7A16896AD 0xF47796DB0D92A55E602EFF6B9BBC1ADFBC89EB69BCB20F28A134BECF3F49864E) (Point.mk 0x2564FE9B5BEEF82D3703A607253F31EF8EA1B365772DF434226AEE642651B3FA 0x8AD9F7A60678389095FA14AE1203925F14F37DAB6B79816EDB82E6A301E5122D) = scalarMultAux 6 0x11 (Point.mk 0x8537BE5CB1A6148F58E5AF947CC4E2D736D99D7F7D622C107FB8917C07A8C240 0xA7B265F5F676A3208E284024AC766FF982F72755F3F4EDCBE042CE64E69742B3) (Point.mk 0xFF3D6136FFAC5B0CBFC6C5C0C30DC01A7EA3D56C20BD3103B178E3D3AE180068 0x133239BE84E4000E40D0372CDD96ADC1547676F24001F5E670A6BB6E188C6077) :=
  scalarMultAux_step 6 0x23 0x11 (Point.mk 0x6F22AC5272BF811614D6C40BE4D61C7A12FB681B4744FE4E58E284D7A16896AD 0xF47796DB0D92A55E602EFF6B9BBC1ADFBC89EB69BCB20F28A134BECF3F49864E) (Point.mk 0x2564FE9B5BEEF82D3703A607253F31EF8EA1B365772DF434226AEE642651B3FA 0x8AD9F7A60678389095FA14AE1203925F14F37DAB6B79816EDB82E6A301E5122D) (Point.mk 0x8537BE5CB1A6148F58E5AF947CC4E2D736D99D7F7D622C107FB8917C07A8C240 0xA7B265F5F676A3208E284024AC766FF982F72755F3F4EDCBE042CE64E69742B3) (Point.mk 0xFF3D6136FFAC5B0CBFC6C5C0C30DC01A7EA3D56C20BD3103B178E3D3AE180068 0x133239BE84E4000E40D0372CDD96ADC1547676F24001F5E670A6BB6E188C6077) (by decide) (by decide) (by decide) (by decide)

theorem smA251 : scalarMultAux 6 0x11 (Point.mk 0x8537BE5CB1A6148F58E5AF947CC4E2D736D99D7F7D622C107FB8917C07A8C240 0xA7B265F5F676A3208E284024AC766FF982F72755F3F4EDCBE042CE64E69742B3) (Point.mk 0xFF3D6136FFAC5B0CBFC6C5C0C30DC01A7EA3D56C20BD3103B178E3D3AE180068 0x133239BE84E4000E40D0372CDD96ADC1547676F24001F5E670A6BB6E188C6077) = scalarMultAux 5 0x8 (Point.mk 0x41A343BF48532D61E02312EDF9EC6B216D26742CDC1E10E00DA91A44295A2369 0x6E11BFB5B4AC5A8CEFE013F080E67668990F269C2D8CEB51FF70088B7A88C0A1) (Point.mk 0x08EA9666139527A8C1DD94CE4F071FD23C8B350C5A4BB33748C4BA111FACCAE0 0x620EFABBC8EE2782E24E7C0CFB95C5D735B783BE9CF0F8E955AF34A30E62B945) :=
  scalarMultAux_step 5 0x11 0x8 (Point.mk 0x8537BE5CB1A6148F58E5AF947CC4E2D736D99D7F7D622C107FB8917C07A8C240 0xA7B265F5F676A3208E284024AC766FF982F72755F3F4EDCBE042CE64E69742B3) (Point.mk 0xFF3D6136FFAC5B0CBFC6C5C0C30DC01A7EA3D56C20BD3103B178E3D3AE180068 0x133239BE84E4000E40D0372CDD96ADC1547676F24001F5E670A6BB6E188C6077) (Point.mk 0x41A343BF48532D61E02312EDF9EC6B216D26742CDC1E10E00DA91A44295A2369 0x6E11BFB5B4AC5A8CEFE013F080E67668990F269C2D8CEB51FF70088B7A88C0A1) (Point.mk 0x08EA9666139527A8C1DD94CE4F071FD23C8B350C5A4BB33748C4BA111FACCAE0 0x620EFABBC8EE2782E24E7C0CFB95C5D735B783BE9CF0F8E955AF34A30E62B945) (by decide) (by decide) (by decide) (by decide)

theorem smA252 : scalarMultAux 5 0x8 (Point.mk 0x41A343BF48532D61E02312EDF9EC6B216D26742CDC1E10E00DA91A44295A2369 0x6E11BFB5B4AC5A8CEFE013F080E67668990F269C2D8CEB51FF70088B7A88C0A1) (Point.mk 0x08EA9666139527A8C1DD94CE4F071FD23C8B350C5A4BB33748C4BA111FACCAE0 0x620EFABBC8EE2782E24E7C0CFB95C5D735B783BE9CF0F8E955AF34A30E62B945) = scalarMultAux 4 0x4 (Point.mk 0x41A343BF48532D61E02312EDF9EC6B216D26742CDC1E10E00DA91A44295A2369 0x6E11BFB5B4AC5A8CEFE013F080E67668990F269C2D8CEB51FF70088B7A88C0A1) (Point.mk 0xC25F637176220CD9F3A66DF315559D8263CF2A23A4AB5AB9A293131DA190B632 0x53154FEDE94D2873989049903809D7980A9F04FF9E027A1D6EEBF3D6FC9590CF) :=
  scalarMultAux_step 4 0x8 0x4 (Point.mk 0x41A343BF48532D61E02312EDF9EC6B216D26742CDC1E10E00DA91A44295A2369 0x6E11BFB5B4AC5A8CEFE013F080E67668990F269C2D8CEB51FF70088B7A88C0A1) (Point.mk 0x08EA9666139527A8C1DD94CE4F071FD23C8B350C5A4BB33748C4BA111FACCAE0 0x620EFABBC8EE2782E24E7C0CFB95C5D735B783BE9CF0F8E955AF34A30E62B945) (Point.mk 0x41A343BF48532D61E02312EDF9EC6B216D26742CDC1E10E00DA91A44295A2369 0x6E11BFB5B4AC5A8CEFE013F080E67668990F269C2D8CEB51FF70088B7A88C0A1) (Point.mk 0xC25F637176220CD9F3A66DF315559D8263CF2A23A4AB5AB9A293131DA190B632 0x53154FEDE94D2873989049903809D7980A9F04FF9E027A1D6EEBF3D6FC9590CF) (by decide) (by decide) (by decide) (by decide)

theorem smA253 : scalarMultAux 4 0x4 (Point.mk 0x41A343BF48532D61E02312EDF9EC6B216D26742CDC1E10E00DA91A44295A2369 0x6E11BFB5B4AC5A8CEFE013F080E67668990F269C2D8CEB51FF70088B7A88C0A1) (Point.mk 0xC25F637176220CD9F3A66DF315559D8263CF2A23A4AB5AB9A293131DA190B632 0x53154FEDE94D2873989049903809D7980A9F04FF9E027A1D6EEBF3D6FC9590CF) = scalarMultAux 3 0x2 (Point.mk 0x41A343BF48532D61E02312EDF9EC6B216D26742CDC1E10E00DA91A44295A2369 0x6E11BFB5B4AC5A8CEFE013F080E67668990F269C2D8CEB51FF70088B7A88C0A1) (Point.mk 0x2A9E8DFE3CCE6BAB3E82D82A5688544C0C7B55DC31978B4DE2CCB3B7D466D561 0x01DFEDA5C16E651FBAC7B5AD608B96CF5E01EAEC17A02182F96CCF5252E76373) :=
  scalarMultAux_step 3 0x4 0x2 (Point.mk 0x41A343BF48532D61E02312EDF9EC6B216D26742CDC1E10E00DA91A44295A2369 0x6E11BFB5B4AC5A8CEFE013F080E67668990F269C2D8CEB51FF70088B7A88C0A1) (Point.mk 0xC25F637176220CD9F3A66DF315559D8263CF2A23A4AB5AB9A293131DA190B632 0x53154FEDE94D2873989049903809D7980A9F04FF9E027A1D6EEBF3D6FC9590CF) (Point.mk 0x41A343BF48532D61E02312EDF9EC6B216D26742CDC1E10E00DA91A44295A2369 0x6E11BFB5B4AC5A8CEFE013F080E67668990F269C2D8CEB51FF70088B7A88C0A1) (Point.mk 0x2A9E8DFE3CCE6BAB3E82D82A5688544C0C7B55DC31978B4DE2CCB3B7D466D561 0x01DFEDA5C16E651FBAC7B5AD608B96CF5E01EAEC17A02182F96CCF5252E76373) (by decide) (by decide) (by decide) (by decide)

theorem smA254 : scalarMultAux 3 0x2 (Point.mk 0x41A343BF48532D61E02312EDF9EC6B216D26742CDC1E10E00DA91A44295A2369 0x6E11BFB5B4AC5A8CEFE013F080E67668990F269C2D8CEB51FF70088B7A88C0A1) (Point.mk 0x2A9E8DFE3CCE6BAB3E82D82A5688544C0C7B55DC31978B4DE2CCB3B7D466D561 0x01DFEDA5C16E651FBAC7B5AD608B96CF5E01EAEC17A02182F96CCF5252E76373) = scalarMultAux 2 0x1 (Point.mk 0x41A343BF48532D61E02312EDF9EC6B216D26742CDC1E10E00DA91A44295A2369 0x6E11BFB5B4AC5A8CEFE013F080E67668990F269C2D8CEB51FF70088B7A88C0A1) (Point.mk 0xB23790A42BE63E1B251AD6C94FDEF07271EC0AADA31DB6C3E8BD32043F8BE384 0xFC6B694919D55EDBE8D50F88AA81F94517F004F4149ECB58D10A473DEB19880E) :=
  scalarMultAux_step 2 0x2 0x1 (Point.mk 0x41A343BF48532D61E02312EDF9EC6B216D26742CDC1E10E00DA91A44295A2369 0x6E11BFB5B4AC5A8CEFE013F080E67668990F269C2D8CEB51FF70088B7A88C0A1) (Point.mk 0x2A9E8DFE3CCE6BAB3E82D82A5688544C0C7B55DC31978B4DE2CCB3B7D466D561 0x01DFEDA5C16E651FBAC7B5AD608B96CF5E01EAEC17A02182F96CCF5252E76373) (Point.mk 0x41A343BF48532D61E02312EDF9EC6B216D26742CDC1E10E00DA91A44295A2369 0x6E11BFB5B4AC5A8CEFE013F080E67668990F269C2D8CEB51FF70088B7A88C0A1) (Point.mk 0xB23790A42BE63E1B251AD6C94FDEF07271EC0AADA31DB6C3E8BD32043F8BE384 0xFC6B694919D55EDBE8D50F88AA81F94517F004F4149ECB58D10A473DEB19880E) (by decide) (by decide) (by decide) (by decide)

theorem smA255 : scalarMultAux 2 0x1 (Point.mk 0x41A343BF48532D61E02312EDF9EC6B216D26742CDC1E10E00DA91A44295A2369 0x6E11BFB5B4AC5A8CEFE013F080E67668990F269C2D8CEB51FF70088B7A88C0A1) (Point.mk 0xB23790A42BE63E1B251AD6C94FDEF07271EC0AADA31DB6C3E8BD32043F8BE384 0xFC6B694919D55EDBE8D50F88AA81F94517F004F4149ECB58D10A473DEB19880E) = scalarMultAux 1 0x0 (Point.mk 0x50E7ED16A1D792A11F53D2D30C3C848AF30EC1E4B2B1068C6CAB8EF228B48E9E 0x5FAE59BDF4BD46A1AAA117037C5E777A6251C2065BCDF19096E57BD9C7AC3435) (Point.mk 0xDD3625FAEF5BA06074669716BBD3788D89BDDE815959968092F76CC4EB9A9787 0x7A188FA3520E30D461DA2501045731CA941461982883395937F68D00C644A573) :=
  scalarMultAux_step 1 0x1 0x0 (Point.mk 0x41A343BF48532D61E02312EDF9EC6B216D26742CDC1E10E00DA91A44295A2369 0x6E11BFB5B4AC5A8CEFE013F080E67668990F269C2D8CEB51FF70088B7A88C0A1) (Point.mk 0xB23790A42BE63E1B251AD6C94FDEF07271EC0AADA31DB6C3E8BD32043F8BE384 0xFC6B694919D55EDBE8D50F88AA81F94517F004F4149ECB58D10A473DEB19880E) (Point.mk 0x50E7ED16A1D792A11F53D2D30C3C848AF30EC1E4B2B1068C6CAB8EF228B48E9E 0x5FAE59BDF4BD46A1AAA117037C5E777A6251C2065BCDF19096E57BD9C7AC3435) (Point.mk 0xDD3625FAEF5BA06074669716BBD3788D89BDDE815959968092F76CC4EB9A9787 0x7A188FA3520E30D461DA2501045731CA941461982883395937F68D00C644A573) (by decide) (by decide) (by decide) (by decide)

set_option exponentiation.threshold 300 in
/-- `scalarMult` of the published-vector nonce, assembled from the chain. -/
theorem scalarMult_vecA : scalarMult kPublished G = (Point.mk 0x50E7ED16A1D792A11F53D2D30C3C848AF30EC1E4B2B1068C6CAB8EF228B48E9E 0x5FAE59BDF4BD46A1AAA117037C5E777A6251C2065BCDF19096E57BD9C7AC3435) := by
  unfold scalarMult
  rw [scalarMultAux_fuel_irrel (kPublished.natAbs + 1) 257 kPublished POINT_AT_INFINITY G
    (lt_of_lt_of_le (Nat.lt_two_pow _) (Nat.pow_le_pow_right (by norm_num) (Nat.le_succ _)))
    (by decide)]
  rw [smA0, smA1, smA2, smA3, smA4, smA5, smA6, smA7, smA8, smA9, smA10, smA11, smA12, smA13, smA14, smA15, smA16, smA17, smA18, smA19, smA20, smA21, smA22, smA23, smA24, smA25, smA26, smA27, smA28, smA29, smA30, smA31, smA32, smA33, smA34, smA35, smA36, smA37, smA38, smA39, smA40, smA41, smA42, smA43, smA44, smA45, smA46, smA47, smA48, smA49, smA50, smA51, smA52, smA53, smA54, smA55, smA56, smA57, smA58, smA59, smA60, smA61, smA62, smA63, smA64, smA65, smA66, smA67, smA68, smA69, smA70, smA71, smA72, smA73, smA74, smA75, smA76, smA77, smA78, smA79, smA80, smA81, smA82, smA83, smA84, smA85, smA86, smA87, smA88, smA89, smA90, smA91, smA92, smA93, smA94, smA95, smA96, smA97, smA98, smA99, smA100, smA101, smA102, smA103, smA104, smA105, smA106, smA107, smA108, smA109, smA110, smA111, smA112, smA113, smA114, smA115, smA116, smA117, smA118, smA119, smA120, smA121, smA122, smA123, smA124, smA125, smA126, smA127, smA128, smA129, smA130, smA131, smA132, smA133, smA134, smA135, smA136, smA137, smA138, smA139, smA140, smA141, smA142, smA143, smA144, smA145, smA146, smA147, smA148, smA149, smA150, smA151, smA152, smA153, smA154, smA155, smA156, smA157, smA158, smA159, smA160, smA161, smA162, smA163, smA164, smA165, smA166, smA167, smA168, smA169, smA170, smA171, smA172, smA173, smA174, smA175, smA176, smA177, smA178, smA179, smA180, smA181, smA182, smA183, smA184, smA185, smA186, smA187, smA188, smA189, smA190, smA191, smA192, smA193, smA194, smA195, smA196, smA197, smA198, smA199, smA200, smA201, smA202, smA203, smA204, smA205, smA206, smA207, smA208, smA209, smA210, smA211, smA212, smA213, smA214, smA215, smA216, smA217, smA218, smA219, smA220, smA221, smA222, smA223, smA224, smA225, smA226, smA227, smA228, smA229, smA230, smA231, smA232, smA233, smA234, smA235, smA236, smA237, smA238, smA239, smA240, smA241, smA242, smA243, smA244, smA245, smA246, smA247, smA248, smA249, smA250, smA251, smA252, smA253, smA254, smA255]
  exact scalarMultAux_nonpos 1 0 _ _ (by decide)

/-- Step b through f of the engine on the published vector. -/
theorem init_eval : rfc6979Init 1 hashVec = (kk0, v0) := by decide

/-- The `T` generation at the vector's DRBG state: one round. -/
theorem genT_eval : genT 9 kk0 v0 [] = (tVec, tVec) := by decide

/-- The candidate nonce at the vector's DRBG state is the published `k`. -/
theorem candidate_eval : bits2int tVec 256 = kPublished := by decide

theorem sha_satoshi : sha256 satoshiMsg = hashVec := by decide

theorem nonceCand_eval : nonceCandidate kk0 v0 = kPublished := by decide

/-- The engine's loop body on the published vector accepts the published
nonce immediately, with the code's `(r, s)`. -/
theorem step_eval : rfc6979Step 1 hashVec kk0 v0 = Sum.inl (kPublished, rVec, sVec) := by
  simp only [rfc6979Step]
  rw [genT_eval]
  dsimp only
  rw [candidate_eval, scalarMult_vecA]
  decide

theorem rfc6979Loop_succ_inl (D : Int) (h kk v : Bytes) (fuel : Nat) (res : Int × Int × Int)
    (hstep : rfc6979Step D h kk v = Sum.inl res) :
    rfc6979Loop D h (fuel + 1) kk v = some res := by
  simp only [rfc6979Loop, hstep]

/-- The full engine run on the RFC 6979 secp256k1/SHA-256 test vector
(key `1`, message `"Satoshi Nakamoto"`): the first candidate nonce is the
published `k`, accepted immediately. -/
theorem engineRunVec :
    rfc6979SignTraced 1 1 (sha256 satoshiMsg) = some (kPublished, rVec, sVec) := by
  rw [sha_satoshi]
  simp only [rfc6979SignTraced]
  rw [init_eval]
  dsimp only
  exact rfc6979Loop_succ_inl 1 hashVec kk0 v0 0 _ step_eval

/-- At state `(kk0, v0)` with hash `h5`: the candidate nonce is in range and
yields `s = 0`. -/
theorem degenerate_s_zero :
    (0 < nonceCandidate kk0 v0 ∧ nonceCandidate kk0 v0 < CURVE_ORDER) ∧
      sOf 1 h5 (nonceCandidate kk0 v0) = 0 := by
  rw [nonceCand_eval]
  refine ⟨⟨by decide, by decide⟩, ?_⟩
  unfold sOf rOf
  rw [scalarMult_vecA]
  decide

/-- C5 counterexample: at the DRBG state `(kk0, v0)` the engine reaches on
the published vector, with `D = 1` and hash `h5`, the candidate nonce is in
range and yields `s = 0`, and the engine continues with `K` unchanged — it
skips the RFC 6979 §3.2 continuation update `K = HMAC-SHA256(K, V‖0x00)`,
whose value differs from the `K` the engine actually keeps. -/
theorem rfc6979_degenerate_skips_update :
    (0 < nonceCandidate kk0 v0 ∧ nonceCandidate kk0 v0 < CURVE_ORDER) ∧
      sOf 1 h5 (nonceCandidate kk0 v0) = 0 ∧
      rfc6979Step 1 h5 kk0 v0 = Sum.inr (kk0, (genT 9 kk0 v0 []).2) ∧
      hmacSha256 kk0 ((genT 9 kk0 v0 []).2 ++ [0]) ≠ kk0 := by
  refine ⟨degenerate_s_zero.1, degenerate_s_zero.2,
    (rfc6979Step_degenerate 1 h5 kk0 v0 degenerate_s_zero.1 (Or.inr degenerate_s_zero.2)).1,
    by decide⟩

/-- Witness for C5 at the concrete degenerate state. -/
theorem rfc6979_degenerate_retry_witness :
    rfc6979Step 1 h5 kk0 v0 = Sum.inr (kk0, (genT 9 kk0 v0 []).2) ∧
      ∀ fuel : Nat, rfc6979Loop 1 h5 (fuel + 1) kk0 v0 =
        rfc6979Loop 1 h5 fuel kk0 ((genT 9 kk0 v0 []).2) :=
  rfc6979_degenerate_retry 1 h5 kk0 v0 degenerate_s_zero.1 (Or.inr degenerate_s_zero.2)

/-- Witness for C1: on the published vector the engine signs with the
published nonce. -/
theorem rfc6979_nonce_conformance_witness :
    (rfc6979SignTraced 1 1 (sha256 satoshiMsg)).map (fun krs => krs.1) = some kPublished := by
  have hinv := rfc6979SignTraced_some_inv engineRunVec
  refine rfc6979_nonce_conformance.1 1 1 (sha256 satoshiMsg) kPublished (by decide) (by decide)
    (by decide) (by decide) rfc6979_nonce_conformance.2 ?_ ?_
  · rw [← hinv.2.1]
    exact hinv.2.2.1
  · rw [← hinv.2.2.2.1]
    exact hinv.2.2.2.2

/-- Witness for C2 on the published vector. -/
theorem sign_rs_invariants_witness :
    0 < rVec ∧ rVec < CURVE_ORDER ∧ 0 < sVec ∧ sVec < CURVE_ORDER ∧
      0 < lowSNormalize sVec ∧ lowSNormalize sVec ≤ HALF_ORDER ∧
      (HALF_ORDER < sVec → lowSNormalize sVec = CURVE_ORDER - sVec) ∧
      (sVec ≤ HALF_ORDER → lowSNormalize sVec = sVec) :=
  sign_rs_invariants 1 1 (sha256 satoshiMsg) kPublished rVec sVec (by decide) (by decide)
    (by decide) engineRunVec

example : modInverse (-3) 5 = 2 := by decide

example : modInverse 3 5 = 2 := by decide

example : hexToBytes [48, 49, 102, 102] = [1, 255] := by decide

example : bytesToHex [1, 255] = [48, 49, 102, 102] := by decide

example : bigIntToBytes32 1 = List.replicate 31 0 ++ [1] := by decide

example : uint8ToBase64 [77, 97, 110] = [84, 87, 70, 117] := by decide

example : uint8ToBase64 [77, 97] = [84, 87, 69, 61] := by decide

end GGWallet
